import Mathlib

/-!
# EasyDarwin RTSP relay: path registry, pusher pump and session egress

A shallow embedding of `rtsp/rtsp-server.go`, `rtsp/pusher.go` and
`rtsp/rtsp-session.go`.

Modelling conventions.

* Go pointers are references (natural numbers) into the heaps of a `World`;
  a nil pointer is `none`.  Every reference denotes an object (Go is garbage
  collected, there are no dangling pointers), so the heaps are total functions.
* A Go `map[string]T` is a `GoMap T`: a list of entries with `get`, `set` and
  `delete`.
* A function that can panic returns a `Res`: either `ok` with its result and
  the new world, or `panic` with the world as it was when the panic happened
  (what a later `recover()` observes).
* Mutexes, goroutine launches (`go ...`) and the notification channels
  `addPusherCh` / `removePusherCh` are not part of the sequential model.
  Logging is not modelled, except that the arguments of a log call are still
  evaluated (a nil dereference there panics).
* Go `int` values are `Int`; bytes are natural numbers below 256.
-/

namespace rtsp

/-! ## Go maps -/

/-- A Go `map[string]β`: the list of its entries, at most one per key when built with `set`. -/
structure GoMap (β : Type) where
  entries : List (String × β)
deriving DecidableEq

namespace GoMap

variable {β : Type}

/-- Lookup in an entry list: the first entry stored under `k`. -/
def lookup (k : String) : List (String × β) → Option β
  | [] => none
  | e :: rest => if e.1 = k then some e.2 else lookup k rest

/-- The empty map, `make(map[string]T)`. -/
def empty : GoMap β := ⟨[]⟩

/-- The Go expression `m[k]` with its `ok` flag: `none` when the key is absent. -/
def get (m : GoMap β) (k : String) : Option β := lookup k m.entries

/-- The Go statement `delete(m, k)`. -/
def delete (m : GoMap β) (k : String) : GoMap β := ⟨m.entries.filter (fun e => e.1 ≠ k)⟩

/-- The Go statement `m[k] = v`. -/
def set (m : GoMap β) (k : String) (v : β) : GoMap β := ⟨(k, v) :: (m.delete k).entries⟩

/-- The Go expression `len(m)`. -/
def len (m : GoMap β) : Nat := m.entries.length

end GoMap

/-! ## Data model -/

abbrev SessRef := Nat
abbrev PusherRef := Nat
abbrev PlayerRef := Nat
abbrev ClientRef := Nat
abbrev MulticastRef := Nat

/-- `RTPType` constants (`iota` from 0). -/
def RTP_TYPE_AUDIO : Int := 0
def RTP_TYPE_VIDEO : Int := 1
def RTP_TYPE_AUDIOCONTROL : Int := 2
def RTP_TYPE_VIDEOCONTROL : Int := 3

/-- `RTPType.String` (rtsp-session.go:56). -/
def RTPType_String (rt : Int) : String :=
  if rt = RTP_TYPE_AUDIO then "audio"
  else if rt = RTP_TYPE_VIDEO then "video"
  else if rt = RTP_TYPE_AUDIOCONTROL then "audio control"
  else if rt = RTP_TYPE_VIDEOCONTROL then "video control"
  else "unknow"

/-- `SessionType` constants; a new session has type 0. -/
def SESSION_TYPE_PUSHER : Int := 1
def SESSEION_TYPE_PLAYER : Int := 2

/-- `TransType` constants. -/
def TRANS_TYPE_TCP : Int := 0
def TRANS_TYPE_UDP : Int := 1

def MAX_GOP_CACHE_LEN : Nat := 256

/-- `RTPPack`: the channel kind (`Type` in the source) and the bytes of the buffer. -/
structure RTPPack where
  Type_ : Int
  Buffer : List Nat
deriving DecidableEq

/-- A closure in `session.StopHandles`, with the variables it captures.
`bindSession` is the closure appended by `Pusher.bindSession` (pusher.go:275).
`newPlayer` is modelled from the spec: `NewPlayer` is not among the sources; the
spec has the player "detached on session stop" by a stop hook, which is the call
`pusher.RemovePlayer(player)`. -/
inductive StopHandle where
  | bindSession (session : SessRef) (pusher : PusherRef)
  | newPlayer (pusher : PusherRef) (player : PlayerRef)
deriving DecidableEq

/-- The closure appended to `session.RTPHandles` by `Pusher.bindSession` (pusher.go:267). -/
inductive RTPHandle where
  | bindSession (session : SessRef) (pusher : PusherRef)
deriving DecidableEq

/-- `SDPInfo`, the fields of it that the session reads. -/
structure SDPInfo where
  Control : String := ""
  Codec : String := ""
deriving DecidableEq

/-- `UDPClient`, the fields that the session writes. -/
structure UDPClient where
  APort : Int := 0
  AControlPort : Int := 0
  VPort : Int := 0
  VControlPort : Int := 0
deriving DecidableEq

/-- `UDPServer`, the fields that the session reads. -/
structure UDPServer where
  APort : Int := 0
  AControlPort : Int := 0
  VPort : Int := 0
  VControlPort : Int := 0
deriving DecidableEq

/-- `Session` (rtsp-session.go:89).  `Conn` is `none` for a nil connection and
otherwise holds the `timeout` of the `RichConn`; `connRW` is the sequence of
bytes handed to `connRW.Write` so far. -/
structure Session where
  ID : String := ""
  Conn : Option Int := some 0
  connRW : List Nat := []
  Type_ : Int := 0
  TransType : Int := 0
  Path : String := ""
  URL : String := ""
  SDPRaw : String := ""
  SDPMap : GoMap SDPInfo := GoMap.empty
  localAuthorizationEnable : Bool := false
  remoteHttpAuthorizationEnable : Bool := false
  nonce : String := ""
  closeOld : Bool := false
  AControl : String := ""
  VControl : String := ""
  ACodec : String := ""
  VCodec : String := ""
  InBytes : Int := 0
  OutBytes : Int := 0
  Stoped : Bool := false
  aRTPChannel : Int := -1
  aRTPControlChannel : Int := -1
  vRTPChannel : Int := -1
  vRTPControlChannel : Int := -1
  Pusher : Option PusherRef := none
  Player : Option PlayerRef := none
  UDPClient : Option UDPClient := none
  RTPHandles : List RTPHandle := []
  StopHandles : List StopHandle := []

/-- Modelled from the spec: `RTSPClient` (its declaration is not among the
sources), the fields that `Pusher` reads. -/
structure RTSPClient where
  ID : String := ""
  Path : String := ""
  CustomPath : String := ""
  SDPRaw : String := ""
  AControl : String := ""
  VControl : String := ""
  ACodec : String := ""
  VCodec : String := ""
  OutBytes : Int := 0
  Stoped : Bool := false

/-- Modelled from the spec: `MulticastClient` (its declaration is not among the
sources), the fields that `Pusher` reads; `Path`, `SourceSessionId` and
`SDPRaw` are those of its `multiInfo`. -/
structure MulticastClient where
  SourceSessionId : String := ""
  Path : String := ""
  SDPRaw : String := ""
  AControl : String := ""
  VControl : String := ""
  ACodec : String := ""
  VCodec : String := ""
  OutBytes : Int := 0
  Stopped : Bool := false

/-- Modelled from the spec: `Player` (player.go is not among the sources).  `ID`
is the key under which a pusher stores it, `queued` lists the packets handed to
`QueueRTP` in the order of the calls (what the player's bounded egress queue then
does with them is not modelled), `paused` is the pause flag. -/
structure Player where
  ID : String := ""
  queued : List RTPPack := []
  paused : Bool := false

/-- `Pusher` (pusher.go:12). -/
structure Pusher where
  Session : Option SessRef := none
  RTSPClient : Option ClientRef := none
  MulticastClient : Option MulticastRef := none
  players : GoMap PlayerRef := GoMap.empty
  gopCacheEnable : Bool := false
  gopCache : List RTPPack := []
  UDPServer : Option UDPServer := none
  spsppsInSTAPaPack : Bool := false

/-- `Server` (rtsp-server.go:19), the fields that the embedded functions use. -/
structure Server where
  pushers : GoMap PusherRef := GoMap.empty
  gopCacheEnable : Bool := true
  closeOld : Bool := false
  authorizationType : String := ""
  streamNotExistHoldMillisecond : Int := 0

/-- The state of the process: the single `Server` instance and the heaps.
`nextPusher` and `nextPlayer` are the next fresh references handed out by an
allocation, `nextNonce` counts the nonces generated so far. -/
structure World where
  server : Server := {}
  sessions : SessRef → Session := fun _ => {}
  pushers : PusherRef → Pusher := fun _ => {}
  players : PlayerRef → Player := fun _ => {}
  clients : ClientRef → RTSPClient := fun _ => {}
  multicasts : MulticastRef → MulticastClient := fun _ => {}
  nextPusher : Nat := 0
  nextPlayer : Nat := 0
  nextNonce : Nat := 0

namespace World

def setSession (w : World) (s : SessRef) (v : Session) : World :=
  { w with sessions := Function.update w.sessions s v }

def setPusher (w : World) (p : PusherRef) (v : Pusher) : World :=
  { w with pushers := Function.update w.pushers p v }

def setPlayer (w : World) (p : PlayerRef) (v : Player) : World :=
  { w with players := Function.update w.players p v }

def setClient (w : World) (c : ClientRef) (v : RTSPClient) : World :=
  { w with clients := Function.update w.clients c v }

def setMulticast (w : World) (m : MulticastRef) (v : MulticastClient) : World :=
  { w with multicasts := Function.update w.multicasts m v }

def setRegistry (w : World) (m : GoMap PusherRef) : World :=
  { w with server := { w.server with pushers := m } }

end World

/-- Outcome of a call: normal return with a value, or a panic; both carry the world. -/
inductive Res (α : Type) where
  | ok (val : α) (w : World)
  | panic (w : World)

namespace Res

variable {α β : Type}

/-- The world in which the call ended. -/
def world : Res α → World
  | ok _ w => w
  | panic w => w

/-- Sequencing: a panic skips the rest. -/
def bind (r : Res α) (f : α → World → Res β) : Res β :=
  match r with
  | ok a w => f a w
  | panic w => panic w

end Res

/-! ## Pusher accessors (pusher.go:38-211) -/

/-- `Pusher.Path` (pusher.go:68); `none` is the nil dereference of `pusher.RTSPClient`. -/
def Pusher.Path (w : World) (p : PusherRef) : Option String :=
  match (w.pushers p).Session with
  | some s => some (w.sessions s).Path
  | none =>
    match (w.pushers p).RTSPClient with
    | none => none
    | some c =>
      if (w.clients c).CustomPath ≠ "" then some (w.clients c).CustomPath
      else
        match (w.pushers p).MulticastClient with
        | some m => some (w.multicasts m).Path
        | none => some (w.clients c).Path

/-- `Pusher.ID` (pusher.go:81). -/
def Pusher.ID (w : World) (p : PusherRef) : Option String :=
  match (w.pushers p).Session with
  | some s => some (w.sessions s).ID
  | none =>
    match (w.pushers p).MulticastClient with
    | some m => some (w.multicasts m).SourceSessionId
    | none =>
      match (w.pushers p).RTSPClient with
      | some c => some (w.clients c).ID
      | none => none

/-- `Pusher.Stoped` (pusher.go:58). -/
def Pusher.Stoped (w : World) (p : PusherRef) : Option Bool :=
  match (w.pushers p).Session with
  | some s => some (w.sessions s).Stoped
  | none =>
    match (w.pushers p).MulticastClient with
    | some m => some (w.multicasts m).Stopped
    | none =>
      match (w.pushers p).RTSPClient with
      | some c => some (w.clients c).Stoped
      | none => none

/-- `Pusher.VCodec` (pusher.go:101). -/
def Pusher.VCodec (w : World) (p : PusherRef) : Option String :=
  match (w.pushers p).Session with
  | some s => some (w.sessions s).VCodec
  | none =>
    match (w.pushers p).MulticastClient with
    | some m => some (w.multicasts m).VCodec
    | none =>
      match (w.pushers p).RTSPClient with
      | some c => some (w.clients c).VCodec
      | none => none

/-- `Pusher.SDPRaw` (pusher.go:48). -/
def Pusher.SDPRaw (w : World) (p : PusherRef) : Option String :=
  match (w.pushers p).Session with
  | some s => some (w.sessions s).SDPRaw
  | none =>
    match (w.pushers p).MulticastClient with
    | some m => some (w.multicasts m).SDPRaw
    | none =>
      match (w.pushers p).RTSPClient with
      | some c => some (w.clients c).SDPRaw
      | none => none

/-- `Pusher.ACodec` (pusher.go:111). -/
def Pusher.ACodec (w : World) (p : PusherRef) : Option String :=
  match (w.pushers p).Session with
  | some s => some (w.sessions s).ACodec
  | none =>
    match (w.pushers p).MulticastClient with
    | some m => some (w.multicasts m).ACodec
    | none =>
      match (w.pushers p).RTSPClient with
      | some c => some (w.clients c).ACodec
      | none => none

/-- `Pusher.AControl` (pusher.go:121). -/
def Pusher.AControl (w : World) (p : PusherRef) : Option String :=
  match (w.pushers p).Session with
  | some s => some (w.sessions s).AControl
  | none =>
    match (w.pushers p).MulticastClient with
    | some m => some (w.multicasts m).AControl
    | none =>
      match (w.pushers p).RTSPClient with
      | some c => some (w.clients c).AControl
      | none => none

/-- `Pusher.VControl` (pusher.go:131). -/
def Pusher.VControl (w : World) (p : PusherRef) : Option String :=
  match (w.pushers p).Session with
  | some s => some (w.sessions s).VControl
  | none =>
    match (w.pushers p).MulticastClient with
    | some m => some (w.multicasts m).VControl
    | none =>
      match (w.pushers p).RTSPClient with
      | some c => some (w.clients c).VControl
      | none => none

/-- `Pusher.Logger` (pusher.go:91): only whether the call returns matters, the
logger itself is not modelled. -/
def Pusher.Logger (w : World) (p : PusherRef) : Option Unit :=
  match (w.pushers p).Session with
  | some _ => some ()
  | none =>
    match (w.pushers p).MulticastClient with
    | some _ => some ()
    | none =>
      match (w.pushers p).RTSPClient with
      | some _ => some ()
      | none => none

/-- `Pusher.AddOutputBytes` (pusher.go:151). -/
def Pusher.AddOutputBytes (w : World) (p : PusherRef) (size : Int) : Res Unit :=
  match (w.pushers p).Session with
  | some s => .ok () (w.setSession s { w.sessions s with OutBytes := (w.sessions s).OutBytes + size })
  | none =>
    match (w.pushers p).MulticastClient with
    | some m =>
      .ok () (w.setMulticast m { w.multicasts m with OutBytes := (w.multicasts m).OutBytes + size })
    | none =>
      match (w.pushers p).RTSPClient with
      | some c => .ok () (w.setClient c { w.clients c with OutBytes := (w.clients c).OutBytes + size })
      | none => .panic w

/-! ## Path registry (rtsp-server.go:253-303) -/

/-- `Server.AddPusher` (rtsp-server.go:253).  The launch of the pump
(`go pusher.Start()`) and the send on `addPusherCh` are outside the model. -/
def Server.AddPusher (w : World) (pusher : PusherRef) : Res Bool :=
  match Pusher.Path w pusher with
  | none => .panic w
  | some path =>
    match w.server.pushers.get path with
    | none => .ok true (w.setRegistry (w.server.pushers.set path pusher))
    | some _ => .ok false w

/-- `Server.RemovePusher` (rtsp-server.go:290). -/
def Server.RemovePusher (w : World) (pusher : PusherRef) : Res Unit :=
  match Pusher.Path w pusher with
  | none => .panic w
  | some path =>
    match w.server.pushers.get path with
    | none => .ok () w
    | some _pusher =>
      match Pusher.ID w pusher with
      | none => .panic w
      | some id =>
        match Pusher.ID w _pusher with
        | none => .panic w
        | some _id =>
          if id = _id then .ok () (w.setRegistry (w.server.pushers.delete path))
          else .ok () w

/-- `Server.GetPusher` (rtsp-server.go:306). -/
def Server.GetPusher (w : World) (path : String) : Option PusherRef :=
  w.server.pushers.get path

/-! ## Pusher binding and session stop -/

/-- `Pusher.ClearPlayer` (pusher.go:436).  The goroutine that stops the
displaced players runs outside the model. -/
def Pusher.ClearPlayer (w : World) (pusher : PusherRef) : World :=
  w.setPusher pusher { w.pushers pusher with players := GoMap.empty }

/-- `Pusher.RemovePlayer` (pusher.go:423). -/
def Pusher.RemovePlayer (w : World) (pusher : PusherRef) (player : PlayerRef) : Res Unit :=
  match Pusher.Logger w pusher with
  | none => .panic w
  | some _ =>
    if (w.pushers pusher).players.len = 0 then .ok () w
    else
      .ok () (w.setPusher pusher
        { w.pushers pusher with
          players := (w.pushers pusher).players.delete (w.players player).ID })

/-- Body of a stop closure: that of `bindSession` (pusher.go:275-287), and the
detachment of a player. -/
def StopHandle.call (w : World) : StopHandle → Res Unit
  | .newPlayer pusher player => Pusher.RemovePlayer w pusher player
  | .bindSession session pusher =>
    if some session ≠ (w.pushers pusher).Session then
      -- the log line evaluates `pusher.Session.ID`
      match (w.pushers pusher).Session with
      | none => .panic w
      | some _ => .ok () w
    else
      (Server.RemovePusher (Pusher.ClearPlayer w pusher) pusher).bind fun _ w2 =>
        match (w2.pushers pusher).UDPServer with
        | some _ => .ok () (w2.setPusher pusher { w2.pushers pusher with UDPServer := none })
        | none => .ok () w2

/-- The loop `for _, h := range session.StopHandles { h() }`. -/
def StopHandle.callAll (w : World) : List StopHandle → Res Unit
  | [] => .ok () w
  | h :: rest => (h.call w).bind fun _ w1 => StopHandle.callAll w1 rest

/-- `Session.Stop` (rtsp-session.go:181).  The close web-hook is launched on its
own goroutine and is outside the model. -/
def Session.Stop (w : World) (session : SessRef) : Res Unit :=
  if (w.sessions session).Stoped then .ok () w
  else
    let w1 := w.setSession session { w.sessions session with Stoped := true }
    (StopHandle.callAll w1 (w1.sessions session).StopHandles).bind fun _ w2 =>
      let w3 :=
        match (w2.sessions session).Conn with
        | some _ => w2.setSession session { w2.sessions session with Conn := none }
        | none => w2
      let w4 :=
        match (w3.sessions session).UDPClient with
        | some _ => w3.setSession session { w3.sessions session with UDPClient := none }
        | none => w3
      .ok () w4

/-- `Pusher.bindSession` (pusher.go:265). -/
def Pusher.bindSession (w : World) (pusher : PusherRef) (session : SessRef) : World :=
  let w1 := w.setPusher pusher { w.pushers pusher with Session := some session }
  let w2 := w1.setSession session
    { w1.sessions session with
      RTPHandles := (w1.sessions session).RTPHandles ++ [RTPHandle.bindSession session pusher] }
  w2.setSession session
    { w2.sessions session with
      StopHandles := (w2.sessions session).StopHandles ++ [StopHandle.bindSession session pusher] }

/-- `Pusher.RebindSession` (pusher.go:291). -/
def Pusher.RebindSession (w : World) (pusher : PusherRef) (session : SessRef) : Res Bool :=
  match (w.pushers pusher).RTSPClient with
  | some _ => .ok false w
  | none =>
    let sess := (w.pushers pusher).Session
    let w1 := Pusher.bindSession w pusher session
    let w2 := w1.setSession session { w1.sessions session with Pusher := some pusher }
    let w3 := w2.setPusher pusher { w2.pushers pusher with gopCache := [] }
    match sess with
    | some old => (Session.Stop w3 old).bind fun _ w4 => .ok true w4
    | none => .ok true w3

/-- `NewPusher` (pusher.go:247): allocates the pusher and binds the session. -/
def NewPusher (w : World) (session : SessRef) : PusherRef × World :=
  let pusher := w.nextPusher
  let w1 : World := { w with nextPusher := w.nextPusher + 1 }
  let w2 := w1.setPusher pusher
    { Session := some session
      RTSPClient := none
      players := GoMap.empty
      gopCacheEnable := w.server.gopCacheEnable
      gopCache := [] }
  (pusher, Pusher.bindSession w2 pusher session)

/-- `Server.TryAttachToPusher` (rtsp-server.go:273). -/
def Server.TryAttachToPusher (w : World) (session : SessRef) : Res (Int × Option PusherRef) :=
  match w.server.pushers.get (w.sessions session).Path with
  | some _pusher =>
    (Pusher.RebindSession w _pusher session).bind fun r w1 =>
      if r then .ok (1, some _pusher) w1 else .ok (-1, none) w1
  | none => .ok (0, none) w

/-! ## NAL inspector (pusher.go:453-562) -/

/-- `RTPInfo`, the field that the pusher reads.  `Payload` is the payload slice;
`PayloadSpare` holds the bytes of its backing array between `len(Payload)` and
`cap(Payload)`, which a slice expression `Payload[lo:hi]` may reach. -/
structure RTPInfo where
  Payload : List Nat
  PayloadSpare : List Nat := []
deriving DecidableEq

/-- `net/url.URL`, the fields that the session reads or writes. -/
structure URL where
  Scheme : String := ""
  Host : String := ""
  Path : String := ""
  RawQuery : String := ""
deriving DecidableEq

/-- Modelled from the spec: the decoded `Authorization` header that
`DecodeAuthorizationInfo` returns; its declaration is not among the sources, the
model keeps the header line and the values it was decoded against. -/
structure AuthorizationInfo where
  authLine : String := ""
  nonce : String := ""
  method : String := ""
  sessionType : Int := 0
deriving DecidableEq

/-- `Request` (rtsp-request.go is not among the sources), the fields that the
session reads. -/
structure Request where
  Method : String := ""
  URL : String := ""
  Header : GoMap String := GoMap.empty
  Body : String := ""
deriving DecidableEq

/-- `Response` (rtsp-response.go is not among the sources), the fields that the
session writes. -/
structure Response where
  StatusCode : Int := 200
  Status : String := "OK"
  Header : GoMap String := GoMap.empty
  Body : String := ""
deriving DecidableEq

/-- What the embedding takes from outside the sources; a `none` result of a
function that returns a pointer or an error is nil.

* `ParseRTP`: rtp-parser.go.
* `url_Parse`, `url_Port`, `url_String`: `net/url` (`url.Parse`, `URL.Port`,
  `URL.String`).
* `ParseSDP`: sdp-parser.go.
* `ExecuteWebHookNotify`: the web-hook probe built by `NewWebHookInfo` from the
  action, the session ID and type, the URL, the path and the body; the result is
  `continueProcess`.
* `DecodeAuthorizationInfo`, `CheckAuthLocal`, `CheckAuthHttpRemote`: the
  authenticator; the checks return true when their error is nil.
* `nonce`: the nonces that `md5.Sum(shortid.MustGenerate())` produces, in order.
* `Response_String`: the bytes of `res.String()`.
* `panicText`: the text of a recovered panic value.
* `UDPClient_SetupAudio`, `UDPClient_SetupVideo`: udp-client.go; the result is the error.
* `UDPServer_SetupAudio`, `UDPServer_SetupVideo`: udp-server.go; the result is the
  error or the server with its ports allocated. -/
structure Env where
  ParseRTP : List Nat → Option RTPInfo := fun _ => none
  url_Parse : String → Option URL := fun _ => none
  url_Port : URL → String := fun _ => ""
  url_String : URL → String := fun _ => ""
  ParseSDP : String → GoMap SDPInfo := fun _ => GoMap.empty
  ExecuteWebHookNotify : String → String → Int → String → String → String → Bool :=
    fun _ _ _ _ _ _ => true
  DecodeAuthorizationInfo : String → String → String → Int → Option AuthorizationInfo :=
    fun _ _ _ _ => none
  CheckAuthLocal : AuthorizationInfo → Bool := fun _ => false
  CheckAuthHttpRemote : AuthorizationInfo → Bool := fun _ => false
  nonce : Nat → String := fun _ => ""
  Response_String : Response → List Nat := fun _ => []
  panicText : String := ""
  UDPClient_SetupAudio : UDPClient → Option String := fun _ => none
  UDPClient_SetupVideo : UDPClient → Option String := fun _ => none
  UDPServer_SetupAudio : UDPServer → Except String UDPServer := fun u => .ok u
  UDPServer_SetupVideo : UDPServer → Except String UDPServer := fun u => .ok u

/-- ASCII lower case of a character. -/
def asciiLower (c : Char) : Char :=
  if 'A' ≤ c ∧ c ≤ 'Z' then Char.ofNat (c.toNat + 32) else c

/-- `strings.EqualFold` on ASCII letters: equality up to the case of `A`-`Z`.  For
the second arguments used here (`"h264"`, `"h265"`) this is what Unicode simple
folding gives, none of their characters having a non-ASCII fold. -/
def EqualFold (s t : String) : Bool :=
  s.data.map asciiLower = t.data.map asciiLower

/-- How the STAP-A loop (pusher.go:477-490) ends. -/
inductive StapWalk where
  | done (singleSPSPPS : Nat) (realNALU : Nat)
  | returnFalse
  | panic
  | outOfFuel
deriving DecidableEq

/-- The STAP-A loop (pusher.go:477-490) from offset `off` with the running sum
`singleSPSPPS`.  `backing` is `Payload ++ PayloadSpare`.  Each iteration advances
`off` by at least 3, so `fuel = len(Payload)` iterations are never used up. -/
def Pusher.stapLoop (Payload backing : List Nat) : Nat → Nat → Nat → StapWalk
  | 0, _, _ => .outOfFuel
  | fuel + 1, off, singleSPSPPS =>
    match Payload[off]?, Payload[off + 1]? with
    | some b0, some b1 =>
      let nalSize := ((b0 <<< 8) ||| b1) % 65536
      if nalSize < 1 then .returnFalse
      else
        -- `nalUnit := rtp.Payload[off+2 : off+2+nalSize]` is checked against the capacity
        if off + 2 + nalSize > backing.length then .panic
        else
          match backing[off + 2]? with
          | none => .panic
          | some realNALU =>
            if off + 2 + nalSize ≥ Payload.length then
              .done (singleSPSPPS + (realNALU &&& 0x1F)) realNALU
            else
              Pusher.stapLoop Payload backing fuel (off + 2 + nalSize)
                (singleSPSPPS + (realNALU &&& 0x1F))
    | _, _ => .panic

/-- The checks on `realNALU` that end the H.264 branch (pusher.go:496-508). -/
def Pusher.h264Tail (w : World) (pusher : PusherRef) (realNALU : Nat) : Res Bool :=
  if realNALU &&& 0x1F = 0x05 then
    if (w.pushers pusher).spsppsInSTAPaPack then .ok false w else .ok true w
  else if realNALU &&& 0x1F = 0x07 then .ok true w
  else .ok false w

/-- The H.264 branch of `shouldSequenceStart` (pusher.go:455-508). -/
def Pusher.shouldSequenceStart_h264 (w : World) (pusher : PusherRef) (rtp : RTPInfo) : Res Bool :=
  match rtp.Payload[0]? with
  | none => .panic w
  | some payloadHeader =>
    let NaluType := payloadHeader &&& 0x1F
    if NaluType ≤ 23 then Pusher.h264Tail w pusher payloadHeader
    else if NaluType = 28 ∨ NaluType = 29 then
      match rtp.Payload[1]? with
      | none => .panic w
      | some realNALU =>
        if realNALU &&& 0x80 ≠ 0 then Pusher.h264Tail w pusher realNALU else .ok false w
    else if NaluType = 24 then
      match Pusher.stapLoop rtp.Payload (rtp.Payload ++ rtp.PayloadSpare) rtp.Payload.length 1 0 with
      | .returnFalse => .ok false w
      | .done singleSPSPPS realNALU =>
        if singleSPSPPS = 0x0F then
          .ok true (w.setPusher pusher { w.pushers pusher with spsppsInSTAPaPack := true })
        else Pusher.h264Tail w pusher realNALU
      | .panic => .panic w
      | .outOfFuel => .panic w
    else Pusher.h264Tail w pusher 0

/-- The checks on `frameType` that end the H.265 branch (pusher.go:548-557). -/
def Pusher.h265Tail (w : World) (rtp : RTPInfo) (frameType : Nat) : Res Bool :=
  if frameType ≥ 16 ∧ frameType ≤ 21 then .ok true w
  else if frameType = 32 then
    if rtp.Payload.length < 200 then .ok false w else .ok true w
  else .ok false w

/-- The H.265 branch of `shouldSequenceStart` (pusher.go:510-559). -/
def Pusher.shouldSequenceStart_h265 (w : World) (rtp : RTPInfo) : Res Bool :=
  if rtp.Payload.length ≥ 3 then
    match rtp.Payload[0]? with
    | none => .panic w
    | some firstByte =>
      let headerType := (firstByte >>> 1) &&& 0x3f
      if headerType = 49 then
        match rtp.Payload[2]? with
        | none => .panic w
        | some FUHeader =>
          if FUHeader &&& 0x80 ≠ 0 then Pusher.h265Tail w rtp (FUHeader &&& 0x3f)
          else .ok false w
      else if headerType = 48 then Pusher.h265Tail w rtp 0
      else if headerType = 50 then Pusher.h265Tail w rtp 0
      else Pusher.h265Tail w rtp (firstByte &&& 0x7e)
  else .ok false w

/-- `Pusher.shouldSequenceStart` (pusher.go:453). -/
def Pusher.shouldSequenceStart (w : World) (pusher : PusherRef) (rtp : RTPInfo) : Res Bool :=
  match Pusher.VCodec w pusher with
  | none => .panic w
  | some vcodec =>
    if EqualFold vcodec "h264" then Pusher.shouldSequenceStart_h264 w pusher rtp
    else if EqualFold vcodec "h265" then Pusher.shouldSequenceStart_h265 w rtp
    else .ok false w

/-! ## Pusher pump and players (pusher.go:322-451) -/

/-- Modelled from the spec: `Player.QueueRTP` (player.go is not among the
sources) hands the packet to the player's egress queue; the model records the call. -/
def Player.QueueRTP (w : World) (player : PlayerRef) (pack : RTPPack) : World :=
  w.setPlayer player { w.players player with queued := (w.players player).queued ++ [pack] }

/-- `Pusher.GetPlayers` (pusher.go:385): a copy of the players map. -/
def Pusher.GetPlayers (w : World) (pusher : PusherRef) : GoMap PlayerRef :=
  (w.pushers pusher).players

/-- `Pusher.HasPlayer` (pusher.go:395). -/
def Pusher.HasPlayer (w : World) (pusher : PusherRef) (player : PlayerRef) : Bool :=
  ((w.pushers pusher).players.get (w.players player).ID).isSome

/-- The loop of `Pusher.BroadcastRTP` over the entries of the players map. -/
def Pusher.BroadcastRTP_loop (pusher : PusherRef) (pack : RTPPack) :
    World → List (String × PlayerRef) → Res Unit
  | w, [] => .ok () w
  | w, e :: rest =>
    (Pusher.AddOutputBytes (Player.QueueRTP w e.2 pack) pusher pack.Buffer.length).bind
      fun _ w1 => Pusher.BroadcastRTP_loop pusher pack w1 rest

/-- `Pusher.BroadcastRTP` (pusher.go:377).  Go visits the map in an unspecified
order; the model visits the entries in list order. -/
def Pusher.BroadcastRTP (w : World) (pusher : PusherRef) (pack : RTPPack) : Res Unit :=
  Pusher.BroadcastRTP_loop pusher pack w (Pusher.GetPlayers w pusher).entries

/-- What one pump iteration decided: `seqStart` is the value of
`rtp != nil && pusher.shouldSequenceStart(rtp)` (pusher.go:354), `atCapacity` the
value of `uint(l) >= MAX_GOP_CACHE_LEN` (pusher.go:357); both are false when the
iteration did not reach the GOP cache. -/
structure PumpEvent where
  seqStart : Bool := false
  atCapacity : Bool := false
deriving DecidableEq

/-- The GOP cache update of one pump iteration (pusher.go:352-363). -/
def Pusher.Start_cache (env : Env) (w : World) (pusher : PusherRef) (pack : RTPPack) :
    Res PumpEvent :=
  if (w.pushers pusher).gopCacheEnable ∧ pack.Type_ = RTP_TYPE_VIDEO then
    let started : Res Bool :=
      match env.ParseRTP pack.Buffer with
      | none => .ok false w
      | some rtp => Pusher.shouldSequenceStart w pusher rtp
    started.bind fun seqStart w1 =>
      let w2 := if seqStart then w1.setPusher pusher { w1.pushers pusher with gopCache := [] } else w1
      let atCapacity : Bool := decide ((w2.pushers pusher).gopCache.length ≥ MAX_GOP_CACHE_LEN)
      let w3 := if atCapacity then w2.setPusher pusher { w2.pushers pusher with gopCache := [] } else w2
      .ok { seqStart := seqStart, atCapacity := atCapacity }
        (w3.setPusher pusher
          { w3.pushers pusher with gopCache := (w3.pushers pusher).gopCache ++ [pack] })
  else .ok {} w

/-- One iteration of the loop of `Pusher.Start` (pusher.go:334-364) on the item
taken from the queue; `none` is a nil packet or a closed queue. -/
def Pusher.Start_iter (env : Env) (w : World) (pusher : PusherRef) (pack : Option RTPPack) :
    Res PumpEvent :=
  match pack with
  | none =>
    match Pusher.Stoped w pusher with
    | none => .panic w
    | some _ => .ok {} w
  | some pack =>
    (Pusher.Start_cache env w pusher pack).bind fun ev w1 =>
      (Pusher.BroadcastRTP w1 pusher pack).bind fun _ w2 => .ok ev w2

/-- The loop of `Pusher.Start` over the items the queue delivers.  The loop ends
when the pusher is stopped; when the items are used up the pump is waiting on the
queue. -/
def Pusher.Start_loop (env : Env) (pusher : PusherRef) :
    World → List (Option RTPPack) → Res (List PumpEvent)
  | w, [] => .ok [] w
  | w, item :: rest =>
    match Pusher.Stoped w pusher with
    | none => .panic w
    | some true => .ok [] w
    | some false =>
      (Pusher.Start_iter env w pusher item).bind fun ev w1 =>
        (Pusher.Start_loop env pusher w1 rest).bind fun evs w2 => .ok (ev :: evs) w2

/-- `Pusher.Start` (pusher.go:331) on the items the queue delivers; the result
lists the decisions of the iterations that ran. -/
def Pusher.Start (env : Env) (w : World) (pusher : PusherRef) (queue : List (Option RTPPack)) :
    Res (List PumpEvent) :=
  match Pusher.Logger w pusher with
  | none => .panic w
  | some _ => Pusher.Start_loop env pusher w queue

/-- The priming loop of `Pusher.AddPlayer` over the GOP cache (pusher.go:414-417). -/
def Pusher.AddPlayer_prime (pusher : PusherRef) (player : PlayerRef) :
    World → List RTPPack → Res Unit
  | w, [] => .ok () w
  | w, pack :: rest =>
    (Pusher.AddOutputBytes (Player.QueueRTP w player pack) pusher pack.Buffer.length).bind
      fun _ w1 => Pusher.AddPlayer_prime pusher player w1 rest

/-- `Pusher.AddPlayer` (pusher.go:402).  The launch of the player's egress worker
(`go player.Start()`) is outside the model. -/
def Pusher.AddPlayer (w : World) (pusher : PusherRef) (player : PlayerRef) : Res Unit :=
  match Pusher.Logger w pusher with
  | none => .panic w
  | some _ =>
    let w1 :=
      match (w.pushers pusher).players.get (w.players player).ID with
      | none =>
        w.setPusher pusher
          { w.pushers pusher with
            players := (w.pushers pusher).players.set (w.players player).ID player }
      | some _ => w
    if (w1.pushers pusher).gopCacheEnable then
      Pusher.AddPlayer_prime pusher player w1 (w1.pushers pusher).gopCache
    else .ok () w1

/-! ## Interleaved egress (rtsp-session.go:732-802) -/

/-- The Go conversion `byte(n)` of an `int`: the low 8 bits. -/
def byte (n : Int) : Nat := (n % 256).toNat

/-- The Go conversion `uint16(n)` of a non-negative `int`: the low 16 bits. -/
def uint16 (n : Nat) : Nat := n % 65536

/-- `binary.BigEndian.PutUint16` into a 2-byte buffer: the bytes written for a
`uint16` value `v`. -/
def PutUint16 (v : Nat) : List Nat := [(v >>> 8) % 256, v % 256]

/-- `binary.BigEndian.Uint16` of the two bytes `b0 b1`. -/
def Uint16 (b0 b1 : Nat) : Nat := ((b0 <<< 8) ||| b1) % 65536

/-- The value of the length field of an interleaved frame: `binary.BigEndian.Uint16`
of its bytes 2 and 3, as the ingress reads it (rtsp-session.go:244); `none` when
the frame is shorter than its 4-byte header. -/
def frameLength (frame : List Nat) : Option Nat :=
  match frame[2]?, frame[3]? with
  | some b0, some b1 => some (Uint16 b0 b1)
  | _, _ => none

/-- The writes of one `case` of the switch in `Session.SendRTP` (the four cases
differ in the channel only): `bufChannel`, `bufLen`, the payload, and the update
of `OutBytes`. -/
def Session.SendRTP_write (w : World) (session : SessRef) (channel : Int) (pack : RTPPack) :
    World :=
  let bufChannel := [0x24, byte channel]
  let w1 := w.setSession session
    { w.sessions session with connRW := (w.sessions session).connRW ++ bufChannel }
  let bufLen := PutUint16 (uint16 pack.Buffer.length)
  let w2 := w1.setSession session
    { w1.sessions session with connRW := (w1.sessions session).connRW ++ bufLen }
  let w3 := w2.setSession session
    { w2.sessions session with connRW := (w2.sessions session).connRW ++ pack.Buffer }
  w3.setSession session
    { w3.sessions session with OutBytes := (w3.sessions session).OutBytes + (pack.Buffer.length + 4) }

/-- `Session.SendRTP` (rtsp-session.go:732); the result is the error, `none` for
nil.  `udpSendRTP` stands for `UDPClient.SendRTP`, which is not among the sources. -/
def Session.SendRTP (udpSendRTP : World → SessRef → RTPPack → Res (Option String))
    (w : World) (session : SessRef) (pack : Option RTPPack) : Res (Option String) :=
  match pack with
  | none => .ok (some "player send rtp got nil pack") w
  | some pack =>
    if (w.sessions session).TransType = TRANS_TYPE_UDP then
      match (w.sessions session).UDPClient with
      | none => .ok (some "player use udp transport but udp client not found") w
      | some _ => udpSendRTP w session pack
    else if pack.Type_ = RTP_TYPE_AUDIO then
      .ok none (Session.SendRTP_write w session (w.sessions session).aRTPChannel pack)
    else if pack.Type_ = RTP_TYPE_AUDIOCONTROL then
      .ok none (Session.SendRTP_write w session (w.sessions session).aRTPControlChannel pack)
    else if pack.Type_ = RTP_TYPE_VIDEO then
      .ok none (Session.SendRTP_write w session (w.sessions session).vRTPChannel pack)
    else if pack.Type_ = RTP_TYPE_VIDEOCONTROL then
      .ok none (Session.SendRTP_write w session (w.sessions session).vRTPControlChannel pack)
    else
      .ok (some ("session tcp send rtp got unkown pack type[" ++ RTPType_String pack.Type_ ++ "]")) w

/-- The channel that `Session.SendRTP` writes for a packet type. -/
def Session.channelOf (w : World) (session : SessRef) (type : Int) : Int :=
  if type = RTP_TYPE_AUDIO then (w.sessions session).aRTPChannel
  else if type = RTP_TYPE_AUDIOCONTROL then (w.sessions session).aRTPControlChannel
  else if type = RTP_TYPE_VIDEO then (w.sessions session).vRTPChannel
  else (w.sessions session).vRTPControlChannel

/-- The bytes that a call appended to the session's connection writer. -/
def Session.written (w w' : World) (session : SessRef) : List Nat :=
  (w'.sessions session).connRW.drop (w.sessions session).connRW.length

/-- The pack that `Session.Start` makes of an interleaved frame
(rtsp-session.go:229-283): after the byte `0x24`, `input` delivers the channel byte,
the two bytes of the length `rtpLen` and the rest of the stream, of which `rtpLen`
bytes are the pack.  `none` is a short read, on which `Start` returns; otherwise
the result is the pack handed to the RTP handlers, `none` when the channel is none
of the session's (`continue`), and the rest of the stream. -/
def Session.Start_pack (w : World) (session : SessRef) (input : List Nat) :
    Option (Option RTPPack × List Nat) :=
  match input with
  | ch :: b0 :: b1 :: rest =>
    let channel : Int := ch
    let rtpLen := Uint16 b0 b1
    if rest.length < rtpLen then none
    else
      let rtpBytes := rest.take rtpLen
      let pack : Option RTPPack :=
        if channel = (w.sessions session).aRTPChannel then
          some { Type_ := RTP_TYPE_AUDIO, Buffer := rtpBytes }
        else if channel = (w.sessions session).aRTPControlChannel then
          some { Type_ := RTP_TYPE_AUDIOCONTROL, Buffer := rtpBytes }
        else if channel = (w.sessions session).vRTPChannel then
          some { Type_ := RTP_TYPE_VIDEO, Buffer := rtpBytes }
        else if channel = (w.sessions session).vRTPControlChannel then
          some { Type_ := RTP_TYPE_VIDEOCONTROL, Buffer := rtpBytes }
        else none
      some (pack, rest.drop rtpLen)
  | _ => none

/-! ## String helpers of the request handler -/

/-- The Go expression `m[k]` on a `map[string]string`: the empty string when the
key is absent. -/
def GoMap.index (m : GoMap String) (k : String) : String := (m.get k).getD ""

/-- The Go expression `len(s)` of a string: its length in bytes. -/
def goLen (s : List Char) : Nat := (s.map Char.utf8Size).sum

/-- Scan of `strings.LastIndex`: `off` is the byte offset of `s` in the whole
string, `last` the offset of the last occurrence found so far. -/
def LastIndex_scan (sub : List Char) : List Char → Nat → Int → Int
  | [], off, last => if sub.isPrefixOf [] then off else last
  | c :: rest, off, last =>
    LastIndex_scan sub rest (off + c.utf8Size)
      (if sub.isPrefixOf (c :: rest) then off else last)

/-- `strings.LastIndex(s, sub)`: the byte offset of the last occurrence of `sub`
in `s`, or -1. -/
def LastIndex (s sub : String) : Int := LastIndex_scan sub.data s.data 0 (-1)

/-- `strings.Index(strings.ToLower(s), "rtsp://") == 0` (rtsp-session.go:580, 596).
None of the characters of `rtsp://` is the lower case of a non-ASCII character,
so the ASCII lower case decides it. -/
def hasRtspScheme (s : String) : Bool :=
  (s.data.map asciiLower).take 7 = "rtsp://".data

/-- An ASCII digit, the class `\d` of Go regular expressions. -/
def isDigit (c : Char) : Bool := decide ('0' ≤ c ∧ c ≤ '9')

/-- A match of `<name>(\d+)(-(\d+))?` anchored at the start of `s`: the whole
match and the three groups, a group that took no part being empty. -/
def submatchAt (name s : List Char) : Option (List String) :=
  if name.isPrefixOf s then
    let r := s.drop name.length
    let d1 := r.takeWhile isDigit
    if d1 = [] then none
    else
      match r.drop d1.length with
      | '-' :: r3 =>
        let d3 := r3.takeWhile isDigit
        if d3 = [] then some [⟨name ++ d1⟩, ⟨d1⟩, "", ""]
        else some [⟨name ++ d1 ++ '-' :: d3⟩, ⟨d1⟩, ⟨'-' :: d3⟩, ⟨d3⟩]
      | _ => some [⟨name ++ d1⟩, ⟨d1⟩, "", ""]
  else none

/-- `regexp.MustCompile("<name>(\\d+)(-(\\d+))?").FindStringSubmatch(s)`: the
leftmost match, `none` for nil. -/
def FindStringSubmatch (name : List Char) : List Char → Option (List String)
  | [] => submatchAt name []
  | c :: rest =>
    match submatchAt name (c :: rest) with
    | some m => some m
    | none => FindStringSubmatch name rest

/-- `strconv.Atoi` with its error dropped, on the strings the regular expressions
above capture (ASCII digits, or empty): the decimal value, saturated at the
largest `int`, and 0 for the empty string. -/
def Atoi (s : String) : Int :=
  if s.data = [] ∨ ¬ s.data.all isDigit then 0
  else
    let v := s.data.foldl (fun acc c => acc * 10 + (c.toNat - '0'.toNat)) 0
    if v > 2 ^ 63 - 1 then 2 ^ 63 - 1 else v

/-- Decimal digits of a natural number, most significant first. -/
def natDigits : Nat → Nat → List Char
  | 0, _ => []
  | fuel + 1, n =>
    if n < 10 then [Char.ofNat (n + '0'.toNat)]
    else natDigits fuel (n / 10) ++ [Char.ofNat (n % 10 + '0'.toNat)]

/-- The verb `%d` of `fmt.Sprintf` on an `int`. -/
def formatInt (n : Int) : String :=
  if n < 0 then ⟨'-' :: natDigits (n.natAbs + 1) n.natAbs⟩ else ⟨natDigits (n.natAbs + 1) n.natAbs⟩

/-- `strings.Split(s, ";")` on the characters of `s`. -/
def splitSemicolon : List Char → List (List Char)
  | [] => [[]]
  | c :: rest =>
    if c = ';' then [] :: splitSemicolon rest
    else
      match splitSemicolon rest with
      | field :: fields => (c :: field) :: fields
      | [] => [[c]]

/-- `strings.Split(ts, ";")`. -/
def Split (ts : String) : List String := (splitSemicolon ts.data).map String.mk

/-- `strings.Join(tss, ";")`. -/
def Join (tss : List String) : String := ";".intercalate tss

/-- The index that the loop at rtsp-session.go:661 leaves in `idx`: that of the
last field equal to `val`, or -1. -/
def lastFieldIndex (val : String) : List String → Nat → Int → Int
  | [], _, idx => idx
  | field :: rest, i, idx => lastFieldIndex val rest (i + 1) (if field = val then i else idx)

/-- The rewriting of the `Transport` header for a UDP pusher
(rtsp-session.go:659-669): `server_port=<rtp>-<rtcp>` is inserted after the field
at index `idx`. -/
def rewriteTransport (ts matched : String) (rtp rtcp : Int) : String :=
  let tss := Split ts
  let idx := lastFieldIndex matched tss 0 (-1)
  let tail := tss.drop (idx + 1).toNat
  let tss1 := tss.take (idx + 1).toNat ++
    ["server_port=" ++ formatInt rtp ++ "-" ++ formatInt rtcp]
  Join (tss1 ++ tail)

/-! ## Request handling (rtsp-session.go:335-730) -/

/-- Modelled from the spec: the names of the web-hook probes (webhook.go is not
among the sources). -/
def ON_PUBLISH : String := "on_publish"
def ON_PLAY : String := "on_play"

/-- Modelled from the spec: `NewResponse` (rtsp-response.go is not among the
sources) builds the response with its status line, the `CSeq` echo and the
`Session` header. -/
def NewResponse (statusCode : Int) (status cSeq sid body : String) : Response :=
  { StatusCode := statusCode, Status := status,
    Header := (GoMap.empty.set "CSeq" cSeq).set "Session" sid, Body := body }

/-- Modelled from the spec: `Response.SetBody` (rtsp-response.go is not among the
sources) sets the body. -/
def Response.SetBody (res : Response) (body : String) : Response := { res with Body := body }

/-- Modelled from the spec: `NewPlayer` (player.go is not among the sources)
creates the player of a session, with the session's ID, and registers the stop hook
that detaches it from its pusher. -/
def NewPlayer (w : World) (session : SessRef) (pusher : PusherRef) : PlayerRef × World :=
  let player := w.nextPlayer
  let w1 : World := { w with nextPlayer := w.nextPlayer + 1 }
  let w2 := w1.setPlayer player { ID := (w.sessions session).ID, queued := [], paused := false }
  (player, w2.setSession session
    { w2.sessions session with
      StopHandles := (w2.sessions session).StopHandles ++ [StopHandle.newPlayer pusher player] })

/-- Modelled from the spec: `Player.Pause` (player.go is not among the sources)
sets the pause flag. -/
def Player.Pause (w : World) (player : PlayerRef) (paused : Bool) : World :=
  w.setPlayer player { w.players player with paused := paused }

/-- How the body of `handleRequest` ends: it returns, or it panics; both carry the
response as it stands and the world. -/
inductive Handled where
  | done (res : Response) (w : World)
  | panic (res : Response) (w : World)

/-- Continue the body of `handleRequest` after a call that can panic. -/
def Res.handled {α : Type} (r : Res α) (res : Response) (k : α → World → Handled) : Handled :=
  match r with
  | .ok a w => k a w
  | .panic w => .panic res w

/-- The check of the `Authorization` line in `handleRequest`
(rtsp-session.go:382-412): `none` is the return with status 403, and
`some authFailed` the value of `authFailed` at rtsp-session.go:414. -/
def Session.handleRequest_authCheck (env : Env) (w : World) (session : SessRef)
    (req : Request) : Option Bool :=
  let authLine := req.Header.index "Authorization"
  if authLine ≠ "" then
    let sessionType : Option Int :=
      if (w.sessions session).Type_ = 0 then
        if req.Method = "ANNOUNCE" then some SESSION_TYPE_PUSHER
        else if req.Method = "DESCRIBE" then some SESSEION_TYPE_PLAYER
        else none
      else some (w.sessions session).Type_
    match sessionType with
    | none => none
    | some sessionType =>
      match env.DecodeAuthorizationInfo authLine (w.sessions session).nonce req.Method
          sessionType with
      | none => some true
      | some info =>
        if (w.sessions session).localAuthorizationEnable then
          some (!env.CheckAuthLocal info)
        else if (w.sessions session).remoteHttpAuthorizationEnable then
          some (!env.CheckAuthHttpRemote info)
        else some true
  else some true

/-- The authorization check at the head of `handleRequest`
(rtsp-session.go:380-427): `some` is an early return, `none` lets the request through. -/
def Session.handleRequest_auth (env : Env) (w : World) (session : SessRef) (req : Request)
    (res : Response) : Option Handled :=
  if req.Method ≠ "OPTIONS" then
    if (w.sessions session).localAuthorizationEnable ∨
        (w.sessions session).remoteHttpAuthorizationEnable then
      match Session.handleRequest_authCheck env w session req with
      | none => some (.done { res with StatusCode := 403, Status := "Method Error" } w)
      | some true =>
        let res1 := { res with StatusCode := 401, Status := "Unauthorized" }
        if w.server.authorizationType = "Basic" then
          some (.done
            { res1 with Header := res1.Header.set "WWW-Authenticate" "Basic realm=\"EasyDarwin\"" }
            w)
        else
          let nonce := env.nonce w.nextNonce
          let w1 : World := { w with nextNonce := w.nextNonce + 1 }
          let w2 := w1.setSession session { w1.sessions session with nonce := nonce }
          some (.done
            { res1 with
              Header := res1.Header.set "WWW-Authenticate"
                ("Digest realm=\"EasyDarwin\", nonce=\"" ++ nonce ++ "\", algorithm=\"MD5\"") }
            w2)
      | some false => none
    else none
  else none

/-- The tail of the `ANNOUNCE` case (rtsp-session.go:496-504): a new pusher is
created for the session and offered to the registry. -/
def Session.handleRequest_addPusher (w : World) (session : SessRef) (res : Response) : Handled :=
  let created := NewPusher w session
  let w1 := created.2.setSession session
    { created.2.sessions session with Pusher := some created.1 }
  (Server.AddPusher w1 created.1).handled res fun addedToServer w2 =>
    if !addedToServer then .done { res with StatusCode := 406, Status := "Not Acceptable" } w2
    else .done res w2

/-- The part of the `ANNOUNCE` case that takes the path and the SDP of the request
into the session (rtsp-session.go:448-463). -/
def Session.handleRequest_sdp (env : Env) (w : World) (session : SessRef) (req : Request)
    (surl : rtsp.URL) : World :=
  let w2 := w.setSession session
    { w.sessions session with
      Path := surl.Path, SDPRaw := req.Body, SDPMap := env.ParseSDP req.Body }
  let w3 :=
    match (w2.sessions session).SDPMap.get "audio" with
    | some sdp =>
      w2.setSession session
        { w2.sessions session with AControl := sdp.Control, ACodec := sdp.Codec }
    | none => w2
  match (w3.sessions session).SDPMap.get "video" with
  | some sdp =>
    w3.setSession session
      { w3.sessions session with VControl := sdp.Control, VCodec := sdp.Codec }
  | none => w3

/-- The `ANNOUNCE` case (rtsp-session.go:431-504). -/
def Session.handleRequest_ANNOUNCE (env : Env) (w : World) (session : SessRef) (req : Request)
    (res : Response) : Handled :=
  let w1 := w.setSession session
    { w.sessions session with Type_ := SESSION_TYPE_PUSHER, URL := req.URL }
  match env.url_Parse req.URL with
  | none => .done { res with StatusCode := 500, Status := "Invalid URL" } w1
  | some surl =>
    -- the web-hook arguments evaluate `session.Conn.RemoteAddr()`
    match (w1.sessions session).Conn with
    | none => .panic res w1
    | some _ =>
      if !env.ExecuteWebHookNotify ON_PUBLISH (w1.sessions session).ID SESSION_TYPE_PUSHER
          req.URL surl.Path req.Body then
        .done { res with StatusCode := 500, Status := "Server not allowed you push stream" } w1
      else
        let w4 := Session.handleRequest_sdp env w1 session req surl
        if (w4.sessions session).closeOld then
          (Server.TryAttachToPusher w4 session).handled res fun r w5 =>
            if r.1 < -1 then
              .done { res with StatusCode := 406, Status := "Not Acceptable" } w5
            else if r.1 = 0 then Session.handleRequest_addPusher w5 session res
            else .done res w5
        else Session.handleRequest_addPusher w4 session res

/-- The `DESCRIBE` case (rtsp-session.go:505-551).  The loop that waits for the
stream polls the registry while sleeping; in the sequential model nothing
registers a pusher meanwhile, and the wait ends without one. -/
def Session.handleRequest_DESCRIBE (env : Env) (w : World) (session : SessRef) (req : Request)
    (res : Response) : Handled :=
  let w1 := w.setSession session
    { w.sessions session with Type_ := SESSEION_TYPE_PLAYER, URL := req.URL }
  match env.url_Parse req.URL with
  | none => .done { res with StatusCode := 500, Status := "Invalid URL" } w1
  | some url =>
    match (w1.sessions session).Conn with
    | none => .panic res w1
    | some _ =>
      if !env.ExecuteWebHookNotify ON_PLAY (w1.sessions session).ID SESSEION_TYPE_PLAYER
          req.URL url.Path req.Body then
        .done { res with StatusCode := 500, Status := "Server not allowed you pull stream" } w1
      else
        let w2 := w1.setSession session { w1.sessions session with Path := url.Path }
        match w2.server.pushers.get (w2.sessions session).Path with
        | none => .done { res with StatusCode := 404, Status := "NOT FOUND" } w2
        | some pusher =>
          let created := NewPlayer w2 session pusher
          let w3 := created.2.setSession session
            { created.2.sessions session with Player := some created.1, Pusher := some pusher }
          match Pusher.AControl w3 pusher, Pusher.VControl w3 pusher, Pusher.ACodec w3 pusher,
              Pusher.VCodec w3 pusher, Pusher.ID w3 pusher, Pusher.SDPRaw w3 pusher with
          | some aControl, some vControl, some aCodec, some vCodec, some _, some sdpRaw =>
            let w4 := w3.setSession session
              { w3.sessions session with
                AControl := aControl, VControl := vControl, ACodec := aCodec, VCodec := vCodec,
                Conn := some 0 }
            .done (res.SetBody sdpRaw) w4
          | _, _, _, _, _, _ => .panic res w3

/-- The control string of a track as `SETUP` compares it (rtsp-session.go:579-609):
an `rtsp://` URL is parsed and gets the default port 554; `none` is a parse error. -/
def controlPath (env : Env) (control : String) : Option String :=
  if hasRtspScheme control then
    match env.url_Parse control with
    | none => none
    | some u =>
      some (env.url_String (if env.url_Port u = "" then { u with Host := u.Host ++ ":554" } else u))
  else some control

/-- The test of `SETUP` that the request is for the track with control `path`
(rtsp-session.go:616, 619, 643, 671). -/
def matchesControl (setupPath path : String) : Bool :=
  decide (setupPath = path ∨
    (path ≠ "" ∧ LastIndex setupPath path = (goLen setupPath.data : Int) - goLen path.data))

/-- The TCP branch of the `SETUP` case (rtsp-session.go:614-627). -/
def Session.handleRequest_SETUP_tcp (w : World) (session : SessRef) (res : Response)
    (setupPath aPath vPath : String) (tcpMatchs : List String) : Response × World :=
  let w1 := w.setSession session { w.sessions session with TransType := TRANS_TYPE_TCP }
  if matchesControl setupPath aPath then
    (res, w1.setSession session
      { w1.sessions session with
        aRTPChannel := Atoi (tcpMatchs.getD 1 ""), aRTPControlChannel := Atoi (tcpMatchs.getD 3 "") })
  else if matchesControl setupPath vPath then
    (res, w1.setSession session
      { w1.sessions session with
        vRTPChannel := Atoi (tcpMatchs.getD 1 ""), vRTPControlChannel := Atoi (tcpMatchs.getD 3 "") })
  else
    ({ res with StatusCode := 500, Status := "SETUP [TCP] got UnKown control:" ++ setupPath }, w1)

/-- The player side of one track of the UDP branch of the `SETUP` case
(rtsp-session.go:644-652 for audio, 672-680 for video): the client's ports are
taken and the UDP client is set up; `inl` is the early return with status 500 (or a
panic), otherwise the world.  `audio` selects the audio fields. -/
def Session.handleRequest_SETUP_udpPlayer (env : Env) (w : World) (session : SessRef)
    (res : Response) (udpMatchs : List String) (audio : Bool) : Handled ⊕ World :=
  if (w.sessions session).Type_ = SESSEION_TYPE_PLAYER then
    match (w.sessions session).UDPClient with
    | none => .inl (.panic res w)
    | some c =>
      let c1 : rtsp.UDPClient :=
        if audio then
          { c with APort := Atoi (udpMatchs.getD 1 ""), AControlPort := Atoi (udpMatchs.getD 3 "") }
        else
          { c with VPort := Atoi (udpMatchs.getD 1 ""), VControlPort := Atoi (udpMatchs.getD 3 "") }
      let w1 := w.setSession session { w.sessions session with UDPClient := some c1 }
      match (if audio then env.UDPClient_SetupAudio c1 else env.UDPClient_SetupVideo c1) with
      | some err =>
        .inl (.done
          { res with
            StatusCode := 500
            Status := (if audio then "udp client setup audio error, "
              else "udp client setup video error, ") ++ err } w1)
      | none => .inr w1
  else .inr w

/-- One track of the UDP branch of the `SETUP` case (rtsp-session.go:644-670 for
audio, 672-699 for video): `inl` is the early return with status 500 (or a panic),
otherwise the `Transport` value and the world.  `audio` selects the audio fields. -/
def Session.handleRequest_SETUP_udpTrack (env : Env) (w : World) (session : SessRef)
    (pusher : PusherRef) (res : Response) (ts : String) (udpMatchs : List String)
    (audio : Bool) : Handled ⊕ (String × World) :=
  match Session.handleRequest_SETUP_udpPlayer env w session res udpMatchs audio with
  | .inl h => .inl h
  | .inr w1 =>
    if (w1.sessions session).Type_ = SESSION_TYPE_PUSHER then
      match (w1.pushers pusher).UDPServer with
      | none => .inl (.panic res w1)
      | some u =>
        match (if audio then env.UDPServer_SetupAudio u else env.UDPServer_SetupVideo u) with
        | .error err =>
          .inl (.done
            { res with
              StatusCode := 500
              Status := (if audio then "udp server setup audio error, "
                else "udp server setup video error, ") ++ err } w1)
        | .ok u1 =>
          let w2 := w1.setPusher pusher { w1.pushers pusher with UDPServer := some u1 }
          .inr (rewriteTransport ts (udpMatchs.getD 0 "")
            (if audio then u1.APort else u1.VPort)
            (if audio then u1.AControlPort else u1.VControlPort), w2)
    else .inr (ts, w1)

/-- The head of the UDP branch of the `SETUP` case after `session.Conn.timeout = 0`
(rtsp-session.go:629-641): the transport is UDP, and a player session gets its
UDP client, a pusher session's pusher its UDP server, if not yet there. -/
def Session.handleRequest_SETUP_udpInit (w : World) (session : SessRef) (pusher : PusherRef) :
    World :=
  let w1 := w.setSession session
    { w.sessions session with TransType := TRANS_TYPE_UDP, Conn := some 0 }
  let w2 :=
    if (w1.sessions session).Type_ = SESSEION_TYPE_PLAYER ∧ (w1.sessions session).UDPClient = none then
      w1.setSession session { w1.sessions session with UDPClient := some {} }
    else w1
  if (w2.sessions session).Type_ = SESSION_TYPE_PUSHER ∧ (w2.pushers pusher).UDPServer = none then
    w2.setPusher pusher { w2.pushers pusher with UDPServer := some {} }
  else w2

/-- The UDP branch of the `SETUP` case (rtsp-session.go:628-702). -/
def Session.handleRequest_SETUP_udp (env : Env) (w : World) (session : SessRef)
    (pusher : PusherRef) (res : Response) (ts setupPath aPath vPath : String)
    (udpMatchs : List String) : Handled ⊕ (String × World) :=
  -- `session.Conn.timeout = 0`
  match (w.sessions session).Conn with
  | none =>
    .inl (.panic res (w.setSession session { w.sessions session with TransType := TRANS_TYPE_UDP }))
  | some _ =>
    let w3 := Session.handleRequest_SETUP_udpInit w session pusher
    if matchesControl setupPath aPath then
      Session.handleRequest_SETUP_udpTrack env w3 session pusher res ts udpMatchs true
    else if matchesControl setupPath vPath then
      Session.handleRequest_SETUP_udpTrack env w3 session pusher res ts udpMatchs false
    else .inr (ts, w3)

/-- The `SETUP` case (rtsp-session.go:552-704). -/
def Session.handleRequest_SETUP (env : Env) (w : World) (session : SessRef) (req : Request)
    (res : Response) : Handled :=
  let ts := req.Header.index "Transport"
  match env.url_Parse req.URL with
  | none => .done { res with StatusCode := 500, Status := "Invalid URL" } w
  | some setupUrl =>
    let setupPath := env.url_String
      (if env.url_Port setupUrl = "" then { setupUrl with Host := setupUrl.Host ++ ":554" }
        else setupUrl)
    match (w.sessions session).Pusher with
    | none => .done { res with StatusCode := 500, Status := "Error Status" } w
    | some pusher =>
      match controlPath env (w.sessions session).VControl with
      | none => .done { res with StatusCode := 500, Status := "Invalid VControl" } w
      | some vPath =>
        match controlPath env (w.sessions session).AControl with
        | none => .done { res with StatusCode := 500, Status := "Invalid AControl" } w
        | some aPath =>
          match FindStringSubmatch "interleaved=".data ts.data with
          | some tcpMatchs =>
            let r := Session.handleRequest_SETUP_tcp w session res setupPath aPath vPath tcpMatchs
            .done { r.1 with Header := r.1.Header.set "Transport" ts } r.2
          | none =>
            match FindStringSubmatch "client_port=".data ts.data with
            | some udpMatchs =>
              match Session.handleRequest_SETUP_udp env w session pusher res ts setupPath aPath
                  vPath udpMatchs with
              | .inl h => h
              | .inr (ts1, w1) => .done { res with Header := res.Header.set "Transport" ts1 } w1
            | none => .done { res with Header := res.Header.set "Transport" ts } w

/-- The `switch req.Method` of `handleRequest` (rtsp-session.go:428-729). -/
def Session.handleRequest_switch (env : Env) (w : World) (session : SessRef) (req : Request)
    (res : Response) : Handled :=
  if req.Method = "OPTIONS" then
    .done { res with
      Header := res.Header.set "Public"
        "DESCRIBE, SETUP, TEARDOWN, PLAY, PAUSE, OPTIONS, ANNOUNCE, RECORD" } w
  else if req.Method = "ANNOUNCE" then Session.handleRequest_ANNOUNCE env w session req res
  else if req.Method = "DESCRIBE" then Session.handleRequest_DESCRIBE env w session req res
  else if req.Method = "SETUP" then Session.handleRequest_SETUP env w session req res
  else if req.Method = "PLAY" then
    match (w.sessions session).Pusher with
    | none => .done { res with StatusCode := 500, Status := "Error Status" } w
    | some _ => .done { res with Header := res.Header.set "Range" (req.Header.index "Range") } w
  else if req.Method = "RECORD" then
    match (w.sessions session).Pusher with
    | none => .done { res with StatusCode := 500, Status := "Error Status" } w
    | some _ => .done res w
  else if req.Method = "PAUSE" then
    match (w.sessions session).Player with
    | none => .done { res with StatusCode := 500, Status := "Error Status" } w
    | some player => .done res (Player.Pause w player true)
  else .done res w

/-- The body of `handleRequest` (rtsp-session.go:380-729): the authorization check
and the switch. -/
def Session.handleRequest_body (env : Env) (w : World) (session : SessRef) (req : Request)
    (res : Response) : Handled :=
  match Session.handleRequest_auth env w session req res with
  | some h => h
  | none => Session.handleRequest_switch env w session req res

/-- The write of the response in the deferred function of `handleRequest`
(rtsp-session.go:349-354). -/
def Session.handleRequest_write (env : Env) (w : World) (session : SessRef) (res : Response) :
    World :=
  w.setSession session
    { w.sessions session with
      connRW := (w.sessions session).connRW ++ env.Response_String res
      OutBytes := (w.sessions session).OutBytes + (env.Response_String res).length }

/-- The `PLAY`/`RECORD` case of the deferred function of `handleRequest`
(rtsp-session.go:355-366): a player session attaches its player to the pusher, or
resumes it. -/
def Session.handleRequest_play (w : World) (session : SessRef) (req : Request) : Res Unit :=
  if req.Method = "PLAY" ∨ req.Method = "RECORD" then
    if (w.sessions session).Type_ = SESSEION_TYPE_PLAYER then
      match (w.sessions session).Pusher, (w.sessions session).Player with
      | some pusher, some player =>
        if Pusher.HasPlayer w pusher player then .ok () (Player.Pause w player false)
        else Pusher.AddPlayer w pusher player
      | _, _ => .panic w
    else .ok () w
  else .ok () w

/-- The deferred function of `handleRequest` after its `recover()`
(rtsp-session.go:348-378): the response is written, a player is attached on
`PLAY`/`RECORD`, and the session is stopped on `TEARDOWN` or on a status other than
200 and 401.  The result is the response. -/
def Session.handleRequest_epilogue (env : Env) (w : World) (session : SessRef) (req : Request)
    (res : Response) : Res Response :=
  (Session.handleRequest_play (Session.handleRequest_write env w session res) session req).bind
    fun _ w2 =>
      if req.Method = "TEARDOWN" then
        (Session.Stop w2 session).bind fun _ w3 => .ok res w3
      else if res.StatusCode ≠ 200 ∧ res.StatusCode ≠ 401 then
        (Session.Stop w2 session).bind fun _ w3 => .ok res w3
      else .ok res w2

/-- `Session.handleRequest` (rtsp-session.go:335): the body runs on a new 200
response; a panic of the body is recovered into status 500; the deferred function
ends the call.  The result is the response sent. -/
def Session.handleRequest (env : Env) (w : World) (session : SessRef) (req : Request) :
    Res Response :=
  let res := NewResponse 200 "OK" (req.Header.index "CSeq") (w.sessions session).ID ""
  match Session.handleRequest_body env w session req res with
  | .done res1 w1 => Session.handleRequest_epilogue env w1 session req res1
  | .panic res1 w1 =>
    Session.handleRequest_epilogue env w1 session req
      { res1 with StatusCode := 500, Status := "Inner Server Error, " ++ env.panicText }

/-! ## Registry call sequences and frame conditions -/

/-- The world of an `ANNOUNCE` that goes the `addPusher` way with the path
`surl.Path`, just before the new pusher is offered to the registry: the session
has taken the request in and a new pusher has been bound to it
(rtsp-session.go:433-463, 497). -/
def Session.handleRequest_announced (env : Env) (w : World) (session : SessRef) (req : Request)
    (surl : rtsp.URL) : World :=
  let w1 := w.setSession session
    { w.sessions session with Type_ := SESSION_TYPE_PUSHER, URL := req.URL }
  let w4 := Session.handleRequest_sdp env w1 session req surl
  let created := NewPusher w4 session
  created.2.setSession session { created.2.sessions session with Pusher := some created.1 }

/-- The value a call returned, `none` when it panicked. -/
def Res.result {α : Type} : Res α → Option α
  | .ok a _ => some a
  | .panic _ => none

/-- A step that can write a GOP cache: one pump iteration of a pusher on an item
of its queue, a `RebindSession`, or the creation of a pusher by `NewPusher`. -/
inductive CacheOp where
  | pump (pusher : PusherRef) (pack : Option RTPPack)
  | rebind (pusher : PusherRef) (session : SessRef)
  | newPusher (session : SessRef)
deriving DecidableEq

/-- The world after one such step (also when it panicked part-way). -/
def CacheOp.apply (env : Env) (w : World) : CacheOp → World
  | .pump p pack => (Pusher.Start_iter env w p pack).world
  | .rebind p s => (Pusher.RebindSession w p s).world
  | .newPusher s => (NewPusher w s).2

/-- The world after a sequence of such steps. -/
def CacheOp.run (env : Env) (w : World) (ops : List CacheOp) : World :=
  ops.foldl (CacheOp.apply env) w

/-- Every GOP cache holds at most `MAX_GOP_CACHE_LEN` packets. -/
def CacheBounded (w : World) : Prop :=
  ∀ q, (w.pushers q).gopCache.length ≤ MAX_GOP_CACHE_LEN

/-- The GOP cache after the cache update of one pump iteration, as a function of
the cache before, the packet and the inspector's verdict (pusher.go:354-361). -/
def gopCacheStep (cache : List RTPPack) (pack : RTPPack) (seqStart : Bool) : List RTPPack :=
  let c1 := if seqStart then [] else cache
  let c2 := if c1.length ≥ MAX_GOP_CACHE_LEN then [] else c1
  c2 ++ [pack]

/-- The GOP cache after a run of cache updates with the given verdicts. -/
def gopCacheRun : List RTPPack → List (RTPPack × Bool) → List RTPPack
  | cache, [] => cache
  | cache, (pack, seqStart) :: rest => gopCacheRun (gopCacheStep cache pack seqStart) rest

/-- The world inside `Pusher.RebindSession` after the new session has been bound
and the GOP cache cleared, just before the old session is stopped
(pusher.go:297-302). -/
def Pusher.RebindSession_bound (w : World) (pusher : PusherRef) (session : SessRef) : World :=
  let w1 := Pusher.bindSession w pusher session
  let w2 := w1.setSession session { w1.sessions session with Pusher := some pusher }
  w2.setPusher pusher { w2.pushers pusher with gopCache := [] }

/-- A call on the path registry. -/
inductive RegistryOp where
  | AddPusher (pusher : PusherRef)
  | RemovePusher (pusher : PusherRef)
  | TryAttachToPusher (session : SessRef)
deriving DecidableEq

/-- The world after one registry call (also when the call panicked part-way). -/
def RegistryOp.apply (w : World) : RegistryOp → World
  | .AddPusher p => (Server.AddPusher w p).world
  | .RemovePusher p => (Server.RemovePusher w p).world
  | .TryAttachToPusher s => (Server.TryAttachToPusher w s).world

/-- The world after a sequence of registry calls. -/
def RegistryOp.run (w : World) (ops : List RegistryOp) : World :=
  ops.foldl RegistryOp.apply w

/-- Every registry entry is stored under the key equal to its pusher's `Path()`. -/
def RegistryKeyed (w : World) : Prop :=
  ∀ k p, w.server.pushers.get k = some p → Pusher.Path w p = some k

/-- A stop closure may write the pusher `q`: a `bindSession` closure that captures
`q` together with its current session, or a player's closure on `q`. -/
def StopHandle.touches (w : World) (q : PusherRef) : StopHandle → Prop
  | .bindSession s q' => q' = q ∧ (w.pushers q).Session = some s
  | .newPlayer q' _ => q' = q

/-- A stop closure does not panic for lack of a source: the pusher of a
`bindSession` closure has a session, the pusher of a player's closure has a source. -/
def StopHandle.safe (w : World) : StopHandle → Prop
  | .bindSession _ q => (w.pushers q).Session ≠ none
  | .newPlayer q _ => Pusher.Logger w q = some ()

/-- What running the stop closures `hs` may change between `w` and `w'`: no
session, player or client; of a pusher only `players` and `UDPServer`, and only
when one of the closures may write it; of the registry only entries under the
path of a session captured with its pusher, when the entry carries that
session's ID. -/
structure HooksFrame (hs : List StopHandle) (w w' : World) : Prop where
  sessions : w'.sessions = w.sessions
  players : w'.players = w.players
  clients : w'.clients = w.clients
  multicasts : w'.multicasts = w.multicasts
  nextPusher : w'.nextPusher = w.nextPusher
  pSession : ∀ q, (w'.pushers q).Session = (w.pushers q).Session
  pRTSPClient : ∀ q, (w'.pushers q).RTSPClient = (w.pushers q).RTSPClient
  pMulticastClient : ∀ q, (w'.pushers q).MulticastClient = (w.pushers q).MulticastClient
  pGopCacheEnable : ∀ q, (w'.pushers q).gopCacheEnable = (w.pushers q).gopCacheEnable
  pGopCache : ∀ q, (w'.pushers q).gopCache = (w.pushers q).gopCache
  pSpspps : ∀ q, (w'.pushers q).spsppsInSTAPaPack = (w.pushers q).spsppsInSTAPaPack
  pusherSame : ∀ q, (∀ h, h ∈ hs → ¬ h.touches w q) → w'.pushers q = w.pushers q
  regSub : ∀ k r, w'.server.pushers.get k = some r → w.server.pushers.get k = some r
  regKeep : ∀ k r, w.server.pushers.get k = some r →
    (∀ s q, StopHandle.bindSession s q ∈ hs → (w.pushers q).Session = some s →
      (w.sessions s).Path = k → Pusher.ID w r ≠ some (w.sessions s).ID) →
    w'.server.pushers.get k = some r

/-- The packets that `Pusher.AddPlayer` hands to the player's `QueueRTP`: what the
call appended to the record of the player's `QueueRTP` calls. -/
def Pusher.AddPlayer_primed (w : World) (pusher : PusherRef) (player : PlayerRef) : List RTPPack :=
  ((Pusher.AddPlayer w pusher player).world.players player).queued.drop
    (w.players player).queued.length

/-- Keyframe-first delivery as claimed, for a pump run of `pusher` from `w` over
`queue` followed by the addition of `player`: the first primed packet, if any, is
one of the processed packets and the inspector reported a sequence start for it. -/
def KeyframeFirst (env : Env) (w : World) (pusher : PusherRef) (player : PlayerRef)
    (queue : List (Option RTPPack)) : Prop :=
  ∀ (evs : List PumpEvent) (c : RTPPack) (rest : List RTPPack),
    (Pusher.Start env w pusher queue).result = some evs →
    Pusher.AddPlayer_primed (Pusher.Start env w pusher queue).world pusher player = c :: rest →
    ∃ (i : Nat) (ev : PumpEvent),
      queue[i]? = some (some c) ∧ evs[i]? = some ev ∧ ev.seqStart = true

/-- The video packets among the queue items that the pump processed, in arrival
order, each with what its iteration decided; `evs` holds one entry for each
iteration that ran. -/
def processedVideo (queue : List (Option RTPPack)) (evs : List PumpEvent) :
    List (RTPPack × PumpEvent) :=
  (queue.zip evs).filterMap fun x =>
    match x.1 with
    | some pk => if pk.Type_ = RTP_TYPE_VIDEO then some (pk, x.2) else none
    | none => none

/-- The cache `c'` is what the cache updates of the pump (pusher.go:354-361) make
of the cache `c` over the video packets `pv`, the recorded verdicts being those of
the updates. -/
def cacheTrace (c : List RTPPack) : List (RTPPack × PumpEvent) → List RTPPack → Prop
  | [], c' => c' = c
  | e :: rest, c' =>
    e.2.atCapacity = decide (e.2.seqStart = false ∧ c.length ≥ MAX_GOP_CACHE_LEN) ∧
    cacheTrace (gopCacheStep c e.1 e.2.seqStart) rest c'

/-! ## Example worlds -/

/-- Two live sessions `0` ("A") and `1` ("B") announcing `/live/x`; pusher `0`
is bound to session `0` and not yet registered. -/
def exWorld : World :=
  { sessions := Function.update (Function.update (fun _ => {}) 0
        { ID := "A", Path := "/live/x", StopHandles := [StopHandle.bindSession 0 0],
          RTPHandles := [RTPHandle.bindSession 0 0], Pusher := some 0 })
        1 { ID := "B", Path := "/live/x" }
    pushers := Function.update (fun _ => {}) 0 { Session := some 0, gopCacheEnable := true }
    nextPusher := 1 }

/-- The world `exWorld` after pusher `0` has been registered. -/
def exWorldRegistered : World := (Server.AddPusher exWorld 0).world

/-- Modelled from the spec: `ParseRTP` (rtp-parser.go is not among the sources),
section 4.6: the version must equal 2 and the payload starts at offset
`12 + 4*CC + (extension ? 4 + 4*ext_len : 0)`; a buffer shorter than that gives nil. -/
def ParseRTP (b : List Nat) : Option RTPInfo :=
  match b[0]? with
  | none => none
  | some first =>
    if first >>> 6 ≠ 2 then none
    else
      let cc := first &&& 0x0f
      let ext : Option Nat :=
        if (first >>> 4) &&& 1 = 1 then
          match b[12 + 4 * cc + 2]?, b[12 + 4 * cc + 3]? with
          | some hi, some lo => some (4 + 4 * ((hi <<< 8) ||| lo))
          | _, _ => none
        else some 0
      match ext with
      | none => none
      | some e =>
        if b.length < 12 + 4 * cc + e then none
        else some { Payload := b.drop (12 + 4 * cc + e) }

/-- The environment with the `ParseRTP` of the spec. -/
def exEnv : Env := { ParseRTP := ParseRTP }

/-- A 12-byte RTP header: version 2, no CSRC, no extension, payload type 96. -/
def exHeader : List Nat := [0x80, 96, 0, 1, 0, 0, 0, 0, 0, 0, 0, 0]

/-- A video packet carrying a single H.264 IDR slice (NAL unit type 5), numbered `n`. -/
def exKey (n : Nat) : RTPPack := { Type_ := RTP_TYPE_VIDEO, Buffer := exHeader ++ [0x65, n] }

/-- A video packet carrying a single H.264 non-IDR slice (NAL unit type 1), numbered `n`. -/
def exNonKey (n : Nat) : RTPPack := { Type_ := RTP_TYPE_VIDEO, Buffer := exHeader ++ [0x41, n] }

/-- A publisher session `0` with H.264 video and its pusher `0` with the GOP cache
enabled and empty; player `1` has ID "P" and is not attached. -/
def exPumpWorld : World :=
  { sessions := Function.update (fun _ => {}) 0
      { ID := "A", Path := "/live/x", VCodec := "H264", Pusher := some 0,
        StopHandles := [StopHandle.bindSession 0 0], RTPHandles := [RTPHandle.bindSession 0 0] }
    pushers := Function.update (fun _ => {}) 0 { Session := some 0, gopCacheEnable := true }
    players := Function.update (fun _ => {}) 1 { ID := "P" }
    nextPusher := 1
    nextPlayer := 2 }

/-- The stream of scenario 2 of the spec cut after packet 180: video packets
numbered 0..180 with keyframes at 0 and 120. -/
def exStream : List RTPPack :=
  (List.range 181).map fun n => if n = 0 ∨ n = 120 then exKey n else exNonKey n

/-- An audio packet numbered `n`. -/
def exSound (n : Nat) : RTPPack := { Type_ := RTP_TYPE_AUDIO, Buffer := exHeader ++ [0, n] }

/-- A queue in which the first video packet is not a keyframe: a non-keyframe, an
audio packet, a keyframe and a non-keyframe. -/
def exLateKey : List (Option RTPPack) :=
  [some (exNonKey 0), some (exSound 1), some (exKey 2), some (exNonKey 3)]

/-- The verdicts of the pump on `exLateKey`: a sequence start at the keyframe. -/
def exLateKeyEvents : List PumpEvent :=
  [{ seqStart := false, atCapacity := false }, { seqStart := false, atCapacity := false },
    { seqStart := true, atCapacity := false }, { seqStart := false, atCapacity := false }]

/-- A player session `0` on TCP with audio on channels 2/3 and video on channels 0/1. -/
def exPlayerWorld : World :=
  { sessions := Function.update (fun _ => {}) 0
      { ID := "P", Type_ := SESSEION_TYPE_PLAYER, Path := "/live/x",
        aRTPChannel := 2, aRTPControlChannel := 3, vRTPChannel := 0, vRTPControlChannel := 1 } }

/-- A call of `UDPClient.SendRTP` that succeeds without touching the model. -/
def exUdpSendRTP (w : World) (_ : SessRef) (_ : RTPPack) : Res (Option String) := .ok none w

/-- An environment whose URL parser takes the text after `rtsp://h` as the path. -/
def exReqEnv : Env :=
  { ParseRTP := ParseRTP
    url_Parse := fun u => some { Scheme := "rtsp", Host := "h", Path := ⟨u.data.drop 8⟩ } }

/-- The request `ANNOUNCE rtsp://h/live/x` with CSeq 2. -/
def exAnnounce : Request :=
  { Method := "ANNOUNCE", URL := "rtsp://h/live/x", Header := GoMap.empty.set "CSeq" "2",
    Body := "v=0" }

/-- Session `0` ("A") publishes `/live/x` through pusher `0`, which is registered;
session `1` ("B") is new.  `close_old` is off. -/
def exAnnounceWorld : World :=
  { server := { pushers := ⟨[("/live/x", 0)]⟩ }
    sessions := Function.update (Function.update (fun _ => {}) 0
        { ID := "A", Path := "/live/x", Type_ := SESSION_TYPE_PUSHER, Pusher := some 0,
          StopHandles := [StopHandle.bindSession 0 0],
          RTPHandles := [RTPHandle.bindSession 0 0] })
        1 { ID := "B" }
    pushers := Function.update (fun _ => {}) 0 { Session := some 0, gopCacheEnable := true }
    nextPusher := 1 }

/-- `/live/c` is published by the client-backed pusher `0` (pulled from a remote
server by client `0`); session `1` ("B") is new and has `close_old` on. -/
def exClientWorld : World :=
  { server := { pushers := ⟨[("/live/c", 0)]⟩, closeOld := true }
    sessions := Function.update (fun _ => {}) 1 { ID := "B", closeOld := true }
    clients := Function.update (fun _ => {}) 0 { ID := "C", Path := "/live/c" }
    pushers := Function.update (fun _ => {}) 0 { RTSPClient := some 0, gopCacheEnable := true }
    nextPusher := 1 }

/-- The request `ANNOUNCE rtsp://h/live/c` with CSeq 2. -/
def exAnnounceClient : Request :=
  { Method := "ANNOUNCE", URL := "rtsp://h/live/c", Header := GoMap.empty.set "CSeq" "2",
    Body := "v=0" }

/-- The verdicts of the pump on `exStream`: a sequence start at 0 and at 120. -/
def exEvents : List PumpEvent :=
  (List.range 181).map fun n => { seqStart := decide (n = 0 ∨ n = 120), atCapacity := false }

/-- An environment for `SETUP`: the URL parser takes the text after `rtsp://h` as
the path, no URL has a port, and a URL is printed as scheme, host and path. -/
def exSetupEnv : Env :=
  { url_Parse := fun u => some { Scheme := "rtsp", Host := "h", Path := ⟨u.data.drop 8⟩ }
    url_Port := fun _ => ""
    url_String := fun u => u.Scheme ++ "://" ++ u.Host ++ u.Path }

/-- Publisher session `0` ("A") has announced `/live/x` with the audio control
`streamid=0` and the video control `streamid=1`; its pusher `0` is registered. -/
def exSetupWorld : World :=
  { server := { pushers := ⟨[("/live/x", 0)]⟩ }
    sessions := Function.update (fun _ => {}) 0
      { ID := "A", Path := "/live/x", Type_ := SESSION_TYPE_PUSHER, Pusher := some 0,
        AControl := "streamid=0", VControl := "streamid=1",
        StopHandles := [StopHandle.bindSession 0 0],
        RTPHandles := [RTPHandle.bindSession 0 0] }
    pushers := Function.update (fun _ => {}) 0 { Session := some 0, gopCacheEnable := true }
    nextPusher := 1 }

/-- The request `SETUP rtsp://h/live/x/streamid=9` over UDP. -/
def exSetupUdpUnknown : Request :=
  { Method := "SETUP", URL := "rtsp://h/live/x/streamid=9",
    Header := (GoMap.empty.set "CSeq" "3").set "Transport" "RTP/AVP;unicast;client_port=5000-5001" }

/-- The request `SETUP rtsp://h/live/x/streamid=9` over TCP. -/
def exSetupTcpUnknown : Request :=
  { Method := "SETUP", URL := "rtsp://h/live/x/streamid=9",
    Header := (GoMap.empty.set "CSeq" "3").set "Transport" "RTP/AVP/TCP;unicast;interleaved=0-1" }

/-- The claim of state preservation on an authentication failure, for one request:
the response is 401 with a `WWW-Authenticate` challenge, and the session's role,
path, stopped flag and interleaved channels and the players of its pusher are what
they were before the request. -/
def AuthFailurePreserves (env : Env) (w : World) (session : SessRef) (req : Request) : Prop :=
  ∃ (res : Response) (w' : World), Session.handleRequest env w session req = Res.ok res w' ∧
    res.StatusCode = 401 ∧ res.Header.get "WWW-Authenticate" ≠ none ∧
    (w'.sessions session).Type_ = (w.sessions session).Type_ ∧
    (w'.sessions session).Path = (w.sessions session).Path ∧
    (w'.sessions session).Stoped = (w.sessions session).Stoped ∧
    (w'.sessions session).aRTPChannel = (w.sessions session).aRTPChannel ∧
    (w'.sessions session).aRTPControlChannel = (w.sessions session).aRTPControlChannel ∧
    (w'.sessions session).vRTPChannel = (w.sessions session).vRTPChannel ∧
    (w'.sessions session).vRTPControlChannel = (w.sessions session).vRTPControlChannel ∧
    ∀ P, (w.sessions session).Pusher = some P → (w'.pushers P).players = (w.pushers P).players

/-- Local authorization is on.  Publisher session `0` ("A") has announced
`/live/x`, its pusher `0` is registered; session `1` ("B") has no role yet;
session `2` ("V") is a player of pusher `0` that has not sent `PLAY` yet. -/
def exAuthWorld : World :=
  { server := { pushers := ⟨[("/live/x", 0)]⟩ }
    sessions := Function.update (Function.update (Function.update (fun _ => {}) 0
        { ID := "A", Path := "/live/x", Type_ := SESSION_TYPE_PUSHER, Pusher := some 0,
          localAuthorizationEnable := true,
          StopHandles := [StopHandle.bindSession 0 0],
          RTPHandles := [RTPHandle.bindSession 0 0] })
        1 { ID := "B", localAuthorizationEnable := true })
        2 { ID := "V", Path := "/live/x", Type_ := SESSEION_TYPE_PLAYER, Pusher := some 0,
            Player := some 0, localAuthorizationEnable := true,
            StopHandles := [StopHandle.newPlayer 0 0] }
    pushers := Function.update (fun _ => {}) 0 { Session := some 0, gopCacheEnable := true }
    players := Function.update (fun _ => {}) 0 { ID := "V" }
    nextPusher := 1
    nextPlayer := 1 }

/-- The request `TEARDOWN rtsp://h/live/x` without an `Authorization` line. -/
def exTeardown : Request :=
  { Method := "TEARDOWN", URL := "rtsp://h/live/x", Header := GoMap.empty.set "CSeq" "5" }

/-- The request `PLAY rtsp://h/live/x` without an `Authorization` line. -/
def exPlay : Request :=
  { Method := "PLAY", URL := "rtsp://h/live/x", Header := GoMap.empty.set "CSeq" "5" }

/-- The request `SETUP rtsp://h/live/x/streamid=0` over TCP without an
`Authorization` line. -/
def exSetupNoAuth : Request :=
  { Method := "SETUP", URL := "rtsp://h/live/x/streamid=0",
    Header := (GoMap.empty.set "CSeq" "1").set "Transport" "RTP/AVP/TCP;unicast;interleaved=0-1" }

/-- The same `SETUP` with an `Authorization` line. -/
def exSetupAuth : Request :=
  { exSetupNoAuth with Header := exSetupNoAuth.Header.set "Authorization" "Basic QTpC" }

/-- The world in which the body of `handleRequest` ended. -/
def Handled.world : Handled → World
  | .done _ w => w
  | .panic _ w => w

/-- The world in which a part of the `SETUP` case ended, whether it returned from
`handleRequest` or went on. -/
def Handled.worldOr : Handled ⊕ (String × World) → World
  | .inl h => h.world
  | .inr r => r.2

/-- The response and the world with which the deferred function of
`handleRequest` goes on after its `recover()` (rtsp-session.go:343-347): those of
the body, the status being 500 when the body panicked. -/
def Session.handleRequest_outcome (env : Env) (w : World) (session : SessRef) (req : Request) :
    Response × World :=
  match Session.handleRequest_body env w session req
      (NewResponse 200 "OK" (req.Header.index "CSeq") (w.sessions session).ID "") with
  | .done res1 w1 => (res1, w1)
  | .panic res1 w1 =>
    ({ res1 with StatusCode := 500, Status := "Inner Server Error, " ++ env.panicText }, w1)

/-- No session has changed its role between `w` and `w'`. -/
def World.sameRole (w w' : World) : Prop :=
  ∀ t, (w'.sessions t).Type_ = (w.sessions t).Type_

/-- The loop `for _, h := range session.StopHandles { h() }` with the record of the
closures it invoked, in order (a closure that panicked included). -/
def StopHandle.callAll_traced (w : World) : List StopHandle → List StopHandle × Res Unit
  | [] => ([], .ok () w)
  | h :: rest =>
    match h.call w with
    | .ok _ w1 => (h :: (StopHandle.callAll_traced w1 rest).1, (StopHandle.callAll_traced w1 rest).2)
    | .panic w1 => ([h], .panic w1)

/-- `Session.Stop` (rtsp-session.go:181) with the record of the stop closures that
the call invoked. -/
def Session.Stop_traced (w : World) (session : SessRef) : List StopHandle × Res Unit :=
  if (w.sessions session).Stoped then ([], .ok () w)
  else
    let w1 := w.setSession session { w.sessions session with Stoped := true }
    ((StopHandle.callAll_traced w1 (w1.sessions session).StopHandles).1,
      (StopHandle.callAll_traced w1 (w1.sessions session).StopHandles).2.bind fun _ w2 =>
        let w3 :=
          match (w2.sessions session).Conn with
          | some _ => w2.setSession session { w2.sessions session with Conn := none }
          | none => w2
        let w4 :=
          match (w3.sessions session).UDPClient with
          | some _ => w3.setSession session { w3.sessions session with UDPClient := none }
          | none => w3
        .ok () w4)

/-- `n` calls of `Session.Stop` on a session, one after the other: the stop
closures invoked by all of them, in order, and the world at the end. -/
def Session.Stop_times (w : World) (session : SessRef) : Nat → List StopHandle × World
  | 0 => ([], w)
  | n + 1 =>
    ((Session.Stop_traced w session).1 ++
        (Session.Stop_times (Session.Stop_traced w session).2.world session n).1,
      (Session.Stop_times (Session.Stop_traced w session).2.world session n).2)

/-- The requests of a session handled in order, as `startRequestHandler`
(rtsp-session.go:211) hands them to `handleRequest` while the session is not
stopped; a panic that leaves `handleRequest` ends the handling.  The result is the
world at the end. -/
def Session.handleRequests (env : Env) (w : World) (session : SessRef) : List Request → World
  | [] => w
  | req :: rest =>
    if (w.sessions session).Stoped then w
    else
      match Session.handleRequest env w session req with
      | .ok _ w1 => Session.handleRequests env w1 session rest
      | .panic w1 => w1

/-- The claim that a role is set at most once, for the requests `reqs` handled by
`session` from `w`: once the role is Pusher or Player after some of the requests,
it is the same after all of them. -/
def RoleSetOnce (env : Env) (w : World) (session : SessRef) (reqs : List Request) : Prop :=
  ∀ (pre post : List Request), reqs = pre ++ post →
    (((Session.handleRequests env w session pre).sessions session).Type_ = SESSION_TYPE_PUSHER ∨
      ((Session.handleRequests env w session pre).sessions session).Type_
        = SESSEION_TYPE_PLAYER) →
    ((Session.handleRequests env w session reqs).sessions session).Type_
      = ((Session.handleRequests env w session pre).sessions session).Type_

/-- The channel numbers `a`, `ac`, `v`, `vc` (audio media, audio control, video
media, video control) that are bound, that is non-negative, are pairwise distinct. -/
def ChannelsDistinct (a ac v vc : Int) : Prop :=
  (0 ≤ a → a ≠ ac ∧ a ≠ v ∧ a ≠ vc) ∧ (0 ≤ ac → ac ≠ v ∧ ac ≠ vc) ∧ (0 ≤ v → v ≠ vc)

/-- The bound channels of a session are pairwise distinct. -/
def Session.channelsDistinct (x : Session) : Prop :=
  ChannelsDistinct x.aRTPChannel x.aRTPControlChannel x.vRTPChannel x.vRTPControlChannel

instance (a ac v vc : Int) : Decidable (ChannelsDistinct a ac v vc) := by
  unfold ChannelsDistinct; infer_instance

instance (x : Session) : Decidable x.channelsDistinct := by
  unfold Session.channelsDistinct; infer_instance

/-- Session `1` ("B") has no connection; `/live/x` is free. -/
def exNoConnWorld : World :=
  { sessions := Function.update (fun _ => {}) 1 { ID := "B", Conn := none } }

/-- Two new sessions `0` ("A") and `1` ("B"); no path is published. -/
def exFreshWorld : World :=
  { sessions := Function.update (Function.update (fun _ => {}) 0 { ID := "A" }) 1 { ID := "B" } }

/-- The request `DESCRIBE rtsp://h/live/x` with CSeq 3. -/
def exDescribe : Request :=
  { Method := "DESCRIBE", URL := "rtsp://h/live/x", Header := GoMap.empty.set "CSeq" "3" }

/-- The request `RECORD rtsp://h/live/x` with CSeq 4. -/
def exRecord : Request :=
  { Method := "RECORD", URL := "rtsp://h/live/x", Header := GoMap.empty.set "CSeq" "4" }

/-- The four interleaved channels of a session: audio media, audio control, video
media, video control. -/
def Session.channels (x : Session) : Int × Int × Int × Int :=
  (x.aRTPChannel, x.aRTPControlChannel, x.vRTPChannel, x.vRTPControlChannel)

/-- The request `SETUP rtsp://h/live/x/streamid=1` over TCP with the channels 0-1. -/
def exSetupVideo : Request :=
  { Method := "SETUP", URL := "rtsp://h/live/x/streamid=1",
    Header := (GoMap.empty.set "CSeq" "2").set "Transport" "RTP/AVP/TCP;unicast;interleaved=0-1" }

/-- The request `SETUP rtsp://h/live/x/streamid=1` over TCP with the channels 2-3. -/
def exSetupVideo23 : Request :=
  { Method := "SETUP", URL := "rtsp://h/live/x/streamid=1",
    Header := (GoMap.empty.set "CSeq" "2").set "Transport" "RTP/AVP/TCP;unicast;interleaved=2-3" }

/-- The session `y` is the session `x` but for the fields that binding a pusher,
stopping the session and writing a response assign: `Stoped`, `Conn`, `UDPClient`,
`Pusher`, `RTPHandles`, `StopHandles`, `connRW` and `OutBytes`. -/
def Session.rebound (x y : Session) : Prop :=
  ∃ (st : Bool) (c : Option Int) (u : Option rtsp.UDPClient) (p : Option PusherRef)
    (rh : List RTPHandle) (sh : List StopHandle) (rw : List Nat) (ob : Int),
    y = { x with
      Stoped := st, Conn := c, UDPClient := u, Pusher := p, RTPHandles := rh,
      StopHandles := sh, connRW := rw, OutBytes := ob }

/-- Every session of `w'` is the session of `w` but for the fields of
`Session.rebound`. -/
def World.rebound (w w' : World) : Prop :=
  ∀ t, (w.sessions t).rebound (w'.sessions t)

/-- An environment like `exReqEnv` whose SDP parser finds an AAC audio track with
the control `streamid=0` and an H.264 video track with the control `streamid=1`. -/
def exSdpEnv : Env :=
  { exReqEnv with
    ParseSDP := fun _ =>
      (GoMap.empty.set "audio" { Control := "streamid=0", Codec := "aac" }).set "video"
        { Control := "streamid=1", Codec := "h264" } }

/-- A STAP-A payload (RFC 6184, 5.7.1): the STAP-A NAL header `hdr`, then each
aggregated NAL unit after its 16-bit big-endian size. -/
def stapA (hdr : Nat) (nals : List (List Nat)) : List Nat :=
  hdr :: (nals.map fun nal => PutUint16 nal.length ++ nal).flatten

/-- The claim of STAP-A priming for the inspection of the payload `stap` and then
of the payload `idr` by `pusher`, from `w`: the first inspection sets the
`spsppsInSTAPaPack` flag and the second reports no sequence start. -/
def StapPriming (w : World) (pusher : PusherRef) (stap idr : List Nat) : Prop :=
  ∃ (r : Bool) (w1 : World),
    Pusher.shouldSequenceStart w pusher { Payload := stap } = Res.ok r w1 ∧
    (w1.pushers pusher).spsppsInSTAPaPack = true ∧
    (Pusher.shouldSequenceStart w1 pusher { Payload := idr }).result = some false

/-- An SPS of 3 bytes, a PPS of 2 bytes and an IDR slice of 4 bytes (NAL unit
types 7, 8 and 5). -/
def exSPS : List Nat := [0x67, 0x42, 0x00]
def exPPS : List Nat := [0x68, 0xce]
def exIDR : List Nat := [0x65, 0x88, 0x84, 0x00]

/-- A publisher session `0` with H.265 video and its pusher `0`. -/
def exHevcWorld : World :=
  { sessions := Function.update (fun _ => {}) 0
      { ID := "A", Path := "/live/x", VCodec := "H265", Pusher := some 0,
        StopHandles := [StopHandle.bindSession 0 0], RTPHandles := [RTPHandle.bindSession 0 0] }
    pushers := Function.update (fun _ => {}) 0 { Session := some 0, gopCacheEnable := true }
    nextPusher := 1 }

/-- An H.265 single NAL unit payload: an IDR_W_RADL slice (NAL unit type 19, layer
0, temporal ID 1) with one byte of data. -/
def exHevcIDR : List Nat := [0x26, 0x01, 0xaf]

/-- The rule of the specification for the track of a `SETUP`: the normalized URL
equals the control string, or ends with `/` followed by the control string. -/
def specMatchesControl (setupPath control : String) : Bool :=
  decide (setupPath = control) || ("/" ++ control).data.isSuffixOf setupPath.data

/-- The claim of track matching for one `SETUP` with an `interleaved` transport:
the audio channels of the session hold the numbers of the request exactly when the
normalized URL and the audio control satisfy the rule of the specification, and,
when they do not, the video channels hold them exactly when the URL and the video
control satisfy it. -/
def TrackMatching (env : Env) (w : World) (session : SessRef) (req : Request) : Prop :=
  ∀ (setupUrl : URL) (tcpMatchs : List String),
    env.url_Parse req.URL = some setupUrl →
    FindStringSubmatch "interleaved=".data (req.Header.index "Transport").data
      = some tcpMatchs →
    ((((Session.handleRequest env w session req).world.sessions session).aRTPChannel
          = Atoi (tcpMatchs.getD 1 "") ∧
        ((Session.handleRequest env w session req).world.sessions session).aRTPControlChannel
          = Atoi (tcpMatchs.getD 3 "")) ↔
      specMatchesControl
        (env.url_String
          (if env.url_Port setupUrl = "" then { setupUrl with Host := setupUrl.Host ++ ":554" }
            else setupUrl))
        (w.sessions session).AControl = true) ∧
    (specMatchesControl
        (env.url_String
          (if env.url_Port setupUrl = "" then { setupUrl with Host := setupUrl.Host ++ ":554" }
            else setupUrl))
        (w.sessions session).AControl = false →
      ((((Session.handleRequest env w session req).world.sessions session).vRTPChannel
            = Atoi (tcpMatchs.getD 1 "") ∧
          ((Session.handleRequest env w session req).world.sessions session).vRTPControlChannel
            = Atoi (tcpMatchs.getD 3 "")) ↔
        specMatchesControl
          (env.url_String
            (if env.url_Port setupUrl = "" then { setupUrl with Host := setupUrl.Host ++ ":554" }
              else setupUrl))
          (w.sessions session).VControl = true))

/-- An environment for `SETUP` whose URLs may have a query: the URL parser takes
the text after `rtsp://h` up to a `?` as the path and the text after the `?` as the
query, no URL has a port, and a URL is printed as scheme, host, path and, after a
`?`, the query if there is one. -/
def exQueryEnv : Env :=
  { url_Parse := fun u =>
      some
        { Scheme := "rtsp", Host := "h"
          Path := ⟨(u.data.drop 8).takeWhile fun c => c ≠ '?'⟩
          RawQuery := ⟨((u.data.drop 8).dropWhile fun c => c ≠ '?').drop 1⟩ }
    url_Port := fun _ => ""
    url_String := fun u =>
      u.Scheme ++ "://" ++ u.Host ++ u.Path ++ (if u.RawQuery = "" then "" else "?" ++ u.RawQuery) }

/-- Publisher session `0` ("A") has announced `/live/x` with the audio control
`?ctype=audio` and the video control `?ctype=video` (the third form of a control
in the comment at rtsp-session.go:554-560); its pusher `0` is registered. -/
def exQueryWorld : World :=
  { server := { pushers := ⟨[("/live/x", 0)]⟩ }
    sessions := Function.update (fun _ => {}) 0
      { ID := "A", Path := "/live/x", Type_ := SESSION_TYPE_PUSHER, Pusher := some 0,
        AControl := "?ctype=audio", VControl := "?ctype=video",
        StopHandles := [StopHandle.bindSession 0 0],
        RTPHandles := [RTPHandle.bindSession 0 0] }
    pushers := Function.update (fun _ => {}) 0 { Session := some 0, gopCacheEnable := true }
    nextPusher := 1 }

/-- The request `SETUP rtsp://h/live/x?ctype=audio` over TCP with the channels 0-1. -/
def exSetupQuery : Request :=
  { Method := "SETUP", URL := "rtsp://h/live/x?ctype=audio",
    Header := (GoMap.empty.set "CSeq" "1").set "Transport" "RTP/AVP/TCP;unicast;interleaved=0-1" }

/-- Publisher session `0` ("A") has announced `/live/x` with the audio control
`audio/streamid=0`, of 16 bytes, and the video control `video/streamid=1`; its
pusher `0` is registered. -/
def exLongControlWorld : World :=
  { server := { pushers := ⟨[("/live/x", 0)]⟩ }
    sessions := Function.update (fun _ => {}) 0
      { ID := "A", Path := "/live/x", Type_ := SESSION_TYPE_PUSHER, Pusher := some 0,
        AControl := "audio/streamid=0", VControl := "video/streamid=1",
        StopHandles := [StopHandle.bindSession 0 0],
        RTPHandles := [RTPHandle.bindSession 0 0] }
    pushers := Function.update (fun _ => {}) 0 { Session := some 0, gopCacheEnable := true }
    nextPusher := 1 }

/-- The request `SETUP rtsp://h/ab` over TCP with the channels 0-1; its normalized
URL `rtsp://h:554/ab` has 15 bytes. -/
def exSetupShort : Request :=
  { Method := "SETUP", URL := "rtsp://h/ab",
    Header := (GoMap.empty.set "CSeq" "1").set "Transport" "RTP/AVP/TCP;unicast;interleaved=0-1" }

/-- The characters of `strings.Join(fields, ";")`, given the characters of the
fields. -/
def joinChars : List (List Char) → List Char
  | [] => []
  | [a] => a
  | a :: b :: rest => a ++ ';' :: joinChars (b :: rest)

/-- An environment like `exSetupEnv` whose UDP server gets the ports 6000-6001 for
audio and 6002-6003 for video. -/
def exUdpEnv : Env :=
  { exSetupEnv with
    UDPServer_SetupAudio := fun u => .ok { u with APort := 6000, AControlPort := 6001 }
    UDPServer_SetupVideo := fun u => .ok { u with VPort := 6002, VControlPort := 6003 } }

/-- The request `SETUP rtsp://h/live/x/streamid=0` over UDP with the client ports
5000-5001. -/
def exSetupUdp : Request :=
  { Method := "SETUP", URL := "rtsp://h/live/x/streamid=0",
    Header := (GoMap.empty.set "CSeq" "3").set "Transport"
      "RTP/AVP/UDP;unicast;client_port=5000-5001;mode=record" }

/-- An environment like `exSetupEnv` whose UDP server cannot be set up for audio. -/
def exUdpFailEnv : Env :=
  { exSetupEnv with
    UDPServer_SetupAudio := fun _ => .error "listen udp :0: bind: address already in use" }

/-- The players map of `pusher` after the stop closures `hs` ran, when none of them
clears it: each closure of a player of `pusher` deleted the entry under the
player's ID (`Pusher.RemovePlayer`, which leaves an empty map as it is). -/
def StopHandle.detach (w : World) (pusher : PusherRef) :
    GoMap PlayerRef → List StopHandle → GoMap PlayerRef
  | players, [] => players
  | players, .newPlayer q pl :: rest =>
    if q = pusher then StopHandle.detach w pusher (players.delete (w.players pl).ID) rest
    else StopHandle.detach w pusher players rest
  | players, .bindSession _ _ :: rest => StopHandle.detach w pusher players rest

/-- The claim of takeover for the pusher `P` bound to the session `A` and the
session `B`: `P.RebindSession(B)` returns true, and afterwards `P`'s source session
is `B`, `B.Pusher` is `P`, `A` is stopped, `P`'s GOP cache is empty, `P`'s players
map is what it was, and `P` is still stored under every registry key it was stored
under. -/
def Takeover (w : World) (P : PusherRef) (A B : SessRef) : Prop :=
  ∃ w', Pusher.RebindSession w P B = Res.ok true w' ∧
    (w'.pushers P).Session = some B ∧
    (w'.sessions B).Pusher = some P ∧
    (w'.sessions A).Stoped = true ∧
    (w'.pushers P).gopCache = [] ∧
    (w'.pushers P).players = (w.pushers P).players ∧
    (∀ k, w.server.pushers.get k = some P → w'.server.pushers.get k = some P)

/-- Three new sessions `0` ("A"), `1` ("B") and `2` ("V"); no path is published. -/
def exThreeWorld : World :=
  { sessions := Function.update (Function.update (Function.update (fun _ => {}) 0 { ID := "A" })
      1 { ID := "B" }) 2 { ID := "V" } }

/-- The world that `exThreeWorld` becomes in the environment `exSdpEnv` when session
`0` ("A") sends `ANNOUNCE`, `DESCRIBE` and `PLAY` for `/live/x`, session `2` ("V")
sends `DESCRIBE` and `PLAY` for it, and the pump of the pusher then handles a
keyframe packet and another packet.  Session `0` is the source of the registered
pusher `0` and, with its player `0`, one of its players; session `2` is a player
with its player `1`; the two packets are in the GOP cache and were queued to both
players.  Session `1` ("B") is new. -/
def exTakeoverWorld : World :=
  { server := { pushers := ⟨[("/live/x", 0)]⟩ }
    sessions := Function.update (Function.update (Function.update (fun _ => {}) 0
        { ID := "A", Type_ := SESSEION_TYPE_PLAYER, Path := "/live/x", URL := "rtsp://h/live/x",
          SDPRaw := "v=0"
          SDPMap := ⟨[("video", { Control := "streamid=1", Codec := "h264" }),
            ("audio", { Control := "streamid=0", Codec := "aac" })]⟩
          AControl := "streamid=0", VControl := "streamid=1", ACodec := "aac", VCodec := "h264",
          OutBytes := 56, Pusher := some 0, Player := some 0,
          RTPHandles := [RTPHandle.bindSession 0 0],
          StopHandles := [StopHandle.bindSession 0 0, StopHandle.newPlayer 0 0] })
        1 { ID := "B" })
        2 { ID := "V", Type_ := SESSEION_TYPE_PLAYER, Path := "/live/x", URL := "rtsp://h/live/x",
            AControl := "streamid=0", VControl := "streamid=1", ACodec := "aac", VCodec := "h264",
            Pusher := some 0, Player := some 1, StopHandles := [StopHandle.newPlayer 0 1] }
    pushers := Function.update (fun _ => {}) 0
      { Session := some 0, players := ⟨[("V", 1), ("A", 0)]⟩, gopCacheEnable := true,
        gopCache := [exKey 0, exNonKey 1] }
    players := Function.update (Function.update (fun _ => {}) 0
        { ID := "A", queued := [exKey 0, exNonKey 1] })
        1 { ID := "V", queued := [exKey 0, exNonKey 1] }
    nextPusher := 1
    nextPlayer := 2 }

/-! ## Theorems -/

section GoMapLemmas

variable {β : Type}

theorem GoMap.lookup_filter_self (k : String) (l : List (String × β)) :
    GoMap.lookup k (l.filter (fun e => e.1 ≠ k)) = none := by
  induction l with
  | nil => rfl
  | cons e rest ih =>
    by_cases h : e.1 = k
    · rw [List.filter_cons_of_neg (by simpa using h)]; exact ih
    · rw [List.filter_cons_of_pos (by simpa using h)]
      simp only [GoMap.lookup, if_neg h]; exact ih

theorem GoMap.lookup_filter_of_ne (k k' : String) (hne : k' ≠ k) (l : List (String × β)) :
    GoMap.lookup k' (l.filter (fun e => e.1 ≠ k)) = GoMap.lookup k' l := by
  induction l with
  | nil => rfl
  | cons e rest ih =>
    by_cases h : e.1 = k
    · have h' : e.1 ≠ k' := fun h2 => hne (h2 ▸ h)
      rw [List.filter_cons_of_neg (by simpa using h)]
      simp only [GoMap.lookup, if_neg h']; exact ih
    · rw [List.filter_cons_of_pos (by simpa using h)]
      by_cases h2 : e.1 = k'
      · simp only [GoMap.lookup, if_pos h2]
      · simp only [GoMap.lookup, if_neg h2]; exact ih

@[simp] theorem GoMap.get_empty (k : String) : (GoMap.empty : GoMap β).get k = none := rfl

@[simp] theorem GoMap.get_set_self (m : GoMap β) (k : String) (v : β) :
    (m.set k v).get k = some v := by
  simp [GoMap.set, GoMap.get, GoMap.lookup]

@[simp] theorem GoMap.get_delete_self (m : GoMap β) (k : String) :
    (m.delete k).get k = none :=
  GoMap.lookup_filter_self k m.entries

theorem GoMap.get_delete_of_ne (m : GoMap β) (k k' : String) (hne : k' ≠ k) :
    (m.delete k).get k' = m.get k' :=
  GoMap.lookup_filter_of_ne k k' hne m.entries

theorem GoMap.get_set_of_ne (m : GoMap β) (k k' : String) (v : β) (hne : k' ≠ k) :
    (m.set k v).get k' = m.get k' := by
  have h : k ≠ k' := fun h => hne h.symm
  show GoMap.lookup k' ((k, v) :: (m.delete k).entries) = m.get k'
  simp only [GoMap.lookup, if_neg h]
  exact GoMap.get_delete_of_ne m k k' hne

theorem GoMap.get_delete_eq_some (m : GoMap β) (k k' : String) (v : β)
    (h : (m.delete k).get k' = some v) : k' ≠ k ∧ m.get k' = some v := by
  by_cases hk : k' = k
  · subst hk; simp at h
  · exact ⟨hk, by rwa [GoMap.get_delete_of_ne m k k' hk] at h⟩

end GoMapLemmas

/-! ### Frame lemmas for the stop closures -/

theorem Pusher.Path_congr (w w' : World)
    (hS : ∀ q, (w'.pushers q).Session = (w.pushers q).Session)
    (hC : ∀ q, (w'.pushers q).RTSPClient = (w.pushers q).RTSPClient)
    (hM : ∀ q, (w'.pushers q).MulticastClient = (w.pushers q).MulticastClient)
    (hP : ∀ s, (w'.sessions s).Path = (w.sessions s).Path)
    (hc : w'.clients = w.clients) (hm : w'.multicasts = w.multicasts) (q : PusherRef) :
    Pusher.Path w' q = Pusher.Path w q := by
  simp only [Pusher.Path, hS, hC, hM, hP, hc, hm]

theorem Pusher.ID_congr (w w' : World)
    (hS : ∀ q, (w'.pushers q).Session = (w.pushers q).Session)
    (hC : ∀ q, (w'.pushers q).RTSPClient = (w.pushers q).RTSPClient)
    (hM : ∀ q, (w'.pushers q).MulticastClient = (w.pushers q).MulticastClient)
    (hP : ∀ s, (w'.sessions s).ID = (w.sessions s).ID)
    (hc : w'.clients = w.clients) (hm : w'.multicasts = w.multicasts) (q : PusherRef) :
    Pusher.ID w' q = Pusher.ID w q := by
  simp only [Pusher.ID, hS, hC, hM, hP, hc, hm]

theorem HooksFrame.path {hs : List StopHandle} {w w' : World} (h : HooksFrame hs w w')
    (q : PusherRef) : Pusher.Path w' q = Pusher.Path w q :=
  Pusher.Path_congr w w' h.pSession h.pRTSPClient h.pMulticastClient
    (fun s => by rw [h.sessions]) h.clients h.multicasts q

theorem HooksFrame.id {hs : List StopHandle} {w w' : World} (h : HooksFrame hs w w')
    (q : PusherRef) : Pusher.ID w' q = Pusher.ID w q :=
  Pusher.ID_congr w w' h.pSession h.pRTSPClient h.pMulticastClient
    (fun s => by rw [h.sessions]) h.clients h.multicasts q

theorem StopHandle.touches_congr (w w' : World) (q : PusherRef) (h : StopHandle)
    (hS : (w'.pushers q).Session = (w.pushers q).Session) :
    h.touches w' q ↔ h.touches w q := by
  cases h with
  | bindSession s q' => simp only [StopHandle.touches, hS]
  | newPlayer q' pl => simp only [StopHandle.touches]

theorem HooksFrame.refl (hs : List StopHandle) (w : World) : HooksFrame hs w w :=
  { sessions := rfl, players := rfl, clients := rfl, multicasts := rfl, nextPusher := rfl
    pSession := fun _ => rfl, pRTSPClient := fun _ => rfl, pMulticastClient := fun _ => rfl
    pGopCacheEnable := fun _ => rfl, pGopCache := fun _ => rfl, pSpspps := fun _ => rfl
    pusherSame := fun _ _ => rfl, regSub := fun _ _ h => h, regKeep := fun _ _ h _ => h }

theorem HooksFrame.mono {hs hs' : List StopHandle} {w w' : World}
    (hsub : ∀ h, h ∈ hs → h ∈ hs') (h : HooksFrame hs w w') : HooksFrame hs' w w' :=
  { sessions := h.sessions, players := h.players, clients := h.clients
    multicasts := h.multicasts, nextPusher := h.nextPusher
    pSession := h.pSession, pRTSPClient := h.pRTSPClient
    pMulticastClient := h.pMulticastClient, pGopCacheEnable := h.pGopCacheEnable
    pGopCache := h.pGopCache, pSpspps := h.pSpspps
    pusherSame := fun q hq => h.pusherSame q (fun s hs => hq s (hsub _ hs))
    regSub := h.regSub
    regKeep := fun k r hr hc => h.regKeep k r hr (fun s q hs => hc s q (hsub _ hs)) }

theorem HooksFrame.trans {hs : List StopHandle} {w w1 w' : World}
    (h1 : HooksFrame hs w w1) (h2 : HooksFrame hs w1 w') : HooksFrame hs w w' :=
  { sessions := h2.sessions.trans h1.sessions
    players := h2.players.trans h1.players
    clients := h2.clients.trans h1.clients
    multicasts := h2.multicasts.trans h1.multicasts
    nextPusher := h2.nextPusher.trans h1.nextPusher
    pSession := fun q => (h2.pSession q).trans (h1.pSession q)
    pRTSPClient := fun q => (h2.pRTSPClient q).trans (h1.pRTSPClient q)
    pMulticastClient := fun q => (h2.pMulticastClient q).trans (h1.pMulticastClient q)
    pGopCacheEnable := fun q => (h2.pGopCacheEnable q).trans (h1.pGopCacheEnable q)
    pGopCache := fun q => (h2.pGopCache q).trans (h1.pGopCache q)
    pSpspps := fun q => (h2.pSpspps q).trans (h1.pSpspps q)
    pusherSame := fun q hq => by
      rw [h2.pusherSame q (fun h hh => by
        rw [StopHandle.touches_congr w w1 q h (h1.pSession q)]; exact hq h hh)]
      exact h1.pusherSame q hq
    regSub := fun k r hr => h1.regSub k r (h2.regSub k r hr)
    regKeep := fun k r hr hcond => by
      apply h2.regKeep k r (h1.regKeep k r hr hcond)
      intro s q hs hq hp
      rw [h1.id r, h1.sessions]
      rw [h1.pSession q] at hq
      rw [h1.sessions] at hp
      exact hcond s q hs hq hp }

/-- Frames compose along the list of closures. -/
theorem HooksFrame.cons {h : StopHandle} {rest : List StopHandle} {w w1 w' : World}
    (h1 : HooksFrame [h] w w1) (h2 : HooksFrame rest w1 w') : HooksFrame (h :: rest) w w' :=
  HooksFrame.trans
    (h1.mono (fun x hx => by rw [List.mem_singleton] at hx; exact hx ▸ List.mem_cons_self _ _))
    (h2.mono (fun x hx => List.mem_cons_of_mem _ hx))

/-- Replacing a pusher that the closure may write by a record that differs only in
`players` and `UDPServer` stays within the frame. -/
theorem HooksFrame.of_setPusher (w : World) (h : StopHandle) (q : PusherRef) (v : Pusher)
    (hS : h.touches w q)
    (h1 : v.Session = (w.pushers q).Session) (h2 : v.RTSPClient = (w.pushers q).RTSPClient)
    (h3 : v.MulticastClient = (w.pushers q).MulticastClient)
    (h4 : v.gopCacheEnable = (w.pushers q).gopCacheEnable)
    (h5 : v.gopCache = (w.pushers q).gopCache)
    (h6 : v.spsppsInSTAPaPack = (w.pushers q).spsppsInSTAPaPack) :
    HooksFrame [h] w (w.setPusher q v) :=
  { sessions := rfl, players := rfl, clients := rfl, multicasts := rfl, nextPusher := rfl
    pSession := fun q' => by
      by_cases hq : q' = q
      · subst hq; simp [World.setPusher, h1]
      · simp [World.setPusher, hq]
    pRTSPClient := fun q' => by
      by_cases hq : q' = q
      · subst hq; simp [World.setPusher, h2]
      · simp [World.setPusher, hq]
    pMulticastClient := fun q' => by
      by_cases hq : q' = q
      · subst hq; simp [World.setPusher, h3]
      · simp [World.setPusher, hq]
    pGopCacheEnable := fun q' => by
      by_cases hq : q' = q
      · subst hq; simp [World.setPusher, h4]
      · simp [World.setPusher, hq]
    pGopCache := fun q' => by
      by_cases hq : q' = q
      · subst hq; simp [World.setPusher, h5]
      · simp [World.setPusher, hq]
    pSpspps := fun q' => by
      by_cases hq : q' = q
      · subst hq; simp [World.setPusher, h6]
      · simp [World.setPusher, hq]
    pusherSame := fun q' hq' => by
      have hq : q' ≠ q := fun he => hq' h (List.mem_singleton_self _) (he ▸ hS)
      simp [World.setPusher, hq]
    regSub := fun _ _ h => h
    regKeep := fun _ _ h _ => h }

/-- Deleting the registry entry under the session's path, when that entry carries
the session's ID, stays within the frame. -/
theorem HooksFrame.of_delete (w : World) (s : SessRef) (q r : PusherRef)
    (hS : (w.pushers q).Session = some s)
    (hid : Pusher.ID w r = some (w.sessions s).ID)
    (hget : w.server.pushers.get (w.sessions s).Path = some r) :
    HooksFrame [StopHandle.bindSession s q] w
      (w.setRegistry (w.server.pushers.delete (w.sessions s).Path)) :=
  { sessions := rfl, players := rfl, clients := rfl, multicasts := rfl, nextPusher := rfl
    pSession := fun _ => rfl, pRTSPClient := fun _ => rfl, pMulticastClient := fun _ => rfl
    pGopCacheEnable := fun _ => rfl, pGopCache := fun _ => rfl, pSpspps := fun _ => rfl
    pusherSame := fun _ _ => rfl
    regSub := fun k r' h => (GoMap.get_delete_eq_some _ _ _ _ h).2
    regKeep := fun k r' h hc => by
      by_cases hk : k = (w.sessions s).Path
      · subst hk
        rw [hget] at h
        cases h
        exact absurd hid (hc s q (List.mem_singleton_self _) hS rfl)
      · show (w.server.pushers.delete (w.sessions s).Path).get k = some r'
        rw [GoMap.get_delete_of_ne _ _ _ hk]; exact h }

/-- The three ways `Server.RemovePusher` can end. -/
theorem Server.RemovePusher_cases (w : World) (p : PusherRef) :
    (∃ path r id, Pusher.Path w p = some path ∧ w.server.pushers.get path = some r ∧
      Pusher.ID w p = some id ∧ Pusher.ID w r = some id ∧
      Server.RemovePusher w p = Res.ok () (w.setRegistry (w.server.pushers.delete path))) ∨
    Server.RemovePusher w p = Res.ok () w ∨ Server.RemovePusher w p = Res.panic w := by
  cases hpath : Pusher.Path w p with
  | none => exact Or.inr (Or.inr (by simp [Server.RemovePusher, hpath]))
  | some path =>
    cases hget : w.server.pushers.get path with
    | none => exact Or.inr (Or.inl (by simp [Server.RemovePusher, hpath, hget]))
    | some r =>
      cases hid : Pusher.ID w p with
      | none => exact Or.inr (Or.inr (by simp [Server.RemovePusher, hpath, hget, hid]))
      | some id =>
        cases hid2 : Pusher.ID w r with
        | none => exact Or.inr (Or.inr (by simp [Server.RemovePusher, hpath, hget, hid, hid2]))
        | some id2 =>
          by_cases heq : id = id2
          · subst heq
            exact Or.inl ⟨path, r, id, rfl, hget, rfl, hid2,
              by simp [Server.RemovePusher, hpath, hget, hid, hid2]⟩
          · exact Or.inr (Or.inl (by simp [Server.RemovePusher, hpath, hget, hid, hid2, heq]))

theorem StopHandle.call_bindSession (w : World) (s : SessRef) (q : PusherRef) :
    (StopHandle.bindSession s q).call w =
      if some s ≠ (w.pushers q).Session then
        match (w.pushers q).Session with
        | none => Res.panic w
        | some _ => Res.ok () w
      else
        (Server.RemovePusher (Pusher.ClearPlayer w q) q).bind fun _ w2 =>
          match (w2.pushers q).UDPServer with
          | some _ => Res.ok () (w2.setPusher q { w2.pushers q with UDPServer := none })
          | none => Res.ok () w2 := rfl

theorem StopHandle.call_newPlayer (w : World) (q : PusherRef) (pl : PlayerRef) :
    (StopHandle.newPlayer q pl).call w = Pusher.RemovePlayer w q pl := rfl

theorem Pusher.Path_of_session (w : World) (q : PusherRef) (s : SessRef)
    (hS : (w.pushers q).Session = some s) : Pusher.Path w q = some (w.sessions s).Path := by
  simp [Pusher.Path, hS]

theorem Pusher.ID_of_session (w : World) (q : PusherRef) (s : SessRef)
    (hS : (w.pushers q).Session = some s) : Pusher.ID w q = some (w.sessions s).ID := by
  simp [Pusher.ID, hS]

/-- The frame of the `UDPServer` release at the end of a stop closure. -/
theorem HooksFrame.udpRelease (w : World) (s : SessRef) (q : PusherRef)
    (hS : (w.pushers q).Session = some s) :
    HooksFrame [StopHandle.bindSession s q] w
      (match (w.pushers q).UDPServer with
        | some _ => Res.ok () (w.setPusher q { w.pushers q with UDPServer := none })
        | none => Res.ok () w).world := by
  split
  · exact HooksFrame.of_setPusher w _ q _ ⟨rfl, hS⟩ rfl rfl rfl rfl rfl rfl
  · exact HooksFrame.refl _ _

/-- The frame of one stop closure. -/
theorem StopHandle.call_frame (w : World) (h : StopHandle) :
    HooksFrame [h] w (h.call w).world := by
  cases h with
  | bindSession s q =>
    rw [StopHandle.call_bindSession]
    by_cases hne : some s ≠ (w.pushers q).Session
    · rw [if_pos hne]
      split <;> exact HooksFrame.refl _ _
    · rw [if_neg hne]
      have hS : (w.pushers q).Session = some s := by
        by_contra h'; exact hne (fun h => h' h.symm)
      have hclear : HooksFrame [StopHandle.bindSession s q] w (Pusher.ClearPlayer w q) :=
        HooksFrame.of_setPusher w _ q _ ⟨rfl, hS⟩ rfl rfl rfl rfl rfl rfl
      have hS1 : ((Pusher.ClearPlayer w q).pushers q).Session = some s := by
        rw [hclear.pSession]; exact hS
      rcases Server.RemovePusher_cases (Pusher.ClearPlayer w q) q with
        ⟨path, r, id, hp, hget, hid, hid2, hres⟩ | hres | hres
      · rw [hres]
        rw [Pusher.Path_of_session _ q s hS1] at hp
        rw [Pusher.ID_of_session _ q s hS1] at hid
        cases hp; cases hid
        have hdel := HooksFrame.of_delete (Pusher.ClearPlayer w q) s q r hS1 hid2 hget
        have hS2 := (hdel.pSession q).trans hS1
        exact hclear.trans (hdel.trans (HooksFrame.udpRelease _ s q hS2))
      · rw [hres]
        exact hclear.trans (HooksFrame.udpRelease _ s q hS1)
      · rw [hres]; exact hclear
  | newPlayer q pl =>
    show HooksFrame _ w (Pusher.RemovePlayer w q pl).world
    unfold Pusher.RemovePlayer
    split
    · exact HooksFrame.refl _ _
    · split
      · exact HooksFrame.refl _ _
      · exact HooksFrame.of_setPusher w _ q _ rfl rfl rfl rfl rfl rfl rfl

/-- The frame of the whole loop over the stop closures. -/
theorem StopHandle.callAll_frame (hs : List StopHandle) :
    ∀ w : World, HooksFrame hs w (StopHandle.callAll w hs).world := by
  induction hs with
  | nil => intro w; exact HooksFrame.refl _ _
  | cons h rest ih =>
    intro w
    have h1 := StopHandle.call_frame w h
    show HooksFrame (h :: rest) w ((h.call w).bind fun _ w1 => StopHandle.callAll w1 rest).world
    cases hc : h.call w with
    | ok u w1 =>
      rw [hc] at h1
      exact HooksFrame.cons h1 (ih w1)
    | panic w1 =>
      rw [hc] at h1
      exact h1.mono (fun x hx => by rw [List.mem_singleton] at hx; exact hx ▸ List.mem_cons_self _ _)

theorem Session.Stop_of_stopped (w : World) (s : SessRef) (h : (w.sessions s).Stoped = true) :
    Session.Stop w s = Res.ok () w := by
  simp [Session.Stop, h]

/-- The world after `Session.Stop` on a running session: the stop closures ran
within their frame from the world with the `Stoped` flag set, and afterwards only
`Conn` and `UDPClient` of the session itself were released. -/
theorem Session.Stop_frame (w : World) (s : SessRef) (hns : (w.sessions s).Stoped = false) :
    ∃ wb, HooksFrame (w.sessions s).StopHandles
        (w.setSession s { w.sessions s with Stoped := true }) wb ∧
      (Session.Stop w s).world.server = wb.server ∧
      (Session.Stop w s).world.pushers = wb.pushers ∧
      (Session.Stop w s).world.players = wb.players ∧
      (Session.Stop w s).world.clients = wb.clients ∧
      (Session.Stop w s).world.multicasts = wb.multicasts ∧
      (Session.Stop w s).world.nextPusher = wb.nextPusher ∧
      (∀ t, t ≠ s → (Session.Stop w s).world.sessions t = w.sessions t) ∧
      ((Session.Stop w s).world.sessions s).Stoped = true ∧
      ((Session.Stop w s).world.sessions s).Path = (w.sessions s).Path ∧
      ((Session.Stop w s).world.sessions s).ID = (w.sessions s).ID ∧
      ((Session.Stop w s).world.sessions s).StopHandles = (w.sessions s).StopHandles ∧
      ((Session.Stop w s).world.sessions s).Pusher = (w.sessions s).Pusher := by
  have hfr := StopHandle.callAll_frame (w.sessions s).StopHandles
    (w.setSession s { w.sessions s with Stoped := true })
  refine ⟨_, hfr, ?_⟩
  have hses := hfr.sessions
  simp only [Session.Stop, hns, Bool.false_eq_true, if_false]
  have hhooks : ((w.setSession s { w.sessions s with Stoped := true }).sessions s).StopHandles
      = (w.sessions s).StopHandles := by simp [World.setSession]
  rw [hhooks]
  cases hc : StopHandle.callAll (w.setSession s { w.sessions s with Stoped := true })
      (w.sessions s).StopHandles with
  | panic wb =>
    rw [hc] at hses
    simp only [Res.bind, Res.world] at hses ⊢
    simp +contextual [hses, World.setSession]
  | ok u wb =>
    rw [hc] at hses
    simp only [Res.bind, Res.world] at hses ⊢
    refine ⟨?_, ?_, ?_, ?_, ?_, ?_, ?_, ?_, ?_, ?_, ?_, ?_⟩ <;>
      (split <;> split <;> simp +contextual [hses, World.setSession])

/-! ### C1: `Server.AddPusher` -/

/-- C1. `Server.AddPusher`: when the registry has no entry for `p.Path()` the
call returns true and the only change to the world is that the registry gets the
entry `p.Path() -> p` (lookups of the other keys are unchanged); when there is an
entry for `p.Path()` the call returns false and the world, hence the registry
and the pusher stored in it, is unchanged. -/
theorem AddPusher_contract (w : World) (p : PusherRef) (path : String)
    (hpath : Pusher.Path w p = some path) :
    (w.server.pushers.get path = none →
      Server.AddPusher w p = Res.ok true (w.setRegistry (w.server.pushers.set path p)) ∧
      (w.server.pushers.set path p).get path = some p ∧
      ∀ k, k ≠ path → (w.server.pushers.set path p).get k = w.server.pushers.get k) ∧
    (∀ q, w.server.pushers.get path = some q →
      Server.AddPusher w p = Res.ok false w ∧
      (Server.AddPusher w p).world.server.pushers.get path = some q) := by
  refine ⟨fun habs => ⟨?_, GoMap.get_set_self _ _ _, fun k hk => GoMap.get_set_of_ne _ _ _ _ hk⟩,
    fun q hq => ?_⟩
  · simp [Server.AddPusher, hpath, habs]
  · have h : Server.AddPusher w p = Res.ok false w := by simp [Server.AddPusher, hpath, hq]
    exact ⟨h, by rw [h]; exact hq⟩

/-- Witness for C1: in `exWorld` the path `/live/x` is free and pusher `0` is
added; in `exWorldRegistered` the path is taken and adding pusher `0` again is refused. -/
theorem AddPusher_contract_witness :
    (Pusher.Path exWorld 0 = some "/live/x" ∧ exWorld.server.pushers.get "/live/x" = none ∧
      Server.AddPusher exWorld 0
        = Res.ok true (exWorld.setRegistry (exWorld.server.pushers.set "/live/x" 0))) ∧
    (Pusher.Path exWorldRegistered 0 = some "/live/x" ∧
      exWorldRegistered.server.pushers.get "/live/x" = some 0 ∧
      Server.AddPusher exWorldRegistered 0 = Res.ok false exWorldRegistered) :=
  ⟨⟨by decide, by decide,
      ((AddPusher_contract exWorld 0 "/live/x" (by decide)).1 (by decide)).1⟩,
    ⟨by decide, by decide,
      ((AddPusher_contract exWorldRegistered 0 "/live/x" (by decide)).2 0 (by decide)).1⟩⟩

/-! ### C2: registry uniqueness -/

theorem Session.Stop_path (w : World) (s : SessRef) (q : PusherRef) :
    Pusher.Path (Session.Stop w s).world q = Pusher.Path w q := by
  by_cases hst : (w.sessions s).Stoped = true
  · rw [Session.Stop_of_stopped w s hst]; rfl
  · have hns : (w.sessions s).Stoped = false := by simpa using hst
    obtain ⟨wb, hfr, _, hpu, _, hcl, hmu, _, hoth, _, hpath, _, _, _⟩ := Session.Stop_frame w s hns
    apply Pusher.Path_congr
    · intro q'; rw [hpu, hfr.pSession]; rfl
    · intro q'; rw [hpu, hfr.pRTSPClient]; rfl
    · intro q'; rw [hpu, hfr.pMulticastClient]; rfl
    · intro t
      by_cases ht : t = s
      · subst ht; exact hpath
      · rw [hoth t ht]
    · rw [hcl, hfr.clients]; rfl
    · rw [hmu, hfr.multicasts]; rfl

theorem Session.Stop_regSub (w : World) (s : SessRef) (k : String) (r : PusherRef)
    (h : (Session.Stop w s).world.server.pushers.get k = some r) :
    w.server.pushers.get k = some r := by
  by_cases hst : (w.sessions s).Stoped = true
  · rw [Session.Stop_of_stopped w s hst] at h; exact h
  · have hns : (w.sessions s).Stoped = false := by simpa using hst
    obtain ⟨wb, hfr, hsv, _⟩ := Session.Stop_frame w s hns
    rw [hsv] at h
    exact hfr.regSub k r h

theorem Session.Stop_sessionPath (w : World) (s t : SessRef) :
    ((Session.Stop w s).world.sessions t).Path = (w.sessions t).Path := by
  by_cases hst : (w.sessions s).Stoped = true
  · rw [Session.Stop_of_stopped w s hst]; rfl
  · have hns : (w.sessions s).Stoped = false := by simpa using hst
    obtain ⟨wb, hfr, _, _, _, _, _, _, hoth, _, hpath, _, _, _⟩ := Session.Stop_frame w s hns
    by_cases ht : t = s
    · subst ht; exact hpath
    · rw [hoth t ht]

theorem Session.Stop_keyed (w : World) (s : SessRef) (h : RegistryKeyed w) :
    RegistryKeyed (Session.Stop w s).world := by
  intro k p hget
  rw [Session.Stop_path]
  exact h k p (Session.Stop_regSub w s k p hget)

theorem Server.AddPusher_cases (w : World) (p : PusherRef) :
    (∃ path, Pusher.Path w p = some path ∧ w.server.pushers.get path = none ∧
      Server.AddPusher w p = Res.ok true (w.setRegistry (w.server.pushers.set path p))) ∨
    Server.AddPusher w p = Res.ok false w ∨ Server.AddPusher w p = Res.panic w := by
  cases hpath : Pusher.Path w p with
  | none => exact Or.inr (Or.inr (by simp [Server.AddPusher, hpath]))
  | some path =>
    cases hget : w.server.pushers.get path with
    | some q => exact Or.inr (Or.inl (by simp [Server.AddPusher, hpath, hget]))
    | none => exact Or.inl ⟨path, rfl, hget, by simp [Server.AddPusher, hpath, hget]⟩

theorem Server.AddPusher_keyed (w : World) (p : PusherRef) (h : RegistryKeyed w) :
    RegistryKeyed (Server.AddPusher w p).world := by
  rcases Server.AddPusher_cases w p with ⟨path, hpath, _, hres⟩ | hres | hres
  · rw [hres]
    intro k r hr
    have hr : (w.server.pushers.set path p).get k = some r := hr
    show Pusher.Path w r = some k
    by_cases hk : k = path
    · subst hk
      rw [GoMap.get_set_self] at hr
      cases hr; exact hpath
    · rw [GoMap.get_set_of_ne _ _ _ _ hk] at hr
      exact h k r hr
  · rw [hres]; exact h
  · rw [hres]; exact h

theorem Server.RemovePusher_keyed (w : World) (p : PusherRef) (h : RegistryKeyed w) :
    RegistryKeyed (Server.RemovePusher w p).world := by
  rcases Server.RemovePusher_cases w p with ⟨path, r, id, _, _, _, _, hres⟩ | hres | hres
  · rw [hres]
    intro k q hq
    exact h k q (GoMap.get_delete_eq_some _ _ _ _ hq).2
  · rw [hres]; exact h
  · rw [hres]; exact h

theorem Pusher.RebindSession_keyed (w : World) (p : PusherRef) (s : SessRef)
    (h : RegistryKeyed w) (hreg : w.server.pushers.get (w.sessions s).Path = some p) :
    RegistryKeyed (Pusher.RebindSession w p s).world := by
  unfold Pusher.RebindSession
  cases hcl : (w.pushers p).RTSPClient with
  | some c => exact h
  | none =>
    have h3 : RegistryKeyed (((Pusher.bindSession w p s).setSession s
        { (Pusher.bindSession w p s).sessions s with Pusher := some p }).setPusher p
        { (((Pusher.bindSession w p s).setSession s
            { (Pusher.bindSession w p s).sessions s with Pusher := some p }).pushers p)
          with gopCache := [] }) := by
      intro k q hq
      have hq : w.server.pushers.get k = some q := hq
      by_cases hqp : q = p
      · subst hqp
        have h1 := h k q hq
        have h2 := h _ q hreg
        rw [h1] at h2
        cases h2
        simp [Pusher.Path, Pusher.bindSession, World.setPusher, World.setSession]
      · have h1 := h k q hq
        rw [← h1]
        simp only [Pusher.Path, Pusher.bindSession, World.setPusher, World.setSession,
          Function.update_noteq hqp]
        cases hqs : (w.pushers q).Session with
        | none => simp
        | some t =>
          by_cases hts : t = s
          · subst hts; simp
          · simp [Function.update_noteq hts]
    cases hold : (w.pushers p).Session with
    | none => exact h3
    | some old =>
      simp only []
      cases hst : Session.Stop _ old with
      | ok u w4 =>
        have := Session.Stop_keyed _ old h3
        rw [hst] at this
        exact this
      | panic w4 =>
        have := Session.Stop_keyed _ old h3
        rw [hst] at this
        exact this

theorem Server.TryAttachToPusher_some (w : World) (s : SessRef) (p : PusherRef)
    (hget : w.server.pushers.get (w.sessions s).Path = some p) :
    Server.TryAttachToPusher w s =
      (Pusher.RebindSession w p s).bind fun r w1 =>
        if r then Res.ok (1, some p) w1 else Res.ok (-1, none) w1 := by
  simp [Server.TryAttachToPusher, hget]

theorem Server.TryAttachToPusher_none (w : World) (s : SessRef)
    (hget : w.server.pushers.get (w.sessions s).Path = none) :
    Server.TryAttachToPusher w s = Res.ok (0, none) w := by
  simp [Server.TryAttachToPusher, hget]

theorem Server.TryAttachToPusher_world (w : World) (s : SessRef) (p : PusherRef)
    (hget : w.server.pushers.get (w.sessions s).Path = some p) :
    (Server.TryAttachToPusher w s).world = (Pusher.RebindSession w p s).world := by
  rw [Server.TryAttachToPusher_some w s p hget]
  cases Pusher.RebindSession w p s with
  | ok b w1 => cases b <;> rfl
  | panic w1 => rfl

theorem Server.TryAttachToPusher_keyed (w : World) (s : SessRef) (h : RegistryKeyed w) :
    RegistryKeyed (Server.TryAttachToPusher w s).world := by
  cases hget : w.server.pushers.get (w.sessions s).Path with
  | none => rw [Server.TryAttachToPusher_none w s hget]; exact h
  | some p =>
    rw [Server.TryAttachToPusher_world w s p hget]
    exact Pusher.RebindSession_keyed w p s h hget

theorem RegistryOp.apply_keyed (w : World) (op : RegistryOp) (h : RegistryKeyed w) :
    RegistryKeyed (op.apply w) := by
  cases op with
  | AddPusher p => exact Server.AddPusher_keyed w p h
  | RemovePusher p => exact Server.RemovePusher_keyed w p h
  | TryAttachToPusher s => exact Server.TryAttachToPusher_keyed w s h

theorem RegistryOp.run_keyed (ops : List RegistryOp) :
    ∀ w : World, RegistryKeyed w → RegistryKeyed (RegistryOp.run w ops) := by
  induction ops with
  | nil => intro w h; exact h
  | cons op rest ih => intro w h; exact ih _ (RegistryOp.apply_keyed w op h)

theorem Pusher.RebindSession_sessionPath (w : World) (p : PusherRef) (s t : SessRef) :
    ((Pusher.RebindSession w p s).world.sessions t).Path = (w.sessions t).Path := by
  unfold Pusher.RebindSession
  cases hcl : (w.pushers p).RTSPClient with
  | some c => rfl
  | none =>
    have h3 : ((((Pusher.bindSession w p s).setSession s
        { (Pusher.bindSession w p s).sessions s with Pusher := some p }).setPusher p
        { (((Pusher.bindSession w p s).setSession s
            { (Pusher.bindSession w p s).sessions s with Pusher := some p }).pushers p)
          with gopCache := [] }).sessions t).Path = (w.sessions t).Path := by
      by_cases hts : t = s
      · subst hts; simp [Pusher.bindSession, World.setPusher, World.setSession]
      · simp [Pusher.bindSession, World.setPusher, World.setSession, Function.update_noteq hts]
    cases hold : (w.pushers p).Session with
    | none => exact h3
    | some old =>
      simp only []
      have h4 := Session.Stop_sessionPath (((Pusher.bindSession w p s).setSession s
        { (Pusher.bindSession w p s).sessions s with Pusher := some p }).setPusher p
        { (((Pusher.bindSession w p s).setSession s
            { (Pusher.bindSession w p s).sessions s with Pusher := some p }).pushers p)
          with gopCache := [] }) old t
      rw [h3] at h4
      cases hst : Session.Stop _ old with
      | ok u w4 => rw [hst] at h4; exact h4
      | panic w4 => rw [hst] at h4; exact h4

theorem RegistryOp.apply_sessionPath (w : World) (op : RegistryOp) (t : SessRef) :
    ((op.apply w).sessions t).Path = (w.sessions t).Path := by
  cases op with
  | AddPusher p =>
    show ((Server.AddPusher w p).world.sessions t).Path = _
    rcases Server.AddPusher_cases w p with ⟨path, _, _, hres⟩ | hres | hres <;> rw [hres] <;> rfl
  | RemovePusher p =>
    show ((Server.RemovePusher w p).world.sessions t).Path = _
    rcases Server.RemovePusher_cases w p with ⟨path, r, id, _, _, _, _, hres⟩ | hres | hres <;>
      rw [hres] <;> rfl
  | TryAttachToPusher s =>
    show ((Server.TryAttachToPusher w s).world.sessions t).Path = _
    cases hget : w.server.pushers.get (w.sessions s).Path with
    | none => rw [Server.TryAttachToPusher_none w s hget]; rfl
    | some p =>
      rw [Server.TryAttachToPusher_world w s p hget]
      exact Pusher.RebindSession_sessionPath w p s t

theorem RegistryOp.run_sessionPath (ops : List RegistryOp) :
    ∀ (w : World) (t : SessRef), ((RegistryOp.run w ops).sessions t).Path = (w.sessions t).Path := by
  induction ops with
  | nil => intro w t; rfl
  | cons op rest ih =>
    intro w t
    exact (ih (op.apply w) t).trans (RegistryOp.apply_sessionPath w op t)

/-- C2. Registry uniqueness: after any sequence of `AddPusher`, `RemovePusher` and
`TryAttachToPusher` calls from a world with an empty registry (whatever the
sessions, pushers and stop closures of that world are, and also when a call
panics part-way), every registry entry is stored under the key equal to its
pusher's `Path()`, hence two entries whose pushers have the same path are the
same entry.  None of the three calls writes a session's `Path`. -/
theorem registry_unique (w0 : World) (hempty : w0.server.pushers = GoMap.empty)
    (ops : List RegistryOp) :
    (∀ k p, (RegistryOp.run w0 ops).server.pushers.get k = some p →
      Pusher.Path (RegistryOp.run w0 ops) p = some k) ∧
    (∀ k1 k2 p1 p2, (RegistryOp.run w0 ops).server.pushers.get k1 = some p1 →
      (RegistryOp.run w0 ops).server.pushers.get k2 = some p2 →
      Pusher.Path (RegistryOp.run w0 ops) p1 = Pusher.Path (RegistryOp.run w0 ops) p2 →
      k1 = k2 ∧ p1 = p2) ∧
    (∀ s, ((RegistryOp.run w0 ops).sessions s).Path = (w0.sessions s).Path) := by
  have hkeyed : RegistryKeyed (RegistryOp.run w0 ops) :=
    RegistryOp.run_keyed ops w0 (fun k p h => by rw [hempty] at h; simp at h)
  refine ⟨hkeyed, fun k1 k2 p1 p2 h1 h2 hp => ?_, RegistryOp.run_sessionPath ops w0⟩
  have e1 := hkeyed k1 p1 h1
  have e2 := hkeyed k2 p2 h2
  rw [hp, e2] at e1
  cases e1
  rw [h1] at h2
  cases h2
  exact ⟨rfl, rfl⟩

/-- Witness for C2: from `exWorld` (empty registry) pusher `0` is registered,
session `1` takes it over and pusher `0` is added once more. -/
theorem registry_unique_witness :
    exWorld.server.pushers = GoMap.empty ∧
    (∀ k p, (RegistryOp.run exWorld [RegistryOp.AddPusher 0, RegistryOp.TryAttachToPusher 1,
        RegistryOp.AddPusher 0]).server.pushers.get k = some p →
      Pusher.Path (RegistryOp.run exWorld [RegistryOp.AddPusher 0,
        RegistryOp.TryAttachToPusher 1, RegistryOp.AddPusher 0]) p = some k) ∧
    (RegistryOp.run exWorld [RegistryOp.AddPusher 0, RegistryOp.TryAttachToPusher 1,
        RegistryOp.AddPusher 0]).server.pushers.get "/live/x" = some 0 :=
  ⟨rfl, (registry_unique exWorld rfl _).1, by decide⟩

/-! ### C3: takeover -/

theorem Pusher.RebindSession_eq (w : World) (p : PusherRef) (s : SessRef)
    (hC : (w.pushers p).RTSPClient = none) :
    Pusher.RebindSession w p s =
      match (w.pushers p).Session with
      | some old => (Session.Stop (Pusher.RebindSession_bound w p s) old).bind
          fun _ w4 => Res.ok true w4
      | none => Res.ok true (Pusher.RebindSession_bound w p s) := by
  simp only [Pusher.RebindSession, hC, Pusher.RebindSession_bound]

theorem Server.RemovePusher_ok (w : World) (p : PusherRef)
    (hpath : Pusher.Path w p ≠ none) (hid : Pusher.ID w p ≠ none)
    (hreg : ∀ k r, w.server.pushers.get k = some r → Pusher.ID w r ≠ none) :
    ∃ w', Server.RemovePusher w p = Res.ok () w' := by
  rcases Server.RemovePusher_cases w p with ⟨path, r, id, _, _, _, _, hres⟩ | hres | hres
  · exact ⟨_, hres⟩
  · exact ⟨_, hres⟩
  · exfalso
    cases hp : Pusher.Path w p with
    | none => exact hpath hp
    | some path =>
      cases hi : Pusher.ID w p with
      | none => exact hid hi
      | some id =>
        cases hget : w.server.pushers.get path with
        | none => simp [Server.RemovePusher, hp, hget] at hres
        | some r =>
          cases hi2 : Pusher.ID w r with
          | none => exact hreg path r hget hi2
          | some id2 =>
            by_cases he : id = id2 <;> simp [Server.RemovePusher, hp, hget, hi, hi2, he] at hres

theorem StopHandle.safe_congr (w w' : World) (h : StopHandle)
    (hS : ∀ q, (w'.pushers q).Session = (w.pushers q).Session)
    (hC : ∀ q, (w'.pushers q).RTSPClient = (w.pushers q).RTSPClient)
    (hM : ∀ q, (w'.pushers q).MulticastClient = (w.pushers q).MulticastClient)
    (hsafe : h.safe w) : h.safe w' := by
  cases h with
  | bindSession s q =>
    simp only [StopHandle.safe] at hsafe ⊢
    rw [hS]; exact hsafe
  | newPlayer q pl =>
    simp only [StopHandle.safe, Pusher.Logger] at hsafe ⊢
    rw [hS, hC, hM]; exact hsafe

/-- A safe stop closure returns when every registry entry has an ID. -/
theorem StopHandle.call_ok (w : World) (h : StopHandle) (hsafe : h.safe w)
    (hreg : ∀ k r, w.server.pushers.get k = some r → Pusher.ID w r ≠ none) :
    ∃ w', h.call w = Res.ok () w' := by
  cases h with
  | newPlayer q pl =>
    have hl : Pusher.Logger w q = some () := hsafe
    rw [StopHandle.call_newPlayer]
    unfold Pusher.RemovePlayer
    rw [hl]
    simp only []
    split
    · exact ⟨_, rfl⟩
    · exact ⟨_, rfl⟩
  | bindSession s q =>
    have hq : (w.pushers q).Session ≠ none := hsafe
    rw [StopHandle.call_bindSession]
    by_cases hne : some s ≠ (w.pushers q).Session
    · rw [if_pos hne]
      cases hS : (w.pushers q).Session with
      | none => exact absurd hS hq
      | some t => exact ⟨w, rfl⟩
    · rw [if_neg hne]
      have hS : (w.pushers q).Session = some s := by
        by_contra h'; exact hne (fun h => h' h.symm)
      have hclear : HooksFrame [StopHandle.bindSession s q] w (Pusher.ClearPlayer w q) :=
        HooksFrame.of_setPusher w _ q _ ⟨rfl, hS⟩ rfl rfl rfl rfl rfl rfl
      have hS1 : ((Pusher.ClearPlayer w q).pushers q).Session = some s := by
        rw [hclear.pSession]; exact hS
      obtain ⟨w2, h2⟩ := Server.RemovePusher_ok (Pusher.ClearPlayer w q) q
        (by rw [Pusher.Path_of_session _ q s hS1]; simp)
        (by rw [Pusher.ID_of_session _ q s hS1]; simp)
        (fun k r hr => by rw [hclear.id]; exact hreg k r (hclear.regSub k r hr))
      rw [h2]
      simp only [Res.bind]
      split
      · exact ⟨_, rfl⟩
      · exact ⟨_, rfl⟩

theorem StopHandle.callAll_ok (hs : List StopHandle) :
    ∀ w : World,
      (∀ h, h ∈ hs → h.safe w) →
      (∀ k r, w.server.pushers.get k = some r → Pusher.ID w r ≠ none) →
      ∃ w', StopHandle.callAll w hs = Res.ok () w' := by
  induction hs with
  | nil => intro w _ _; exact ⟨w, rfl⟩
  | cons h rest ih =>
    intro w hq hreg
    obtain ⟨w1, h1⟩ := StopHandle.call_ok w h (hq h (List.mem_cons_self _ _)) hreg
    have hfr := StopHandle.call_frame w h
    rw [h1] at hfr
    have hfr : HooksFrame [h] w w1 := hfr
    obtain ⟨w', h'⟩ := ih w1
      (fun h' hm => StopHandle.safe_congr w w1 h' hfr.pSession hfr.pRTSPClient
        hfr.pMulticastClient (hq h' (List.mem_cons_of_mem _ hm)))
      (fun k r hr => by rw [hfr.id]; exact hreg k r (hfr.regSub k r hr))
    refine ⟨w', ?_⟩
    show (h.call w).bind (fun _ w1 => StopHandle.callAll w1 rest) = _
    rw [h1]; exact h'

/-- `Session.Stop` returns when the session's stop closures are safe and every
registry entry has an ID. -/
theorem Session.Stop_ok (w : World) (s : SessRef)
    (hq : ∀ h, h ∈ (w.sessions s).StopHandles → h.safe w)
    (hreg : ∀ k r, w.server.pushers.get k = some r → Pusher.ID w r ≠ none) :
    ∃ w', Session.Stop w s = Res.ok () w' := by
  by_cases hst : (w.sessions s).Stoped = true
  · exact ⟨w, Session.Stop_of_stopped w s hst⟩
  · have hns : (w.sessions s).Stoped = false := by simpa using hst
    have hhooks : ((w.setSession s { w.sessions s with Stoped := true }).sessions s).StopHandles
        = (w.sessions s).StopHandles := by simp [World.setSession]
    obtain ⟨wb, hb⟩ := StopHandle.callAll_ok (w.sessions s).StopHandles
      (w.setSession s { w.sessions s with Stoped := true })
      (fun h hm => StopHandle.safe_congr w _ h (fun _ => rfl) (fun _ => rfl) (fun _ => rfl)
        (hq h hm))
      (fun k r hr => by
        have : Pusher.ID (w.setSession s { w.sessions s with Stoped := true }) r = Pusher.ID w r := by
          apply Pusher.ID_congr <;> intros <;> try rfl
          rename_i t
          by_cases ht : t = s
          · subst ht; simp [World.setSession]
          · simp [World.setSession, Function.update_noteq ht]
        rw [this]; exact hreg k r hr)
    simp only [Session.Stop, hns, Bool.false_eq_true, if_false, hhooks, hb, Res.bind]
    exact ⟨_, rfl⟩

theorem Pusher.RebindSession_bound_session_ne (w : World) (p : PusherRef) (s t : SessRef)
    (h : t ≠ s) : (Pusher.RebindSession_bound w p s).sessions t = w.sessions t := by
  simp [Pusher.RebindSession_bound, Pusher.bindSession, World.setPusher, World.setSession,
    Function.update_noteq h]

theorem Pusher.RebindSession_bound_pusher_ne (w : World) (p q : PusherRef) (s : SessRef)
    (h : q ≠ p) : (Pusher.RebindSession_bound w p s).pushers q = w.pushers q := by
  simp [Pusher.RebindSession_bound, Pusher.bindSession, World.setPusher, World.setSession,
    Function.update_noteq h]

theorem Pusher.RebindSession_bound_pusher (w : World) (p : PusherRef) (s : SessRef) :
    (Pusher.RebindSession_bound w p s).pushers p =
      { w.pushers p with Session := some s, gopCache := [] } := by
  simp [Pusher.RebindSession_bound, Pusher.bindSession, World.setPusher, World.setSession]

theorem Pusher.RebindSession_bound_session (w : World) (p : PusherRef) (s : SessRef) :
    (Pusher.RebindSession_bound w p s).sessions s =
      { w.sessions s with
        RTPHandles := (w.sessions s).RTPHandles ++ [RTPHandle.bindSession s p]
        StopHandles := (w.sessions s).StopHandles ++ [StopHandle.bindSession s p]
        Pusher := some p } := by
  simp [Pusher.RebindSession_bound, Pusher.bindSession, World.setPusher, World.setSession]

theorem Pusher.RebindSession_bound_sessionID (w : World) (p : PusherRef) (s t : SessRef) :
    ((Pusher.RebindSession_bound w p s).sessions t).ID = (w.sessions t).ID := by
  by_cases h : t = s
  · subst h; rw [Pusher.RebindSession_bound_session]
  · rw [Pusher.RebindSession_bound_session_ne w p s t h]

theorem Pusher.RebindSession_bound_server (w : World) (p : PusherRef) (s : SessRef) :
    (Pusher.RebindSession_bound w p s).server = w.server := rfl

theorem Pusher.RebindSession_bound_ID (w : World) (p q : PusherRef) (s : SessRef)
    (h : Pusher.ID w q ≠ none) : Pusher.ID (Pusher.RebindSession_bound w p s) q ≠ none := by
  by_cases hq : q = p
  · subst hq
    simp [Pusher.ID, Pusher.RebindSession_bound_pusher]
  · have hc : (Pusher.RebindSession_bound w p s).clients = w.clients := rfl
    have hm : (Pusher.RebindSession_bound w p s).multicasts = w.multicasts := rfl
    simp only [Pusher.ID, Pusher.RebindSession_bound_pusher_ne w p q s hq,
      Pusher.RebindSession_bound_sessionID, hc, hm]
    exact h

theorem GoMap.delete_of_len_zero {β : Type} (m : GoMap β) (k : String) (h : m.len = 0) :
    m.delete k = m := by
  cases m with
  | mk entries =>
    simp only [GoMap.len] at h
    have : entries = [] := List.length_eq_zero.mp h
    subst this
    rfl

theorem StopHandle.detach_congr (w w' : World) (P : PusherRef) (hp : w'.players = w.players) :
    ∀ (hs : List StopHandle) (m : GoMap PlayerRef),
      StopHandle.detach w' P m hs = StopHandle.detach w P m hs := by
  intro hs
  induction hs with
  | nil => intro m; rfl
  | cons h rest ih =>
    intro m
    cases h with
    | bindSession s q => exact ih m
    | newPlayer q pl =>
      simp only [StopHandle.detach, hp]
      split
      · exact ih _
      · exact ih _

/-- The players map without the players of its closures, when there is none. -/
theorem StopHandle.detach_none (w : World) (P : PusherRef) :
    ∀ (hs : List StopHandle) (m : GoMap PlayerRef),
      (∀ pl, StopHandle.newPlayer P pl ∉ hs) → StopHandle.detach w P m hs = m := by
  intro hs
  induction hs with
  | nil => intro m _; rfl
  | cons h rest ih =>
    intro m hn
    have hrest : ∀ pl, StopHandle.newPlayer P pl ∉ rest :=
      fun pl hm => hn pl (List.mem_cons_of_mem _ hm)
    cases h with
    | bindSession s q => exact ih m hrest
    | newPlayer q pl =>
      simp only [StopHandle.detach]
      by_cases hq : q = P
      · subst hq; exact absurd (List.mem_cons_self _ _) (hn pl)
      · rw [if_neg hq]; exact ih m hrest

/-- The entries of the players map without the players of its closures: the entry
of a key that is the ID of none of those players is what it was. -/
theorem StopHandle.detach_get_of_ne (w : World) (P : PusherRef) (k : String) :
    ∀ (hs : List StopHandle) (m : GoMap PlayerRef),
      (∀ pl, StopHandle.newPlayer P pl ∈ hs → (w.players pl).ID ≠ k) →
      (StopHandle.detach w P m hs).get k = m.get k := by
  intro hs
  induction hs with
  | nil => intro m _; rfl
  | cons h rest ih =>
    intro m hn
    have hrest : ∀ pl, StopHandle.newPlayer P pl ∈ rest → (w.players pl).ID ≠ k :=
      fun pl hm => hn pl (List.mem_cons_of_mem _ hm)
    cases h with
    | bindSession s q => exact ih m hrest
    | newPlayer q pl =>
      simp only [StopHandle.detach]
      by_cases hq : q = P
      · subst hq
        rw [if_pos rfl, ih _ hrest]
        exact GoMap.get_delete_of_ne m _ k (fun h => hn pl (List.mem_cons_self _ _) h.symm)
      · rw [if_neg hq]; exact ih m hrest

theorem StopHandle.detach_get_none (w : World) (P : PusherRef) (k : String) :
    ∀ (hs : List StopHandle) (m : GoMap PlayerRef),
      m.get k = none → (StopHandle.detach w P m hs).get k = none := by
  intro hs
  induction hs with
  | nil => intro m h; exact h
  | cons h rest ih =>
    intro m hm
    cases h with
    | bindSession s q => exact ih m hm
    | newPlayer q pl =>
      simp only [StopHandle.detach]
      split
      · apply ih
        by_cases hk : (w.players pl).ID = k
        · rw [hk]; exact GoMap.get_delete_self m k
        · rw [GoMap.get_delete_of_ne m _ k (fun h => hk h.symm)]; exact hm
      · exact ih m hm

/-- The entries of the players map without the players of its closures: there is no
entry under the ID of one of those players. -/
theorem StopHandle.detach_get_self (w : World) (P : PusherRef) (pl : PlayerRef) :
    ∀ (hs : List StopHandle) (m : GoMap PlayerRef),
      StopHandle.newPlayer P pl ∈ hs →
      (StopHandle.detach w P m hs).get (w.players pl).ID = none := by
  intro hs
  induction hs with
  | nil => intro m h; exact absurd h (List.not_mem_nil _)
  | cons h rest ih =>
    intro m hm
    rcases List.mem_cons.mp hm with heq | hr
    · subst heq
      simp only [StopHandle.detach, if_true]
      exact StopHandle.detach_get_none w P _ rest _ (GoMap.get_delete_self m _)
    · cases h with
      | bindSession s q => exact ih m hr
      | newPlayer q pl2 =>
        simp only [StopHandle.detach]
        split
        · exact ih _ hr
        · exact ih _ hr

/-- The players map of a pusher after the stop closures of a session that is not
its source ran: the closures of the players of the pusher detached them, and no
other closure wrote the map. -/
theorem StopHandle.callAll_detach (P : PusherRef) (B : SessRef) (hs : List StopHandle) :
    ∀ (w w' : World), (w.pushers P).Session = some B →
      (∀ s q, StopHandle.bindSession s q ∈ hs → s ≠ B) →
      StopHandle.callAll w hs = Res.ok () w' →
      (w'.pushers P).players = StopHandle.detach w P (w.pushers P).players hs := by
  induction hs with
  | nil =>
    intro w w' _ _ h
    simp only [StopHandle.callAll, Res.ok.injEq, true_and] at h
    subst h; rfl
  | cons h rest ih =>
    intro w w' hS hB hc
    have hfr := StopHandle.call_frame w h
    have hc2 : (h.call w).bind (fun _ w1 => StopHandle.callAll w1 rest) = Res.ok () w' := hc
    cases hcall : h.call w with
    | panic w1 => rw [hcall] at hc2; cases hc2
    | ok u w1 =>
      rw [hcall] at hc2 hfr
      simp only [Res.bind] at hc2
      simp only [Res.world] at hfr
      have hS1 : (w1.pushers P).Session = some B := by rw [hfr.pSession]; exact hS
      have hih := ih w1 w' hS1 (fun s q hm => hB s q (List.mem_cons_of_mem _ hm)) hc2
      rw [hih, StopHandle.detach_congr w w1 P hfr.players]
      cases h with
      | bindSession s q =>
        have hsame : w1.pushers P = w.pushers P := by
          apply hfr.pusherSame P
          intro h' hm
          rw [List.mem_singleton] at hm
          subst hm
          intro ht
          have h2 : (w.pushers P).Session = some s := ht.2
          rw [hS] at h2
          exact hB s q (List.mem_cons_self _ _) (Option.some.inj h2).symm
        simp only [StopHandle.detach]
        rw [hsame]
      | newPlayer q pl =>
        simp only [StopHandle.detach]
        by_cases hq : q = P
        · subst hq
          rw [if_pos rfl]
          rw [StopHandle.call_newPlayer] at hcall
          unfold Pusher.RemovePlayer at hcall
          have hl : Pusher.Logger w q = some () := by simp [Pusher.Logger, hS]
          rw [hl] at hcall
          simp only [] at hcall
          by_cases hz : (w.pushers q).players.len = 0
          · rw [if_pos hz] at hcall
            simp only [Res.ok.injEq, true_and] at hcall
            subst hcall
            rw [GoMap.delete_of_len_zero _ _ hz]
          · rw [if_neg hz] at hcall
            simp only [Res.ok.injEq, true_and] at hcall
            subst hcall
            simp [World.setPusher]
        · rw [if_neg hq]
          have hsame : w1.pushers P = w.pushers P := by
            apply hfr.pusherSame P
            intro h' hm
            rw [List.mem_singleton] at hm
            subst hm
            exact hq
          rw [hsame]

/-- C3 as amended. Takeover: for a session-backed pusher `P` bound to session `A`
and a session `B` with another ID, `P.RebindSession(B)` returns true; afterwards
`P`'s source session is `B`, `B.Pusher` is `P`, `A` is stopped, `P`'s GOP cache is
empty, and `P` is still stored under every registry key it was stored under.  `P`'s
players map is what it was before the call but for the players of `P` that `A`
itself holds, which the stop closures of those players detach when the call stops
`A`: when `A` was running, the entry under the ID of such a player is gone; every
other entry is what it was, and the map is exactly what it was when `A` holds no
player of `P` (and when `A` was stopped already).
The stop closures of `A` are closures that `bindSession` appended to `A` and
closures of players, on pushers that have a source, and every registered pusher has
a source, so that no stop closure panics. -/
theorem RebindSession_takeover (w : World) (P : PusherRef) (A B : SessRef)
    (hS : (w.pushers P).Session = some A)
    (hC : (w.pushers P).RTSPClient = none)
    (hid : (w.sessions A).ID ≠ (w.sessions B).ID)
    (hhooks : ∀ h, h ∈ (w.sessions A).StopHandles →
      h.safe w ∧ ∀ s q, h = StopHandle.bindSession s q → s = A)
    (hreg : ∀ k r, w.server.pushers.get k = some r → Pusher.ID w r ≠ none) :
    ∃ w', Pusher.RebindSession w P B = Res.ok true w' ∧
      (w'.pushers P).Session = some B ∧
      (w'.sessions B).Pusher = some P ∧
      (w'.sessions A).Stoped = true ∧
      (w'.pushers P).gopCache = [] ∧
      (w'.pushers P).players =
        (if (w.sessions A).Stoped = true then (w.pushers P).players
          else StopHandle.detach w P (w.pushers P).players (w.sessions A).StopHandles) ∧
      ((∀ pl, StopHandle.newPlayer P pl ∉ (w.sessions A).StopHandles) →
        (w'.pushers P).players = (w.pushers P).players) ∧
      (∀ k, (∀ pl, StopHandle.newPlayer P pl ∈ (w.sessions A).StopHandles →
          (w.players pl).ID ≠ k) →
        (w'.pushers P).players.get k = (w.pushers P).players.get k) ∧
      ((w.sessions A).Stoped = false →
        ∀ pl, StopHandle.newPlayer P pl ∈ (w.sessions A).StopHandles →
          (w'.pushers P).players.get (w.players pl).ID = none) ∧
      (∀ k, w.server.pushers.get k = some P → w'.server.pushers.get k = some P) := by
  have hAB : A ≠ B := fun h => hid (by rw [h])
  have hA3 := Pusher.RebindSession_bound_session_ne w P B A hAB
  rw [Pusher.RebindSession_eq w P B hC, hS]
  simp only []
  by_cases hst : (w.sessions A).Stoped = true
  · have hst3 : ((Pusher.RebindSession_bound w P B).sessions A).Stoped = true := by
      rw [hA3]; exact hst
    rw [Session.Stop_of_stopped _ A hst3]
    have hpl : ((Pusher.RebindSession_bound w P B).pushers P).players = (w.pushers P).players := by
      rw [Pusher.RebindSession_bound_pusher]
    refine ⟨_, rfl, ?_, ?_, hst3, ?_, ?_, fun _ => hpl, fun k _ => by rw [hpl], ?_,
      fun k hk => hk⟩
    · rw [Pusher.RebindSession_bound_pusher]
    · rw [Pusher.RebindSession_bound_session]
    · rw [Pusher.RebindSession_bound_pusher]
    · rw [if_pos hst]; exact hpl
    · intro hns; rw [hst] at hns; cases hns
  · have hns : ((Pusher.RebindSession_bound w P B).sessions A).Stoped = false := by
      rw [hA3]; simpa using hst
    have hhooks3 : ((Pusher.RebindSession_bound w P B).sessions A).StopHandles
        = (w.sessions A).StopHandles := by rw [hA3]
    have hsafe3 : ∀ h, h ∈ (w.sessions A).StopHandles →
        h.safe (Pusher.RebindSession_bound w P B) := by
      intro h hm
      have hs := (hhooks h hm).1
      cases h with
      | bindSession s q =>
        show ((Pusher.RebindSession_bound w P B).pushers q).Session ≠ none
        by_cases hqP : q = P
        · subst hqP; rw [Pusher.RebindSession_bound_pusher]; simp
        · rw [Pusher.RebindSession_bound_pusher_ne w P q B hqP]; exact hs
      | newPlayer q pl =>
        show Pusher.Logger (Pusher.RebindSession_bound w P B) q = some ()
        by_cases hqP : q = P
        · subst hqP; simp [Pusher.Logger, Pusher.RebindSession_bound_pusher]
        · have hs' : Pusher.Logger w q = some () := hs
          simp only [Pusher.Logger, Pusher.RebindSession_bound_pusher_ne w P q B hqP]
          exact hs'
    obtain ⟨w', hok⟩ := Session.Stop_ok (Pusher.RebindSession_bound w P B) A
      (fun h hm => by rw [hhooks3] at hm; exact hsafe3 h hm)
      (fun k r hr => Pusher.RebindSession_bound_ID w P r B (hreg k r hr))
    obtain ⟨wb, hfr, hsv, hpu, _, _, _, _, hoth, hstop, _, _, _, _⟩ :=
      Session.Stop_frame (Pusher.RebindSession_bound w P B) A hns
    rw [hok] at hsv hpu hoth hstop
    simp only [Res.world] at hsv hpu hoth hstop
    rw [hok]
    have hPb : ((Pusher.RebindSession_bound w P B).setSession A
        { (Pusher.RebindSession_bound w P B).sessions A with Stoped := true }).pushers P
        = { w.pushers P with Session := some B, gopCache := [] } :=
      Pusher.RebindSession_bound_pusher w P B
    -- the stop closures ran from the world with the flag set and ended in `w'`
    have hcall : ∃ wc, StopHandle.callAll
        ((Pusher.RebindSession_bound w P B).setSession A
          { (Pusher.RebindSession_bound w P B).sessions A with Stoped := true })
        (w.sessions A).StopHandles = Res.ok () wc ∧ w'.pushers = wc.pushers := by
      have hok2 := hok
      simp only [Session.Stop, hns, Bool.false_eq_true, if_false] at hok2
      have hh : (((Pusher.RebindSession_bound w P B).setSession A
          { (Pusher.RebindSession_bound w P B).sessions A with Stoped := true }).sessions
            A).StopHandles = (w.sessions A).StopHandles := by
        simp [World.setSession, hhooks3]
      rw [hh] at hok2
      cases hc : StopHandle.callAll
          ((Pusher.RebindSession_bound w P B).setSession A
            { (Pusher.RebindSession_bound w P B).sessions A with Stoped := true })
          (w.sessions A).StopHandles with
      | panic wc => rw [hc] at hok2; cases hok2
      | ok u wc =>
        rw [hc] at hok2
        simp only [Res.bind, Res.ok.injEq, true_and] at hok2
        refine ⟨wc, rfl, ?_⟩
        rw [← hok2]
        split <;> split <;> simp [World.setSession]
    obtain ⟨wc, hcall, hwc⟩ := hcall
    have hdet := StopHandle.callAll_detach P B (w.sessions A).StopHandles _ wc
      (by rw [hPb]) (fun s q hm => by rw [(hhooks _ hm).2 s q rfl]; exact hAB) hcall
    rw [hPb] at hdet
    simp only [] at hdet
    have hplayers : (w'.pushers P).players =
        StopHandle.detach w P (w.pushers P).players (w.sessions A).StopHandles := by
      rw [hwc, hdet]
      apply StopHandle.detach_congr
      rfl
    have hSess : (w'.pushers P).Session = some B := by
      rw [hpu, hfr.pSession, hPb]
    have hCache : (w'.pushers P).gopCache = [] := by
      rw [hpu, hfr.pGopCache, hPb]
    refine ⟨w', rfl, hSess, ?_, hstop, hCache, ?_, ?_, ?_, ?_, ?_⟩
    · rw [hoth B (fun h => hAB h.symm), Pusher.RebindSession_bound_session]
    · rw [if_neg hst]; exact hplayers
    · intro hn
      rw [hplayers]; exact StopHandle.detach_none w P _ _ hn
    · intro k hk
      rw [hplayers]; exact StopHandle.detach_get_of_ne w P k _ _ hk
    · intro _ pl hm
      rw [hplayers]; exact StopHandle.detach_get_self w P pl _ _ hm
    · intro k hk
      rw [hsv]
      apply hfr.regKeep k P hk
      intro s q hm hq hp
      rw [hhooks3] at hm
      have hsA := (hhooks _ hm).2 s q rfl
      subst hsA
      have hIDP : Pusher.ID ((Pusher.RebindSession_bound w P B).setSession s
          { (Pusher.RebindSession_bound w P B).sessions s with Stoped := true }) P
          = some (w.sessions B).ID := by
        rw [Pusher.ID_of_session _ P B (by rw [hPb])]
        simp [World.setSession, Function.update_noteq (fun h => hAB h.symm : B ≠ s),
          Pusher.RebindSession_bound_sessionID]
      rw [hIDP]
      simp only [World.setSession, Function.update_same, hA3]
      exact fun h => hid (Option.some.inj h).symm

/-- A publisher that plays its own stream holds the stop closure of its player:
after `ANNOUNCE`, `DESCRIBE` and `PLAY` for `/live/x` on the new session `0` of
`exThreeWorld`, the session is running, is the source of its pusher `0`, has the
player `0`, and its stop closures are that of `bindSession` and that of the player,
as in `exTakeoverWorld`. -/
theorem Session.handleRequests_own_player :
    ((Session.handleRequests exSdpEnv exThreeWorld 0
      [exAnnounce, exDescribe, exPlay]).sessions 0).Stoped = false ∧
    ((Session.handleRequests exSdpEnv exThreeWorld 0
      [exAnnounce, exDescribe, exPlay]).sessions 0).Pusher = some 0 ∧
    ((Session.handleRequests exSdpEnv exThreeWorld 0
      [exAnnounce, exDescribe, exPlay]).sessions 0).Player = some 0 ∧
    ((Session.handleRequests exSdpEnv exThreeWorld 0
      [exAnnounce, exDescribe, exPlay]).sessions 0).StopHandles
      = (exTakeoverWorld.sessions 0).StopHandles ∧
    (exTakeoverWorld.sessions 0).StopHandles
      = [StopHandle.bindSession 0 0, StopHandle.newPlayer 0 0] := by
  refine ⟨by decide, by decide, by decide, by decide, by decide⟩

theorem exTakeoverWorld_hooks :
    (exTakeoverWorld.sessions 0).StopHandles
      = [StopHandle.bindSession 0 0, StopHandle.newPlayer 0 0] := by decide

theorem exTakeoverWorld_registry :
    exTakeoverWorld.server.pushers = ⟨[("/live/x", 0)]⟩ := by decide

/-- Witness for the amended C3: in `exTakeoverWorld` pusher `0` is bound to session
`0` ("A"), registered under `/live/x`, holds two packets in its GOP cache and has
the players of "V" and of "A" itself; session `1` ("B") takes it over.  The player
of "V" stays, that of "A" is detached. -/
theorem RebindSession_takeover_witness :
    (exTakeoverWorld.pushers 0).Session = some 0 ∧
    exTakeoverWorld.server.pushers.get "/live/x" = some 0 ∧
    (exTakeoverWorld.pushers 0).gopCache = [exKey 0, exNonKey 1] ∧
    (exTakeoverWorld.pushers 0).players = ⟨[("V", 1), ("A", 0)]⟩ ∧
    StopHandle.detach exTakeoverWorld 0 (exTakeoverWorld.pushers 0).players
      (exTakeoverWorld.sessions 0).StopHandles = ⟨[("V", 1)]⟩ ∧
    ∃ w', Pusher.RebindSession exTakeoverWorld 0 1 = Res.ok true w' ∧
      (w'.pushers 0).Session = some 1 ∧
      (w'.sessions 1).Pusher = some 0 ∧
      (w'.sessions 0).Stoped = true ∧
      (w'.pushers 0).gopCache = [] ∧
      (w'.pushers 0).players =
        (if (exTakeoverWorld.sessions 0).Stoped = true then (exTakeoverWorld.pushers 0).players
          else StopHandle.detach exTakeoverWorld 0 (exTakeoverWorld.pushers 0).players
            (exTakeoverWorld.sessions 0).StopHandles) ∧
      ((∀ pl, StopHandle.newPlayer 0 pl ∉ (exTakeoverWorld.sessions 0).StopHandles) →
        (w'.pushers 0).players = (exTakeoverWorld.pushers 0).players) ∧
      (∀ k, (∀ pl, StopHandle.newPlayer 0 pl ∈ (exTakeoverWorld.sessions 0).StopHandles →
          (exTakeoverWorld.players pl).ID ≠ k) →
        (w'.pushers 0).players.get k = (exTakeoverWorld.pushers 0).players.get k) ∧
      ((exTakeoverWorld.sessions 0).Stoped = false →
        ∀ pl, StopHandle.newPlayer 0 pl ∈ (exTakeoverWorld.sessions 0).StopHandles →
          (w'.pushers 0).players.get (exTakeoverWorld.players pl).ID = none) ∧
      (∀ k, exTakeoverWorld.server.pushers.get k = some 0 →
        w'.server.pushers.get k = some 0) :=
  ⟨by decide, by decide, by decide, by decide, by decide,
    RebindSession_takeover exTakeoverWorld 0 0 1 (by decide) (by decide) (by decide)
      (fun h hm => by
        rw [exTakeoverWorld_hooks] at hm
        simp only [List.mem_cons, List.mem_singleton, List.not_mem_nil, or_false] at hm
        rcases hm with hm | hm
        · subst hm
          exact ⟨show (exTakeoverWorld.pushers 0).Session ≠ none by decide,
            fun s q hh => by cases hh; rfl⟩
        · subst hm
          exact ⟨show Pusher.Logger exTakeoverWorld 0 = some () by decide,
            fun s q hh => by cases hh⟩)
      (fun k r hr => by
        rw [exTakeoverWorld_registry] at hr
        by_cases hk : "/live/x" = k
        · simp [GoMap.get, GoMap.lookup, hk] at hr
          subst hr; decide
        · simp [GoMap.get, GoMap.lookup, hk] at hr)⟩

/-- C3 as stated fails: in `exTakeoverWorld` session `0` ("A") is the source of the
pusher `0` and holds the stop closure of its own player of that pusher.  When
session `1` ("B") takes the pusher over, `RebindSession` returns true and stops
"A", whose player closure deletes the entry "A" of the players map: the map is not
what it was before the call. -/
theorem RebindSession_takeover_counterexample :
    (exTakeoverWorld.pushers 0).Session = some 0 ∧
    (exTakeoverWorld.pushers 0).RTSPClient = none ∧
    (exTakeoverWorld.sessions 0).StopHandles
      = [StopHandle.bindSession 0 0, StopHandle.newPlayer 0 0] ∧
    (exTakeoverWorld.pushers 0).players = ⟨[("V", 1), ("A", 0)]⟩ ∧
    (Pusher.RebindSession exTakeoverWorld 0 1).result = some true ∧
    ((Pusher.RebindSession exTakeoverWorld 0 1).world.pushers 0).players = ⟨[("V", 1)]⟩ ∧
    ¬ Takeover exTakeoverWorld 0 0 1 := by
  refine ⟨by decide, by decide, by decide, by decide, by decide, by decide, ?_⟩
  rintro ⟨w', h, _, _, _, _, hp, _⟩
  have h2 : ((Pusher.RebindSession exTakeoverWorld 0 1).world.pushers 0).players
      = ⟨[("V", 1)]⟩ := by decide
  rw [h] at h2
  simp only [Res.world] at h2
  rw [hp] at h2
  exact absurd h2 (by decide)

/-! ### The pump: frame and cache lemmas -/

/-- The STAP-A loop does not use up a fuel that covers the rest of the payload. -/
theorem Pusher.stapLoop_fuel (Payload backing : List Nat) :
    ∀ (fuel off acc : Nat), Payload.length ≤ off + fuel → 0 < fuel →
      Pusher.stapLoop Payload backing fuel off acc ≠ StapWalk.outOfFuel := by
  intro fuel
  induction fuel with
  | zero => intro off acc _ h; exact absurd h (Nat.lt_irrefl 0)
  | succ fuel ih =>
    intro off acc hlen _
    unfold Pusher.stapLoop
    split
    · simp only []
      split
      · simp
      · split
        · simp
        · split
          · simp
          · split
            · simp
            · rename_i hsz _ _ _ _ hnot
              exact ih _ _ (by omega) (by omega)
    · simp

/-- The STAP-A loop as `shouldSequenceStart` runs it, with `len(Payload)` as fuel
on a payload that has a first byte, ends as the loop of the code does. -/
theorem Pusher.stapLoop_total (Payload backing : List Nat) (h : Payload ≠ []) :
    Pusher.stapLoop Payload backing Payload.length 1 0 ≠ StapWalk.outOfFuel :=
  Pusher.stapLoop_fuel Payload backing Payload.length 1 0 (by omega)
    (List.length_pos.mpr h)

theorem Pusher.AddOutputBytes_pushers (w : World) (p : PusherRef) (n : Int) :
    (Pusher.AddOutputBytes w p n).world.pushers = w.pushers := by
  unfold Pusher.AddOutputBytes
  split
  · rfl
  · split
    · rfl
    · split <;> rfl

theorem Pusher.BroadcastRTP_loop_pushers (p : PusherRef) (pack : RTPPack)
    (l : List (String × PlayerRef)) :
    ∀ w : World, (Pusher.BroadcastRTP_loop p pack w l).world.pushers = w.pushers := by
  induction l with
  | nil => intro w; rfl
  | cons e rest ih =>
    intro w
    have h1 := Pusher.AddOutputBytes_pushers (Player.QueueRTP w e.2 pack) p pack.Buffer.length
    show ((Pusher.AddOutputBytes (Player.QueueRTP w e.2 pack) p pack.Buffer.length).bind
      fun _ w1 => Pusher.BroadcastRTP_loop p pack w1 rest).world.pushers = _
    cases hc : Pusher.AddOutputBytes (Player.QueueRTP w e.2 pack) p pack.Buffer.length with
    | ok u w1 =>
      rw [hc] at h1
      simp only [Res.bind]
      rw [ih w1]; exact h1
    | panic w1 =>
      rw [hc] at h1
      exact h1

theorem Pusher.BroadcastRTP_pushers (w : World) (p : PusherRef) (pack : RTPPack) :
    (Pusher.BroadcastRTP w p pack).world.pushers = w.pushers :=
  Pusher.BroadcastRTP_loop_pushers p pack _ w

theorem Pusher.h264Tail_world (w : World) (p : PusherRef) (n : Nat) :
    (Pusher.h264Tail w p n).world = w := by
  unfold Pusher.h264Tail
  split
  · split <;> rfl
  · split <;> rfl

theorem Pusher.h265Tail_world (w : World) (rtp : RTPInfo) (n : Nat) :
    (Pusher.h265Tail w rtp n).world = w := by
  unfold Pusher.h265Tail
  split
  · rfl
  · split
    · split <;> rfl
    · rfl

/-- The inspector writes nothing but the `spsppsInSTAPaPack` flag of its pusher. -/
theorem Pusher.shouldSequenceStart_world (w : World) (p : PusherRef) (rtp : RTPInfo) :
    (Pusher.shouldSequenceStart w p rtp).world = w ∨
    (Pusher.shouldSequenceStart w p rtp).world =
      w.setPusher p { w.pushers p with spsppsInSTAPaPack := true } := by
  unfold Pusher.shouldSequenceStart
  split
  · exact Or.inl rfl
  · split
    · unfold Pusher.shouldSequenceStart_h264
      split
      · exact Or.inl rfl
      · simp only []
        split
        · exact Or.inl (Pusher.h264Tail_world _ _ _)
        · split
          · split
            · exact Or.inl rfl
            · split
              · exact Or.inl (Pusher.h264Tail_world _ _ _)
              · exact Or.inl rfl
          · split
            · split
              · exact Or.inl rfl
              · split
                · exact Or.inr rfl
                · exact Or.inl (Pusher.h264Tail_world _ _ _)
              · exact Or.inl rfl
              · exact Or.inl rfl
            · exact Or.inl (Pusher.h264Tail_world _ _ _)
    · split
      · unfold Pusher.shouldSequenceStart_h265
        split
        · split
          · exact Or.inl rfl
          · simp only []
            split
            · split
              · exact Or.inl rfl
              · split
                · exact Or.inl (Pusher.h265Tail_world _ _ _)
                · exact Or.inl rfl
            · split
              · exact Or.inl (Pusher.h265Tail_world _ _ _)
              · split
                · exact Or.inl (Pusher.h265Tail_world _ _ _)
                · exact Or.inl (Pusher.h265Tail_world _ _ _)
        · exact Or.inl rfl
      · exact Or.inl rfl

theorem Pusher.shouldSequenceStart_gopCache (w : World) (p q : PusherRef) (rtp : RTPInfo) :
    ((Pusher.shouldSequenceStart w p rtp).world.pushers q).gopCache = (w.pushers q).gopCache ∧
    ((Pusher.shouldSequenceStart w p rtp).world.pushers q).gopCacheEnable
      = (w.pushers q).gopCacheEnable := by
  rcases Pusher.shouldSequenceStart_world w p rtp with h | h <;> rw [h]
  · exact ⟨rfl, rfl⟩
  · by_cases hq : q = p
    · subst hq; simp [World.setPusher]
    · simp [World.setPusher, Function.update_noteq hq]

/-- The inspector's verdict inside the pump: `rtp != nil && shouldSequenceStart(rtp)`. -/
theorem Pusher.Start_cache_eq (env : Env) (w : World) (p : PusherRef) (pack : RTPPack)
    (hen : (w.pushers p).gopCacheEnable = true) (hv : pack.Type_ = RTP_TYPE_VIDEO) :
    Pusher.Start_cache env w p pack =
      (match env.ParseRTP pack.Buffer with
        | none => Res.ok false w
        | some rtp => Pusher.shouldSequenceStart w p rtp).bind fun seqStart w1 =>
      let w2 := if seqStart then w1.setPusher p { w1.pushers p with gopCache := [] } else w1
      let atCapacity : Bool := decide ((w2.pushers p).gopCache.length ≥ MAX_GOP_CACHE_LEN)
      let w3 := if atCapacity then w2.setPusher p { w2.pushers p with gopCache := [] } else w2
      Res.ok { seqStart := seqStart, atCapacity := atCapacity }
        (w3.setPusher p { w3.pushers p with gopCache := (w3.pushers p).gopCache ++ [pack] }) := by
  unfold Pusher.Start_cache
  rw [if_pos ⟨hen, hv⟩]

theorem Pusher.Start_cache_skip (env : Env) (w : World) (p : PusherRef) (pack : RTPPack)
    (h : ¬((w.pushers p).gopCacheEnable = true ∧ pack.Type_ = RTP_TYPE_VIDEO)) :
    Pusher.Start_cache env w p pack = Res.ok {} w := by
  unfold Pusher.Start_cache
  rw [if_neg h]

/-- What the inspector's call inside the pump leaves of the pushers. -/
theorem Pusher.Start_verdict_fields (env : Env) (w : World) (p q : PusherRef) (pack : RTPPack) :
    (((match env.ParseRTP pack.Buffer with
        | none => Res.ok false w
        | some rtp => Pusher.shouldSequenceStart w p rtp).world.pushers q).gopCache
      = (w.pushers q).gopCache) ∧
    (((match env.ParseRTP pack.Buffer with
        | none => Res.ok false w
        | some rtp => Pusher.shouldSequenceStart w p rtp).world.pushers q).gopCacheEnable
      = (w.pushers q).gopCacheEnable) := by
  cases env.ParseRTP pack.Buffer with
  | none => exact ⟨rfl, rfl⟩
  | some rtp => exact Pusher.shouldSequenceStart_gopCache w p q rtp

/-- The cache update of a pump iteration that ran to its end, with the GOP cache
enabled and on a video packet. -/
theorem Pusher.Start_cache_ok (env : Env) (w w' : World) (p : PusherRef) (pack : RTPPack)
    (ev : PumpEvent)
    (hen : (w.pushers p).gopCacheEnable = true) (hv : pack.Type_ = RTP_TYPE_VIDEO)
    (h : Pusher.Start_cache env w p pack = Res.ok ev w') :
    (w'.pushers p).gopCache = gopCacheStep (w.pushers p).gopCache pack ev.seqStart ∧
    (w'.pushers p).gopCacheEnable = true ∧
    ev.atCapacity = decide (ev.seqStart = false ∧
      (w.pushers p).gopCache.length ≥ MAX_GOP_CACHE_LEN) ∧
    (∀ q, q ≠ p → (w'.pushers q).gopCache = (w.pushers q).gopCache) := by
  rw [Pusher.Start_cache_eq env w p pack hen hv] at h
  have hf := Pusher.Start_verdict_fields env w p p pack
  have hg := fun q => (Pusher.Start_verdict_fields env w p q pack).1
  cases hr : (match env.ParseRTP pack.Buffer with
      | none => Res.ok false w
      | some rtp => Pusher.shouldSequenceStart w p rtp) with
  | panic w1 => rw [hr] at h; simp [Res.bind] at h
  | ok b w1 =>
    rw [hr] at h hf hg
    simp only [Res.world] at hf hg
    simp only [Res.bind, Res.ok.injEq] at h
    obtain ⟨hev, hw⟩ := h
    subst hw; subst hev
    have hother : ∀ q, q ≠ p → ∀ (v1 v2 v3 : Pusher) (c1 c2 : Bool),
        ((((if c2 then (if c1 then w1.setPusher p v1 else w1).setPusher p v2
            else (if c1 then w1.setPusher p v1 else w1)).setPusher p v3).pushers q).gopCache
          = (w.pushers q).gopCache) := by
      intro q hq v1 v2 v3 c1 c2
      cases c1 <;> cases c2 <;> simp [World.setPusher, Function.update_noteq hq, hg q]
    refine ⟨?_, ?_, ?_, fun q hq => hother q hq _ _ _ _ _⟩
    · cases b
      · by_cases hc : (w.pushers p).gopCache.length ≥ MAX_GOP_CACHE_LEN
        · simp [gopCacheStep, hf.1, hc, World.setPusher]
        · simp [gopCacheStep, hf.1, hc, World.setPusher]
      · simp [gopCacheStep, World.setPusher, MAX_GOP_CACHE_LEN]
    · cases b
      · by_cases hc : (w.pushers p).gopCache.length ≥ MAX_GOP_CACHE_LEN
        · simp [hf.1, hf.2, hen, hc, World.setPusher]
        · simp [hf.1, hf.2, hen, hc, World.setPusher]
      · simp [hf.2, hen, World.setPusher, MAX_GOP_CACHE_LEN]
    · cases b
      · by_cases hc : (w.pushers p).gopCache.length ≥ MAX_GOP_CACHE_LEN
        · simp [hf.1, hc, World.setPusher]
        · simp [hf.1, hc, World.setPusher]
      · simp [World.setPusher, MAX_GOP_CACHE_LEN]

theorem gopCacheStep_length (cache : List RTPPack) (pack : RTPPack) (b : Bool) :
    (gopCacheStep cache pack b).length ≤ MAX_GOP_CACHE_LEN := by
  unfold gopCacheStep MAX_GOP_CACHE_LEN
  cases b
  · by_cases hc : cache.length ≥ 256
    · simp [hc]
    · simp [hc]; omega
  · simp

theorem Pusher.Start_cache_bounded (env : Env) (w : World) (p : PusherRef) (pack : RTPPack)
    (h : CacheBounded w) : CacheBounded (Pusher.Start_cache env w p pack).world := by
  by_cases hc : (w.pushers p).gopCacheEnable = true ∧ pack.Type_ = RTP_TYPE_VIDEO
  · cases hr : Pusher.Start_cache env w p pack with
    | ok ev w' =>
      obtain ⟨h1, _, _, h4⟩ := Pusher.Start_cache_ok env w w' p pack ev hc.1 hc.2 hr
      intro q
      by_cases hq : q = p
      · subst hq
        show (w'.pushers q).gopCache.length ≤ _
        rw [h1]; exact gopCacheStep_length _ _ _
      · show (w'.pushers q).gopCache.length ≤ _
        rw [h4 q hq]; exact h q
    | panic w' =>
      rw [Pusher.Start_cache_eq env w p pack hc.1 hc.2] at hr
      have hg := fun q => (Pusher.Start_verdict_fields env w p q pack).1
      cases hv : (match env.ParseRTP pack.Buffer with
          | none => Res.ok false w
          | some rtp => Pusher.shouldSequenceStart w p rtp) with
      | ok b w1 => rw [hv] at hr; simp [Res.bind] at hr
      | panic w1 =>
        rw [hv] at hr hg
        simp only [Res.bind, Res.panic.injEq] at hr
        subst hr
        intro q
        show (w1.pushers q).gopCache.length ≤ _
        have := hg q
        simp only [Res.world] at this
        rw [this]; exact h q
  · rw [Pusher.Start_cache_skip env w p pack hc]; exact h

theorem Pusher.Start_iter_bounded (env : Env) (w : World) (p : PusherRef)
    (pack : Option RTPPack) (h : CacheBounded w) :
    CacheBounded (Pusher.Start_iter env w p pack).world := by
  cases pack with
  | none =>
    unfold Pusher.Start_iter
    simp only []
    split <;> exact h
  | some pack =>
    have h1 := Pusher.Start_cache_bounded env w p pack h
    show CacheBounded ((Pusher.Start_cache env w p pack).bind fun ev w1 =>
      (Pusher.BroadcastRTP w1 p pack).bind fun _ w2 => Res.ok ev w2).world
    cases hc : Pusher.Start_cache env w p pack with
    | panic w1 => rw [hc] at h1; exact h1
    | ok ev w1 =>
      rw [hc] at h1
      have h2 := Pusher.BroadcastRTP_pushers w1 p pack
      simp only [Res.bind]
      cases hb : Pusher.BroadcastRTP w1 p pack with
      | ok u w2 =>
        rw [hb] at h2
        intro q
        show (w2.pushers q).gopCache.length ≤ _
        have : w2.pushers = w1.pushers := h2
        rw [this]; exact h1 q
      | panic w2 =>
        rw [hb] at h2
        intro q
        show (w2.pushers q).gopCache.length ≤ _
        have : w2.pushers = w1.pushers := h2
        rw [this]; exact h1 q

theorem Session.Stop_gopCache (w : World) (s : SessRef) (q : PusherRef) :
    ((Session.Stop w s).world.pushers q).gopCache = (w.pushers q).gopCache := by
  by_cases hst : (w.sessions s).Stoped = true
  · rw [Session.Stop_of_stopped w s hst]; rfl
  · have hns : (w.sessions s).Stoped = false := by simpa using hst
    obtain ⟨wb, hfr, _, hpu, _⟩ := Session.Stop_frame w s hns
    rw [hpu, hfr.pGopCache]; rfl

theorem Pusher.RebindSession_bounded (w : World) (p : PusherRef) (s : SessRef)
    (h : CacheBounded w) : CacheBounded (Pusher.RebindSession w p s).world := by
  cases hC : (w.pushers p).RTSPClient with
  | some c =>
    have : Pusher.RebindSession w p s = Res.ok false w := by simp [Pusher.RebindSession, hC]
    rw [this]; exact h
  | none =>
    have h3 : CacheBounded (Pusher.RebindSession_bound w p s) := by
      intro q
      by_cases hq : q = p
      · subst hq; rw [Pusher.RebindSession_bound_pusher]; simp
      · rw [Pusher.RebindSession_bound_pusher_ne w p q s hq]; exact h q
    rw [Pusher.RebindSession_eq w p s hC]
    cases hS : (w.pushers p).Session with
    | none => exact h3
    | some old =>
      simp only []
      have h4 := fun q => Session.Stop_gopCache (Pusher.RebindSession_bound w p s) old q
      cases hst : Session.Stop (Pusher.RebindSession_bound w p s) old with
      | ok u w4 =>
        rw [hst] at h4
        intro q
        show (w4.pushers q).gopCache.length ≤ _
        have := h4 q
        simp only [Res.world] at this
        rw [this]; exact h3 q
      | panic w4 =>
        rw [hst] at h4
        intro q
        show (w4.pushers q).gopCache.length ≤ _
        have := h4 q
        simp only [Res.world] at this
        rw [this]; exact h3 q

theorem NewPusher_bounded (w : World) (s : SessRef) (h : CacheBounded w) :
    CacheBounded (NewPusher w s).2 := by
  intro q
  by_cases hq : q = w.nextPusher
  · subst hq
    simp [NewPusher, Pusher.bindSession, World.setPusher, World.setSession]
  · simp only [NewPusher, Pusher.bindSession, World.setPusher, World.setSession,
      Function.update_noteq hq]
    exact h q

theorem CacheOp.run_bounded (env : Env) (ops : List CacheOp) :
    ∀ w : World, CacheBounded w → CacheBounded (CacheOp.run env w ops) := by
  induction ops with
  | nil => intro w h; exact h
  | cons op rest ih =>
    intro w h
    apply ih
    cases op with
    | pump p pack => exact Pusher.Start_iter_bounded env w p pack h
    | rebind p s => exact Pusher.RebindSession_bounded w p s h
    | newPusher s => exact NewPusher_bounded w s h

/-! ### The GOP cache as a function of the verdicts -/

theorem gopCacheStep_true (c : List RTPPack) (pack : RTPPack) :
    gopCacheStep c pack true = [pack] := by
  simp [gopCacheStep, MAX_GOP_CACHE_LEN]

theorem gopCacheStep_false (c : List RTPPack) (pack : RTPPack)
    (h : c.length < MAX_GOP_CACHE_LEN) : gopCacheStep c pack false = c ++ [pack] := by
  have : ¬ c.length ≥ MAX_GOP_CACHE_LEN := by omega
  simp [gopCacheStep, this]

theorem gopCacheRun_all_false (l : List (RTPPack × Bool)) :
    ∀ c : List RTPPack, (∀ e, e ∈ l → e.2 = false) → c.length + l.length ≤ MAX_GOP_CACHE_LEN →
      gopCacheRun c l = c ++ l.map Prod.fst := by
  induction l with
  | nil => intro c _ _; simp [gopCacheRun]
  | cons e rest ih =>
    intro c hf hlen
    obtain ⟨pk, b⟩ := e
    have hb : b = false := hf (pk, b) (List.mem_cons_self _ _)
    subst hb
    simp only [List.length_cons] at hlen
    rw [gopCacheRun, gopCacheStep_false c pk (by omega),
      ih (c ++ [pk]) (fun e he => hf e (List.mem_cons_of_mem _ he))
        (by simp only [List.length_append, List.length_singleton]; omega)]
    simp

/-- With the last sequence start at index `k` and at most 256 packets from there
on, the cache ends as the packets from index `k`. -/
theorem gopCacheRun_last_start :
    ∀ (k : Nat) (packs : List RTPPack) (flags : List Bool) (c : List RTPPack),
      flags.length = packs.length → flags[k]? = some true →
      (∀ j, k < j → flags[j]? ≠ some true) →
      packs.length - k ≤ MAX_GOP_CACHE_LEN →
      gopCacheRun c (packs.zip flags) = packs.drop k := by
  intro k
  induction k with
  | zero =>
    intro packs flags c hlen hk hlast hmax
    cases flags with
    | nil => simp at hk
    | cons f0 fs =>
      cases packs with
      | nil => simp at hlen
      | cons p0 ps =>
        simp only [List.getElem?_cons_zero, Option.some.injEq] at hk
        subst hk
        simp only [List.length_cons, Nat.add_right_cancel_iff] at hlen
        simp only [List.length_cons, Nat.sub_zero] at hmax
        show gopCacheRun c ((p0, true) :: ps.zip fs) = p0 :: ps
        rw [gopCacheRun, gopCacheStep_true, gopCacheRun_all_false]
        · rw [List.map_fst_zip _ _ (by omega)]; rfl
        · intro e he
          have h2 : e.2 ∈ fs := (List.of_mem_zip he).2
          obtain ⟨j, hj⟩ := List.mem_iff_getElem?.mp h2
          have := hlast (j + 1) (by omega)
          rw [List.getElem?_cons_succ, hj] at this
          cases h : e.2
          · rfl
          · rw [h] at this; exact absurd rfl this
        · rw [List.length_singleton, List.length_zip]
          omega
  | succ k ih =>
    intro packs flags c hlen hk hlast hmax
    cases flags with
    | nil => simp at hk
    | cons f0 fs =>
      cases packs with
      | nil => simp at hlen
      | cons p0 ps =>
        simp only [List.length_cons, Nat.add_right_cancel_iff] at hlen
        simp only [List.getElem?_cons_succ] at hk
        simp only [List.length_cons] at hmax
        show gopCacheRun c ((p0, f0) :: ps.zip fs) = ps.drop k
        rw [gopCacheRun]
        exact ih ps fs _ hlen hk
          (fun j hj => by
            have := hlast (j + 1) (by omega)
            rwa [List.getElem?_cons_succ] at this)
          (by omega)

theorem Pusher.Start_iter_some (env : Env) (w : World) (p : PusherRef) (pack : RTPPack) :
    Pusher.Start_iter env w p (some pack) =
      (Pusher.Start_cache env w p pack).bind fun ev w1 =>
        (Pusher.BroadcastRTP w1 p pack).bind fun _ w2 => Res.ok ev w2 := rfl

/-- A pump iteration that ran to its end splits into its cache update and its broadcast. -/
theorem Pusher.Start_iter_ok (env : Env) (w w' : World) (p : PusherRef) (pack : RTPPack)
    (ev : PumpEvent) (h : Pusher.Start_iter env w p (some pack) = Res.ok ev w') :
    ∃ w1, Pusher.Start_cache env w p pack = Res.ok ev w1 ∧
      Pusher.BroadcastRTP w1 p pack = Res.ok () w' ∧ w'.pushers = w1.pushers := by
  rw [Pusher.Start_iter_some] at h
  cases hc : Pusher.Start_cache env w p pack with
  | panic w1 => rw [hc] at h; simp [Res.bind] at h
  | ok ev1 w1 =>
    rw [hc] at h
    simp only [Res.bind] at h
    have hp := Pusher.BroadcastRTP_pushers w1 p pack
    cases hb : Pusher.BroadcastRTP w1 p pack with
    | panic w2 => rw [hb] at h; simp at h
    | ok u w2 =>
      rw [hb] at h hp
      simp only [Res.ok.injEq] at h
      obtain ⟨h1, h2⟩ := h
      subst h1; subst h2
      exact ⟨w1, rfl, hb, hp⟩

theorem Pusher.Start_loop_cons (env : Env) (p : PusherRef) (w : World)
    (item : Option RTPPack) (rest : List (Option RTPPack)) :
    Pusher.Start_loop env p w (item :: rest) =
      match Pusher.Stoped w p with
      | none => Res.panic w
      | some true => Res.ok [] w
      | some false =>
        (Pusher.Start_iter env w p item).bind fun ev w1 =>
          (Pusher.Start_loop env p w1 rest).bind fun evs w2 => Res.ok (ev :: evs) w2 := rfl

/-- A run of the loop in which an iteration ran: the first iteration and the rest. -/
theorem Pusher.Start_loop_cons_ok (env : Env) (p : PusherRef) (w w' : World)
    (item : Option RTPPack) (rest : List (Option RTPPack)) (ev : PumpEvent)
    (evs : List PumpEvent)
    (h : Pusher.Start_loop env p w (item :: rest) = Res.ok (ev :: evs) w') :
    Pusher.Stoped w p = some false ∧
    ∃ w1, Pusher.Start_iter env w p item = Res.ok ev w1 ∧
      Pusher.Start_loop env p w1 rest = Res.ok evs w' := by
  rw [Pusher.Start_loop_cons] at h
  cases hs : Pusher.Stoped w p with
  | none => rw [hs] at h; simp at h
  | some b =>
    rw [hs] at h
    cases b
    · simp only [] at h
      cases hi : Pusher.Start_iter env w p item with
      | panic w1 => rw [hi] at h; simp [Res.bind] at h
      | ok ev1 w1 =>
        rw [hi] at h
        simp only [Res.bind] at h
        cases hl : Pusher.Start_loop env p w1 rest with
        | panic w2 => rw [hl] at h; simp at h
        | ok evs1 w2 =>
          rw [hl] at h
          simp only [Res.ok.injEq, List.cons.injEq] at h
          obtain ⟨⟨h1, h2⟩, h3⟩ := h
          subst h1; subst h2; subst h3
          exact ⟨rfl, w1, rfl, hl⟩
    · simp at h

/-- The GOP cache after a run of the loop over video packets in which every
packet was processed, as a function of the verdicts. -/
theorem Pusher.Start_loop_cache (env : Env) (p : PusherRef) :
    ∀ (packs : List RTPPack) (w w' : World) (evs : List PumpEvent),
      Pusher.Start_loop env p w (packs.map some) = Res.ok evs w' →
      evs.length = packs.length →
      (w.pushers p).gopCacheEnable = true →
      (∀ pk, pk ∈ packs → pk.Type_ = RTP_TYPE_VIDEO) →
      (w'.pushers p).gopCache =
        gopCacheRun (w.pushers p).gopCache (packs.zip (evs.map PumpEvent.seqStart)) := by
  intro packs
  induction packs with
  | nil =>
    intro w w' evs h _ _ _
    simp only [List.map_nil, Pusher.Start_loop, Res.ok.injEq] at h
    rw [← h.2]; rfl
  | cons pk rest ih =>
    intro w w' evs h hlen hen hv
    cases evs with
    | nil => simp at hlen
    | cons ev evs =>
      simp only [List.length_cons, Nat.add_right_cancel_iff] at hlen
      obtain ⟨_, w1, hi, hl⟩ := Pusher.Start_loop_cons_ok env p w w' (some pk) _ ev evs h
      obtain ⟨w0, hc, _, hp⟩ := Pusher.Start_iter_ok env w w1 p pk ev hi
      obtain ⟨h1, h2, _, _⟩ := Pusher.Start_cache_ok env w w0 p pk ev hen
        (hv pk (List.mem_cons_self _ _)) hc
      rw [← hp] at h1 h2
      rw [ih w1 w' evs hl hlen h2 (fun q hq => hv q (List.mem_cons_of_mem _ hq)), h1]
      rfl

/-! ### C6: GOP cache bound -/

/-- C6. GOP cache bound: from a world in which every GOP cache is empty (as that
of a new pusher is), after any sequence of pump iterations (on any queue items,
also ones on which the iteration panics), `RebindSession` calls and `NewPusher`
creations, every GOP cache holds at most 256 packets. -/
theorem gopCache_bound (env : Env) (w0 : World)
    (hinit : ∀ q, (w0.pushers q).gopCache = []) (ops : List CacheOp) (q : PusherRef) :
    ((CacheOp.run env w0 ops).pushers q).gopCache.length ≤ 256 :=
  CacheOp.run_bounded env ops w0 (fun q => by rw [hinit q]; simp) q

/-- Witness for C6: from `exPumpWorld` a non-keyframe is pumped, session `1` is
rebound to the pusher and a keyframe is pumped. -/
theorem gopCache_bound_witness :
    (exPumpWorld.pushers 0).gopCache = [] ∧
    ((CacheOp.run exEnv exPumpWorld [CacheOp.pump 0 (some (exNonKey 0)), CacheOp.rebind 0 1,
      CacheOp.pump 0 (some (exKey 1))]).pushers 0).gopCache.length ≤ 256 :=
  ⟨by decide,
    gopCache_bound exEnv exPumpWorld
      (fun q => by
        by_cases h : q = 0
        · subst h; decide
        · simp [exPumpWorld, Function.update_noteq h])
      _ 0⟩

/-! ### C8: late join at the last keyframe -/

theorem Res.result_eq_some {α : Type} (r : Res α) (a : α) (h : r.result = some a) :
    r = Res.ok a r.world := by
  cases r with
  | ok b w => simp only [Res.result, Option.some.injEq] at h; subst h; rfl
  | panic w => simp [Res.result] at h

theorem Pusher.Start_result (env : Env) (w : World) (p : PusherRef)
    (queue : List (Option RTPPack)) (evs : List PumpEvent)
    (h : (Pusher.Start env w p queue).result = some evs) :
    Pusher.Logger w p = some () ∧
    Pusher.Start_loop env p w queue = Res.ok evs (Pusher.Start env w p queue).world := by
  unfold Pusher.Start at h ⊢
  cases hl : Pusher.Logger w p with
  | none => rw [hl] at h; simp [Res.result] at h
  | some u =>
    rw [hl] at h
    exact ⟨rfl, Res.result_eq_some _ _ h⟩

/-- C8. Late join at the last keyframe: with the GOP cache enabled, when the pump
has processed a sequence of video packets (every one of them) and the last packet
the inspector reported as a sequence start is at index `k`, with at most 256
packets from index `k` to the end, the GOP cache is exactly the packets from
index `k` to the end, in arrival order. -/
theorem gopCache_late_join (env : Env) (w : World) (p : PusherRef) (packs : List RTPPack)
    (evs : List PumpEvent) (k : Nat)
    (hen : (w.pushers p).gopCacheEnable = true)
    (hvideo : ∀ pk, pk ∈ packs → pk.Type_ = RTP_TYPE_VIDEO)
    (hrun : (Pusher.Start env w p (packs.map some)).result = some evs)
    (hall : evs.length = packs.length)
    (hk : (evs.map PumpEvent.seqStart)[k]? = some true)
    (hlast : ∀ j, k < j → (evs.map PumpEvent.seqStart)[j]? ≠ some true)
    (hlen : packs.length - k ≤ 256) :
    ((Pusher.Start env w p (packs.map some)).world.pushers p).gopCache = packs.drop k := by
  obtain ⟨_, hloop⟩ := Pusher.Start_result env w p _ evs hrun
  rw [Pusher.Start_loop_cache env p packs w _ evs hloop hall hen hvideo]
  exact gopCacheRun_last_start k packs _ _ (by simp [hall]) hk hlast hlen

set_option maxRecDepth 100000 in
theorem exStream_run :
    (Pusher.Start exEnv exPumpWorld 0 (exStream.map some)).result = some exEvents := by
  decide

theorem exEvents_last (j : Nat) (hj : 120 < j) :
    (exEvents.map PumpEvent.seqStart)[j]? ≠ some true := by
  unfold exEvents
  rw [List.map_map, List.getElem?_map]
  by_cases h : j < 181
  · have h0 : j ≠ 0 := by omega
    have h1 : j ≠ 120 := by omega
    rw [List.getElem?_range h]
    simp [h0, h1]
  · rw [List.getElem?_eq_none (by rw [List.length_range]; omega)]
    simp

set_option maxRecDepth 100000 in
/-- Witness for C8: the stream of scenario 2 of the spec, keyframes at 0 and 120,
181 packets processed: the cache is packets 120..180. -/
theorem gopCache_late_join_witness :
    (Pusher.Start exEnv exPumpWorld 0 (exStream.map some)).result = some exEvents ∧
    ((Pusher.Start exEnv exPumpWorld 0 (exStream.map some)).world.pushers 0).gopCache
      = exStream.drop 120 :=
  ⟨exStream_run,
    gopCache_late_join exEnv exPumpWorld 0 exStream exEvents 120 (by decide) (by decide)
      exStream_run (by decide) (by decide) exEvents_last (by decide)⟩

/-! ### C9: `Pusher.AddPlayer` -/

theorem Pusher.Logger_congr (w w' : World) (p : PusherRef) (h : w'.pushers p = w.pushers p) :
    Pusher.Logger w' p = Pusher.Logger w p := by
  simp only [Pusher.Logger, h]

/-- With a source, `AddOutputBytes` returns and writes no pusher and no player. -/
theorem Pusher.AddOutputBytes_ok (w : World) (p : PusherRef) (n : Int)
    (h : Pusher.Logger w p = some ()) :
    ∃ w', Pusher.AddOutputBytes w p n = Res.ok () w' ∧ w'.pushers = w.pushers ∧
      w'.players = w.players := by
  unfold Pusher.Logger at h
  unfold Pusher.AddOutputBytes
  cases hS : (w.pushers p).Session with
  | some s => exact ⟨_, rfl, rfl, rfl⟩
  | none =>
    rw [hS] at h
    cases hM : (w.pushers p).MulticastClient with
    | some m => exact ⟨_, rfl, rfl, rfl⟩
    | none =>
      rw [hM] at h
      cases hC : (w.pushers p).RTSPClient with
      | some c => exact ⟨_, rfl, rfl, rfl⟩
      | none => rw [hC] at h; simp at h

/-- The priming loop hands the packets to the player in order and to nobody else. -/
theorem Pusher.AddPlayer_prime_spec (p : PusherRef) (player : PlayerRef) (l : List RTPPack) :
    ∀ w : World, Pusher.Logger w p = some () →
      ∃ w', Pusher.AddPlayer_prime p player w l = Res.ok () w' ∧ w'.pushers = w.pushers ∧
        (w'.players player).queued = (w.players player).queued ++ l ∧
        (w'.players player).ID = (w.players player).ID ∧
        (∀ q, q ≠ player → w'.players q = w.players q) := by
  induction l with
  | nil => intro w _; exact ⟨w, rfl, rfl, by simp, rfl, fun _ _ => rfl⟩
  | cons pack rest ih =>
    intro w hsrc
    obtain ⟨w1, h1, hp1, hq1⟩ := Pusher.AddOutputBytes_ok (Player.QueueRTP w player pack) p
      pack.Buffer.length
      (by rw [Pusher.Logger_congr w (Player.QueueRTP w player pack) p rfl]; exact hsrc)
    have hp1 : w1.pushers = w.pushers := hp1
    obtain ⟨w', h2, hp2, hq2, hid2, ho2⟩ := ih w1 (by
      rw [Pusher.Logger_congr w w1 p (by rw [hp1])]; exact hsrc)
    refine ⟨w', ?_, hp2.trans hp1, ?_, ?_, ?_⟩
    · show (Pusher.AddOutputBytes (Player.QueueRTP w player pack) p pack.Buffer.length).bind
        (fun _ w1 => Pusher.AddPlayer_prime p player w1 rest) = _
      rw [h1]; exact h2
    · rw [hq2, hq1]
      simp [Player.QueueRTP, World.setPlayer]
    · rw [hid2, hq1]
      simp [Player.QueueRTP, World.setPlayer]
    · intro q hq
      rw [ho2 q hq, hq1]
      simp [Player.QueueRTP, World.setPlayer, Function.update_noteq hq]

/-- C9. `Pusher.AddPlayer`: for a pusher with a source and a player whose ID is not
yet in the players map, the call returns; afterwards the players map is the old map
with the player set under its ID (the lookups of the other IDs are unchanged), the
packets handed to the player's `QueueRTP` by the call are exactly the GOP cache,
once each and in cache order, when the GOP cache is enabled, and none when it is
disabled; no other player is handed a packet and the GOP cache is unchanged. -/
theorem AddPlayer_contract (w : World) (p : PusherRef) (player : PlayerRef)
    (hsrc : Pusher.Logger w p = some ())
    (hnew : (w.pushers p).players.get (w.players player).ID = none) :
    ∃ w', Pusher.AddPlayer w p player = Res.ok () w' ∧
      (w'.pushers p).players = (w.pushers p).players.set (w.players player).ID player ∧
      (w'.pushers p).players.get (w.players player).ID = some player ∧
      (∀ k, k ≠ (w.players player).ID →
        (w'.pushers p).players.get k = (w.pushers p).players.get k) ∧
      (w'.players player).queued = (w.players player).queued ++
        (if (w.pushers p).gopCacheEnable then (w.pushers p).gopCache else []) ∧
      (∀ q, q ≠ player → w'.players q = w.players q) ∧
      (w'.pushers p).gopCache = (w.pushers p).gopCache := by
  have hmap : ∀ m : GoMap PlayerRef, m = (w.pushers p).players.set (w.players player).ID player →
      m.get (w.players player).ID = some player ∧
      ∀ k, k ≠ (w.players player).ID → m.get k = (w.pushers p).players.get k := by
    intro m hm
    subst hm
    exact ⟨GoMap.get_set_self _ _ _, fun k hk => GoMap.get_set_of_ne _ _ _ _ hk⟩
  have hP : ((w.setPusher p { w.pushers p with
      players := (w.pushers p).players.set (w.players player).ID player }).pushers p)
      = { w.pushers p with
          players := (w.pushers p).players.set (w.players player).ID player } := by
    simp [World.setPusher]
  have hA : Pusher.AddPlayer w p player =
      if (w.pushers p).gopCacheEnable = true then
        Pusher.AddPlayer_prime p player (w.setPusher p { w.pushers p with
          players := (w.pushers p).players.set (w.players player).ID player })
          (w.pushers p).gopCache
      else Res.ok () (w.setPusher p { w.pushers p with
          players := (w.pushers p).players.set (w.players player).ID player }) := by
    unfold Pusher.AddPlayer
    rw [hsrc]
    simp only [hnew]
    rw [hP]
  rw [hA]
  by_cases hen : (w.pushers p).gopCacheEnable = true
  · rw [if_pos hen, if_pos hen]
    obtain ⟨w', h1, h2, h3, _, h5⟩ := Pusher.AddPlayer_prime_spec p player (w.pushers p).gopCache
      (w.setPusher p { w.pushers p with
        players := (w.pushers p).players.set (w.players player).ID player })
      (by unfold Pusher.Logger at hsrc ⊢; rw [hP]; exact hsrc)
    refine ⟨w', h1, ?_, ?_, ?_, h3, h5, ?_⟩
    · rw [h2, hP]
    · rw [h2, hP]; exact (hmap _ rfl).1
    · rw [h2, hP]; exact (hmap _ rfl).2
    · rw [h2, hP]
  · rw [if_neg hen, if_neg hen]
    refine ⟨_, rfl, ?_, ?_, ?_, by simp [World.setPusher], fun _ _ => rfl, ?_⟩
    · rw [hP]
    · rw [hP]; exact (hmap _ rfl).1
    · rw [hP]; exact (hmap _ rfl).2
    · rw [hP]

/-! ### C7: keyframe-first delivery -/

theorem Pusher.shouldSequenceStart_logger (w : World) (p : PusherRef) (rtp : RTPInfo) :
    Pusher.Logger (Pusher.shouldSequenceStart w p rtp).world p = Pusher.Logger w p := by
  rcases Pusher.shouldSequenceStart_world w p rtp with h | h <;> rw [h]
  simp [Pusher.Logger, World.setPusher]

/-- The cache update of a pump iteration keeps the pusher's source. -/
theorem Pusher.Start_cache_logger (env : Env) (w w' : World) (p : PusherRef) (pack : RTPPack)
    (ev : PumpEvent) (h : Pusher.Start_cache env w p pack = Res.ok ev w') :
    Pusher.Logger w' p = Pusher.Logger w p := by
  by_cases hc : (w.pushers p).gopCacheEnable = true ∧ pack.Type_ = RTP_TYPE_VIDEO
  · rw [Pusher.Start_cache_eq env w p pack hc.1 hc.2] at h
    have hl : Pusher.Logger (match env.ParseRTP pack.Buffer with
        | none => Res.ok false w
        | some rtp => Pusher.shouldSequenceStart w p rtp).world p = Pusher.Logger w p := by
      cases env.ParseRTP pack.Buffer with
      | none => rfl
      | some rtp => exact Pusher.shouldSequenceStart_logger w p rtp
    cases hr : (match env.ParseRTP pack.Buffer with
        | none => Res.ok false w
        | some rtp => Pusher.shouldSequenceStart w p rtp) with
    | panic w1 => rw [hr] at h; simp [Res.bind] at h
    | ok b w1 =>
      rw [hr] at h hl
      simp only [Res.world] at hl
      simp only [Res.bind, Res.ok.injEq] at h
      obtain ⟨_, hw⟩ := h
      subst hw
      rw [← hl]
      cases b
      · by_cases hcap : (w1.pushers p).gopCache.length ≥ MAX_GOP_CACHE_LEN
        · simp [Pusher.Logger, World.setPusher, hcap]
        · simp [Pusher.Logger, World.setPusher, hcap]
      · simp [Pusher.Logger, World.setPusher, MAX_GOP_CACHE_LEN]
  · rw [Pusher.Start_cache_skip env w p pack hc] at h
    simp only [Res.ok.injEq] at h
    rw [← h.2]

/-- What a pump iteration that ran to its end did to the GOP cache. -/
theorem Pusher.Start_iter_cache (env : Env) (w w1 : World) (p : PusherRef)
    (item : Option RTPPack) (ev : PumpEvent)
    (hen : (w.pushers p).gopCacheEnable = true)
    (h : Pusher.Start_iter env w p item = Res.ok ev w1) :
    (w1.pushers p).gopCacheEnable = true ∧ Pusher.Logger w1 p = Pusher.Logger w p ∧
    ((∃ pk, item = some pk ∧ pk.Type_ = RTP_TYPE_VIDEO ∧
        (w1.pushers p).gopCache = gopCacheStep (w.pushers p).gopCache pk ev.seqStart ∧
        ev.atCapacity = decide (ev.seqStart = false ∧
          (w.pushers p).gopCache.length ≥ MAX_GOP_CACHE_LEN)) ∨
      ((∀ pk, item = some pk → pk.Type_ ≠ RTP_TYPE_VIDEO) ∧
        (w1.pushers p).gopCache = (w.pushers p).gopCache)) := by
  cases item with
  | none =>
    unfold Pusher.Start_iter at h
    simp only [] at h
    cases hs : Pusher.Stoped w p with
    | none => rw [hs] at h; simp at h
    | some b =>
      rw [hs] at h
      simp only [Res.ok.injEq] at h
      rw [← h.2]
      exact ⟨hen, rfl, Or.inr ⟨fun pk hpk => by simp at hpk, rfl⟩⟩
  | some pk =>
    obtain ⟨w0, hc, _, hp⟩ := Pusher.Start_iter_ok env w w1 p pk ev h
    have hlog : Pusher.Logger w1 p = Pusher.Logger w p := by
      rw [Pusher.Logger_congr w0 w1 p (by rw [hp])]
      exact Pusher.Start_cache_logger env w w0 p pk ev hc
    by_cases hv : pk.Type_ = RTP_TYPE_VIDEO
    · obtain ⟨h1, h2, h3, _⟩ := Pusher.Start_cache_ok env w w0 p pk ev hen hv hc
      rw [← hp] at h1 h2
      exact ⟨h2, hlog, Or.inl ⟨pk, rfl, hv, h1, h3⟩⟩
    · rw [Pusher.Start_cache_skip env w p pk (fun hh => hv hh.2)] at hc
      simp only [Res.ok.injEq] at hc
      rw [hp, ← hc.2]
      exact ⟨hen, by rw [← hlog, Pusher.Logger_congr w0 w1 p (by rw [hp]), ← hc.2],
        Or.inr ⟨fun q hq => by cases hq; exact hv, rfl⟩⟩

/-- A run of the loop: the pusher was stopped, or the first iteration ran. -/
theorem Pusher.Start_loop_cons_cases (env : Env) (p : PusherRef) (w w' : World)
    (item : Option RTPPack) (rest : List (Option RTPPack)) (evs : List PumpEvent)
    (h : Pusher.Start_loop env p w (item :: rest) = Res.ok evs w') :
    (evs = [] ∧ w' = w) ∨
    (∃ ev evs1 w1, evs = ev :: evs1 ∧ Pusher.Start_iter env w p item = Res.ok ev w1 ∧
      Pusher.Start_loop env p w1 rest = Res.ok evs1 w') := by
  cases evs with
  | cons ev evs1 =>
    obtain ⟨_, w1, h1, h2⟩ := Pusher.Start_loop_cons_ok env p w w' item rest ev evs1 h
    exact Or.inr ⟨ev, evs1, w1, rfl, h1, h2⟩
  | nil =>
    left
    rw [Pusher.Start_loop_cons] at h
    cases hs : Pusher.Stoped w p with
    | none => rw [hs] at h; simp at h
    | some b =>
      rw [hs] at h
      cases b
      · simp only [] at h
        cases hi : Pusher.Start_iter env w p item with
        | panic w1 => rw [hi] at h; simp [Res.bind] at h
        | ok ev1 w1 =>
          rw [hi] at h
          simp only [Res.bind] at h
          cases hl : Pusher.Start_loop env p w1 rest with
          | panic w2 => rw [hl] at h; simp at h
          | ok evs1 w2 => rw [hl] at h; simp at h
      · simp only [Res.ok.injEq, true_and] at h
        exact ⟨rfl, h.symm⟩

theorem processedVideo_nil_right (queue : List (Option RTPPack)) :
    processedVideo queue [] = [] := by
  simp [processedVideo]

theorem processedVideo_cons_video (pk : RTPPack) (rest : List (Option RTPPack))
    (ev : PumpEvent) (evs : List PumpEvent) (hv : pk.Type_ = RTP_TYPE_VIDEO) :
    processedVideo (some pk :: rest) (ev :: evs) = (pk, ev) :: processedVideo rest evs := by
  simp [processedVideo, hv]

theorem processedVideo_cons_skip (item : Option RTPPack) (rest : List (Option RTPPack))
    (ev : PumpEvent) (evs : List PumpEvent)
    (h : ∀ pk, item = some pk → pk.Type_ ≠ RTP_TYPE_VIDEO) :
    processedVideo (item :: rest) (ev :: evs) = processedVideo rest evs := by
  cases item with
  | none => simp [processedVideo]
  | some pk => simp [processedVideo, h pk rfl]

/-- The cache updates of a run of the loop, on the video packets processed. -/
theorem Pusher.Start_loop_trace (env : Env) (p : PusherRef) :
    ∀ (queue : List (Option RTPPack)) (w w' : World) (evs : List PumpEvent),
      Pusher.Start_loop env p w queue = Res.ok evs w' →
      (w.pushers p).gopCacheEnable = true →
      cacheTrace (w.pushers p).gopCache (processedVideo queue evs) (w'.pushers p).gopCache ∧
      Pusher.Logger w' p = Pusher.Logger w p ∧ (w'.pushers p).gopCacheEnable = true := by
  intro queue
  induction queue with
  | nil =>
    intro w w' evs h hen
    simp only [Pusher.Start_loop, Res.ok.injEq] at h
    rw [← h.2, ← h.1]
    exact ⟨rfl, rfl, hen⟩
  | cons item rest ih =>
    intro w w' evs h hen
    rcases Pusher.Start_loop_cons_cases env p w w' item rest evs h with
      ⟨h1, h2⟩ | ⟨ev, evs1, w1, h1, h2, h3⟩
    · subst h1; subst h2
      rw [processedVideo_nil_right]
      exact ⟨rfl, rfl, hen⟩
    · subst h1
      obtain ⟨hen1, hlog1, hcache⟩ := Pusher.Start_iter_cache env w w1 p item ev hen h2
      obtain ⟨htr, hlog, hen'⟩ := ih w1 w' evs1 h3 hen1
      refine ⟨?_, hlog.trans hlog1, hen'⟩
      rcases hcache with ⟨pk, hitem, hv, hstep, hcap⟩ | ⟨hitem, hsame⟩
      · subst hitem
        rw [processedVideo_cons_video pk rest ev evs1 hv]
        rw [hstep] at htr
        exact ⟨hcap, htr⟩
      · rw [processedVideo_cons_skip item rest ev evs1 hitem]
        rw [hsame] at htr
        exact htr

theorem gopCacheStep_restart (c : List RTPPack) (pack : RTPPack) (b : Bool)
    (h : b = true ∨ c.length ≥ MAX_GOP_CACHE_LEN) : gopCacheStep c pack b = [pack] := by
  rcases h with h | h
  · subst h; exact gopCacheStep_true c pack
  · cases b
    · simp [gopCacheStep, h]
    · exact gopCacheStep_true c pack

theorem gopCacheStep_length_succ (c : List RTPPack) (pack : RTPPack) (b : Bool) :
    (gopCacheStep c pack b).length ≤ c.length + 1 := by
  by_cases h : b = true ∨ c.length ≥ MAX_GOP_CACHE_LEN
  · rw [gopCacheStep_restart c pack b h]
    simp
  · have hb : b = false := by
      cases b
      · rfl
      · exact absurd (Or.inl rfl) h
    have hl : c.length < MAX_GOP_CACHE_LEN := by
      by_contra hh
      exact h (Or.inr (by omega))
    subst hb
    rw [gopCacheStep_false c pack hl]
    simp

/-- The cache after the updates of the pump: the cache before with every packet
appended, when no update restarted it; otherwise the packets from the last update
on that restarted it. -/
theorem cacheTrace_head (pv : List (RTPPack × PumpEvent)) :
    ∀ (c c' : List RTPPack), cacheTrace c pv c' →
      (c' = c ++ pv.map Prod.fst ∧
        ∀ e, e ∈ pv → e.2.seqStart = false ∧ e.2.atCapacity = false) ∨
      (∃ (i : Nat) (e : RTPPack × PumpEvent), pv[i]? = some e ∧
        c' = (pv.drop i).map Prod.fst ∧ (e.2.seqStart = true ∨ e.2.atCapacity = true) ∧
        ∀ (j : Nat) (e' : RTPPack × PumpEvent), i < j → pv[j]? = some e' →
          e'.2.seqStart = false ∧ e'.2.atCapacity = false) := by
  induction pv with
  | nil =>
    intro c c' h
    left
    simp only [cacheTrace] at h
    subst h
    simp
  | cons e rest ih =>
    intro c c' h
    obtain ⟨hcap, htr⟩ := h
    rcases ih _ c' htr with ⟨hc', hno⟩ | ⟨i, e1, hi, hc', hre, hafter⟩
    · by_cases hr : e.2.seqStart = true ∨ e.2.atCapacity = true
      · right
        refine ⟨0, e, by simp, ?_, hr, ?_⟩
        · have hst : gopCacheStep c e.1 e.2.seqStart = [e.1] := by
            apply gopCacheStep_restart
            rcases hr with hr | hr
            · exact Or.inl hr
            · rw [hcap] at hr
              simp only [decide_eq_true_eq] at hr
              exact Or.inr hr.2
          rw [hc', hst]
          simp
        · intro j e' hj hje
          cases j with
          | zero => omega
          | succ j =>
            rw [List.getElem?_cons_succ] at hje
            exact hno e' (List.mem_iff_getElem?.mpr ⟨j, hje⟩)
      · left
        have hs : e.2.seqStart = false := by
          cases h : e.2.seqStart
          · rfl
          · exact absurd (Or.inl h) hr
        have ha : e.2.atCapacity = false := by
          cases h : e.2.atCapacity
          · rfl
          · exact absurd (Or.inr h) hr
        have hl : c.length < MAX_GOP_CACHE_LEN := by
          rw [hcap] at ha
          simp only [decide_eq_false_iff_not, not_and, not_le] at ha
          exact ha hs
        refine ⟨?_, ?_⟩
        · rw [hc', hs, gopCacheStep_false c e.1 hl]
          simp
        · intro e' he'
          rcases List.mem_cons.mp he' with h | h
          · subst h; exact ⟨hs, ha⟩
          · exact hno e' h
    · right
      refine ⟨i + 1, e1, by rw [List.getElem?_cons_succ]; exact hi, by simpa using hc', hre, ?_⟩
      intro j e' hj hje
      cases j with
      | zero => omega
      | succ j =>
        rw [List.getElem?_cons_succ] at hje
        exact hafter j e' (by omega) hje

/-- An update finds the cache at its capacity only when at least 256 packets have
been processed since the cache before and since every sequence start. -/
theorem cacheTrace_capacity (pv : List (RTPPack × PumpEvent)) :
    ∀ (c c' : List RTPPack), cacheTrace c pv c' →
      ∀ (j : Nat) (e : RTPPack × PumpEvent), pv[j]? = some e → e.2.atCapacity = true →
        MAX_GOP_CACHE_LEN ≤ c.length + j ∧
        ∀ (k : Nat) (e' : RTPPack × PumpEvent), k < j → pv[k]? = some e' →
          e'.2.seqStart = true → MAX_GOP_CACHE_LEN ≤ j - k := by
  induction pv with
  | nil => intro c c' _ j e hj; simp at hj
  | cons e0 rest ih =>
    intro c c' h j e hj hcapj
    obtain ⟨hcap, htr⟩ := h
    cases j with
    | zero =>
      simp only [List.getElem?_cons_zero, Option.some.injEq] at hj
      subst hj
      rw [hcap] at hcapj
      simp only [decide_eq_true_eq] at hcapj
      exact ⟨by omega, fun k e' hk => by omega⟩
    | succ j =>
      rw [List.getElem?_cons_succ] at hj
      obtain ⟨h1, h2⟩ := ih _ c' htr j e hj hcapj
      have hlen := gopCacheStep_length_succ c e0.1 e0.2.seqStart
      refine ⟨by omega, ?_⟩
      intro k e' hk hke hs
      cases k with
      | zero =>
        simp only [List.getElem?_cons_zero, Option.some.injEq] at hke
        subst hke
        rw [hs, gopCacheStep_true, List.length_singleton] at h1
        omega
      | succ k =>
        rw [List.getElem?_cons_succ] at hke
        have := h2 k e' (by omega) hke hs
        omega

theorem cacheTrace_length (pv : List (RTPPack × PumpEvent)) :
    ∀ (c c' : List RTPPack), cacheTrace c pv c' → c.length ≤ MAX_GOP_CACHE_LEN →
      c'.length ≤ MAX_GOP_CACHE_LEN := by
  induction pv with
  | nil => intro c c' h hl; simp only [cacheTrace] at h; subst h; exact hl
  | cons e rest ih =>
    intro c c' h _
    exact ih _ c' h.2 (gopCacheStep_length c e.1 e.2.seqStart)

/-- What `AddPlayer` hands to the player, whether or not the player was attached before. -/
theorem Pusher.AddPlayer_queued (w : World) (p : PusherRef) (player : PlayerRef)
    (hsrc : Pusher.Logger w p = some ()) :
    ((Pusher.AddPlayer w p player).world.players player).queued =
      (w.players player).queued ++
        (if (w.pushers p).gopCacheEnable then (w.pushers p).gopCache else []) := by
  have key : ∀ w1 : World, w1.players = w.players → Pusher.Logger w1 p = some () →
      (w1.pushers p).gopCacheEnable = (w.pushers p).gopCacheEnable →
      (w1.pushers p).gopCache = (w.pushers p).gopCache →
      (((if (w1.pushers p).gopCacheEnable = true then
          Pusher.AddPlayer_prime p player w1 (w1.pushers p).gopCache
        else Res.ok () w1).world.players player).queued =
        (w.players player).queued ++
          (if (w.pushers p).gopCacheEnable then (w.pushers p).gopCache else [])) := by
    intro w1 hpl hlog hen hcache
    rw [hen, hcache]
    by_cases he : (w.pushers p).gopCacheEnable = true
    · rw [if_pos he, if_pos he]
      obtain ⟨w', h1, _, h3, _, _⟩ := Pusher.AddPlayer_prime_spec p player
        (w.pushers p).gopCache w1 hlog
      rw [h1]
      simp only [Res.world]
      rw [h3, hpl]
    · rw [if_neg he, if_neg he]
      simp only [Res.world, List.append_nil]
      rw [hpl]
  unfold Pusher.AddPlayer
  rw [hsrc]
  simp only []
  cases hget : (w.pushers p).players.get (w.players player).ID with
  | some q => exact key w rfl hsrc rfl rfl
  | none =>
    have hP : ((w.setPusher p { w.pushers p with
        players := (w.pushers p).players.set (w.players player).ID player }).pushers p)
        = { w.pushers p with
            players := (w.pushers p).players.set (w.players player).ID player } := by
      simp [World.setPusher]
    exact key _ rfl (by unfold Pusher.Logger at hsrc ⊢; rw [hP]; exact hsrc)
      (by rw [hP]) (by rw [hP])

theorem Pusher.AddPlayer_primed_eq (w : World) (p : PusherRef) (player : PlayerRef)
    (hsrc : Pusher.Logger w p = some ()) (hen : (w.pushers p).gopCacheEnable = true) :
    Pusher.AddPlayer_primed w p player = (w.pushers p).gopCache := by
  unfold Pusher.AddPlayer_primed
  rw [Pusher.AddPlayer_queued w p player hsrc, hen]
  simp

/-- C7 as amended. Keyframe-first delivery: with the GOP cache enabled and empty at
the start, after the pump has processed any sequence of queue items, the packets
primed into a player that is then added are, if there are any, the processed video
packets from one of them on, at which the pump restarted the cache: a packet for
which the inspector reported a sequence start, or one that arrived when the cache
held 256 packets, or the first video packet processed.  That first primed packet
is one for which the inspector reported a sequence start if and only if a sequence
start was reported for some processed video packet and at most 256 video packets
were processed from the last such packet on. -/
theorem keyframe_first_amended (env : Env) (w : World) (p : PusherRef) (player : PlayerRef)
    (queue : List (Option RTPPack)) (evs : List PumpEvent)
    (hen : (w.pushers p).gopCacheEnable = true) (hinit : (w.pushers p).gopCache = [])
    (hrun : (Pusher.Start env w p queue).result = some evs) :
    ∀ (c : RTPPack) (rest : List RTPPack),
      Pusher.AddPlayer_primed (Pusher.Start env w p queue).world p player = c :: rest →
      ∃ (i : Nat) (ev : PumpEvent),
        (processedVideo queue evs)[i]? = some (c, ev) ∧
        c :: rest = ((processedVideo queue evs).drop i).map Prod.fst ∧
        (ev.seqStart = true ∨ ev.atCapacity = true ∨ i = 0) ∧
        (ev.seqStart = true ↔
          ∃ (k : Nat) (e : RTPPack × PumpEvent),
            (processedVideo queue evs)[k]? = some e ∧ e.2.seqStart = true ∧
            (∀ (j : Nat) (e' : RTPPack × PumpEvent), k < j →
              (processedVideo queue evs)[j]? = some e' → e'.2.seqStart = false) ∧
            (processedVideo queue evs).length - k ≤ 256) := by
  intro c rest hprimed
  obtain ⟨hlog, hloop⟩ := Pusher.Start_result env w p queue evs hrun
  obtain ⟨htr, hlog', hen'⟩ := Pusher.Start_loop_trace env p queue w _ evs hloop hen
  rw [Pusher.AddPlayer_primed_eq _ p player (hlog'.trans hlog) hen'] at hprimed
  rw [hinit, hprimed] at htr
  generalize processedVideo queue evs = pv at htr ⊢
  rcases cacheTrace_head pv [] _ htr with ⟨hc', hno⟩ | ⟨i, e, hi, hc', hre, hafter⟩
  · cases pv with
    | nil => simp at hc'
    | cons e pv' =>
      simp only [List.nil_append, List.map_cons, List.cons.injEq] at hc'
      obtain ⟨hc, hrest⟩ := hc'
      have he := hno e (List.mem_cons_self _ _)
      refine ⟨0, e.2, by simp [hc], by simp [hc, hrest], Or.inr (Or.inr rfl), ?_⟩
      constructor
      · intro h; rw [he.1] at h; cases h
      · rintro ⟨k, e', hk, hs, _⟩
        rw [(hno e' (List.mem_iff_getElem?.mpr ⟨k, hk⟩)).1] at hs
        cases hs
  · have hil : i < pv.length := by
      by_contra hh
      rw [List.getElem?_eq_none (by omega)] at hi
      cases hi
    have hdrop : pv.drop i = e :: pv.drop (i + 1) := by
      rw [List.drop_eq_getElem_cons hil]
      congr 1
      rw [List.getElem?_eq_getElem hil] at hi
      exact Option.some.inj hi
    have hc : c = e.1 := by
      rw [hdrop] at hc'
      simp only [List.map_cons, List.cons.injEq] at hc'
      exact hc'.1
    have hlen := cacheTrace_length pv [] _ htr (by simp)
    rw [hc', List.length_map, List.length_drop] at hlen
    simp only [MAX_GOP_CACHE_LEN] at hlen
    refine ⟨i, e.2, by rw [hi, hc], hc', ?_, ?_⟩
    · rcases hre with h | h
      · exact Or.inl h
      · exact Or.inr (Or.inl h)
    · constructor
      · intro hs
        exact ⟨i, e, hi, hs, fun j e' hj hje => (hafter j e' hj hje).1, hlen⟩
      · rintro ⟨k, e', hk, hs, hlast, hmax⟩
        cases hse : e.2.seqStart with
        | true => rfl
        | false =>
          exfalso
          have hcap : e.2.atCapacity = true := by
            rcases hre with h | h
            · rw [hse] at h; cases h
            · exact h
          rcases Nat.lt_trichotomy k i with hki | hki | hki
          · have h256 := (cacheTrace_capacity pv [] _ htr i e hi hcap).2 k e' hki hk hs
            simp only [MAX_GOP_CACHE_LEN] at h256
            omega
          · subst hki
            rw [hi] at hk
            cases hk
            rw [hse] at hs
            cases hs
          · rw [(hafter k e' hki hk).1] at hs
            cases hs

/-- Witness for the amended C7: the pump of `exPumpWorld` processes `exLateKey`, a
non-keyframe, an audio packet, a keyframe and a non-keyframe; the cache is restarted
at the keyframe, and player `1` added then is primed with the keyframe and the
packet after it. -/
theorem keyframe_first_amended_witness :
    (exPumpWorld.pushers 0).gopCacheEnable = true ∧ (exPumpWorld.pushers 0).gopCache = [] ∧
    (Pusher.Start exEnv exPumpWorld 0 exLateKey).result = some exLateKeyEvents ∧
    Pusher.AddPlayer_primed (Pusher.Start exEnv exPumpWorld 0 exLateKey).world 0 1
      = [exKey 2, exNonKey 3] ∧
    processedVideo exLateKey exLateKeyEvents
      = [(exNonKey 0, { seqStart := false, atCapacity := false }),
          (exKey 2, { seqStart := true, atCapacity := false }),
          (exNonKey 3, { seqStart := false, atCapacity := false })] ∧
    ∃ (i : Nat) (ev : PumpEvent),
      (processedVideo exLateKey exLateKeyEvents)[i]? = some (exKey 2, ev) ∧
      [exKey 2, exNonKey 3] = ((processedVideo exLateKey exLateKeyEvents).drop i).map Prod.fst ∧
      (ev.seqStart = true ∨ ev.atCapacity = true ∨ i = 0) ∧
      (ev.seqStart = true ↔
        ∃ (k : Nat) (e : RTPPack × PumpEvent),
          (processedVideo exLateKey exLateKeyEvents)[k]? = some e ∧ e.2.seqStart = true ∧
          (∀ (j : Nat) (e' : RTPPack × PumpEvent), k < j →
            (processedVideo exLateKey exLateKeyEvents)[j]? = some e' →
            e'.2.seqStart = false) ∧
          (processedVideo exLateKey exLateKeyEvents).length - k ≤ 256) :=
  ⟨by decide, by decide, by decide, by decide, by decide,
    keyframe_first_amended exEnv exPumpWorld 0 1 exLateKey exLateKeyEvents
      (by decide) (by decide) (by decide) (exKey 2) [exNonKey 3] (by decide)⟩

/-- C7 as stated fails: with the GOP cache enabled, the pump of `exPumpWorld` (an
H.264 publisher) processes one non-IDR packet, for which the inspector reports no
sequence start; player `1` added then is primed with exactly that packet. -/
theorem keyframe_first_counterexample :
    (exPumpWorld.pushers 0).gopCacheEnable = true ∧
    (Pusher.Start exEnv exPumpWorld 0 [some (exNonKey 0)]).result
      = some [{ seqStart := false, atCapacity := false }] ∧
    Pusher.AddPlayer_primed (Pusher.Start exEnv exPumpWorld 0 [some (exNonKey 0)]).world 0 1
      = [exNonKey 0] ∧
    ¬ KeyframeFirst exEnv exPumpWorld 0 1 [some (exNonKey 0)] := by
  refine ⟨by decide, by decide, by decide, fun h => ?_⟩
  obtain ⟨i, ev, _, h2, h3⟩ := h [{ seqStart := false, atCapacity := false }] (exNonKey 0) []
    (by decide) (by decide)
  cases i with
  | zero =>
    simp only [List.getElem?_cons_zero, Option.some.injEq] at h2
    rw [← h2] at h3
    simp at h3
  | succ i => simp at h2

/-- Witness for C9: after the pump of `exPumpWorld` has cached a keyframe and a
non-keyframe, player `1` is added and is handed these two packets in order. -/
theorem AddPlayer_contract_witness :
    Pusher.Logger (Pusher.Start exEnv exPumpWorld 0
      [some (exKey 0), some (exNonKey 1)]).world 0 = some () ∧
    (((Pusher.Start exEnv exPumpWorld 0 [some (exKey 0), some (exNonKey 1)]).world.pushers 0).players.get
      ((Pusher.Start exEnv exPumpWorld 0
        [some (exKey 0), some (exNonKey 1)]).world.players 1).ID = none) ∧
    ((Pusher.AddPlayer (Pusher.Start exEnv exPumpWorld 0
      [some (exKey 0), some (exNonKey 1)]).world 0 1).world.players 1).queued
      = [exKey 0, exNonKey 1] ∧
    ∃ w', Pusher.AddPlayer (Pusher.Start exEnv exPumpWorld 0
        [some (exKey 0), some (exNonKey 1)]).world 0 1 = Res.ok () w' ∧
      (w'.pushers 0).players.get "P" = some 1 :=
  ⟨by decide, by decide, by decide, by
    obtain ⟨w', h1, _, h3, _⟩ := AddPlayer_contract (Pusher.Start exEnv exPumpWorld 0
      [some (exKey 0), some (exNonKey 1)]).world 0 1 (by decide) (by decide)
    exact ⟨w', h1, h3⟩⟩

/-! ### C10: interleaved egress framing -/

/-- Reading back the two bytes of `PutUint16` gives the 16-bit value. -/
theorem Uint16_PutUint16 (v : Nat) (hv : v < 65536) :
    Uint16 ((v >>> 8) % 256) (v % 256) = v := by
  unfold Uint16
  have h1 : (v >>> 8) % 256 = v / 256 := by
    rw [Nat.shiftRight_eq_div_pow]
    exact Nat.mod_eq_of_lt (by omega)
  have h2 : (v / 256) <<< 8 = 2 ^ 8 * (v / 256) := by
    rw [Nat.shiftLeft_eq, Nat.mul_comm]
  rw [h1, h2, ← Nat.mul_add_lt_is_or (by omega : v % 256 < 2 ^ 8)]
  omega

theorem Session.SendRTP_tcp (udp : World → SessRef → RTPPack → Res (Option String))
    (w : World) (s : SessRef) (pack : RTPPack)
    (htcp : (w.sessions s).TransType ≠ TRANS_TYPE_UDP)
    (htype : pack.Type_ = RTP_TYPE_AUDIO ∨ pack.Type_ = RTP_TYPE_AUDIOCONTROL ∨
      pack.Type_ = RTP_TYPE_VIDEO ∨ pack.Type_ = RTP_TYPE_VIDEOCONTROL) :
    Session.SendRTP udp w s (some pack) =
      Res.ok none (Session.SendRTP_write w s (Session.channelOf w s pack.Type_) pack) := by
  unfold Session.SendRTP Session.channelOf
  simp only [if_neg htcp]
  rcases htype with h | h | h | h <;> rw [h] <;>
    simp [ RTP_TYPE_AUDIO, RTP_TYPE_AUDIOCONTROL, RTP_TYPE_VIDEO, RTP_TYPE_VIDEOCONTROL]

theorem Session.SendRTP_write_written (w : World) (s : SessRef) (ch : Int) (pack : RTPPack) :
    Session.written w (Session.SendRTP_write w s ch pack) s =
      [0x24, byte ch] ++ PutUint16 (uint16 pack.Buffer.length) ++ pack.Buffer := by
  simp [Session.written, Session.SendRTP_write, World.setSession]

theorem frameLength_frame (ch v : Nat) (payload : List Nat) (hv : v < 65536) :
    frameLength ([0x24, ch] ++ PutUint16 v ++ payload) = some v := by
  simp only [frameLength, PutUint16, List.cons_append, List.nil_append,
    List.getElem?_cons_succ, List.getElem?_cons_zero]
  rw [Uint16_PutUint16 v hv]

/-- A pack that `Session.Start` made of an interleaved frame is of one of the four
kinds and has the length that the 16-bit length field of its frame gave, at most
65535 bytes. -/
theorem Session.Start_pack_length (w : World) (s : SessRef) (input : List Nat)
    (pack : RTPPack) (rest : List Nat)
    (h : Session.Start_pack w s input = some (some pack, rest)) :
    pack.Buffer.length < 65536 ∧
    frameLength (0x24 :: input) = some pack.Buffer.length ∧
    (pack.Type_ = RTP_TYPE_AUDIO ∨ pack.Type_ = RTP_TYPE_AUDIOCONTROL ∨
      pack.Type_ = RTP_TYPE_VIDEO ∨ pack.Type_ = RTP_TYPE_VIDEOCONTROL) := by
  unfold Session.Start_pack at h
  match input, h with
  | ch :: b0 :: b1 :: tl, h =>
    simp only [] at h
    have hu : Uint16 b0 b1 < 65536 := Nat.mod_lt _ (by decide)
    by_cases hshort : tl.length < Uint16 b0 b1
    · rw [if_pos hshort] at h; cases h
    · rw [if_neg hshort] at h
      have hlen : (tl.take (Uint16 b0 b1)).length = Uint16 b0 b1 := by
        rw [List.length_take]; omega
      have hfl : frameLength (0x24 :: ch :: b0 :: b1 :: tl) = some (Uint16 b0 b1) := by
        simp [frameLength]
      simp only [Option.some.injEq, Prod.mk.injEq] at h
      obtain ⟨h, _⟩ := h
      split at h
      · cases h; exact ⟨by rw [hlen]; exact hu, by rw [hfl, hlen], Or.inl rfl⟩
      · split at h
        · cases h; exact ⟨by rw [hlen]; exact hu, by rw [hfl, hlen], Or.inr (Or.inl rfl)⟩
        · split at h
          · cases h
            exact ⟨by rw [hlen]; exact hu, by rw [hfl, hlen], Or.inr (Or.inr (Or.inl rfl))⟩
          · split at h
            · cases h
              exact ⟨by rw [hlen]; exact hu, by rw [hfl, hlen], Or.inr (Or.inr (Or.inr rfl))⟩
            · cases h

/-- C10. Interleaved egress framing: for every packet of one of the four channel
kinds that `Session.SendRTP` writes over TCP transport, the call returns no error,
the bytes written are `0x24`, the channel byte, the 2-byte big-endian length and
then the payload, and the value of the length field equals the payload length.
The payload is shorter than 65536 bytes, as that of every pack that `Session.Start`
makes of an interleaved frame is (`Session.Start_pack_length`). -/
theorem SendRTP_framing (udp : World → SessRef → RTPPack → Res (Option String))
    (w : World) (s : SessRef) (pack : RTPPack)
    (htcp : (w.sessions s).TransType ≠ TRANS_TYPE_UDP)
    (htype : pack.Type_ = RTP_TYPE_AUDIO ∨ pack.Type_ = RTP_TYPE_AUDIOCONTROL ∨
      pack.Type_ = RTP_TYPE_VIDEO ∨ pack.Type_ = RTP_TYPE_VIDEOCONTROL)
    (hlen : pack.Buffer.length < 65536) :
    (Session.SendRTP udp w s (some pack)).result = some none ∧
    Session.written w (Session.SendRTP udp w s (some pack)).world s =
      [0x24, byte (Session.channelOf w s pack.Type_)] ++
        PutUint16 pack.Buffer.length ++ pack.Buffer ∧
    frameLength (Session.written w (Session.SendRTP udp w s (some pack)).world s)
      = some pack.Buffer.length := by
  rw [Session.SendRTP_tcp udp w s pack htcp htype]
  have hu : uint16 pack.Buffer.length = pack.Buffer.length := Nat.mod_eq_of_lt hlen
  have hw : Session.written w (Res.ok (none : Option String)
      (Session.SendRTP_write w s (Session.channelOf w s pack.Type_) pack)).world s =
      [0x24, byte (Session.channelOf w s pack.Type_)] ++
        PutUint16 pack.Buffer.length ++ pack.Buffer := by
    have h := Session.SendRTP_write_written w s (Session.channelOf w s pack.Type_) pack
    rw [hu] at h
    exact h
  exact ⟨rfl, hw, by rw [hw]; exact frameLength_frame _ _ _ hlen⟩

/-- Witness for C10: the player session of `exPlayerWorld`, whose video channel is 0,
is sent the pack that a session with the same channels makes of the interleaved
frame `$ 0 0 14` followed by the 14 bytes of a keyframe packet. -/
theorem SendRTP_framing_witness :
    (exPlayerWorld.sessions 0).TransType ≠ TRANS_TYPE_UDP ∧
    Session.Start_pack exPlayerWorld 0 ([0, 0, 14] ++ (exKey 7).Buffer)
      = some (some (exKey 7), []) ∧
    (Session.SendRTP exUdpSendRTP exPlayerWorld 0 (some (exKey 7))).result = some none ∧
    Session.written exPlayerWorld
      (Session.SendRTP exUdpSendRTP exPlayerWorld 0 (some (exKey 7))).world 0
      = [0x24, byte (Session.channelOf exPlayerWorld 0 (exKey 7).Type_)] ++
        PutUint16 (exKey 7).Buffer.length ++ (exKey 7).Buffer ∧
    frameLength (Session.written exPlayerWorld
      (Session.SendRTP exUdpSendRTP exPlayerWorld 0 (some (exKey 7))).world 0)
      = some (exKey 7).Buffer.length :=
  ⟨by decide, by decide,
    SendRTP_framing exUdpSendRTP exPlayerWorld 0 (exKey 7) (by decide)
      (Or.inr (Or.inr (Or.inl rfl))) (by decide)⟩

/-! ### C4 and C5: `ANNOUNCE` on a path that has a pusher -/

/-- What taking the path and the SDP into the session leaves untouched. -/
theorem Session.handleRequest_sdp_spec (env : Env) (w : World) (s : SessRef) (req : Request)
    (surl : rtsp.URL) :
    (Session.handleRequest_sdp env w s req surl).server = w.server ∧
    (Session.handleRequest_sdp env w s req surl).pushers = w.pushers ∧
    (Session.handleRequest_sdp env w s req surl).clients = w.clients ∧
    (Session.handleRequest_sdp env w s req surl).multicasts = w.multicasts ∧
    (Session.handleRequest_sdp env w s req surl).nextPusher = w.nextPusher ∧
    (∀ t, t ≠ s → (Session.handleRequest_sdp env w s req surl).sessions t = w.sessions t) ∧
    ((Session.handleRequest_sdp env w s req surl).sessions s).Path = surl.Path ∧
    ((Session.handleRequest_sdp env w s req surl).sessions s).ID = (w.sessions s).ID ∧
    ((Session.handleRequest_sdp env w s req surl).sessions s).Stoped = (w.sessions s).Stoped ∧
    ((Session.handleRequest_sdp env w s req surl).sessions s).Conn = (w.sessions s).Conn ∧
    ((Session.handleRequest_sdp env w s req surl).sessions s).closeOld
      = (w.sessions s).closeOld ∧
    ((Session.handleRequest_sdp env w s req surl).sessions s).Pusher = (w.sessions s).Pusher ∧
    ((Session.handleRequest_sdp env w s req surl).sessions s).StopHandles
      = (w.sessions s).StopHandles := by
  unfold Session.handleRequest_sdp
  simp only []
  refine ⟨?_, ?_, ?_, ?_, ?_, ?_, ?_, ?_, ?_, ?_, ?_, ?_, ?_⟩ <;>
    (split <;> split <;> simp +contextual [World.setSession])

/-- The world of an `ANNOUNCE` that went the `addPusher` way, against the world
before the request. -/
theorem Session.handleRequest_announced_spec (env : Env) (w : World) (s : SessRef)
    (req : Request) (surl : rtsp.URL) :
    (Session.handleRequest_announced env w s req surl).server = w.server ∧
    (Session.handleRequest_announced env w s req surl).clients = w.clients ∧
    (Session.handleRequest_announced env w s req surl).multicasts = w.multicasts ∧
    (∀ q, q ≠ w.nextPusher →
      (Session.handleRequest_announced env w s req surl).pushers q = w.pushers q) ∧
    ((Session.handleRequest_announced env w s req surl).pushers w.nextPusher).Session
      = some s ∧
    (∀ t, t ≠ s → (Session.handleRequest_announced env w s req surl).sessions t = w.sessions t) ∧
    ((Session.handleRequest_announced env w s req surl).sessions s).Path = surl.Path ∧
    ((Session.handleRequest_announced env w s req surl).sessions s).ID = (w.sessions s).ID ∧
    ((Session.handleRequest_announced env w s req surl).sessions s).Stoped
      = (w.sessions s).Stoped ∧
    ((Session.handleRequest_announced env w s req surl).sessions s).StopHandles
      = (w.sessions s).StopHandles ++ [StopHandle.bindSession s w.nextPusher] ∧
    (Session.handleRequest_sdp env
      (w.setSession s { w.sessions s with Type_ := SESSION_TYPE_PUSHER, URL := req.URL })
      s req surl).nextPusher = w.nextPusher := by
  obtain ⟨h1, h2, h3, h4, h5, h6, h7, h8, h9, _, _, _, h13⟩ :=
    Session.handleRequest_sdp_spec env
      (w.setSession s { w.sessions s with Type_ := SESSION_TYPE_PUSHER, URL := req.URL }) s req surl
  unfold Session.handleRequest_announced
  simp only []
  generalize Session.handleRequest_sdp env
    (w.setSession s { w.sessions s with Type_ := SESSION_TYPE_PUSHER, URL := req.URL })
    s req surl = w4 at h1 h2 h3 h4 h5 h6 h7 h8 h9 h13
  have h5 : w4.nextPusher = w.nextPusher := h5
  have h2 : w4.pushers = w.pushers := h2
  refine ⟨?_, ?_, ?_, ?_, ?_, ?_, ?_, ?_, ?_, ?_, h5⟩
  · simp [NewPusher, Pusher.bindSession, World.setSession, World.setPusher, h1]
  · simp [NewPusher, Pusher.bindSession, World.setSession, World.setPusher, h3]
  · simp [NewPusher, Pusher.bindSession, World.setSession, World.setPusher, h4]
  · intro q hq
    have hq' : q ≠ w4.nextPusher := by rw [h5]; exact hq
    simp [NewPusher, Pusher.bindSession, World.setSession, World.setPusher,
      Function.update_noteq hq', h2]
  · simp [NewPusher, Pusher.bindSession, World.setSession, World.setPusher, h5]
  · intro t ht
    simp [NewPusher, Pusher.bindSession, World.setSession, World.setPusher,
      Function.update_noteq ht, h6 t ht]
  · simp [NewPusher, Pusher.bindSession, World.setSession, World.setPusher, h7]
  · simp [NewPusher, Pusher.bindSession, World.setSession, World.setPusher, h8]
  · simp [NewPusher, Pusher.bindSession, World.setSession, World.setPusher, h9]
  · simp [NewPusher, Pusher.bindSession, World.setSession, World.setPusher, h13, h5]

/-- The registry refuses the new pusher of an `ANNOUNCE` on a taken path. -/
theorem Session.handleRequest_addPusher_refused (env : Env) (w : World) (s : SessRef)
    (req : Request) (surl : rtsp.URL) (res : Response) (PA : PusherRef)
    (hreg : w.server.pushers.get surl.Path = some PA) :
    Session.handleRequest_addPusher (Session.handleRequest_sdp env
        (w.setSession s { w.sessions s with Type_ := SESSION_TYPE_PUSHER, URL := req.URL })
        s req surl) s res =
      Handled.done { res with StatusCode := 406, Status := "Not Acceptable" }
        (Session.handleRequest_announced env w s req surl) := by
  obtain ⟨h1, _, _, _, h5, _, h7, _, _, _, h11⟩ :=
    Session.handleRequest_announced_spec env w s req surl
  have hpath : Pusher.Path (Session.handleRequest_announced env w s req surl)
      w.nextPusher = some surl.Path := by
    rw [Pusher.Path_of_session _ _ s h5, h7]
  have hadd : Server.AddPusher (Session.handleRequest_announced env w s req surl) w.nextPusher
      = Res.ok false (Session.handleRequest_announced env w s req surl) := by
    simp [Server.AddPusher, hpath, h1, hreg]
  show (Server.AddPusher (Session.handleRequest_announced env w s req surl)
      (Session.handleRequest_sdp env
        (w.setSession s { w.sessions s with Type_ := SESSION_TYPE_PUSHER, URL := req.URL })
        s req surl).nextPusher).handled res _ = _
  rw [h11, hadd]
  rfl

/-- The `ANNOUNCE` case without takeover on a taken path ends in the 406 response. -/
theorem Session.handleRequest_ANNOUNCE_refused (env : Env) (w : World) (s : SessRef)
    (req : Request) (surl : rtsp.URL) (res : Response) (PA : PusherRef)
    (hurl : env.url_Parse req.URL = some surl)
    (hconn : (w.sessions s).Conn ≠ none)
    (hhook : env.ExecuteWebHookNotify ON_PUBLISH (w.sessions s).ID SESSION_TYPE_PUSHER req.URL
      surl.Path req.Body = true)
    (hclose : (w.sessions s).closeOld = false)
    (hreg : w.server.pushers.get surl.Path = some PA) :
    Session.handleRequest_ANNOUNCE env w s req res =
      Handled.done { res with StatusCode := 406, Status := "Not Acceptable" }
        (Session.handleRequest_announced env w s req surl) := by
  obtain ⟨_, _, _, _, _, _, _, _, _, _, h11, _, _⟩ :=
    Session.handleRequest_sdp_spec env
      (w.setSession s { w.sessions s with Type_ := SESSION_TYPE_PUSHER, URL := req.URL }) s req surl
  have hc1 : ((w.setSession s
      { w.sessions s with Type_ := SESSION_TYPE_PUSHER, URL := req.URL }).sessions s).closeOld
      = false := by simp [World.setSession, hclose]
  rw [hc1] at h11
  have hconn1 : ∃ t, ((w.setSession s
      { w.sessions s with Type_ := SESSION_TYPE_PUSHER, URL := req.URL }).sessions s).Conn
      = some t := by
    cases hc : (w.sessions s).Conn with
    | none => exact absurd hc hconn
    | some t => exact ⟨t, by simp [World.setSession, hc]⟩
  obtain ⟨t, hconn1⟩ := hconn1
  have hid1 : ((w.setSession s
      { w.sessions s with Type_ := SESSION_TYPE_PUSHER, URL := req.URL }).sessions s).ID
      = (w.sessions s).ID := by simp [World.setSession]
  unfold Session.handleRequest_ANNOUNCE
  simp only [hurl, hconn1, hid1, hhook, h11, Bool.not_true, Bool.false_eq_true, if_false]
  exact Session.handleRequest_addPusher_refused env w s req surl res PA hreg

/-- A refused `ANNOUNCE` (no takeover, the path is taken): `handleRequest` writes the
406 response and stops the session. -/
theorem Session.handleRequest_refused (env : Env) (w : World) (s : SessRef)
    (req : Request) (surl : rtsp.URL) (PA : PusherRef)
    (hmethod : req.Method = "ANNOUNCE")
    (hauth : Session.handleRequest_auth env w s req
      (NewResponse 200 "OK" (req.Header.index "CSeq") (w.sessions s).ID "") = none)
    (hurl : env.url_Parse req.URL = some surl)
    (hconn : (w.sessions s).Conn ≠ none)
    (hhook : env.ExecuteWebHookNotify ON_PUBLISH (w.sessions s).ID SESSION_TYPE_PUSHER req.URL
      surl.Path req.Body = true)
    (hclose : (w.sessions s).closeOld = false)
    (hreg : w.server.pushers.get surl.Path = some PA) :
    Session.handleRequest env w s req =
      (Session.Stop (Session.handleRequest_write env
        (Session.handleRequest_announced env w s req surl) s
        { NewResponse 200 "OK" (req.Header.index "CSeq") (w.sessions s).ID "" with
          StatusCode := 406, Status := "Not Acceptable" }) s).bind
        fun _ w3 => Res.ok
          { NewResponse 200 "OK" (req.Header.index "CSeq") (w.sessions s).ID "" with
            StatusCode := 406, Status := "Not Acceptable" } w3 := by
  have hbody : Session.handleRequest_body env w s req
      (NewResponse 200 "OK" (req.Header.index "CSeq") (w.sessions s).ID "") =
      Handled.done { NewResponse 200 "OK" (req.Header.index "CSeq") (w.sessions s).ID "" with
          StatusCode := 406, Status := "Not Acceptable" }
        (Session.handleRequest_announced env w s req surl) := by
    unfold Session.handleRequest_body
    rw [hauth]
    simp only []
    unfold Session.handleRequest_switch
    rw [hmethod]
    simp only [String.reduceEq, if_false, if_true]
    exact Session.handleRequest_ANNOUNCE_refused env w s req surl _ PA hurl hconn hhook hclose hreg
  unfold Session.handleRequest
  simp only []
  rw [hbody]
  simp only []
  unfold Session.handleRequest_epilogue Session.handleRequest_play
  rw [hmethod]
  simp [Res.bind]

/-- The world in which a refused `ANNOUNCE` stops its session, against the world
before the request: the registry is the same, the pushers that existed are the
same, the new pusher is bound to the session, and the session has the announced
path, its ID and flag, and one more stop closure. -/
theorem Session.handleRequest_write_announced (env : Env) (w : World) (s : SessRef)
    (req : Request) (surl : rtsp.URL) (res : Response) :
    (Session.handleRequest_write env
      (Session.handleRequest_announced env w s req surl) s res).server = w.server ∧
    (Session.handleRequest_write env
      (Session.handleRequest_announced env w s req surl) s res).clients = w.clients ∧
    (Session.handleRequest_write env
      (Session.handleRequest_announced env w s req surl) s res).multicasts = w.multicasts ∧
    (∀ q, q ≠ w.nextPusher → (Session.handleRequest_write env
      (Session.handleRequest_announced env w s req surl) s res).pushers q = w.pushers q) ∧
    ((Session.handleRequest_write env
      (Session.handleRequest_announced env w s req surl) s res).pushers w.nextPusher).Session
      = some s ∧
    (∀ t, ((Session.handleRequest_write env
      (Session.handleRequest_announced env w s req surl) s res).sessions t).ID
      = (w.sessions t).ID) ∧
    ((Session.handleRequest_write env
      (Session.handleRequest_announced env w s req surl) s res).sessions s).Path = surl.Path ∧
    ((Session.handleRequest_write env
      (Session.handleRequest_announced env w s req surl) s res).sessions s).Stoped
      = (w.sessions s).Stoped ∧
    ((Session.handleRequest_write env
      (Session.handleRequest_announced env w s req surl) s res).sessions s).StopHandles
      = (w.sessions s).StopHandles ++ [StopHandle.bindSession s w.nextPusher] := by
  obtain ⟨h1, h2, h3, h4, h5, h6, h7, h8, h9, h10, _⟩ :=
    Session.handleRequest_announced_spec env w s req surl
  refine ⟨h1, h2, h3, h4, h5, ?_, ?_, ?_, ?_⟩
  · intro t
    by_cases ht : t = s
    · subst ht; simp [Session.handleRequest_write, World.setSession, h8]
    · simp [Session.handleRequest_write, World.setSession, Function.update_noteq ht, h6 t ht]
  · simp [Session.handleRequest_write, World.setSession, h7]
  · simp [Session.handleRequest_write, World.setSession, h9]
  · simp [Session.handleRequest_write, World.setSession, h10]

/-- C4. An `ANNOUNCE` of session `B` without takeover (`closeOld` false), with
authentication passing, the URL valid and the `on_publish` web hook continuing,
on a path whose registry entry `PA` is the pusher of a session `A` with another
ID: `handleRequest` returns the response 406 "Not Acceptable", `B` is stopped,
and after the stop closures of `B` ran the registry entry of the path is still
`PA`, which is still the pusher of `A`.  The stop closures of `B` are the ones the
code gives a session: `bindSession` closures that capture `B` itself and a pusher
with a session, player closures on a pusher with a source; the registry holds
pushers with a source, and `PA` is a pusher that has been created. -/
theorem ANNOUNCE_rejected (env : Env) (w : World) (A B : SessRef) (PA : PusherRef)
    (req : Request) (surl : rtsp.URL)
    (hmethod : req.Method = "ANNOUNCE")
    (hauth : Session.handleRequest_auth env w B req
      (NewResponse 200 "OK" (req.Header.index "CSeq") (w.sessions B).ID "") = none)
    (hurl : env.url_Parse req.URL = some surl)
    (hconn : (w.sessions B).Conn ≠ none)
    (hhook : env.ExecuteWebHookNotify ON_PUBLISH (w.sessions B).ID SESSION_TYPE_PUSHER req.URL
      surl.Path req.Body = true)
    (hclose : (w.sessions B).closeOld = false)
    (hreg : w.server.pushers.get surl.Path = some PA)
    (hPA : (w.pushers PA).Session = some A)
    (hid : (w.sessions A).ID ≠ (w.sessions B).ID)
    (hfresh : PA < w.nextPusher)
    (hsafe : ∀ h, h ∈ (w.sessions B).StopHandles → h.safe w)
    (hown : ∀ s q, StopHandle.bindSession s q ∈ (w.sessions B).StopHandles → s = B)
    (hregsrc : ∀ k r, w.server.pushers.get k = some r → Pusher.ID w r ≠ none) :
    ∃ res w', Session.handleRequest env w B req = Res.ok res w' ∧
      res.StatusCode = 406 ∧ res.Status = "Not Acceptable" ∧
      (w'.sessions B).Stoped = true ∧
      w'.server.pushers.get surl.Path = some PA ∧
      (w'.pushers PA).Session = some A := by
  rw [Session.handleRequest_refused env w B req surl PA hmethod hauth hurl hconn hhook hclose hreg]
  obtain ⟨h1, h2, h3, h4, h5, h6, h7, h8, h9⟩ :=
    Session.handleRequest_write_announced env w B req surl
      { NewResponse 200 "OK" (req.Header.index "CSeq") (w.sessions B).ID "" with
        StatusCode := 406, Status := "Not Acceptable" }
  generalize Session.handleRequest_write env (Session.handleRequest_announced env w B req surl) B
      { NewResponse 200 "OK" (req.Header.index "CSeq") (w.sessions B).ID "" with
        StatusCode := 406, Status := "Not Acceptable" } = W at h1 h2 h3 h4 h5 h6 h7 h8 h9 ⊢
  have hne : PA ≠ w.nextPusher := Nat.ne_of_lt hfresh
  have hWS : ∀ q, (W.pushers q).Session ≠ none ∨ W.pushers q = w.pushers q := by
    intro q
    by_cases hq : q = w.nextPusher
    · left; rw [hq, h5]; simp
    · right; exact h4 q hq
  have hWid : ∀ r, Pusher.ID w r ≠ none → Pusher.ID W r ≠ none := by
    intro r hr
    rcases hWS r with hs | hs
    · cases hS : (W.pushers r).Session with
      | none => exact absurd hS hs
      | some t => simp [Pusher.ID, hS]
    · simp only [Pusher.ID, hs, h2, h3, h6] at hr ⊢
      exact hr
  have hWsafe : ∀ h, h ∈ (W.sessions B).StopHandles → h.safe W := by
    intro h hm
    rw [h9, List.mem_append, List.mem_singleton] at hm
    rcases hm with hm | hm
    · have hs := hsafe h hm
      cases h with
      | bindSession s q =>
        rcases hWS q with hq | hq
        · exact hq
        · show (W.pushers q).Session ≠ none
          rw [hq]; exact hs
      | newPlayer q pl =>
        rcases hWS q with hq | hq
        · cases hS : (W.pushers q).Session with
          | none => exact absurd hS hq
          | some t => simp [StopHandle.safe, Pusher.Logger, hS]
        · simp only [StopHandle.safe, Pusher.Logger, hq] at hs ⊢
          exact hs
    · subst hm
      show (W.pushers w.nextPusher).Session ≠ none
      rw [h5]; simp
  have hWPA : W.pushers PA = w.pushers PA := h4 PA hne
  by_cases hst : (W.sessions B).Stoped = true
  · rw [Session.Stop_of_stopped W B hst]
    exact ⟨_, W, rfl, rfl, rfl, hst, by rw [h1]; exact hreg, by rw [hWPA]; exact hPA⟩
  · have hns : (W.sessions B).Stoped = false := by simpa using hst
    obtain ⟨w', hok⟩ := Session.Stop_ok W B hWsafe
      (fun k r hr => hWid r (hregsrc k r (by rw [h1] at hr; exact hr)))
    obtain ⟨wb, hfr, hsrv, hpush, _, _, _, _, _, hstop, _⟩ := Session.Stop_frame W B hns
    rw [hok] at hsrv hpush hstop
    simp only [Res.world] at hsrv hpush hstop
    rw [hok]
    refine ⟨_, w', rfl, rfl, rfl, hstop, ?_, ?_⟩
    · rw [hsrv]
      refine hfr.regKeep surl.Path PA (by simp only [World.setSession]; rw [h1]; exact hreg) ?_
      intro s q hm _ _
      have hsB : s = B := by
        rw [h9, List.mem_append, List.mem_singleton] at hm
        rcases hm with hm | hm
        · exact hown s q hm
        · injection hm
      subst hsB
      have hA : s ≠ A := fun h => hid (by rw [h])
      have hPAS : ((W.setSession s { W.sessions s with Stoped := true }).pushers PA).Session
          = some A := by
        simp only [World.setSession]; rw [hWPA]; exact hPA
      have hAne : A ≠ s := fun h => hA h.symm
      simp only [Pusher.ID, hPAS]
      simp only [World.setSession, Function.update_same, Function.update_noteq hAne]
      rw [h6 A, h6 s]
      exact fun h => hid (Option.some.inj h)
    · rw [hpush, hfr.pSession]
      simp only [World.setSession]
      rw [hWPA]; exact hPA

/-- Witness for C4: in `exAnnounceWorld` session `0` ("A") publishes `/live/x`
through the registered pusher `0`, and session `1` ("B") announces the same path. -/
theorem ANNOUNCE_rejected_witness :
    exAnnounceWorld.server.pushers.get "/live/x" = some 0 ∧
    (exAnnounceWorld.pushers 0).Session = some 0 ∧
    (exAnnounceWorld.sessions 1).closeOld = false ∧
    ∃ res w', Session.handleRequest exReqEnv exAnnounceWorld 1 exAnnounce = Res.ok res w' ∧
      res.StatusCode = 406 ∧ res.Status = "Not Acceptable" ∧
      (w'.sessions 1).Stoped = true ∧
      w'.server.pushers.get "/live/x" = some 0 ∧
      (w'.pushers 0).Session = some 0 :=
  ⟨by decide, by decide, by decide,
    ANNOUNCE_rejected exReqEnv exAnnounceWorld 0 1 0 exAnnounce
      { Scheme := "rtsp", Host := "h", Path := "/live/x" }
      (by decide) rfl (by decide) (by decide) (by decide) (by decide) (by decide)
      (by decide) (by decide) (by decide)
      (fun h hm => by
        have hnil : (exAnnounceWorld.sessions 1).StopHandles = [] := by decide
        rw [hnil] at hm
        exact absurd hm (List.not_mem_nil h))
      (fun s q hm => by
        have hnil : (exAnnounceWorld.sessions 1).StopHandles = [] := by decide
        rw [hnil] at hm
        exact absurd hm (List.not_mem_nil _))
      (fun k r hr => by
        have hregistry : exAnnounceWorld.server.pushers = ⟨[("/live/x", 0)]⟩ := by decide
        rw [hregistry] at hr
        by_cases hk : "/live/x" = k
        · simp [GoMap.get, GoMap.lookup, hk] at hr
          subst hr; decide
        · simp [GoMap.get, GoMap.lookup, hk] at hr)⟩

/-- `Server.TryAttachToPusher` on a path whose registry entry is a client-backed
pusher: `RebindSession` returns false, the result is `-1` with no pusher, and the
world is the same. -/
theorem Server.TryAttachToPusher_client (w : World) (s : SessRef) (P : PusherRef)
    (hreg : w.server.pushers.get (w.sessions s).Path = some P)
    (hC : (w.pushers P).RTSPClient ≠ none) :
    Server.TryAttachToPusher w s = Res.ok (-1, none) w := by
  cases hc : (w.pushers P).RTSPClient with
  | none => exact absurd hc hC
  | some c => simp [Server.TryAttachToPusher, hreg, Pusher.RebindSession, hc, Res.bind]

/-- C5 (what the code does). An `ANNOUNCE` of session `B` with takeover (`closeOld`
true), with authentication passing, the URL valid and the `on_publish` web hook
continuing, on a path whose registry entry `P` is a client-backed pusher:
`TryAttachToPusher` reports `-1`, and `handleRequest` returns the response 200
"OK", not 406; the session is not stopped by the request, gets no pusher, and
the registry entry of the path is still `P`. -/
theorem ANNOUNCE_takeover_refused (env : Env) (w : World) (B : SessRef) (P : PusherRef)
    (req : Request) (surl : rtsp.URL)
    (hmethod : req.Method = "ANNOUNCE")
    (hauth : Session.handleRequest_auth env w B req
      (NewResponse 200 "OK" (req.Header.index "CSeq") (w.sessions B).ID "") = none)
    (hurl : env.url_Parse req.URL = some surl)
    (hconn : (w.sessions B).Conn ≠ none)
    (hhook : env.ExecuteWebHookNotify ON_PUBLISH (w.sessions B).ID SESSION_TYPE_PUSHER req.URL
      surl.Path req.Body = true)
    (hclose : (w.sessions B).closeOld = true)
    (hreg : w.server.pushers.get surl.Path = some P)
    (hC : (w.pushers P).RTSPClient ≠ none) :
    (Server.TryAttachToPusher (Session.handleRequest_sdp env
        (w.setSession B { w.sessions B with Type_ := SESSION_TYPE_PUSHER, URL := req.URL })
        B req surl) B).result = some (-1, none) ∧
    ∃ res w', Session.handleRequest env w B req = Res.ok res w' ∧
      res.StatusCode = 200 ∧ res.Status = "OK" ∧
      (w'.sessions B).Stoped = (w.sessions B).Stoped ∧
      (w'.sessions B).Pusher = (w.sessions B).Pusher ∧
      w'.server.pushers.get surl.Path = some P := by
  obtain ⟨h1, h2, _, _, _, _, h7, h8, h9, _, h11, h12, _⟩ :=
    Session.handleRequest_sdp_spec env
      (w.setSession B { w.sessions B with Type_ := SESSION_TYPE_PUSHER, URL := req.URL }) B req surl
  have hc1 : ((w.setSession B
      { w.sessions B with Type_ := SESSION_TYPE_PUSHER, URL := req.URL }).sessions B).closeOld
      = true := by simp [World.setSession, hclose]
  rw [hc1] at h11
  have hconn1 : ∃ t, ((w.setSession B
      { w.sessions B with Type_ := SESSION_TYPE_PUSHER, URL := req.URL }).sessions B).Conn
      = some t := by
    cases hc : (w.sessions B).Conn with
    | none => exact absurd hc hconn
    | some t => exact ⟨t, by simp [World.setSession, hc]⟩
  obtain ⟨t, hconn1⟩ := hconn1
  have hid1 : ((w.setSession B
      { w.sessions B with Type_ := SESSION_TYPE_PUSHER, URL := req.URL }).sessions B).ID
      = (w.sessions B).ID := by simp [World.setSession]
  have hst1 : ((w.setSession B
      { w.sessions B with Type_ := SESSION_TYPE_PUSHER, URL := req.URL }).sessions B).Stoped
      = (w.sessions B).Stoped := by simp [World.setSession]
  have hp1 : ((w.setSession B
      { w.sessions B with Type_ := SESSION_TYPE_PUSHER, URL := req.URL }).sessions B).Pusher
      = (w.sessions B).Pusher := by simp [World.setSession]
  have htry := Server.TryAttachToPusher_client (Session.handleRequest_sdp env
      (w.setSession B { w.sessions B with Type_ := SESSION_TYPE_PUSHER, URL := req.URL })
      B req surl) B P
    (by rw [h1, h7]; exact hreg) (by rw [h2]; exact hC)
  refine ⟨by rw [htry]; rfl, ?_⟩
  have hann : Session.handleRequest_ANNOUNCE env w B req
      (NewResponse 200 "OK" (req.Header.index "CSeq") (w.sessions B).ID "") =
      Handled.done (NewResponse 200 "OK" (req.Header.index "CSeq") (w.sessions B).ID "")
        (Session.handleRequest_sdp env
          (w.setSession B { w.sessions B with Type_ := SESSION_TYPE_PUSHER, URL := req.URL })
          B req surl) := by
    unfold Session.handleRequest_ANNOUNCE
    simp only [hurl, hconn1, hid1, hhook, h11, Bool.not_true, Bool.false_eq_true, if_false,
      if_true, htry, Res.handled]
    rw [if_neg (by decide), if_neg (by decide)]
  have hbody : Session.handleRequest_body env w B req
      (NewResponse 200 "OK" (req.Header.index "CSeq") (w.sessions B).ID "") =
      Handled.done (NewResponse 200 "OK" (req.Header.index "CSeq") (w.sessions B).ID "")
        (Session.handleRequest_sdp env
          (w.setSession B { w.sessions B with Type_ := SESSION_TYPE_PUSHER, URL := req.URL })
          B req surl) := by
    unfold Session.handleRequest_body
    rw [hauth]
    simp only []
    unfold Session.handleRequest_switch
    rw [hmethod]
    simp only [String.reduceEq, if_false, if_true]
    exact hann
  have hs : (Session.handleRequest_sdp env
      (w.setSession B { w.sessions B with Type_ := SESSION_TYPE_PUSHER, URL := req.URL })
      B req surl).server = w.server := h1
  have hst : ((Session.handleRequest_sdp env
      (w.setSession B { w.sessions B with Type_ := SESSION_TYPE_PUSHER, URL := req.URL })
      B req surl).sessions B).Stoped = (w.sessions B).Stoped := h9.trans hst1
  have hp : ((Session.handleRequest_sdp env
      (w.setSession B { w.sessions B with Type_ := SESSION_TYPE_PUSHER, URL := req.URL })
      B req surl).sessions B).Pusher = (w.sessions B).Pusher := h12.trans hp1
  unfold Session.handleRequest
  simp only []
  rw [hbody]
  simp only []
  generalize Session.handleRequest_sdp env
      (w.setSession B { w.sessions B with Type_ := SESSION_TYPE_PUSHER, URL := req.URL })
      B req surl = W4 at hs hst hp
  have hepi : Session.handleRequest_epilogue env W4 B req
      (NewResponse 200 "OK" (req.Header.index "CSeq") (w.sessions B).ID "") =
      Res.ok (NewResponse 200 "OK" (req.Header.index "CSeq") (w.sessions B).ID "")
        (Session.handleRequest_write env W4 B
          (NewResponse 200 "OK" (req.Header.index "CSeq") (w.sessions B).ID "")) := by
    unfold Session.handleRequest_epilogue Session.handleRequest_play
    rw [hmethod]
    simp [Res.bind, NewResponse]
  rw [hepi]
  refine ⟨_, _, rfl, rfl, rfl, ?_, ?_, ?_⟩ <;>
    simp [Session.handleRequest_write, World.setSession, hs, hst, hp, hreg]

/-- Witness for C5: in `exClientWorld` the path `/live/c` is published by the
client-backed pusher `0`, and session `1` ("B"), with `close_old` on, announces
that path. -/
theorem ANNOUNCE_takeover_refused_witness :
    exClientWorld.server.pushers.get "/live/c" = some 0 ∧
    (exClientWorld.pushers 0).RTSPClient = some 0 ∧
    (exClientWorld.sessions 1).closeOld = true ∧
    (Server.TryAttachToPusher (Session.handleRequest_sdp exReqEnv
        (exClientWorld.setSession 1
          { exClientWorld.sessions 1 with
            Type_ := SESSION_TYPE_PUSHER, URL := exAnnounceClient.URL })
        1 exAnnounceClient { Scheme := "rtsp", Host := "h", Path := "/live/c" }) 1).result
      = some (-1, none) ∧
    ∃ res w', Session.handleRequest exReqEnv exClientWorld 1 exAnnounceClient = Res.ok res w' ∧
      res.StatusCode = 200 ∧ res.Status = "OK" ∧
      (w'.sessions 1).Stoped = (exClientWorld.sessions 1).Stoped ∧
      (w'.sessions 1).Pusher = (exClientWorld.sessions 1).Pusher ∧
      w'.server.pushers.get "/live/c" = some 0 :=
  ⟨by decide, by decide, by decide,
    ANNOUNCE_takeover_refused exReqEnv exClientWorld 1 0 exAnnounceClient
      { Scheme := "rtsp", Host := "h", Path := "/live/c" }
      (by decide) rfl (by decide) (by decide) (by decide) (by decide) (by decide)
      (by decide)⟩

/-! ### C11: `SETUP` for an unknown control -/

/-- The deferred function for a method other than `PLAY`, `RECORD` and `TEARDOWN`:
the response is written, and the session is stopped when the status is neither 200
nor 401. -/
theorem Session.handleRequest_epilogue_plain (env : Env) (w : World) (s : SessRef)
    (req : Request) (res : Response)
    (h1 : req.Method ≠ "PLAY") (h2 : req.Method ≠ "RECORD") (h3 : req.Method ≠ "TEARDOWN") :
    Session.handleRequest_epilogue env w s req res =
      if res.StatusCode ≠ 200 ∧ res.StatusCode ≠ 401 then
        (Session.Stop (Session.handleRequest_write env w s res) s).bind fun _ w3 => Res.ok res w3
      else Res.ok res (Session.handleRequest_write env w s res) := by
  unfold Session.handleRequest_epilogue Session.handleRequest_play
  simp only [h1, h2, h3, or_self, if_false, Res.bind]

/-- The body of `handleRequest` for a `SETUP` that passes the authorization check. -/
theorem Session.handleRequest_body_SETUP (env : Env) (w : World) (s : SessRef)
    (req : Request) (res : Response) (hmethod : req.Method = "SETUP")
    (hauth : Session.handleRequest_auth env w s req res = none) :
    Session.handleRequest_body env w s req res = Session.handleRequest_SETUP env w s req res := by
  unfold Session.handleRequest_body
  rw [hauth]
  simp only []
  unfold Session.handleRequest_switch
  rw [hmethod]
  simp only [String.reduceEq, if_false, if_true]

/-- The session's flag after `Session.Stop`, also when a stop closure panicked. -/
theorem Session.Stop_stoped (w : World) (s : SessRef) :
    ((Session.Stop w s).world.sessions s).Stoped = true := by
  by_cases hst : (w.sessions s).Stoped = true
  · rw [Session.Stop_of_stopped w s hst]; exact hst
  · obtain ⟨_, _, _, _, _, _, _, _, _, h, _⟩ := Session.Stop_frame w s (by simpa using hst)
    exact h

/-- The UDP branch of `SETUP` when the request matches neither control: no status
is set, the `Transport` value is the request's, and the session keeps its flag. -/
theorem Session.handleRequest_SETUP_udp_unknown (env : Env) (w : World) (s : SessRef)
    (P : PusherRef) (res : Response) (ts setupPath aPath vPath : String)
    (udpMatchs : List String)
    (hconn : (w.sessions s).Conn ≠ none)
    (hna : matchesControl setupPath aPath = false)
    (hnv : matchesControl setupPath vPath = false) :
    ∃ w3, Session.handleRequest_SETUP_udp env w s P res ts setupPath aPath vPath udpMatchs
        = Sum.inr (ts, w3) ∧
      (w3.sessions s).Stoped = (w.sessions s).Stoped := by
  cases hc : (w.sessions s).Conn with
  | none => exact absurd hc hconn
  | some c =>
    unfold Session.handleRequest_SETUP_udp
    simp only [hc, hna, hnv, Bool.false_eq_true, if_false]
    refine ⟨_, rfl, ?_⟩
    unfold Session.handleRequest_SETUP_udpInit
    simp only []
    split <;> split <;> simp [World.setSession, World.setPusher]

/-- C11 (what the code does over UDP). A `SETUP` with a `client_port` transport on
a session that has a pusher, with authentication passing and the URL and the
controls valid, whose normalized URL matches neither the audio control nor the
video control: `handleRequest` returns the response 200 "OK", not 500, and the
session is not stopped by the request. -/
theorem SETUP_udp_unknown_control (env : Env) (w : World) (s : SessRef) (P : PusherRef)
    (req : Request) (setupUrl : rtsp.URL) (aPath vPath : String) (udpMatchs : List String)
    (hmethod : req.Method = "SETUP")
    (hauth : Session.handleRequest_auth env w s req
      (NewResponse 200 "OK" (req.Header.index "CSeq") (w.sessions s).ID "") = none)
    (hurl : env.url_Parse req.URL = some setupUrl)
    (hP : (w.sessions s).Pusher = some P)
    (hv : controlPath env (w.sessions s).VControl = some vPath)
    (ha : controlPath env (w.sessions s).AControl = some aPath)
    (htcp : FindStringSubmatch "interleaved=".data (req.Header.index "Transport").data = none)
    (hudp : FindStringSubmatch "client_port=".data (req.Header.index "Transport").data
      = some udpMatchs)
    (hconn : (w.sessions s).Conn ≠ none)
    (hna : matchesControl (env.url_String
      (if env.url_Port setupUrl = "" then { setupUrl with Host := setupUrl.Host ++ ":554" }
        else setupUrl)) aPath = false)
    (hnv : matchesControl (env.url_String
      (if env.url_Port setupUrl = "" then { setupUrl with Host := setupUrl.Host ++ ":554" }
        else setupUrl)) vPath = false) :
    ∃ res w', Session.handleRequest env w s req = Res.ok res w' ∧
      res.StatusCode = 200 ∧ res.Status = "OK" ∧
      (w'.sessions s).Stoped = (w.sessions s).Stoped := by
  obtain ⟨w3, hw3, hst⟩ := Session.handleRequest_SETUP_udp_unknown env w s P
    (NewResponse 200 "OK" (req.Header.index "CSeq") (w.sessions s).ID "")
    (req.Header.index "Transport") _ aPath vPath udpMatchs hconn hna hnv
  have hbody : Session.handleRequest_body env w s req
      (NewResponse 200 "OK" (req.Header.index "CSeq") (w.sessions s).ID "") =
      Handled.done
        { NewResponse 200 "OK" (req.Header.index "CSeq") (w.sessions s).ID "" with
          Header := (NewResponse 200 "OK" (req.Header.index "CSeq") (w.sessions s).ID "").Header.set
            "Transport" (req.Header.index "Transport") } w3 := by
    rw [Session.handleRequest_body_SETUP env w s req _ hmethod hauth]
    unfold Session.handleRequest_SETUP
    simp only [hurl, hP, hv, ha, htcp, hudp, hw3]
  unfold Session.handleRequest
  simp only []
  rw [hbody]
  simp only []
  rw [Session.handleRequest_epilogue_plain env w3 s req _ (by rw [hmethod]; decide)
    (by rw [hmethod]; decide) (by rw [hmethod]; decide)]
  refine ⟨_, _, if_neg (by simp [NewResponse]), rfl, rfl, ?_⟩
  simp [Session.handleRequest_write, World.setSession, hst]

/-- Witness for C11: publisher session `0` of `exSetupWorld`, whose controls are
`streamid=0` and `streamid=1`, sends `SETUP rtsp://h/live/x/streamid=9` with
`client_port=5000-5001`. -/
theorem SETUP_udp_unknown_control_witness :
    (exSetupWorld.sessions 0).Pusher = some 0 ∧
    (exSetupWorld.sessions 0).Stoped = false ∧
    ∃ res w', Session.handleRequest exSetupEnv exSetupWorld 0 exSetupUdpUnknown = Res.ok res w' ∧
      res.StatusCode = 200 ∧ res.Status = "OK" ∧
      (w'.sessions 0).Stoped = (exSetupWorld.sessions 0).Stoped :=
  ⟨by decide, by decide,
    SETUP_udp_unknown_control exSetupEnv exSetupWorld 0 0 exSetupUdpUnknown
      { Scheme := "rtsp", Host := "h", Path := "/live/x/streamid=9" } "streamid=0" "streamid=1"
      ["client_port=5000-5001", "5000", "-5001", "5001"]
      (by decide) rfl (by decide) (by decide) (by decide) (by decide) (by decide) (by decide)
      (by decide) (by decide) (by decide)⟩

/-- The TCP half of C11: a `SETUP` with an `interleaved` transport whose normalized
URL matches neither control is answered 500 with the reason
`SETUP [TCP] got UnKown control:` followed by the URL, and the session is stopped. -/
theorem Session.handleRequest_SETUP_tcp_unknown (env : Env) (w : World) (s : SessRef)
    (P : PusherRef) (req : Request) (setupUrl : rtsp.URL) (aPath vPath : String)
    (tcpMatchs : List String)
    (hmethod : req.Method = "SETUP")
    (hauth : Session.handleRequest_auth env w s req
      (NewResponse 200 "OK" (req.Header.index "CSeq") (w.sessions s).ID "") = none)
    (hurl : env.url_Parse req.URL = some setupUrl)
    (hP : (w.sessions s).Pusher = some P)
    (hv : controlPath env (w.sessions s).VControl = some vPath)
    (ha : controlPath env (w.sessions s).AControl = some aPath)
    (htcp : FindStringSubmatch "interleaved=".data (req.Header.index "Transport").data
      = some tcpMatchs)
    (hna : matchesControl (env.url_String
      (if env.url_Port setupUrl = "" then { setupUrl with Host := setupUrl.Host ++ ":554" }
        else setupUrl)) aPath = false)
    (hnv : matchesControl (env.url_String
      (if env.url_Port setupUrl = "" then { setupUrl with Host := setupUrl.Host ++ ":554" }
        else setupUrl)) vPath = false) :
    ((Session.handleRequest env w s req).world.sessions s).Stoped = true ∧
    ∀ res w', Session.handleRequest env w s req = Res.ok res w' →
      res.StatusCode = 500 ∧
      res.Status = "SETUP [TCP] got UnKown control:" ++ env.url_String
        (if env.url_Port setupUrl = "" then { setupUrl with Host := setupUrl.Host ++ ":554" }
          else setupUrl) := by
  have hbody : ∃ w1, Session.handleRequest_body env w s req
      (NewResponse 200 "OK" (req.Header.index "CSeq") (w.sessions s).ID "") =
      Handled.done
        { StatusCode := 500
          Status := "SETUP [TCP] got UnKown control:" ++ env.url_String
            (if env.url_Port setupUrl = "" then { setupUrl with Host := setupUrl.Host ++ ":554" }
              else setupUrl)
          Header := (NewResponse 200 "OK" (req.Header.index "CSeq") (w.sessions s).ID "").Header.set
            "Transport" (req.Header.index "Transport")
          Body := "" } w1 := by
    rw [Session.handleRequest_body_SETUP env w s req _ hmethod hauth]
    unfold Session.handleRequest_SETUP
    simp only [hurl, hP, hv, ha, htcp, Session.handleRequest_SETUP_tcp, hna, hnv,
      Bool.false_eq_true, if_false]
    exact ⟨_, rfl⟩
  obtain ⟨w1, hbody⟩ := hbody
  unfold Session.handleRequest
  simp only []
  rw [hbody]
  simp only []
  rw [Session.handleRequest_epilogue_plain env w1 s req _ (by rw [hmethod]; decide)
    (by rw [hmethod]; decide) (by rw [hmethod]; decide)]
  rw [if_pos (by simp)]
  have hst := Session.Stop_stoped (Session.handleRequest_write env w1 s
    { StatusCode := 500
      Status := "SETUP [TCP] got UnKown control:" ++ env.url_String
        (if env.url_Port setupUrl = "" then { setupUrl with Host := setupUrl.Host ++ ":554" }
          else setupUrl)
      Header := (NewResponse 200 "OK" (req.Header.index "CSeq") (w.sessions s).ID "").Header.set
        "Transport" (req.Header.index "Transport")
      Body := "" }) s
  cases hS : Session.Stop (Session.handleRequest_write env w1 s
    { StatusCode := 500
      Status := "SETUP [TCP] got UnKown control:" ++ env.url_String
        (if env.url_Port setupUrl = "" then { setupUrl with Host := setupUrl.Host ++ ":554" }
          else setupUrl)
      Header := (NewResponse 200 "OK" (req.Header.index "CSeq") (w.sessions s).ID "").Header.set
        "Transport" (req.Header.index "Transport")
      Body := "" }) s with
  | ok u w3 =>
    rw [hS] at hst
    refine ⟨hst, ?_⟩
    intro res w' h
    simp only [Res.bind, Res.ok.injEq] at h
    obtain ⟨h1, _⟩ := h
    subst h1
    exact ⟨rfl, rfl⟩
  | panic w3 =>
    rw [hS] at hst
    refine ⟨hst, ?_⟩
    intro res w' h
    simp [Res.bind] at h

/-! ### C12 and C13: the authorization check -/

/-- A failing authorization check: `handleRequest` returns early with the 401
response and a challenge; the world is the same but for the session's nonce and
the nonce counter. -/
theorem Session.handleRequest_auth_failed (env : Env) (w : World) (s : SessRef) (req : Request)
    (res : Response) (hmethod : req.Method ≠ "OPTIONS")
    (hen : (w.sessions s).localAuthorizationEnable = true ∨
      (w.sessions s).remoteHttpAuthorizationEnable = true)
    (hfail : Session.handleRequest_authCheck env w s req = some true) :
    ∃ (challenge nonce : String) (w1 : World),
      Session.handleRequest_auth env w s req res = some (.done
        { res with
          StatusCode := 401, Status := "Unauthorized"
          Header := res.Header.set "WWW-Authenticate" challenge } w1) ∧
      w1.server = w.server ∧ w1.pushers = w.pushers ∧ w1.players = w.players ∧
      (∀ t, t ≠ s → w1.sessions t = w.sessions t) ∧
      w1.sessions s = { w.sessions s with nonce := nonce } := by
  unfold Session.handleRequest_auth
  rw [if_pos hmethod, if_pos hen, hfail]
  simp only []
  by_cases hb : w.server.authorizationType = "Basic"
  · rw [if_pos hb]
    exact ⟨_, (w.sessions s).nonce, w, rfl, rfl, rfl, rfl, fun _ _ => rfl, rfl⟩
  · rw [if_neg hb]
    refine ⟨_, env.nonce w.nextNonce, _, rfl, rfl, rfl, rfl, ?_, ?_⟩
    · intro t ht
      simp [World.setSession, Function.update_noteq ht]
    · simp [World.setSession]

/-- The body of `handleRequest` on a failing authorization check. -/
theorem Session.handleRequest_body_failed (env : Env) (w : World) (s : SessRef) (req : Request)
    (res : Response) (hmethod : req.Method ≠ "OPTIONS")
    (hen : (w.sessions s).localAuthorizationEnable = true ∨
      (w.sessions s).remoteHttpAuthorizationEnable = true)
    (hfail : Session.handleRequest_authCheck env w s req = some true) :
    ∃ (challenge nonce : String) (w1 : World),
      Session.handleRequest_body env w s req res = .done
        { res with
          StatusCode := 401, Status := "Unauthorized"
          Header := res.Header.set "WWW-Authenticate" challenge } w1 ∧
      w1.server = w.server ∧ w1.pushers = w.pushers ∧ w1.players = w.players ∧
      (∀ t, t ≠ s → w1.sessions t = w.sessions t) ∧
      w1.sessions s = { w.sessions s with nonce := nonce } := by
  obtain ⟨c, n, w1, h, rest⟩ :=
    Session.handleRequest_auth_failed env w s req res hmethod hen hfail
  refine ⟨c, n, w1, ?_, rest⟩
  unfold Session.handleRequest_body
  rw [h]

/-- C12 as stated fails: with local authorization on, publisher session `0` of
`exAuthWorld` sends a `TEARDOWN` without an `Authorization` line; the check fails,
the response is 401, and the session, which was running, is stopped and its pusher
is taken out of the registry. -/
theorem auth_failure_preserves_counterexample :
    (exAuthWorld.sessions 0).localAuthorizationEnable = true ∧
    exTeardown.Method ≠ "OPTIONS" ∧
    Session.handleRequest_authCheck exSetupEnv exAuthWorld 0 exTeardown = some true ∧
    (Session.handleRequest exSetupEnv exAuthWorld 0 exTeardown).result.map
      (fun r => r.StatusCode) = some 401 ∧
    (exAuthWorld.sessions 0).Stoped = false ∧
    ((Session.handleRequest exSetupEnv exAuthWorld 0 exTeardown).world.sessions 0).Stoped = true ∧
    exAuthWorld.server.pushers.get "/live/x" = some 0 ∧
    (Session.handleRequest exSetupEnv exAuthWorld 0 exTeardown).world.server.pushers.get "/live/x"
      = none ∧
    ¬ AuthFailurePreserves exSetupEnv exAuthWorld 0 exTeardown := by
  refine ⟨by decide, by decide, by decide, by decide, by decide, by decide, by decide,
    by decide, ?_⟩
  rintro ⟨res, w', h, _, _, _, _, hst, _⟩
  have hw : (Session.handleRequest exSetupEnv exAuthWorld 0 exTeardown).world = w' := by
    rw [h]; rfl
  have h2 : ((Session.handleRequest exSetupEnv exAuthWorld 0 exTeardown).world.sessions 0).Stoped
      = true := by decide
  rw [hw, hst] at h2
  exact absurd h2 (by decide)

/-- The case that the amended C12 leaves out: player session `2` of `exAuthWorld`,
not yet attached to its pusher, sends a `PLAY` without an `Authorization` line; the
response is 401, and the deferred function has attached the player all the same. -/
theorem Session.handleRequest_play_unauthorized :
    (exAuthWorld.sessions 2).Type_ = SESSEION_TYPE_PLAYER ∧
    Session.handleRequest_authCheck exSetupEnv exAuthWorld 2 exPlay = some true ∧
    (exAuthWorld.pushers 0).players.get "V" = none ∧
    (Session.handleRequest exSetupEnv exAuthWorld 2 exPlay).result.map
      (fun r => r.StatusCode) = some 401 ∧
    ((Session.handleRequest exSetupEnv exAuthWorld 2 exPlay).world.pushers 0).players.get "V"
      = some 0 := by
  refine ⟨by decide, by decide, by decide, by decide, by decide⟩

/-- `Session.Stop` returns after the write of the response when the session's stop
closures are safe and every registry entry has an ID. -/
theorem Session.Stop_written_ok (env : Env) (w : World) (s : SessRef) (res : Response)
    (hsafe : ∀ h, h ∈ (w.sessions s).StopHandles → h.safe w)
    (hreg : ∀ k r, w.server.pushers.get k = some r → Pusher.ID w r ≠ none) :
    ∃ w', Session.Stop (Session.handleRequest_write env w s res) s = Res.ok () w' := by
  apply Session.Stop_ok
  · intro h hm
    have hm' : h ∈ (w.sessions s).StopHandles := by
      simpa [Session.handleRequest_write, World.setSession] using hm
    exact StopHandle.safe_congr w _ h (fun _ => rfl) (fun _ => rfl) (fun _ => rfl) (hsafe h hm')
  · intro k r hr
    have hid : Pusher.ID (Session.handleRequest_write env w s res) r = Pusher.ID w r := by
      apply Pusher.ID_congr <;> intros <;> try rfl
      rename_i t
      by_cases ht : t = s
      · subst ht; simp [Session.handleRequest_write, World.setSession]
      · simp [Session.handleRequest_write, World.setSession, Function.update_noteq ht]
    rw [hid]
    exact hreg k r hr

/-- C13 as amended. Method error under authentication: with authorization enabled,
for a request that carries an `Authorization` line and whose method is none of
`OPTIONS`, `ANNOUNCE`, `DESCRIBE`, on a session whose role is still unknown,
`handleRequest` returns the response 403 "Method Error" (and stops the session).
The stop closures of the session are safe and the registry holds pushers with a
source, as for every session the code builds. -/
theorem method_error (env : Env) (w : World) (s : SessRef) (req : Request)
    (hen : (w.sessions s).localAuthorizationEnable = true ∨
      (w.sessions s).remoteHttpAuthorizationEnable = true)
    (hm1 : req.Method ≠ "OPTIONS") (hm2 : req.Method ≠ "ANNOUNCE")
    (hm3 : req.Method ≠ "DESCRIBE")
    (hrole : (w.sessions s).Type_ = 0)
    (hline : req.Header.index "Authorization" ≠ "")
    (hsafe : ∀ h, h ∈ (w.sessions s).StopHandles → h.safe w)
    (hreg : ∀ k r, w.server.pushers.get k = some r → Pusher.ID w r ≠ none) :
    ∃ (res : Response) (w' : World), Session.handleRequest env w s req = Res.ok res w' ∧
      res.StatusCode = 403 ∧ res.Status = "Method Error" ∧
      (w'.sessions s).Stoped = true := by
  have hcheck : Session.handleRequest_authCheck env w s req = none := by
    unfold Session.handleRequest_authCheck
    simp only [hline, hrole, hm2, hm3, ne_eq, not_false_eq_true, if_true, if_false]
  have hbody : Session.handleRequest_body env w s req
      (NewResponse 200 "OK" (req.Header.index "CSeq") (w.sessions s).ID "") =
      .done { NewResponse 200 "OK" (req.Header.index "CSeq") (w.sessions s).ID "" with
        StatusCode := 403, Status := "Method Error" } w := by
    unfold Session.handleRequest_body Session.handleRequest_auth
    rw [if_pos hm1, if_pos hen, hcheck]
  have hplay : Session.handleRequest_play (Session.handleRequest_write env w s
      { NewResponse 200 "OK" (req.Header.index "CSeq") (w.sessions s).ID "" with
        StatusCode := 403, Status := "Method Error" }) s req =
      Res.ok () (Session.handleRequest_write env w s
        { NewResponse 200 "OK" (req.Header.index "CSeq") (w.sessions s).ID "" with
          StatusCode := 403, Status := "Method Error" }) := by
    unfold Session.handleRequest_play
    by_cases hp : req.Method = "PLAY" ∨ req.Method = "RECORD"
    · rw [if_pos hp, if_neg]
      simp only [Session.handleRequest_write, World.setSession, Function.update_same, hrole]
      decide
    · rw [if_neg hp]
  obtain ⟨w', hstop⟩ := Session.Stop_written_ok env w s
    { NewResponse 200 "OK" (req.Header.index "CSeq") (w.sessions s).ID "" with
      StatusCode := 403, Status := "Method Error" } hsafe hreg
  have hst := Session.Stop_stoped (Session.handleRequest_write env w s
    { NewResponse 200 "OK" (req.Header.index "CSeq") (w.sessions s).ID "" with
      StatusCode := 403, Status := "Method Error" }) s
  rw [hstop] at hst
  unfold Session.handleRequest
  simp only []
  rw [hbody]
  simp only []
  unfold Session.handleRequest_epilogue
  rw [hplay]
  simp only [Res.bind]
  by_cases ht : req.Method = "TEARDOWN"
  · rw [if_pos ht, hstop]
    exact ⟨_, w', rfl, rfl, rfl, hst⟩
  · rw [if_neg ht, if_pos (by simp), hstop]
    exact ⟨_, w', rfl, rfl, rfl, hst⟩

/-- Witness for the amended C13: session `1` of `exAuthWorld`, which has no role
yet, sends a `SETUP` with an `Authorization` line. -/
theorem method_error_witness :
    (exAuthWorld.sessions 1).localAuthorizationEnable = true ∧
    (exAuthWorld.sessions 1).Type_ = 0 ∧
    ∃ (res : Response) (w' : World),
      Session.handleRequest exSetupEnv exAuthWorld 1 exSetupAuth = Res.ok res w' ∧
      res.StatusCode = 403 ∧ res.Status = "Method Error" ∧
      (w'.sessions 1).Stoped = true :=
  ⟨by decide, by decide,
    method_error exSetupEnv exAuthWorld 1 exSetupAuth (Or.inl (by decide)) (by decide)
      (by decide) (by decide) (by decide) (by decide)
      (fun h hm => by
        have hnil : (exAuthWorld.sessions 1).StopHandles = [] := by decide
        rw [hnil] at hm
        exact absurd hm (List.not_mem_nil h))
      (fun k r hr => by
        have hregistry : exAuthWorld.server.pushers = ⟨[("/live/x", 0)]⟩ := by decide
        rw [hregistry] at hr
        by_cases hk : "/live/x" = k
        · simp [GoMap.get, GoMap.lookup, hk] at hr
          subst hr; decide
        · simp [GoMap.get, GoMap.lookup, hk] at hr)⟩

/-- C13 as stated fails: with local authorization on, session `1` of `exAuthWorld`,
whose role is unknown, sends a `SETUP` without an `Authorization` line; the
response is 401 "Unauthorized", not 403. -/
theorem method_error_counterexample :
    (exAuthWorld.sessions 1).localAuthorizationEnable = true ∧
    (exAuthWorld.sessions 1).Type_ = 0 ∧
    exSetupNoAuth.Method = "SETUP" ∧
    (Session.handleRequest exSetupEnv exAuthWorld 1 exSetupNoAuth).result.map
      (fun r => (r.StatusCode, r.Status)) = some (401, "Unauthorized") ∧
    ¬ ∃ (res : Response) (w' : World),
      Session.handleRequest exSetupEnv exAuthWorld 1 exSetupNoAuth = Res.ok res w' ∧
      res.StatusCode = 403 ∧ res.Status = "Method Error" := by
  refine ⟨by decide, by decide, by decide, by decide, ?_⟩
  rintro ⟨res, w', h, hc, _⟩
  have h2 : (Session.handleRequest exSetupEnv exAuthWorld 1 exSetupNoAuth).result.map
      (fun r => r.StatusCode) = some 401 := by decide
  rw [h] at h2
  simp only [Res.result, Option.map_some', Option.some.injEq] at h2
  rw [hc] at h2
  exact absurd h2 (by decide)

/-! ### Frames of the request handler on the sessions -/

/-- `Session.Stop` writes nothing of a session but `Stoped`, `Conn` and
`UDPClient`, also when a stop closure panicked. -/
theorem Session.Stop_session (w : World) (s t : SessRef) :
    ∃ (st : Bool) (c : Option Int) (u : Option rtsp.UDPClient),
      (Session.Stop w s).world.sessions t =
        { w.sessions t with Stoped := st, Conn := c, UDPClient := u } := by
  by_cases hst : (w.sessions s).Stoped = true
  · rw [Session.Stop_of_stopped w s hst]
    exact ⟨_, _, _, rfl⟩
  · have hns : (w.sessions s).Stoped = false := by simpa using hst
    have hfr := StopHandle.callAll_frame (w.sessions s).StopHandles
      (w.setSession s { w.sessions s with Stoped := true })
    have hses := hfr.sessions
    simp only [Session.Stop, hns, Bool.false_eq_true, if_false]
    have hhooks : ((w.setSession s { w.sessions s with Stoped := true }).sessions s).StopHandles
        = (w.sessions s).StopHandles := by simp [World.setSession]
    rw [hhooks]
    cases hc : StopHandle.callAll (w.setSession s { w.sessions s with Stoped := true })
        (w.sessions s).StopHandles with
    | panic wb =>
      rw [hc] at hses
      simp only [Res.bind, Res.world] at hses ⊢
      rw [hses]
      by_cases ht : t = s
      · subst ht
        exact ⟨true, (w.sessions t).Conn, (w.sessions t).UDPClient, by simp [World.setSession]⟩
      · exact ⟨(w.sessions t).Stoped, (w.sessions t).Conn, (w.sessions t).UDPClient,
          by simp [World.setSession, Function.update_noteq ht]⟩
    | ok u wb =>
      rw [hc] at hses
      simp only [Res.bind, Res.world] at hses ⊢
      by_cases ht : t = s
      · subst ht
        refine ⟨true, none, none, ?_⟩
        split <;> split <;> simp_all [World.setSession]
      · refine ⟨(w.sessions t).Stoped, (w.sessions t).Conn, (w.sessions t).UDPClient, ?_⟩
        split <;> split <;> simp [hses, World.setSession, Function.update_noteq ht]

theorem World.sameRole.role_refl (w : World) : w.sameRole w := fun _ => rfl

theorem World.sameRole.role_trans {w w1 w2 : World} (h1 : w.sameRole w1) (h2 : w1.sameRole w2) :
    w.sameRole w2 := fun t => (h2 t).trans (h1 t)

theorem World.sameRole_of_sessions {w w' : World} (h : w'.sessions = w.sessions) :
    w.sameRole w' := fun t => by rw [h]

theorem World.sameRole_setSession (w : World) (s : SessRef) (v : Session)
    (h : v.Type_ = (w.sessions s).Type_) : w.sameRole (w.setSession s v) := by
  intro t
  by_cases ht : t = s
  · subst ht; simp [World.setSession, h]
  · simp [World.setSession, Function.update_noteq ht]

theorem World.sameRole_setPusher (w : World) (p : PusherRef) (v : Pusher) :
    w.sameRole (w.setPusher p v) := fun _ => rfl

theorem Session.Stop_sameRole (w : World) (s : SessRef) : w.sameRole (Session.Stop w s).world := by
  intro t
  obtain ⟨st, c, u, h⟩ := Session.Stop_session w s t
  rw [h]

theorem Pusher.AddOutputBytes_sameRole (w : World) (p : PusherRef) (n : Int) :
    w.sameRole (Pusher.AddOutputBytes w p n).world := by
  unfold Pusher.AddOutputBytes
  split
  · exact World.sameRole_setSession w _ _ rfl
  · split
    · exact World.sameRole_of_sessions rfl
    · split
      · exact World.sameRole_of_sessions rfl
      · exact World.sameRole.role_refl w

theorem Pusher.AddPlayer_prime_sameRole (p : PusherRef) (player : PlayerRef) (l : List RTPPack) :
    ∀ w : World, w.sameRole (Pusher.AddPlayer_prime p player w l).world := by
  induction l with
  | nil => intro w; exact World.sameRole.role_refl w
  | cons pack rest ih =>
    intro w
    have h1 := Pusher.AddOutputBytes_sameRole (Player.QueueRTP w player pack) p pack.Buffer.length
    have h0 : w.sameRole (Player.QueueRTP w player pack) := World.sameRole_of_sessions rfl
    show w.sameRole ((Pusher.AddOutputBytes (Player.QueueRTP w player pack) p
      pack.Buffer.length).bind fun _ w1 => Pusher.AddPlayer_prime p player w1 rest).world
    cases hc : Pusher.AddOutputBytes (Player.QueueRTP w player pack) p pack.Buffer.length with
    | ok u w1 =>
      rw [hc] at h1
      exact (h0.role_trans h1).role_trans (ih w1)
    | panic w1 =>
      rw [hc] at h1
      exact h0.role_trans h1

theorem Pusher.AddPlayer_sameRole (w : World) (p : PusherRef) (player : PlayerRef) :
    w.sameRole (Pusher.AddPlayer w p player).world := by
  unfold Pusher.AddPlayer
  split
  · exact World.sameRole.role_refl w
  · simp only []
    have h1 : w.sameRole (match (w.pushers p).players.get (w.players player).ID with
        | none => w.setPusher p
            { w.pushers p with
              players := (w.pushers p).players.set (w.players player).ID player }
        | some _ => w) := by
      split
      · exact World.sameRole_of_sessions rfl
      · exact World.sameRole.role_refl w
    split
    · exact h1.role_trans (Pusher.AddPlayer_prime_sameRole p player _ _)
    · exact h1

theorem Session.handleRequest_play_sameRole (w : World) (s : SessRef) (req : Request) :
    w.sameRole (Session.handleRequest_play w s req).world := by
  unfold Session.handleRequest_play
  split
  · split
    · split
      · split
        · exact World.sameRole_of_sessions rfl
        · exact Pusher.AddPlayer_sameRole w _ _
      · exact World.sameRole.role_refl w
    · exact World.sameRole.role_refl w
  · exact World.sameRole.role_refl w

theorem Session.handleRequest_write_sameRole (env : Env) (w : World) (s : SessRef)
    (res : Response) : w.sameRole (Session.handleRequest_write env w s res) :=
  World.sameRole_setSession w s _ rfl

/-- The world of a bound call: that of the continuation, or that of the panic. -/
theorem Res.bind_world_sameRole {α β : Type} (w : World) (r : Res α) (k : α → World → Res β)
    (hr : w.sameRole r.world) (hk : ∀ (a : α) (w1 : World), w1.sameRole (k a w1).world) :
    w.sameRole (r.bind k).world := by
  cases r with
  | ok a w1 => exact World.sameRole.role_trans hr (hk a w1)
  | panic w1 => exact hr

theorem Session.handleRequest_epilogue_sameRole (env : Env) (w : World) (s : SessRef)
    (req : Request) (res : Response) :
    w.sameRole (Session.handleRequest_epilogue env w s req res).world := by
  unfold Session.handleRequest_epilogue
  apply Res.bind_world_sameRole w
  · exact (Session.handleRequest_write_sameRole env w s res).role_trans
      (Session.handleRequest_play_sameRole _ s req)
  · intro _ w2
    split
    · exact Res.bind_world_sameRole w2 _ _ (Session.Stop_sameRole w2 s)
        (fun _ w3 => World.sameRole.role_refl w3)
    · split
      · exact Res.bind_world_sameRole w2 _ _ (Session.Stop_sameRole w2 s)
          (fun _ w3 => World.sameRole.role_refl w3)
      · exact World.sameRole.role_refl w2

theorem Session.handleRequest_auth_sameRole (env : Env) (w : World) (s : SessRef)
    (req : Request) (res : Response) (h : Handled)
    (hh : Session.handleRequest_auth env w s req res = some h) : w.sameRole h.world := by
  unfold Session.handleRequest_auth at hh
  split at hh
  · split at hh
    · split at hh
      · cases hh; exact World.sameRole.role_refl w
      · simp only [] at hh
        split at hh
        · cases hh; exact World.sameRole.role_refl w
        · cases hh
          exact World.sameRole_setSession _ s _ rfl
      · cases hh
    · cases hh
  · cases hh

theorem Pusher.bindSession_sameRole (w : World) (p : PusherRef) (s : SessRef) :
    w.sameRole (Pusher.bindSession w p s) := by
  intro t
  by_cases ht : t = s
  · subst ht; simp [Pusher.bindSession, World.setSession, World.setPusher]
  · simp [Pusher.bindSession, World.setSession, World.setPusher, Function.update_noteq ht]

theorem Pusher.RebindSession_sameRole (w : World) (p : PusherRef) (s : SessRef) :
    w.sameRole (Pusher.RebindSession w p s).world := by
  unfold Pusher.RebindSession
  split
  · exact World.sameRole.role_refl w
  · simp only []
    have h3 : w.sameRole (((Pusher.bindSession w p s).setSession s
        { (Pusher.bindSession w p s).sessions s with Pusher := some p }).setPusher p
        { (((Pusher.bindSession w p s).setSession s
            { (Pusher.bindSession w p s).sessions s with Pusher := some p }).pushers p)
          with gopCache := [] }) := by
      intro t
      by_cases ht : t = s
      · subst ht; simp [Pusher.bindSession, World.setSession, World.setPusher]
      · simp [Pusher.bindSession, World.setSession, World.setPusher, Function.update_noteq ht]
    split
    · exact h3.role_trans (Res.bind_world_sameRole _ _ _ (Session.Stop_sameRole _ _)
        (fun _ w4 => World.sameRole.role_refl w4))
    · exact h3

theorem NewPusher_sameRole (w : World) (s : SessRef) : w.sameRole (NewPusher w s).2 := by
  unfold NewPusher
  have h1 : w.sameRole (({ w with nextPusher := w.nextPusher + 1 } : World).setPusher
      w.nextPusher
      { Session := some s, RTSPClient := none, players := GoMap.empty,
        gopCacheEnable := w.server.gopCacheEnable, gopCache := [] }) := fun _ => rfl
  exact h1.role_trans (Pusher.bindSession_sameRole _ _ _)

theorem Server.AddPusher_sameRole (w : World) (p : PusherRef) :
    w.sameRole (Server.AddPusher w p).world := by
  unfold Server.AddPusher
  split
  · exact World.sameRole.role_refl w
  · split
    · exact World.sameRole_of_sessions rfl
    · exact World.sameRole.role_refl w

theorem Server.TryAttachToPusher_sameRole (w : World) (s : SessRef) :
    w.sameRole (Server.TryAttachToPusher w s).world := by
  unfold Server.TryAttachToPusher
  split
  · exact Res.bind_world_sameRole w _ _ (Pusher.RebindSession_sameRole w _ s)
      (fun r w1 => by split <;> exact World.sameRole.role_refl w1)
  · exact World.sameRole.role_refl w

theorem Session.handleRequest_sdp_sameRole (env : Env) (w : World) (s : SessRef) (req : Request)
    (surl : rtsp.URL) : w.sameRole (Session.handleRequest_sdp env w s req surl) := by
  intro t
  unfold Session.handleRequest_sdp
  simp only []
  by_cases ht : t = s
  · subst ht
    split <;> split <;> simp [World.setSession]
  · split <;> split <;> simp [World.setSession, Function.update_noteq ht]

/-- The world of a continued call: that of the continuation, or that of the panic. -/
theorem Res.handled_world_sameRole {α : Type} (w : World) (r : Res α) (res : Response)
    (k : α → World → Handled)
    (hr : w.sameRole r.world) (hk : ∀ (a : α) (w1 : World), w1.sameRole (k a w1).world) :
    w.sameRole (r.handled res k).world := by
  cases r with
  | ok a w1 => exact World.sameRole.role_trans hr (hk a w1)
  | panic w1 => exact hr

theorem Session.handleRequest_addPusher_sameRole (w : World) (s : SessRef) (res : Response) :
    w.sameRole (Session.handleRequest_addPusher w s res).world := by
  unfold Session.handleRequest_addPusher
  simp only []
  have h1 : w.sameRole ((NewPusher w s).2.setSession s
      { (NewPusher w s).2.sessions s with Pusher := some (NewPusher w s).1 }) :=
    (NewPusher_sameRole w s).role_trans (World.sameRole_setSession _ s _ rfl)
  exact h1.role_trans (Res.handled_world_sameRole _ _ _ _ (Server.AddPusher_sameRole _ _)
    (fun a w2 => by split <;> exact World.sameRole.role_refl w2))

/-- After its first two assignments the `ANNOUNCE` case writes no role. -/
theorem Session.handleRequest_ANNOUNCE_sameRole (env : Env) (w : World) (s : SessRef)
    (req : Request) (res : Response) :
    (w.setSession s { w.sessions s with Type_ := SESSION_TYPE_PUSHER, URL := req.URL }).sameRole
      (Session.handleRequest_ANNOUNCE env w s req res).world := by
  unfold Session.handleRequest_ANNOUNCE
  simp only []
  split
  · exact World.sameRole.role_refl _
  · split
    · exact World.sameRole.role_refl _
    · split
      · exact World.sameRole.role_refl _
      · have h4 := Session.handleRequest_sdp_sameRole env
          (w.setSession s { w.sessions s with Type_ := SESSION_TYPE_PUSHER, URL := req.URL })
          s req ‹rtsp.URL›
        split
        · refine h4.role_trans (Res.handled_world_sameRole _ _ _ _
            (Server.TryAttachToPusher_sameRole _ _) (fun r w5 => ?_))
          split
          · exact World.sameRole.role_refl w5
          · split
            · exact Session.handleRequest_addPusher_sameRole w5 s res
            · exact World.sameRole.role_refl w5
        · exact h4.role_trans (Session.handleRequest_addPusher_sameRole _ s res)

theorem NewPlayer_sameRole (w : World) (s : SessRef) (p : PusherRef) :
    w.sameRole (NewPlayer w s p).2 := by
  intro t
  by_cases ht : t = s
  · subst ht; simp [NewPlayer, World.setSession, World.setPlayer]
  · simp [NewPlayer, World.setSession, World.setPlayer, Function.update_noteq ht]

/-- After its first two assignments the `DESCRIBE` case writes no role. -/
theorem Session.handleRequest_DESCRIBE_sameRole (env : Env) (w : World) (s : SessRef)
    (req : Request) (res : Response) :
    (w.setSession s { w.sessions s with Type_ := SESSEION_TYPE_PLAYER, URL := req.URL }).sameRole
      (Session.handleRequest_DESCRIBE env w s req res).world := by
  unfold Session.handleRequest_DESCRIBE
  simp only []
  split
  · exact World.sameRole.role_refl _
  · split
    · exact World.sameRole.role_refl _
    · split
      · exact World.sameRole.role_refl _
      · split
        · exact World.sameRole_setSession _ s _ rfl
        · split
          · intro t
            by_cases ht : t = s
            · subst ht
              simp [Handled.world, NewPlayer, World.setSession, World.setPlayer]
            · simp [Handled.world, NewPlayer, World.setSession, World.setPlayer,
                Function.update_noteq ht]
          · intro t
            by_cases ht : t = s
            · subst ht
              simp [Handled.world, NewPlayer, World.setSession, World.setPlayer]
            · simp [Handled.world, NewPlayer, World.setSession, World.setPlayer,
                Function.update_noteq ht]

theorem Session.handleRequest_SETUP_tcp_sameRole (w : World) (s : SessRef) (res : Response)
    (setupPath aPath vPath : String) (tcpMatchs : List String) :
    w.sameRole (Session.handleRequest_SETUP_tcp w s res setupPath aPath vPath tcpMatchs).2 := by
  intro t
  unfold Session.handleRequest_SETUP_tcp
  simp only []
  by_cases ht : t = s
  · subst ht
    split
    · simp [World.setSession]
    · split <;> simp [World.setSession]
  · split
    · simp [World.setSession, Function.update_noteq ht]
    · split <;> simp [World.setSession, Function.update_noteq ht]

theorem Session.handleRequest_SETUP_udpPlayer_sameRole (env : Env) (w : World) (s : SessRef)
    (res : Response) (udpMatchs : List String) (audio : Bool) :
    (∀ h, Session.handleRequest_SETUP_udpPlayer env w s res udpMatchs audio = Sum.inl h →
      w.sameRole h.world) ∧
    (∀ w1, Session.handleRequest_SETUP_udpPlayer env w s res udpMatchs audio = Sum.inr w1 →
      w.sameRole w1) := by
  unfold Session.handleRequest_SETUP_udpPlayer
  split
  · split
    · refine ⟨fun h hh => ?_, fun w1 hh => ?_⟩
      · cases hh; exact World.sameRole.role_refl w
      · cases hh
    · simp only []
      split
      · refine ⟨fun h hh => ?_, fun w1 hh => ?_⟩
        · cases hh; exact World.sameRole_setSession w s _ rfl
        · cases hh
      · refine ⟨fun h hh => ?_, fun w1 hh => ?_⟩
        · cases hh
        · cases hh; exact World.sameRole_setSession w s _ rfl
  · refine ⟨fun h hh => ?_, fun w1 hh => ?_⟩
    · cases hh
    · cases hh; exact World.sameRole.role_refl w

theorem Session.handleRequest_SETUP_udpTrack_sameRole (env : Env) (w : World) (s : SessRef)
    (P : PusherRef) (res : Response) (ts : String) (udpMatchs : List String) (audio : Bool) :
    w.sameRole
      (Handled.worldOr (Session.handleRequest_SETUP_udpTrack env w s P res ts udpMatchs audio)) := by
  obtain ⟨hl, hr⟩ := Session.handleRequest_SETUP_udpPlayer_sameRole env w s res udpMatchs audio
  unfold Session.handleRequest_SETUP_udpTrack
  cases hp : Session.handleRequest_SETUP_udpPlayer env w s res udpMatchs audio with
  | inl h => exact hl h hp
  | inr w1 =>
    have h1 := hr w1 hp
    simp only []
    split
    · split
      · exact h1
      · split
        · exact h1
        · exact h1.role_trans (World.sameRole_setPusher _ _ _)
    · exact h1

theorem Session.handleRequest_SETUP_udpInit_sameRole (w : World) (s : SessRef) (P : PusherRef) :
    w.sameRole (Session.handleRequest_SETUP_udpInit w s P) := by
  intro t
  unfold Session.handleRequest_SETUP_udpInit
  simp only []
  by_cases ht : t = s
  · subst ht
    split <;> split <;> simp [World.setSession, World.setPusher]
  · split <;> split <;> simp [World.setSession, World.setPusher, Function.update_noteq ht]

theorem Session.handleRequest_SETUP_udp_sameRole (env : Env) (w : World) (s : SessRef)
    (P : PusherRef) (res : Response) (ts setupPath aPath vPath : String)
    (udpMatchs : List String) :
    w.sameRole (Handled.worldOr
      (Session.handleRequest_SETUP_udp env w s P res ts setupPath aPath vPath udpMatchs)) := by
  unfold Session.handleRequest_SETUP_udp
  split
  · exact World.sameRole_setSession w s _ rfl
  · simp only []
    have h3 := Session.handleRequest_SETUP_udpInit_sameRole w s P
    split
    · exact h3.role_trans (Session.handleRequest_SETUP_udpTrack_sameRole env _ s P res ts udpMatchs true)
    · split
      · exact h3.role_trans
          (Session.handleRequest_SETUP_udpTrack_sameRole env _ s P res ts udpMatchs false)
      · exact h3

theorem Session.handleRequest_SETUP_sameRole (env : Env) (w : World) (s : SessRef)
    (req : Request) (res : Response) :
    w.sameRole (Session.handleRequest_SETUP env w s req res).world := by
  unfold Session.handleRequest_SETUP
  simp only []
  cases hurl : env.url_Parse req.URL with
  | none => exact World.sameRole.role_refl w
  | some setupUrl =>
    cases hP : (w.sessions s).Pusher with
    | none => exact World.sameRole.role_refl w
    | some pusher =>
      cases hv : controlPath env (w.sessions s).VControl with
      | none => exact World.sameRole.role_refl w
      | some vPath =>
        cases ha : controlPath env (w.sessions s).AControl with
        | none => exact World.sameRole.role_refl w
        | some aPath =>
          cases htcp : FindStringSubmatch "interleaved=".data (req.Header.index "Transport").data with
          | some tcpMatchs => exact Session.handleRequest_SETUP_tcp_sameRole w s res _ _ _ _
          | none =>
            cases hudp : FindStringSubmatch "client_port=".data
                (req.Header.index "Transport").data with
            | none => exact World.sameRole.role_refl w
            | some udpMatchs =>
              have h := Session.handleRequest_SETUP_udp_sameRole env w s pusher res
                (req.Header.index "Transport")
                (env.url_String (if env.url_Port setupUrl = "" then
                  { setupUrl with Host := setupUrl.Host ++ ":554" } else setupUrl))
                aPath vPath udpMatchs
              simp only []
              cases hr : Session.handleRequest_SETUP_udp env w s pusher res
                (req.Header.index "Transport")
                (env.url_String (if env.url_Port setupUrl = "" then
                  { setupUrl with Host := setupUrl.Host ++ ":554" } else setupUrl))
                aPath vPath udpMatchs with
              | inl hd => rw [hr] at h; exact h
              | inr r => rw [hr] at h; exact h

/-- `handleRequest` is its deferred function run on the outcome of the body. -/
theorem Session.handleRequest_eq_epilogue (env : Env) (w : World) (s : SessRef) (req : Request) :
    Session.handleRequest env w s req =
      Session.handleRequest_epilogue env (Session.handleRequest_outcome env w s req).2 s req
        (Session.handleRequest_outcome env w s req).1 := by
  unfold Session.handleRequest Session.handleRequest_outcome
  simp only []
  split <;> rfl

/-- The world of the outcome of the body is the world in which the body ended. -/
theorem Session.handleRequest_outcome_world (env : Env) (w : World) (s : SessRef)
    (req : Request) :
    (Session.handleRequest_outcome env w s req).2 =
      (Session.handleRequest_body env w s req
        (NewResponse 200 "OK" (req.Header.index "CSeq") (w.sessions s).ID "")).world := by
  unfold Session.handleRequest_outcome
  split <;> rename_i h <;> rw [h] <;> rfl

/-- The role of every session after the body of `handleRequest`: unchanged, or, for
the session of the request, Pusher after an `ANNOUNCE` and Player after a
`DESCRIBE`. -/
theorem Session.handleRequest_body_role (env : Env) (w : World) (s : SessRef) (req : Request)
    (res : Response) (t : SessRef) :
    ((Session.handleRequest_body env w s req res).world.sessions t).Type_
        = (w.sessions t).Type_ ∨
      (t = s ∧ req.Method = "ANNOUNCE" ∧
        ((Session.handleRequest_body env w s req res).world.sessions t).Type_
          = SESSION_TYPE_PUSHER) ∨
      (t = s ∧ req.Method = "DESCRIBE" ∧
        ((Session.handleRequest_body env w s req res).world.sessions t).Type_
          = SESSEION_TYPE_PLAYER) := by
  unfold Session.handleRequest_body
  cases hauth : Session.handleRequest_auth env w s req res with
  | some h => exact Or.inl (Session.handleRequest_auth_sameRole env w s req res h hauth t)
  | none =>
    simp only []
    unfold Session.handleRequest_switch
    split
    · exact Or.inl rfl
    · split
      · rename_i hm
        have h := Session.handleRequest_ANNOUNCE_sameRole env w s req res t
        by_cases ht : t = s
        · subst ht
          refine Or.inr (Or.inl ⟨rfl, hm, ?_⟩)
          rw [h]; simp [World.setSession]
        · left
          rw [h]; simp [World.setSession, Function.update_noteq ht]
      · split
        · rename_i hm
          have h := Session.handleRequest_DESCRIBE_sameRole env w s req res t
          by_cases ht : t = s
          · subst ht
            refine Or.inr (Or.inr ⟨rfl, hm, ?_⟩)
            rw [h]; simp [World.setSession]
          · left
            rw [h]; simp [World.setSession, Function.update_noteq ht]
        · split
          · exact Or.inl (Session.handleRequest_SETUP_sameRole env w s req res t)
          · split
            · split <;> exact Or.inl rfl
            · split
              · split <;> exact Or.inl rfl
              · split
                · split <;> exact Or.inl rfl
                · exact Or.inl rfl

/-- The role of every session after `handleRequest`, also when it panicked:
unchanged, or, for the session of the request, Pusher after an `ANNOUNCE` and
Player after a `DESCRIBE`. -/
theorem Session.handleRequest_role (env : Env) (w : World) (s : SessRef) (req : Request)
    (t : SessRef) :
    ((Session.handleRequest env w s req).world.sessions t).Type_ = (w.sessions t).Type_ ∨
      (t = s ∧ req.Method = "ANNOUNCE" ∧
        ((Session.handleRequest env w s req).world.sessions t).Type_ = SESSION_TYPE_PUSHER) ∨
      (t = s ∧ req.Method = "DESCRIBE" ∧
        ((Session.handleRequest env w s req).world.sessions t).Type_ = SESSEION_TYPE_PLAYER) := by
  rw [Session.handleRequest_eq_epilogue]
  have he := Session.handleRequest_epilogue_sameRole env
    (Session.handleRequest_outcome env w s req).2 s req
    (Session.handleRequest_outcome env w s req).1 t
  rw [he, Session.handleRequest_outcome_world]
  exact Session.handleRequest_body_role env w s req _ t

/-! ### C14: the deferred function stops the session on an error status -/

theorem Pusher.AddOutputBytes_session (w : World) (p : PusherRef) (n : Int) (t : SessRef) :
    ∃ m, (Pusher.AddOutputBytes w p n).world.sessions t = { w.sessions t with OutBytes := m } := by
  unfold Pusher.AddOutputBytes
  split
  · rename_i s _
    by_cases ht : t = s
    · subst ht; exact ⟨(w.sessions t).OutBytes + n, by simp [Res.world, World.setSession]⟩
    · exact ⟨(w.sessions t).OutBytes, by simp [Res.world, World.setSession, Function.update_noteq ht]⟩
  · split
    · exact ⟨(w.sessions t).OutBytes, rfl⟩
    · split
      · exact ⟨(w.sessions t).OutBytes, rfl⟩
      · exact ⟨(w.sessions t).OutBytes, rfl⟩

theorem Pusher.AddPlayer_prime_session (p : PusherRef) (player : PlayerRef) (l : List RTPPack)
    (t : SessRef) :
    ∀ w : World, ∃ m, (Pusher.AddPlayer_prime p player w l).world.sessions t
      = { w.sessions t with OutBytes := m } := by
  induction l with
  | nil => intro w; exact ⟨(w.sessions t).OutBytes, rfl⟩
  | cons pack rest ih =>
    intro w
    obtain ⟨m1, h1⟩ := Pusher.AddOutputBytes_session (Player.QueueRTP w player pack) p
      pack.Buffer.length t
    have h0 : (Player.QueueRTP w player pack).sessions t = w.sessions t := rfl
    rw [h0] at h1
    show ∃ m, ((Pusher.AddOutputBytes (Player.QueueRTP w player pack) p
      pack.Buffer.length).bind fun _ w1 => Pusher.AddPlayer_prime p player w1 rest).world.sessions t
      = _
    cases hc : Pusher.AddOutputBytes (Player.QueueRTP w player pack) p pack.Buffer.length with
    | ok u w1 =>
      rw [hc] at h1
      simp only [Res.world] at h1
      obtain ⟨m2, h2⟩ := ih w1
      refine ⟨m2, ?_⟩
      simp only [Res.bind]
      rw [h2, h1]
    | panic w1 =>
      rw [hc] at h1
      exact ⟨m1, h1⟩

theorem Pusher.AddPlayer_session (w : World) (p : PusherRef) (player : PlayerRef) (t : SessRef) :
    ∃ m, (Pusher.AddPlayer w p player).world.sessions t = { w.sessions t with OutBytes := m } := by
  unfold Pusher.AddPlayer
  cases hl : Pusher.Logger w p with
  | none => exact ⟨(w.sessions t).OutBytes, rfl⟩
  | some u =>
    cases hg : (w.pushers p).players.get (w.players player).ID with
    | none =>
      simp only []
      split
      · obtain ⟨m, h⟩ := Pusher.AddPlayer_prime_session p player
          ((w.setPusher p { w.pushers p with
              players := (w.pushers p).players.set (w.players player).ID player }).pushers p).gopCache
          t (w.setPusher p { w.pushers p with
              players := (w.pushers p).players.set (w.players player).ID player })
        exact ⟨m, h⟩
      · exact ⟨(w.sessions t).OutBytes, rfl⟩
    | some q =>
      simp only []
      split
      · exact Pusher.AddPlayer_prime_session p player _ t w
      · exact ⟨(w.sessions t).OutBytes, rfl⟩

/-- The `PLAY`/`RECORD` step of the deferred function writes nothing of a session
but `OutBytes`. -/
theorem Session.handleRequest_play_session (w : World) (s : SessRef) (req : Request)
    (t : SessRef) :
    ∃ m, (Session.handleRequest_play w s req).world.sessions t
      = { w.sessions t with OutBytes := m } := by
  unfold Session.handleRequest_play
  split
  · split
    · split
      · split
        · exact ⟨(w.sessions t).OutBytes, rfl⟩
        · exact Pusher.AddPlayer_session w _ _ t
      · exact ⟨(w.sessions t).OutBytes, rfl⟩
    · exact ⟨(w.sessions t).OutBytes, rfl⟩
  · exact ⟨(w.sessions t).OutBytes, rfl⟩


/-! ### C12: a failing authorization check, for every method -/

/-- With a source, `AddPlayer` returns. -/
theorem Pusher.AddPlayer_ok (w : World) (p : PusherRef) (player : PlayerRef)
    (hsrc : Pusher.Logger w p = some ()) :
    ∃ w', Pusher.AddPlayer w p player = Res.ok () w' := by
  unfold Pusher.AddPlayer
  rw [hsrc]
  simp only []
  split
  · split
    · rename_i hget
      have hl : Pusher.Logger (w.setPusher p
          { w.pushers p with players := (w.pushers p).players.set (w.players player).ID player })
          p = some () := by
        rw [← hsrc]
        simp [Pusher.Logger, World.setPusher]
      obtain ⟨w', h, _⟩ := Pusher.AddPlayer_prime_spec p player _ _ hl
      exact ⟨w', h⟩
    · obtain ⟨w', h, _⟩ := Pusher.AddPlayer_prime_spec p player _ w hsrc
      exact ⟨w', h⟩
  · split <;> exact ⟨_, rfl⟩

/-- The `PLAY`/`RECORD` step of the deferred function returns when a player
session has its pusher and its player and the pusher has a source; it leaves the
world as it is when the request is not a `PLAY` or `RECORD` of a player session. -/
theorem Session.handleRequest_play_ok (w : World) (s : SessRef) (req : Request)
    (hpl : req.Method = "PLAY" ∨ req.Method = "RECORD" →
      (w.sessions s).Type_ = SESSEION_TYPE_PLAYER →
      ∃ P pl, (w.sessions s).Pusher = some P ∧ (w.sessions s).Player = some pl ∧
        Pusher.Logger w P = some ()) :
    (∃ w2, Session.handleRequest_play w s req = Res.ok () w2) ∧
    (¬ ((req.Method = "PLAY" ∨ req.Method = "RECORD") ∧
        (w.sessions s).Type_ = SESSEION_TYPE_PLAYER) →
      Session.handleRequest_play w s req = Res.ok () w) := by
  unfold Session.handleRequest_play
  by_cases hm : req.Method = "PLAY" ∨ req.Method = "RECORD"
  · rw [if_pos hm]
    by_cases ht : (w.sessions s).Type_ = SESSEION_TYPE_PLAYER
    · rw [if_pos ht]
      obtain ⟨P, pl, hP, hPl, hL⟩ := hpl hm ht
      rw [hP, hPl]
      simp only []
      refine ⟨?_, fun h => absurd ⟨hm, ht⟩ h⟩
      split
      · exact ⟨_, rfl⟩
      · exact Pusher.AddPlayer_ok w P pl hL
    · rw [if_neg ht]
      exact ⟨⟨_, rfl⟩, fun _ => rfl⟩
  · rw [if_neg hm]
    exact ⟨⟨_, rfl⟩, fun _ => rfl⟩

/-- A failing authorization check writes no client and no multicast source. -/
theorem Session.handleRequest_body_failed_heaps (env : Env) (w : World) (s : SessRef)
    (req : Request) (res : Response) (hmethod : req.Method ≠ "OPTIONS")
    (hen : (w.sessions s).localAuthorizationEnable = true ∨
      (w.sessions s).remoteHttpAuthorizationEnable = true)
    (hfail : Session.handleRequest_authCheck env w s req = some true) :
    (Session.handleRequest_body env w s req res).world.clients = w.clients ∧
    (Session.handleRequest_body env w s req res).world.multicasts = w.multicasts := by
  unfold Session.handleRequest_body Session.handleRequest_auth
  rw [if_pos hmethod, if_pos hen, hfail]
  simp only []
  by_cases hb : w.server.authorizationType = "Basic"
  · rw [if_pos hb]
    exact ⟨rfl, rfl⟩
  · rw [if_neg hb]
    exact ⟨rfl, rfl⟩

/-- C12 as amended. A failing authorization check: with authorization enabled, for
every request whose method is not `OPTIONS` and whose check of the `Authorization`
line fails, `handleRequest` returns the response 401 "Unauthorized" with a
`WWW-Authenticate` challenge, and the session's role, path and interleaved channels
are what they were before the request.  The stopped flag is what it was unless the
method is `TEARDOWN`, on which the session is stopped all the same.  Every pusher,
its players among the rest, and the registry are what they were when the method is
neither `TEARDOWN` nor a `PLAY` or `RECORD` of a player session.  As in every state
that the code builds, a player session has its pusher and its player, the
session's stop closures are safe and every registered pusher has a source. -/
theorem auth_failure_preserves (env : Env) (w : World) (s : SessRef) (req : Request)
    (hen : (w.sessions s).localAuthorizationEnable = true ∨
      (w.sessions s).remoteHttpAuthorizationEnable = true)
    (hmethod : req.Method ≠ "OPTIONS")
    (hfail : Session.handleRequest_authCheck env w s req = some true)
    (hpl : req.Method = "PLAY" ∨ req.Method = "RECORD" →
      (w.sessions s).Type_ = SESSEION_TYPE_PLAYER →
      ∃ P pl, (w.sessions s).Pusher = some P ∧ (w.sessions s).Player = some pl ∧
        Pusher.Logger w P = some ())
    (hsafe : req.Method = "TEARDOWN" → ∀ h, h ∈ (w.sessions s).StopHandles → h.safe w)
    (hreg : req.Method = "TEARDOWN" →
      ∀ k r, w.server.pushers.get k = some r → Pusher.ID w r ≠ none) :
    ∃ (res : Response) (w' : World), Session.handleRequest env w s req = Res.ok res w' ∧
      res.StatusCode = 401 ∧ res.Status = "Unauthorized" ∧
      res.Header.get "WWW-Authenticate" ≠ none ∧
      (w'.sessions s).Type_ = (w.sessions s).Type_ ∧
      (w'.sessions s).Path = (w.sessions s).Path ∧
      (w'.sessions s).aRTPChannel = (w.sessions s).aRTPChannel ∧
      (w'.sessions s).aRTPControlChannel = (w.sessions s).aRTPControlChannel ∧
      (w'.sessions s).vRTPChannel = (w.sessions s).vRTPChannel ∧
      (w'.sessions s).vRTPControlChannel = (w.sessions s).vRTPControlChannel ∧
      (req.Method ≠ "TEARDOWN" → (w'.sessions s).Stoped = (w.sessions s).Stoped) ∧
      (req.Method = "TEARDOWN" → (w'.sessions s).Stoped = true) ∧
      (req.Method ≠ "TEARDOWN" →
        ¬ ((req.Method = "PLAY" ∨ req.Method = "RECORD") ∧
          (w.sessions s).Type_ = SESSEION_TYPE_PLAYER) →
        w'.pushers = w.pushers ∧ w'.server = w.server) := by
  obtain ⟨c, n, w1, hbody, hsrv, hpush, _, hoth, hs⟩ := Session.handleRequest_body_failed env w s
    req (NewResponse 200 "OK" (req.Header.index "CSeq") (w.sessions s).ID "") hmethod hen hfail
  obtain ⟨hcl, hmc⟩ := Session.handleRequest_body_failed_heaps env w s
    req (NewResponse 200 "OK" (req.Header.index "CSeq") (w.sessions s).ID "") hmethod hen hfail
  rw [hbody] at hcl hmc
  simp only [Handled.world] at hcl hmc
  have hhdr : ((NewResponse 200 "OK" (req.Header.index "CSeq") (w.sessions s).ID "").Header.set
      "WWW-Authenticate" c).get "WWW-Authenticate" ≠ none := by
    rw [GoMap.get_set_self]; simp
  -- the world after the write of the response
  generalize hres : ({ NewResponse 200 "OK" (req.Header.index "CSeq") (w.sessions s).ID "" with
      StatusCode := 401, Status := "Unauthorized"
      Header := (NewResponse 200 "OK" (req.Header.index "CSeq") (w.sessions s).ID "").Header.set
        "WWW-Authenticate" c } : Response) = res401 at hbody
  have h401 : res401.StatusCode = 401 := by rw [← hres]
  have hstat : res401.Status = "Unauthorized" := by rw [← hres]
  have hhd : res401.Header.get "WWW-Authenticate" ≠ none := by rw [← hres]; exact hhdr
  have hwws : ∃ (rw : List Nat) (ob : Int) (nn : String),
      (Session.handleRequest_write env w1 s res401).sessions s =
        { w.sessions s with connRW := rw, OutBytes := ob, nonce := nn } := by
    refine ⟨(w.sessions s).connRW ++ env.Response_String res401,
      (w.sessions s).OutBytes + (env.Response_String res401).length, n, ?_⟩
    simp [Session.handleRequest_write, World.setSession, hs]
  have hwwp : (Session.handleRequest_write env w1 s res401).pushers = w.pushers := by
    rw [← hpush]; rfl
  have hwwsrv : (Session.handleRequest_write env w1 s res401).server = w.server := by
    rw [← hsrv]; rfl
  have hwwcl : (Session.handleRequest_write env w1 s res401).clients = w.clients := by
    rw [← hcl]; rfl
  have hwwmc : (Session.handleRequest_write env w1 s res401).multicasts = w.multicasts := by
    rw [← hmc]; rfl
  have hwwoth : ∀ t, t ≠ s →
      (Session.handleRequest_write env w1 s res401).sessions t = w.sessions t := by
    intro t hts
    rw [← hoth t hts]
    simp [Session.handleRequest_write, World.setSession, Function.update_noteq hts]
  have hH : Session.handleRequest env w s req =
      Session.handleRequest_epilogue env w1 s req res401 := by
    unfold Session.handleRequest
    simp only []
    rw [hbody]
  rw [hH]
  unfold Session.handleRequest_epilogue
  generalize Session.handleRequest_write env w1 s res401 = ww at hwws hwwp hwwsrv hwwcl hwwmc hwwoth ⊢
  obtain ⟨rw0, ob0, nn0, hwws⟩ := hwws
  have hpl2 : req.Method = "PLAY" ∨ req.Method = "RECORD" →
      (ww.sessions s).Type_ = SESSEION_TYPE_PLAYER →
      ∃ P pl, (ww.sessions s).Pusher = some P ∧ (ww.sessions s).Player = some pl ∧
        Pusher.Logger ww P = some () := by
    intro hm ht
    rw [hwws] at ht ⊢
    obtain ⟨P, pl, h1, h2, h3⟩ := hpl hm ht
    exact ⟨P, pl, h1, h2, by rw [Pusher.Logger_congr w ww P (by rw [hwwp])]; exact h3⟩
  obtain ⟨⟨w2, hplay⟩, hplaysame⟩ := Session.handleRequest_play_ok ww s req hpl2
  obtain ⟨m, hw2s⟩ := Session.handleRequest_play_session ww s req s
  rw [hplay] at hw2s
  simp only [Res.world] at hw2s
  rw [hwws] at hw2s
  rw [hplay]
  simp only [Res.bind]
  by_cases ht : req.Method = "TEARDOWN"
  · rw [if_pos ht]
    have hnp : ¬ ((req.Method = "PLAY" ∨ req.Method = "RECORD") ∧
        (ww.sessions s).Type_ = SESSEION_TYPE_PLAYER) := by
      rw [ht]; intro h; rcases h.1 with h | h <;> exact absurd h (by decide)
    have hw2 : w2 = ww := by
      have := hplaysame hnp
      rw [hplay] at this
      simp only [Res.ok.injEq, true_and] at this
      exact this
    subst hw2
    obtain ⟨w3, hstop⟩ := Session.Stop_ok w2 s
      (fun h hm => by
        have hm' : h ∈ (w.sessions s).StopHandles := by rw [hwws] at hm; exact hm
        exact StopHandle.safe_congr w w2 h (fun q => by rw [hwwp]) (fun q => by rw [hwwp])
          (fun q => by rw [hwwp]) (hsafe ht h hm'))
      (fun k r hr => by
        have hid : Pusher.ID w2 r = Pusher.ID w r := by
          apply Pusher.ID_congr
          · intro q; rw [hwwp]
          · intro q; rw [hwwp]
          · intro q; rw [hwwp]
          · intro t
            by_cases hts : t = s
            · subst hts; rw [hwws]
            · rw [hwwoth t hts]
          · exact hwwcl
          · exact hwwmc
        rw [hid]
        exact hreg ht k r (by rw [← hwwsrv]; exact hr))
    have hst := Session.Stop_stoped w2 s
    obtain ⟨st, cc, u, hshape⟩ := Session.Stop_session w2 s s
    rw [hstop] at hst hshape
    simp only [Res.world] at hst hshape
    rw [hstop]
    simp only [Res.bind]
    refine ⟨res401, w3, rfl, h401, hstat, hhd, ?_, ?_, ?_, ?_, ?_, ?_, fun h => absurd ht h,
      fun _ => hst, fun h => absurd ht h⟩ <;> rw [hshape, hwws]
  · rw [if_neg ht, if_neg (by rw [h401]; simp)]
    refine ⟨res401, w2, rfl, h401, hstat, hhd, ?_, ?_, ?_, ?_, ?_, ?_, fun _ => ?_,
      fun h => absurd h ht, fun _ hnp => ?_⟩
    · rw [hw2s]
    · rw [hw2s]
    · rw [hw2s]
    · rw [hw2s]
    · rw [hw2s]
    · rw [hw2s]
    · rw [hw2s]
    · have hnp2 : ¬ ((req.Method = "PLAY" ∨ req.Method = "RECORD") ∧
          (ww.sessions s).Type_ = SESSEION_TYPE_PLAYER) := by
        rw [hwws]; exact hnp
      have hsame := hplaysame hnp2
      rw [hplay] at hsame
      simp only [Res.ok.injEq, true_and] at hsame
      rw [hsame]
      exact ⟨hwwp, hwwsrv⟩

/-- Witness for the amended C12: player session `2` of `exAuthWorld` sends a `PLAY`
without an `Authorization` line, and publisher session `0` sends a `SETUP` without
one. -/
theorem auth_failure_preserves_witness :
    (exAuthWorld.sessions 2).localAuthorizationEnable = true ∧
    (exAuthWorld.sessions 2).Type_ = SESSEION_TYPE_PLAYER ∧
    exPlay.Method = "PLAY" ∧
    Session.handleRequest_authCheck exSetupEnv exAuthWorld 2 exPlay = some true ∧
    Session.handleRequest_authCheck exSetupEnv exAuthWorld 0 exSetupNoAuth = some true ∧
    (∃ (res : Response) (w' : World),
      Session.handleRequest exSetupEnv exAuthWorld 2 exPlay = Res.ok res w' ∧
      res.StatusCode = 401 ∧ res.Status = "Unauthorized" ∧
      res.Header.get "WWW-Authenticate" ≠ none ∧
      (w'.sessions 2).Type_ = (exAuthWorld.sessions 2).Type_ ∧
      (w'.sessions 2).Path = (exAuthWorld.sessions 2).Path ∧
      (w'.sessions 2).aRTPChannel = (exAuthWorld.sessions 2).aRTPChannel ∧
      (w'.sessions 2).aRTPControlChannel = (exAuthWorld.sessions 2).aRTPControlChannel ∧
      (w'.sessions 2).vRTPChannel = (exAuthWorld.sessions 2).vRTPChannel ∧
      (w'.sessions 2).vRTPControlChannel = (exAuthWorld.sessions 2).vRTPControlChannel ∧
      (exPlay.Method ≠ "TEARDOWN" →
        (w'.sessions 2).Stoped = (exAuthWorld.sessions 2).Stoped) ∧
      (exPlay.Method = "TEARDOWN" → (w'.sessions 2).Stoped = true) ∧
      (exPlay.Method ≠ "TEARDOWN" →
        ¬ ((exPlay.Method = "PLAY" ∨ exPlay.Method = "RECORD") ∧
          (exAuthWorld.sessions 2).Type_ = SESSEION_TYPE_PLAYER) →
        w'.pushers = exAuthWorld.pushers ∧ w'.server = exAuthWorld.server)) ∧
    (∃ (res : Response) (w' : World),
      Session.handleRequest exSetupEnv exAuthWorld 0 exSetupNoAuth = Res.ok res w' ∧
      res.StatusCode = 401 ∧ (w'.sessions 0).Stoped = (exAuthWorld.sessions 0).Stoped ∧
      w'.pushers = exAuthWorld.pushers ∧ w'.server = exAuthWorld.server) :=
  ⟨by decide, by decide, by decide, by decide, by decide,
    auth_failure_preserves exSetupEnv exAuthWorld 2 exPlay (Or.inl (by decide)) (by decide)
      (by decide) (fun _ _ => ⟨0, 0, by decide, by decide, by decide⟩)
      (fun h => absurd h (by decide)) (fun h => absurd h (by decide)),
    (auth_failure_preserves exSetupEnv exAuthWorld 0 exSetupNoAuth (Or.inl (by decide))
      (by decide) (by decide) (fun h => h.elim (fun h => absurd h (by decide)) (fun h => absurd h (by decide)))
      (fun h => absurd h (by decide)) (fun h => absurd h (by decide))).elim
      fun res h => h.elim fun w' h => ⟨res, w', h.1, h.2.1, h.2.2.2.2.2.2.2.2.2.2.1 (by decide),
        h.2.2.2.2.2.2.2.2.2.2.2.2 (by decide)
          (fun h2 => h2.1.elim (fun h => absurd h (by decide)) (fun h => absurd h (by decide)))⟩⟩

/-- C14. Error responses terminate the session: for a request whose method is not
`TEARDOWN`, when the `PLAY`/`RECORD` step of the deferred function returns (in the
world `w2`) and the session is running when the deferred function starts: with
`res1` the final response (that of the body, with status 500 when the body
panicked), `handleRequest` ends in `Session.Stop` on `w2` when the status is
neither 200 nor 401 and returns in `w2` with no call of `Session.Stop` otherwise;
so the session is stopped afterwards if and only if the status is neither 200 nor
401. -/
theorem epilogue_stops_iff (env : Env) (w : World) (s : SessRef) (req : Request) (w2 : World)
    (hm : req.Method ≠ "TEARDOWN")
    (hplay : Session.handleRequest_play
      (Session.handleRequest_write env (Session.handleRequest_outcome env w s req).2 s
        (Session.handleRequest_outcome env w s req).1) s req = Res.ok () w2)
    (hns : ((Session.handleRequest_outcome env w s req).2.sessions s).Stoped = false) :
    (((Session.handleRequest env w s req).world.sessions s).Stoped = true ↔
      ((Session.handleRequest_outcome env w s req).1.StatusCode ≠ 200 ∧
        (Session.handleRequest_outcome env w s req).1.StatusCode ≠ 401)) ∧
    Session.handleRequest env w s req =
      (if (Session.handleRequest_outcome env w s req).1.StatusCode ≠ 200 ∧
          (Session.handleRequest_outcome env w s req).1.StatusCode ≠ 401 then
        (Session.Stop w2 s).bind fun _ w3 =>
          Res.ok (Session.handleRequest_outcome env w s req).1 w3
      else Res.ok (Session.handleRequest_outcome env w s req).1 w2) ∧
    (∀ (r : Response) (w1 : World),
      Session.handleRequest_body env w s req
        (NewResponse 200 "OK" (req.Header.index "CSeq") (w.sessions s).ID "") = .panic r w1 →
      (Session.handleRequest_outcome env w s req).1.StatusCode = 500) := by
  have heq : Session.handleRequest env w s req =
      (if (Session.handleRequest_outcome env w s req).1.StatusCode ≠ 200 ∧
          (Session.handleRequest_outcome env w s req).1.StatusCode ≠ 401 then
        (Session.Stop w2 s).bind fun _ w3 =>
          Res.ok (Session.handleRequest_outcome env w s req).1 w3
      else Res.ok (Session.handleRequest_outcome env w s req).1 w2) := by
    rw [Session.handleRequest_eq_epilogue]
    unfold Session.handleRequest_epilogue
    rw [hplay]
    simp only [Res.bind, if_neg hm]
  have hw2 : (w2.sessions s).Stoped = false := by
    obtain ⟨m, h⟩ := Session.handleRequest_play_session
      (Session.handleRequest_write env (Session.handleRequest_outcome env w s req).2 s
        (Session.handleRequest_outcome env w s req).1) s req s
    rw [hplay] at h
    simp only [Res.world] at h
    rw [h]
    simp [Session.handleRequest_write, World.setSession, hns]
  refine ⟨?_, heq, ?_⟩
  · rw [heq]
    by_cases hst : (Session.handleRequest_outcome env w s req).1.StatusCode ≠ 200 ∧
        (Session.handleRequest_outcome env w s req).1.StatusCode ≠ 401
    · rw [if_pos hst]
      have h := Session.Stop_stoped w2 s
      cases hS : Session.Stop w2 s with
      | ok u w3 => rw [hS] at h; simp only [Res.bind, Res.world] at h ⊢; exact ⟨fun _ => hst, fun _ => h⟩
      | panic w3 => rw [hS] at h; simp only [Res.bind, Res.world] at h ⊢; exact ⟨fun _ => hst, fun _ => h⟩
    · rw [if_neg hst]
      simp only [Res.world]
      rw [hw2]
      exact ⟨fun h => absurd h (by decide), fun h => absurd h hst⟩
  · intro r w1 hb
    unfold Session.handleRequest_outcome
    rw [hb]

/-- Witness for C14: the `SETUP` of `exSetupUdpUnknown` is answered 200 and leaves
the session running; the `ANNOUNCE` of session `1` of `exNoConnWorld` panics in the
body, is answered 500 and stops the session. -/
theorem epilogue_stops_iff_witness :
    ((Session.handleRequest_outcome exSetupEnv exSetupWorld 0 exSetupUdpUnknown).1.StatusCode = 200 ∧
      ((Session.handleRequest exSetupEnv exSetupWorld 0 exSetupUdpUnknown).world.sessions 0).Stoped
        = false ∧
      (((Session.handleRequest exSetupEnv exSetupWorld 0 exSetupUdpUnknown).world.sessions 0).Stoped
          = true ↔
        ((Session.handleRequest_outcome exSetupEnv exSetupWorld 0 exSetupUdpUnknown).1.StatusCode
            ≠ 200 ∧
          (Session.handleRequest_outcome exSetupEnv exSetupWorld 0 exSetupUdpUnknown).1.StatusCode
            ≠ 401))) ∧
    ((Session.handleRequest_outcome exReqEnv exNoConnWorld 1 exAnnounce).1.StatusCode = 500 ∧
      ((Session.handleRequest exReqEnv exNoConnWorld 1 exAnnounce).world.sessions 1).Stoped = true ∧
      (((Session.handleRequest exReqEnv exNoConnWorld 1 exAnnounce).world.sessions 1).Stoped
          = true ↔
        ((Session.handleRequest_outcome exReqEnv exNoConnWorld 1 exAnnounce).1.StatusCode ≠ 200 ∧
          (Session.handleRequest_outcome exReqEnv exNoConnWorld 1 exAnnounce).1.StatusCode
            ≠ 401))) :=
  ⟨⟨by decide, by decide,
      (epilogue_stops_iff exSetupEnv exSetupWorld 0 exSetupUdpUnknown
        (Session.handleRequest_write exSetupEnv
          (Session.handleRequest_outcome exSetupEnv exSetupWorld 0 exSetupUdpUnknown).2 0
          (Session.handleRequest_outcome exSetupEnv exSetupWorld 0 exSetupUdpUnknown).1)
        (by decide) rfl (by decide)).1⟩,
    ⟨by decide, by decide,
      (epilogue_stops_iff exReqEnv exNoConnWorld 1 exAnnounce
        (Session.handleRequest_write exReqEnv
          (Session.handleRequest_outcome exReqEnv exNoConnWorld 1 exAnnounce).2 1
          (Session.handleRequest_outcome exReqEnv exNoConnWorld 1 exAnnounce).1)
        (by decide) rfl (by decide)).1⟩⟩

/-! ### C15: `Session.Stop` is idempotent -/

theorem StopHandle.callAll_traced_snd (hs : List StopHandle) :
    ∀ w : World, (StopHandle.callAll_traced w hs).2 = StopHandle.callAll w hs := by
  induction hs with
  | nil => intro w; rfl
  | cons h rest ih =>
    intro w
    unfold StopHandle.callAll_traced StopHandle.callAll
    cases hc : h.call w with
    | ok u w1 => simp only [Res.bind]; exact ih w1
    | panic w1 => rfl

/-- When the loop over the stop closures returns, it has invoked each of them once,
in order. -/
theorem StopHandle.callAll_traced_fst (hs : List StopHandle) :
    ∀ (w w' : World), StopHandle.callAll w hs = Res.ok () w' →
      (StopHandle.callAll_traced w hs).1 = hs := by
  induction hs with
  | nil => intro w w' _; rfl
  | cons h rest ih =>
    intro w w' hok
    unfold StopHandle.callAll at hok
    unfold StopHandle.callAll_traced
    cases hc : h.call w with
    | ok u w1 =>
      rw [hc] at hok
      simp only [Res.bind] at hok
      simp only []
      rw [ih w1 w' hok]
    | panic w1 =>
      rw [hc] at hok
      simp [Res.bind] at hok

/-- The traced `Session.Stop` is `Session.Stop`. -/
theorem Session.Stop_traced_snd (w : World) (s : SessRef) :
    (Session.Stop_traced w s).2 = Session.Stop w s := by
  unfold Session.Stop_traced Session.Stop
  split
  · rfl
  · simp only []
    rw [StopHandle.callAll_traced_snd]

/-- A call of `Session.Stop` on a stopped session invokes no stop closure. -/
theorem Session.Stop_traced_of_stopped (w : World) (s : SessRef)
    (h : (w.sessions s).Stoped = true) : Session.Stop_traced w s = ([], Res.ok () w) := by
  simp [Session.Stop_traced, h]

/-- A second call of `Session.Stop` returns at once and changes nothing, also after
a first call that panicked. -/
theorem Session.Stop_twice (w : World) (s : SessRef) :
    Session.Stop (Session.Stop w s).world s = Res.ok () (Session.Stop w s).world :=
  Session.Stop_of_stopped _ s (Session.Stop_stoped w s)

theorem Session.Stop_times_of_stopped (s : SessRef) (n : Nat) :
    ∀ w : World, (w.sessions s).Stoped = true → Session.Stop_times w s n = ([], w) := by
  induction n with
  | zero => intro w _; rfl
  | succ n ih =>
    intro w h
    unfold Session.Stop_times
    rw [Session.Stop_traced_of_stopped w s h]
    simp only [Res.world, List.nil_append]
    rw [ih w h]

/-- C15. `Session.Stop` is idempotent: for a running session whose stop closures
are the ones the code registers (safe, the registry holding pushers with a
source), the first call returns, in a world `w1`; a second call returns at once
and leaves `w1` as it is; a call made while the stop closures run, after any
number of them, returns at once and changes nothing; and over any number `n + 1`
of calls the stop closures invoked are exactly the registered ones, each once and
in order, the world after them being `w1`. -/
theorem Stop_idempotent (w : World) (s : SessRef)
    (hns : (w.sessions s).Stoped = false)
    (hsafe : ∀ h, h ∈ (w.sessions s).StopHandles → h.safe w)
    (hreg : ∀ k r, w.server.pushers.get k = some r → Pusher.ID w r ≠ none) :
    ∃ w1, Session.Stop w s = Res.ok () w1 ∧
      Session.Stop w1 s = Res.ok () w1 ∧
      (∀ pre post, (w.sessions s).StopHandles = pre ++ post →
        Session.Stop (StopHandle.callAll
            (w.setSession s { w.sessions s with Stoped := true }) pre).world s =
          Res.ok () (StopHandle.callAll
            (w.setSession s { w.sessions s with Stoped := true }) pre).world) ∧
      (Session.Stop_traced w s).1 = (w.sessions s).StopHandles ∧
      ∀ n, Session.Stop_times w s (n + 1) = ((w.sessions s).StopHandles, w1) := by
  obtain ⟨w1, hok⟩ := Session.Stop_ok w s hsafe hreg
  have hst1 : (w1.sessions s).Stoped = true := by
    have h := Session.Stop_stoped w s
    rw [hok] at h
    exact h
  have htr : (Session.Stop_traced w s).1 = (w.sessions s).StopHandles := by
    have hhooks : ((w.setSession s { w.sessions s with Stoped := true }).sessions s).StopHandles
        = (w.sessions s).StopHandles := by simp [World.setSession]
    cases hc : StopHandle.callAll (w.setSession s { w.sessions s with Stoped := true })
        (w.sessions s).StopHandles with
    | ok u wb =>
      simp only [Session.Stop_traced, hns, Bool.false_eq_true, if_false, hhooks]
      exact StopHandle.callAll_traced_fst _ _ wb hc
    | panic wb =>
      simp [Session.Stop, hns, hhooks, hc, Res.bind] at hok
  refine ⟨w1, hok, Session.Stop_of_stopped w1 s hst1, ?_, htr, ?_⟩
  · intro pre post _
    apply Session.Stop_of_stopped
    have hfr := StopHandle.callAll_frame pre (w.setSession s { w.sessions s with Stoped := true })
    rw [hfr.sessions]
    simp [World.setSession]
  · intro n
    unfold Session.Stop_times
    rw [htr, Session.Stop_traced_snd, hok]
    simp only [Res.world]
    rw [Session.Stop_times_of_stopped s n w1 hst1]
    simp

/-- Witness for C15: publisher session `0` of `exSetupWorld`, whose stop closure
is that of `bindSession` for its pusher, is stopped three times. -/
theorem Stop_idempotent_witness :
    (exSetupWorld.sessions 0).Stoped = false ∧
    (exSetupWorld.sessions 0).StopHandles = [StopHandle.bindSession 0 0] ∧
    ∃ w1, Session.Stop exSetupWorld 0 = Res.ok () w1 ∧
      Session.Stop w1 0 = Res.ok () w1 ∧
      (Session.Stop_traced exSetupWorld 0).1 = [StopHandle.bindSession 0 0] ∧
      Session.Stop_times exSetupWorld 0 3 = ([StopHandle.bindSession 0 0], w1) := by
  refine ⟨by decide, by decide, ?_⟩
  obtain ⟨w1, h1, h2, _, h4, h5⟩ := Stop_idempotent exSetupWorld 0 (by decide)
    (fun h hm => by
      have hhooks : (exSetupWorld.sessions 0).StopHandles = [StopHandle.bindSession 0 0] := by
        decide
      rw [hhooks, List.mem_singleton] at hm
      subst hm
      show (exSetupWorld.pushers 0).Session ≠ none
      decide)
    (fun k r hr => by
      have hregistry : exSetupWorld.server.pushers = ⟨[("/live/x", 0)]⟩ := by decide
      rw [hregistry] at hr
      by_cases hk : "/live/x" = k
      · simp [GoMap.get, GoMap.lookup, hk] at hr
        subst hr; decide
      · simp [GoMap.get, GoMap.lookup, hk] at hr)
  have hhooks : (exSetupWorld.sessions 0).StopHandles = [StopHandle.bindSession 0 0] := by decide
  exact ⟨w1, h1, h2, hhooks ▸ h4, hhooks ▸ h5 2⟩

/-! ### C16: the role of a session -/

/-- C16 as amended. The role of a session is written by `ANNOUNCE` (Pusher) and by
`DESCRIBE` (Player) only: over every sequence of requests handled by a session
whose role is Pusher that has no `DESCRIBE` among them, and over every sequence
handled by a session whose role is Player that has no `ANNOUNCE` among them, the
role stays what it is. -/
theorem role_kept (env : Env) (s : SessRef) (reqs : List Request) :
    ∀ (w : World),
      ((w.sessions s).Type_ = SESSION_TYPE_PUSHER ∧
          (∀ r, r ∈ reqs → r.Method ≠ "DESCRIBE")) ∨
        ((w.sessions s).Type_ = SESSEION_TYPE_PLAYER ∧
          (∀ r, r ∈ reqs → r.Method ≠ "ANNOUNCE")) →
      ((Session.handleRequests env w s reqs).sessions s).Type_ = (w.sessions s).Type_ := by
  induction reqs with
  | nil => intro w _; rfl
  | cons req rest ih =>
    intro w h
    unfold Session.handleRequests
    split
    · rfl
    · have hrole := Session.handleRequest_role env w s req s
      have hstep : ((Session.handleRequest env w s req).world.sessions s).Type_
          = (w.sessions s).Type_ := by
        rcases h with ⟨hp, hm⟩ | ⟨hp, hm⟩
        · rcases hrole with h1 | ⟨_, _, h1⟩ | ⟨_, hd, _⟩
          · exact h1
          · rw [h1, hp]
          · exact absurd hd (hm req (List.mem_cons_self _ _))
        · rcases hrole with h1 | ⟨_, ha, _⟩ | ⟨_, _, h1⟩
          · exact h1
          · exact absurd ha (hm req (List.mem_cons_self _ _))
          · rw [h1, hp]
      have hrest : ((Session.handleRequest env w s req).world.sessions s).Type_ = SESSION_TYPE_PUSHER ∧
            (∀ r, r ∈ rest → r.Method ≠ "DESCRIBE") ∨
          ((Session.handleRequest env w s req).world.sessions s).Type_ = SESSEION_TYPE_PLAYER ∧
            (∀ r, r ∈ rest → r.Method ≠ "ANNOUNCE") := by
        rcases h with ⟨hp, hm⟩ | ⟨hp, hm⟩
        · exact Or.inl ⟨hstep.trans hp, fun r hr => hm r (List.mem_cons_of_mem _ hr)⟩
        · exact Or.inr ⟨hstep.trans hp, fun r hr => hm r (List.mem_cons_of_mem _ hr)⟩
      cases hr : Session.handleRequest env w s req with
      | ok res w1 =>
        rw [hr] at hstep hrest
        simp only [Res.world] at hstep hrest
        simp only []
        rw [ih w1 hrest, hstep]
      | panic w1 =>
        rw [hr] at hstep
        exact hstep

/-- Witness for the amended C16: publisher session `0` of `exSetupWorld` handles a
`SETUP` and a `RECORD`. -/
theorem role_kept_witness :
    (exSetupWorld.sessions 0).Type_ = SESSION_TYPE_PUSHER ∧
    ((Session.handleRequests exSetupEnv exSetupWorld 0 [exSetupNoAuth, exRecord]).sessions 0).Type_
      = (exSetupWorld.sessions 0).Type_ :=
  ⟨by decide,
    role_kept exSetupEnv 0 [exSetupNoAuth, exRecord] exSetupWorld
      (Or.inl ⟨by decide, fun r hr => by
        simp only [List.mem_cons, List.mem_singleton, List.not_mem_nil, or_false] at hr
        rcases hr with h | h <;> (subst h; decide)⟩)⟩

/-- C16 as stated fails: session `0` of `exFreshWorld` announces `/live/x`, which
makes it a Pusher, and then sends a `DESCRIBE` for the same path, which is answered
200 and makes it a Player. -/
theorem role_kept_counterexample :
    ((Session.handleRequests exReqEnv exFreshWorld 0 [exAnnounce]).sessions 0).Type_
      = SESSION_TYPE_PUSHER ∧
    ((Session.handleRequests exReqEnv exFreshWorld 0 [exAnnounce]).sessions 0).Stoped = false ∧
    (Session.handleRequest exReqEnv
      (Session.handleRequests exReqEnv exFreshWorld 0 [exAnnounce]) 0 exDescribe).result.map
        (fun r => r.StatusCode) = some 200 ∧
    ((Session.handleRequests exReqEnv exFreshWorld 0 [exAnnounce, exDescribe]).sessions 0).Type_
      = SESSEION_TYPE_PLAYER ∧
    ¬ RoleSetOnce exReqEnv exFreshWorld 0 [exAnnounce, exDescribe] := by
  refine ⟨by decide, by decide, by decide, by decide, fun h => ?_⟩
  have h1 := h [exAnnounce] [exDescribe] rfl (Or.inl (by decide))
  exact absurd h1 (by decide)

/-! ### C17: the interleaved channels of a session -/

theorem Session.handleRequest_SETUP_udpPlayer_session (env : Env) (w : World) (s : SessRef)
    (res : Response) (udpMatchs : List String) (audio : Bool) (t : SessRef) :
    (∀ h, Session.handleRequest_SETUP_udpPlayer env w s res udpMatchs audio = Sum.inl h →
      ∃ u, h.world.sessions t = { w.sessions t with UDPClient := u }) ∧
    (∀ w1, Session.handleRequest_SETUP_udpPlayer env w s res udpMatchs audio = Sum.inr w1 →
      (∃ u, w1.sessions t = { w.sessions t with UDPClient := u }) ∧ w1.pushers = w.pushers) := by
  have hset : ∀ v : Option rtsp.UDPClient,
      ∃ u, (w.setSession s { w.sessions s with UDPClient := v }).sessions t
        = { w.sessions t with UDPClient := u } := by
    intro v
    by_cases ht : t = s
    · subst ht; exact ⟨v, by simp [World.setSession]⟩
    · exact ⟨(w.sessions t).UDPClient, by simp [World.setSession, Function.update_noteq ht]⟩
  unfold Session.handleRequest_SETUP_udpPlayer
  split
  · split
    · refine ⟨fun h hh => ?_, fun w1 hh => ?_⟩
      · cases hh; exact ⟨(w.sessions t).UDPClient, rfl⟩
      · cases hh
    · simp only []
      split
      · refine ⟨fun h hh => ?_, fun w1 hh => ?_⟩
        · cases hh; exact hset _
        · cases hh
      · refine ⟨fun h hh => ?_, fun w1 hh => ?_⟩
        · cases hh
        · cases hh; exact ⟨hset _, rfl⟩
  · refine ⟨fun h hh => ?_, fun w1 hh => ?_⟩
    · cases hh
    · cases hh; exact ⟨⟨(w.sessions t).UDPClient, rfl⟩, rfl⟩

theorem Session.handleRequest_SETUP_udpTrack_session (env : Env) (w : World) (s : SessRef)
    (P : PusherRef) (res : Response) (ts : String) (udpMatchs : List String) (audio : Bool)
    (t : SessRef) :
    ∃ u, (Handled.worldOr
        (Session.handleRequest_SETUP_udpTrack env w s P res ts udpMatchs audio)).sessions t
      = { w.sessions t with UDPClient := u } := by
  obtain ⟨hl, hr⟩ := Session.handleRequest_SETUP_udpPlayer_session env w s res udpMatchs audio t
  unfold Session.handleRequest_SETUP_udpTrack
  cases hp : Session.handleRequest_SETUP_udpPlayer env w s res udpMatchs audio with
  | inl h => exact hl h hp
  | inr w1 =>
    obtain ⟨h1, _⟩ := hr w1 hp
    simp only []
    split
    · split
      · exact h1
      · split
        · exact h1
        · exact h1
    · exact h1

theorem Session.handleRequest_SETUP_udpInit_session (w : World) (s : SessRef) (P : PusherRef)
    (t : SessRef) :
    ∃ (tt : Int) (c : Option Int) (u : Option rtsp.UDPClient),
      (Session.handleRequest_SETUP_udpInit w s P).sessions t
        = { w.sessions t with TransType := tt, Conn := c, UDPClient := u } := by
  unfold Session.handleRequest_SETUP_udpInit
  simp only []
  by_cases ht : t = s
  · subst ht
    split <;> split <;>
      exact ⟨TRANS_TYPE_UDP, some 0, _, by simp [World.setSession, World.setPusher]; rfl⟩
  · refine ⟨(w.sessions t).TransType, (w.sessions t).Conn, (w.sessions t).UDPClient, ?_⟩
    split <;> split <;> simp [World.setSession, World.setPusher, Function.update_noteq ht]

/-- The UDP branch of the `SETUP` case writes nothing of a session but `TransType`,
`Conn` and `UDPClient`. -/
theorem Session.handleRequest_SETUP_udp_session (env : Env) (w : World) (s : SessRef)
    (P : PusherRef) (res : Response) (ts setupPath aPath vPath : String)
    (udpMatchs : List String) (t : SessRef) :
    ∃ (tt : Int) (c : Option Int) (u : Option rtsp.UDPClient),
      (Handled.worldOr (Session.handleRequest_SETUP_udp env w s P res ts setupPath aPath vPath
        udpMatchs)).sessions t
        = { w.sessions t with TransType := tt, Conn := c, UDPClient := u } := by
  unfold Session.handleRequest_SETUP_udp
  split
  · by_cases ht : t = s
    · subst ht
      exact ⟨TRANS_TYPE_UDP, (w.sessions t).Conn, (w.sessions t).UDPClient,
        by simp [Handled.worldOr, Handled.world, World.setSession]⟩
    · exact ⟨(w.sessions t).TransType, (w.sessions t).Conn, (w.sessions t).UDPClient,
        by simp [Handled.worldOr, Handled.world, World.setSession, Function.update_noteq ht]⟩
  · simp only []
    obtain ⟨tt, c, u, h3⟩ := Session.handleRequest_SETUP_udpInit_session w s P t
    split
    · obtain ⟨u', h⟩ := Session.handleRequest_SETUP_udpTrack_session env
        (Session.handleRequest_SETUP_udpInit w s P) s P res ts udpMatchs true t
      exact ⟨tt, c, u', by rw [h, h3]⟩
    · split
      · obtain ⟨u', h⟩ := Session.handleRequest_SETUP_udpTrack_session env
          (Session.handleRequest_SETUP_udpInit w s P) s P res ts udpMatchs false t
        exact ⟨tt, c, u', by rw [h, h3]⟩
      · exact ⟨tt, c, u, h3⟩

/-- The channels of the session after the `SETUP` case: unchanged, or, over TCP, the
two numbers of the `interleaved` parameter for the audio pair or for the video pair. -/
theorem Session.handleRequest_SETUP_channels (env : Env) (w : World) (s : SessRef)
    (req : Request) (res : Response) :
    ((Session.handleRequest_SETUP env w s req res).world.sessions s).channels
        = (w.sessions s).channels ∨
      ∃ tcpMatchs,
        FindStringSubmatch "interleaved=".data (req.Header.index "Transport").data
          = some tcpMatchs ∧
        (((Session.handleRequest_SETUP env w s req res).world.sessions s).channels =
            (Atoi (tcpMatchs.getD 1 ""), Atoi (tcpMatchs.getD 3 ""),
              (w.sessions s).vRTPChannel, (w.sessions s).vRTPControlChannel) ∨
          ((Session.handleRequest_SETUP env w s req res).world.sessions s).channels =
            ((w.sessions s).aRTPChannel, (w.sessions s).aRTPControlChannel,
              Atoi (tcpMatchs.getD 1 ""), Atoi (tcpMatchs.getD 3 ""))) := by
  unfold Session.handleRequest_SETUP
  simp only []
  cases hurl : env.url_Parse req.URL with
  | none => exact Or.inl rfl
  | some setupUrl =>
    cases hP : (w.sessions s).Pusher with
    | none => exact Or.inl rfl
    | some pusher =>
      cases hv : controlPath env (w.sessions s).VControl with
      | none => exact Or.inl rfl
      | some vPath =>
        cases ha : controlPath env (w.sessions s).AControl with
        | none => exact Or.inl rfl
        | some aPath =>
          cases htcp : FindStringSubmatch "interleaved=".data (req.Header.index "Transport").data with
          | some tcpMatchs =>
            simp only [Handled.world]
            generalize env.url_String (if env.url_Port setupUrl = "" then
              { setupUrl with Host := setupUrl.Host ++ ":554" } else setupUrl) = setupPath
            unfold Session.handleRequest_SETUP_tcp
            simp only []
            by_cases hma : matchesControl setupPath aPath = true
            · rw [if_pos hma]
              exact Or.inr ⟨tcpMatchs, rfl, Or.inl (by simp [Session.channels, World.setSession])⟩
            · rw [if_neg hma]
              by_cases hmv : matchesControl setupPath vPath = true
              · rw [if_pos hmv]
                exact Or.inr ⟨tcpMatchs, rfl,
                  Or.inr (by simp [Session.channels, World.setSession])⟩
              · rw [if_neg hmv]
                exact Or.inl (by simp [Session.channels, World.setSession])
          | none =>
            cases hudp : FindStringSubmatch "client_port=".data
                (req.Header.index "Transport").data with
            | none => exact Or.inl rfl
            | some udpMatchs =>
              left
              obtain ⟨tt, c, u, h⟩ := Session.handleRequest_SETUP_udp_session env w s pusher res
                (req.Header.index "Transport")
                (env.url_String (if env.url_Port setupUrl = "" then
                  { setupUrl with Host := setupUrl.Host ++ ":554" } else setupUrl))
                aPath vPath udpMatchs s
              simp only []
              cases hr : Session.handleRequest_SETUP_udp env w s pusher res
                (req.Header.index "Transport")
                (env.url_String (if env.url_Port setupUrl = "" then
                  { setupUrl with Host := setupUrl.Host ++ ":554" } else setupUrl))
                aPath vPath udpMatchs with
              | inl hd =>
                rw [hr] at h
                simp only [Handled.worldOr] at h
                rw [h]; rfl
              | inr r =>
                rw [hr] at h
                simp only [Handled.worldOr] at h
                simp only [Handled.world]
                rw [h]; rfl

/-- The channels of the session after `handleRequest` on a `SETUP`, also when it
panicked: unchanged, or, over TCP, the two numbers of the `interleaved` parameter
for the audio pair or for the video pair. -/
theorem Session.handleRequest_channels (env : Env) (w : World) (s : SessRef) (req : Request)
    (hm : req.Method = "SETUP") :
    ((Session.handleRequest env w s req).world.sessions s).channels = (w.sessions s).channels ∨
      ∃ tcpMatchs,
        FindStringSubmatch "interleaved=".data (req.Header.index "Transport").data
          = some tcpMatchs ∧
        (((Session.handleRequest env w s req).world.sessions s).channels =
            (Atoi (tcpMatchs.getD 1 ""), Atoi (tcpMatchs.getD 3 ""),
              (w.sessions s).vRTPChannel, (w.sessions s).vRTPControlChannel) ∨
          ((Session.handleRequest env w s req).world.sessions s).channels =
            ((w.sessions s).aRTPChannel, (w.sessions s).aRTPControlChannel,
              Atoi (tcpMatchs.getD 1 ""), Atoi (tcpMatchs.getD 3 ""))) := by
  have hepi : ((Session.handleRequest env w s req).world.sessions s).channels =
      ((Session.handleRequest_body env w s req
        (NewResponse 200 "OK" (req.Header.index "CSeq") (w.sessions s).ID "")).world.sessions
          s).channels := by
    rw [Session.handleRequest_eq_epilogue, Session.handleRequest_epilogue_plain _ _ _ _ _
      (by rw [hm]; decide) (by rw [hm]; decide) (by rw [hm]; decide),
      ← Session.handleRequest_outcome_world]
    have hwr : ((Session.handleRequest_write env (Session.handleRequest_outcome env w s req).2 s
        (Session.handleRequest_outcome env w s req).1).sessions s).channels =
        ((Session.handleRequest_outcome env w s req).2.sessions s).channels := by
      simp [Session.handleRequest_write, World.setSession, Session.channels]
    split
    · obtain ⟨st, c, u, h⟩ := Session.Stop_session
        (Session.handleRequest_write env (Session.handleRequest_outcome env w s req).2 s
          (Session.handleRequest_outcome env w s req).1) s s
      cases hS : Session.Stop
        (Session.handleRequest_write env (Session.handleRequest_outcome env w s req).2 s
          (Session.handleRequest_outcome env w s req).1) s with
      | ok v w3 =>
        rw [hS] at h
        simp only [Res.world] at h
        simp only [Res.bind, Res.world]
        rw [h, ← hwr]; rfl
      | panic w3 =>
        rw [hS] at h
        simp only [Res.world] at h
        simp only [Res.bind, Res.world]
        rw [h, ← hwr]; rfl
    · exact hwr
  rw [hepi]
  unfold Session.handleRequest_body
  cases hauth : Session.handleRequest_auth env w s req
      (NewResponse 200 "OK" (req.Header.index "CSeq") (w.sessions s).ID "") with
  | some h =>
    left
    simp only []
    unfold Session.handleRequest_auth at hauth
    split at hauth
    · split at hauth
      · split at hauth
        · cases hauth; rfl
        · simp only [] at hauth
          split at hauth
          · cases hauth; rfl
          · cases hauth
            simp [Handled.world, World.setSession, Session.channels]
        · cases hauth
      · cases hauth
    · cases hauth
  | none =>
    simp only []
    unfold Session.handleRequest_switch
    rw [hm]
    simp only [String.reduceEq, if_false, if_true]
    exact Session.handleRequest_SETUP_channels env w s req _

theorem Session.channelsDistinct_iff (x : Session) (a ac v vc : Int)
    (h : x.channels = (a, ac, v, vc)) : x.channelsDistinct ↔ ChannelsDistinct a ac v vc := by
  simp only [Session.channels, Prod.mk.injEq] at h
  obtain ⟨h1, h2, h3, h4⟩ := h
  unfold Session.channelsDistinct
  rw [h1, h2, h3, h4]

/-- C17 as stated fails: publisher session `0` of `exSetupWorld` sets up its audio
track and then its video track, both with `interleaved=0-1`; both requests are
answered 200, and the audio and the video channels are then the same. -/
theorem channels_distinct_counterexample :
    exSetupNoAuth.Method = "SETUP" ∧ exSetupVideo.Method = "SETUP" ∧
    (exSetupWorld.sessions 0).channelsDistinct ∧
    (Session.handleRequest exSetupEnv exSetupWorld 0 exSetupNoAuth).result.map
      (fun r => r.StatusCode) = some 200 ∧
    (Session.handleRequest exSetupEnv
      (Session.handleRequests exSetupEnv exSetupWorld 0 [exSetupNoAuth]) 0 exSetupVideo).result.map
      (fun r => r.StatusCode) = some 200 ∧
    ((Session.handleRequests exSetupEnv exSetupWorld 0
      [exSetupNoAuth, exSetupVideo]).sessions 0).channels = (0, 1, 0, 1) ∧
    ¬ ((Session.handleRequests exSetupEnv exSetupWorld 0
      [exSetupNoAuth, exSetupVideo]).sessions 0).channelsDistinct := by
  refine ⟨by decide, by decide, by decide, by decide, by decide, by decide, by decide⟩

/-! ### C18: the SDP of a publisher reaches its players -/

theorem Session.rebound.session_refl (x : Session) : x.rebound x :=
  ⟨x.Stoped, x.Conn, x.UDPClient, x.Pusher, x.RTPHandles, x.StopHandles, x.connRW, x.OutBytes, rfl⟩

theorem Session.rebound.session_trans {x y z : Session} (h1 : x.rebound y) (h2 : y.rebound z) :
    x.rebound z := by
  obtain ⟨st, c, u, p, rh, sh, rw, ob, h1⟩ := h1
  obtain ⟨st', c', u', p', rh', sh', rw', ob', h2⟩ := h2
  subst h1 h2
  exact ⟨st', c', u', p', rh', sh', rw', ob', rfl⟩

theorem World.rebound.world_refl (w : World) : w.rebound w := fun _ => Session.rebound.session_refl _

theorem World.rebound.world_trans {w w1 w2 : World} (h1 : w.rebound w1) (h2 : w1.rebound w2) :
    w.rebound w2 := fun t => (h1 t).session_trans (h2 t)

theorem World.rebound_setSession (w : World) (s : SessRef) (v : Session)
    (h : (w.sessions s).rebound v) : w.rebound (w.setSession s v) := by
  intro t
  by_cases ht : t = s
  · subst ht; simpa [World.setSession] using h
  · simp only [World.setSession, Function.update_noteq ht]
    exact Session.rebound.session_refl _

theorem World.rebound_setPusher (w : World) (p : PusherRef) (v : Pusher) :
    w.rebound (w.setPusher p v) := fun _ => Session.rebound.session_refl _

theorem Session.Stop_rebound (w : World) (s : SessRef) : w.rebound (Session.Stop w s).world := by
  intro t
  obtain ⟨st, c, u, h⟩ := Session.Stop_session w s t
  rw [h]
  exact ⟨st, c, u, _, _, _, _, _, rfl⟩

theorem Pusher.bindSession_rebound (w : World) (p : PusherRef) (s : SessRef) :
    w.rebound (Pusher.bindSession w p s) := by
  intro t
  by_cases ht : t = s
  · subst ht
    exact ⟨(w.sessions t).Stoped, (w.sessions t).Conn, (w.sessions t).UDPClient,
      (w.sessions t).Pusher, (w.sessions t).RTPHandles ++ [RTPHandle.bindSession t p],
      (w.sessions t).StopHandles ++ [StopHandle.bindSession t p], (w.sessions t).connRW,
      (w.sessions t).OutBytes,
      by simp [Pusher.bindSession, World.setSession, World.setPusher]⟩
  · have h : (Pusher.bindSession w p s).sessions t = w.sessions t := by
      simp [Pusher.bindSession, World.setSession, World.setPusher, Function.update_noteq ht]
    rw [h]
    exact Session.rebound.session_refl _

theorem Res.bind_world_rebound {α β : Type} (w : World) (r : Res α) (k : α → World → Res β)
    (hr : w.rebound r.world) (hk : ∀ (a : α) (w1 : World), w1.rebound (k a w1).world) :
    w.rebound (r.bind k).world := by
  cases r with
  | ok a w1 => exact World.rebound.world_trans hr (hk a w1)
  | panic w1 => exact hr

theorem Res.handled_world_rebound {α : Type} (w : World) (r : Res α) (res : Response)
    (k : α → World → Handled)
    (hr : w.rebound r.world) (hk : ∀ (a : α) (w1 : World), w1.rebound (k a w1).world) :
    w.rebound (r.handled res k).world := by
  cases r with
  | ok a w1 => exact World.rebound.world_trans hr (hk a w1)
  | panic w1 => exact hr

theorem Pusher.RebindSession_rebound (w : World) (p : PusherRef) (s : SessRef) :
    w.rebound (Pusher.RebindSession w p s).world := by
  unfold Pusher.RebindSession
  split
  · exact World.rebound.world_refl w
  · simp only []
    have h1 := Pusher.bindSession_rebound w p s
    have h2 := World.rebound_setSession (Pusher.bindSession w p s) s
      { (Pusher.bindSession w p s).sessions s with Pusher := some p }
      ⟨_, _, _, some p, _, _, _, _, rfl⟩
    have h3 := World.rebound_setPusher ((Pusher.bindSession w p s).setSession s
        { (Pusher.bindSession w p s).sessions s with Pusher := some p }) p
        { (((Pusher.bindSession w p s).setSession s
            { (Pusher.bindSession w p s).sessions s with Pusher := some p }).pushers p)
          with gopCache := [] }
    split
    · exact ((h1.world_trans h2).world_trans h3).world_trans (Res.bind_world_rebound _ _ _ (Session.Stop_rebound _ _)
        (fun _ w4 => World.rebound.world_refl w4))
    · exact (h1.world_trans h2).world_trans h3

theorem NewPusher_rebound (w : World) (s : SessRef) : w.rebound (NewPusher w s).2 := by
  unfold NewPusher
  have h1 : w.rebound (({ w with nextPusher := w.nextPusher + 1 } : World).setPusher
      w.nextPusher
      { Session := some s, RTSPClient := none, players := GoMap.empty,
        gopCacheEnable := w.server.gopCacheEnable, gopCache := [] }) :=
    fun _ => Session.rebound.session_refl _
  exact h1.world_trans (Pusher.bindSession_rebound _ _ _)

theorem Server.AddPusher_rebound (w : World) (p : PusherRef) :
    w.rebound (Server.AddPusher w p).world := by
  unfold Server.AddPusher
  split
  · exact World.rebound.world_refl w
  · split
    · exact fun _ => Session.rebound.session_refl _
    · exact World.rebound.world_refl w

theorem Server.TryAttachToPusher_rebound (w : World) (s : SessRef) :
    w.rebound (Server.TryAttachToPusher w s).world := by
  unfold Server.TryAttachToPusher
  split
  · exact Res.bind_world_rebound w _ _ (Pusher.RebindSession_rebound w _ s)
      (fun r w1 => by split <;> exact World.rebound.world_refl w1)
  · exact World.rebound.world_refl w

theorem Session.handleRequest_addPusher_rebound (w : World) (s : SessRef) (res : Response) :
    w.rebound (Session.handleRequest_addPusher w s res).world := by
  unfold Session.handleRequest_addPusher
  simp only []
  have h1 := (NewPusher_rebound w s).world_trans (World.rebound_setSession (NewPusher w s).2 s
      { (NewPusher w s).2.sessions s with Pusher := some (NewPusher w s).1 }
      ⟨_, _, _, some (NewPusher w s).1, _, _, _, _, rfl⟩)
  exact h1.world_trans (Res.handled_world_rebound _ _ _ _ (Server.AddPusher_rebound _ _)
    (fun a w2 => by split <;> exact World.rebound.world_refl w2))

theorem Session.handleRequest_write_rebound (env : Env) (w : World) (s : SessRef)
    (res : Response) : w.rebound (Session.handleRequest_write env w s res) :=
  World.rebound_setSession w s _ ⟨_, _, _, _, _, _, _, _, rfl⟩

theorem Session.rebound.SDPRaw {x y : Session} (h : x.rebound y) : y.SDPRaw = x.SDPRaw := by
  obtain ⟨_, _, _, _, _, _, _, _, h⟩ := h
  rw [h]

theorem Session.handleRequest_sdp_SDPRaw (env : Env) (w : World) (s : SessRef) (req : Request)
    (surl : rtsp.URL) : ((Session.handleRequest_sdp env w s req surl).sessions s).SDPRaw = req.Body := by
  unfold Session.handleRequest_sdp
  simp only []
  split <;> split <;> simp [World.setSession]

/-- An `ANNOUNCE` case that ends with the status 200 has taken the SDP into the
session and then only bound pushers and stopped sessions. -/
theorem Session.handleRequest_ANNOUNCE_accepted (env : Env) (w : World) (s : SessRef)
    (req : Request) (res r : Response) (wb : World)
    (h : Session.handleRequest_ANNOUNCE env w s req res = .done r wb)
    (h200 : r.StatusCode = 200) :
    ∃ surl, env.url_Parse req.URL = some surl ∧
      (Session.handleRequest_sdp env
        (w.setSession s { w.sessions s with Type_ := SESSION_TYPE_PUSHER, URL := req.URL })
        s req surl).rebound wb := by
  unfold Session.handleRequest_ANNOUNCE at h
  simp only [] at h
  cases hurl : env.url_Parse req.URL with
  | none =>
    rw [hurl] at h
    cases h
    simp at h200
  | some surl =>
    rw [hurl] at h
    simp only [] at h
    refine ⟨surl, rfl, ?_⟩
    cases hconn : ((w.setSession s
        { w.sessions s with Type_ := SESSION_TYPE_PUSHER, URL := req.URL }).sessions s).Conn with
    | none =>
      rw [hconn] at h
      cases h
    | some c =>
      rw [hconn] at h
      simp only [] at h
      split at h
      · cases h
        simp at h200
      · have hw : (Handled.done r wb).world = wb := rfl
        rw [← hw, ← h]
        split
        · refine Res.handled_world_rebound _ _ _ _ (Server.TryAttachToPusher_rebound _ _)
            (fun a w5 => ?_)
          split
          · exact World.rebound.world_refl w5
          · split
            · exact Session.handleRequest_addPusher_rebound w5 s res
            · exact World.rebound.world_refl w5
        · exact Session.handleRequest_addPusher_rebound _ s res

/-- An early return of the authorization check has the status 401 or 403. -/
theorem Session.handleRequest_auth_status (env : Env) (w : World) (s : SessRef) (req : Request)
    (res : Response) (h : Handled)
    (hh : Session.handleRequest_auth env w s req res = some h) :
    ∃ r w', h = .done r w' ∧ r.StatusCode ≠ 200 := by
  unfold Session.handleRequest_auth at hh
  split at hh
  · split at hh
    · split at hh
      · cases hh; exact ⟨_, _, rfl, by simp⟩
      · simp only [] at hh
        split at hh
        · cases hh; exact ⟨_, _, rfl, by simp⟩
        · cases hh; exact ⟨_, _, rfl, by simp⟩
      · cases hh
    · cases hh
  · cases hh

/-- After an `ANNOUNCE` that `handleRequest` answered with the status 200 the
session holds the body of the request as its SDP. -/
theorem Session.handleRequest_ANNOUNCE_SDPRaw (env : Env) (w : World) (s : SessRef)
    (req : Request) (resA : Response) (w1 : World)
    (hm : req.Method = "ANNOUNCE")
    (hA : Session.handleRequest env w s req = Res.ok resA w1)
    (h200 : resA.StatusCode = 200) :
    (w1.sessions s).SDPRaw = req.Body := by
  rw [Session.handleRequest_eq_epilogue, Session.handleRequest_epilogue_plain _ _ _ _ _
    (by rw [hm]; decide) (by rw [hm]; decide) (by rw [hm]; decide)] at hA
  have hres : resA = (Session.handleRequest_outcome env w s req).1 := by
    split at hA
    · cases hS : Session.Stop (Session.handleRequest_write env
          (Session.handleRequest_outcome env w s req).2 s
          (Session.handleRequest_outcome env w s req).1) s with
      | ok u w3 => rw [hS] at hA; simp only [Res.bind, Res.ok.injEq] at hA; exact hA.1.symm
      | panic w3 => rw [hS] at hA; simp [Res.bind] at hA
    · simp only [Res.ok.injEq] at hA; exact hA.1.symm
  rw [hres] at h200
  rw [if_neg (by rw [h200]; simp)] at hA
  simp only [Res.ok.injEq] at hA
  obtain ⟨_, hw1⟩ := hA
  have h1 : (w1.sessions s).SDPRaw = ((Session.handleRequest_outcome env w s req).2.sessions s).SDPRaw := by
    rw [← hw1]
    exact (Session.handleRequest_write_rebound env _ s _ s).SDPRaw
  rw [h1]
  unfold Session.handleRequest_outcome at h200 ⊢
  cases hb : Session.handleRequest_body env w s req
      (NewResponse 200 "OK" (req.Header.index "CSeq") (w.sessions s).ID "") with
  | panic r wb =>
    rw [hb] at h200
    simp at h200
  | done r wb =>
    rw [hb] at h200
    simp only [] at h200 ⊢
    unfold Session.handleRequest_body at hb
    cases hauth : Session.handleRequest_auth env w s req
        (NewResponse 200 "OK" (req.Header.index "CSeq") (w.sessions s).ID "") with
    | some h =>
      rw [hauth] at hb
      simp only [] at hb
      obtain ⟨r', w', hh, hne⟩ := Session.handleRequest_auth_status env w s req _ h hauth
      rw [hh] at hb
      cases hb
      exact absurd h200 hne
    | none =>
      rw [hauth] at hb
      simp only [] at hb
      unfold Session.handleRequest_switch at hb
      rw [hm] at hb
      simp only [String.reduceEq, if_false, if_true] at hb
      obtain ⟨surl, _, hreb⟩ := Session.handleRequest_ANNOUNCE_accepted env w s req _ r wb hb h200
      rw [(hreb s).SDPRaw]
      exact Session.handleRequest_sdp_SDPRaw env _ s req surl

/-- The body of `handleRequest` for a `DESCRIBE` of a path whose registry entry is
the pusher of a session `A` other than the requesting one. -/
theorem Session.handleRequest_DESCRIBE_served (env : Env) (w : World) (A B : SessRef)
    (P : PusherRef) (req : Request) (surl : rtsp.URL) (res : Response)
    (hAB : A ≠ B)
    (hurl : env.url_Parse req.URL = some surl)
    (hconn : (w.sessions B).Conn ≠ none)
    (hhook : env.ExecuteWebHookNotify ON_PLAY (w.sessions B).ID SESSEION_TYPE_PLAYER req.URL
      surl.Path req.Body = true)
    (hreg : w.server.pushers.get surl.Path = some P)
    (hPA : (w.pushers P).Session = some A) :
    ∃ w4, Session.handleRequest_DESCRIBE env w B req res
        = .done (res.SetBody (w.sessions A).SDPRaw) w4 ∧
      (w4.sessions B).AControl = (w.sessions A).AControl ∧
      (w4.sessions B).VControl = (w.sessions A).VControl ∧
      (w4.sessions B).ACodec = (w.sessions A).ACodec ∧
      (w4.sessions B).VCodec = (w.sessions A).VCodec ∧
      (w4.sessions B).Pusher = some P ∧
      (w4.sessions B).Type_ = SESSEION_TYPE_PLAYER ∧
      (w4.sessions B).Stoped = (w.sessions B).Stoped := by
  cases hc : (w.sessions B).Conn with
  | none => exact absurd hc hconn
  | some c =>
    simp [Session.handleRequest_DESCRIBE, hurl, hc, hhook, hreg, hPA, World.setSession,
      NewPlayer, World.setPlayer, Pusher.AControl, Pusher.VControl, Pusher.ACodec, Pusher.VCodec,
      Pusher.ID, Pusher.SDPRaw, Function.update_noteq hAB]

/-- C18. SDP round trip: after an `ANNOUNCE` of session `A` that was answered 200
and after which the registry entry of the path `p` is a pusher `P` bound to `A`, a
`DESCRIBE` for `p` from another session `B` (authentication passing, the URL
valid, the `on_play` web hook continuing) is answered 200 with a body equal to the
body of the `ANNOUNCE`, and `B` takes the audio and video control strings and
codecs of `P` and becomes a player of `P`. -/
theorem SDP_round_trip (env : Env) (w : World) (A B : SessRef) (P : PusherRef)
    (reqA reqB : Request) (p : String) (surlB : rtsp.URL) (resA : Response) (w1 : World)
    (hAB : A ≠ B)
    (hmA : reqA.Method = "ANNOUNCE")
    (hA : Session.handleRequest env w A reqA = Res.ok resA w1)
    (hA200 : resA.StatusCode = 200)
    (hreg : w1.server.pushers.get p = some P)
    (hPA : (w1.pushers P).Session = some A)
    (hmB : reqB.Method = "DESCRIBE")
    (hauthB : Session.handleRequest_auth env w1 B reqB
      (NewResponse 200 "OK" (reqB.Header.index "CSeq") (w1.sessions B).ID "") = none)
    (hurlB : env.url_Parse reqB.URL = some surlB)
    (hpath : surlB.Path = p)
    (hconnB : (w1.sessions B).Conn ≠ none)
    (hhookB : env.ExecuteWebHookNotify ON_PLAY (w1.sessions B).ID SESSEION_TYPE_PLAYER reqB.URL
      surlB.Path reqB.Body = true) :
    ∃ (resB : Response) (w2 : World), Session.handleRequest env w1 B reqB = Res.ok resB w2 ∧
      resB.StatusCode = 200 ∧ resB.Body = reqA.Body ∧
      some (w2.sessions B).AControl = Pusher.AControl w1 P ∧
      some (w2.sessions B).VControl = Pusher.VControl w1 P ∧
      some (w2.sessions B).ACodec = Pusher.ACodec w1 P ∧
      some (w2.sessions B).VCodec = Pusher.VCodec w1 P ∧
      (w2.sessions B).Pusher = some P ∧
      (w2.sessions B).Type_ = SESSEION_TYPE_PLAYER := by
  have hsdp := Session.handleRequest_ANNOUNCE_SDPRaw env w A reqA resA w1 hmA hA hA200
  obtain ⟨w4, hd, h1, h2, h3, h4, h5, h6, _⟩ := Session.handleRequest_DESCRIBE_served env w1 A B P
    reqB surlB (NewResponse 200 "OK" (reqB.Header.index "CSeq") (w1.sessions B).ID "")
    hAB hurlB hconnB hhookB (by rw [hpath]; exact hreg) hPA
  have hbody : Session.handleRequest_body env w1 B reqB
      (NewResponse 200 "OK" (reqB.Header.index "CSeq") (w1.sessions B).ID "") =
      .done ((NewResponse 200 "OK" (reqB.Header.index "CSeq") (w1.sessions B).ID "").SetBody
        (w1.sessions A).SDPRaw) w4 := by
    unfold Session.handleRequest_body
    rw [hauthB]
    simp only []
    unfold Session.handleRequest_switch
    rw [hmB]
    simp only [String.reduceEq, if_false, if_true]
    exact hd
  unfold Session.handleRequest
  simp only []
  rw [hbody]
  simp only []
  rw [Session.handleRequest_epilogue_plain env w4 B reqB _ (by rw [hmB]; decide)
    (by rw [hmB]; decide) (by rw [hmB]; decide)]
  rw [if_neg (by simp [NewResponse, Response.SetBody])]
  refine ⟨_, _, rfl, rfl, ?_, ?_, ?_, ?_, ?_, ?_, ?_⟩
  · simp [Response.SetBody, hsdp]
  · simp [Pusher.AControl, hPA, Session.handleRequest_write, World.setSession, h1]
  · simp [Pusher.VControl, hPA, Session.handleRequest_write, World.setSession, h2]
  · simp [Pusher.ACodec, hPA, Session.handleRequest_write, World.setSession, h3]
  · simp [Pusher.VCodec, hPA, Session.handleRequest_write, World.setSession, h4]
  · simp [Session.handleRequest_write, World.setSession, h5]
  · simp [Session.handleRequest_write, World.setSession, h6]

/-- Witness for C18: session `0` ("A") of `exFreshWorld` announces `/live/x` with
the body `v=0`, and session `1` ("B") describes `/live/x`. -/
theorem SDP_round_trip_witness :
    (Session.handleRequest exSdpEnv exFreshWorld 0 exAnnounce).result.map
      (fun r => r.StatusCode) = some 200 ∧
    (Session.handleRequest exSdpEnv exFreshWorld 0 exAnnounce).world.server.pushers.get "/live/x"
      = some 0 ∧
    ∃ (resB : Response) (w2 : World),
      Session.handleRequest exSdpEnv (Session.handleRequest exSdpEnv exFreshWorld 0 exAnnounce).world
        1 exDescribe = Res.ok resB w2 ∧
      resB.StatusCode = 200 ∧ resB.Body = "v=0" ∧
      (w2.sessions 1).AControl = "streamid=0" ∧ (w2.sessions 1).VControl = "streamid=1" ∧
      (w2.sessions 1).ACodec = "aac" ∧ (w2.sessions 1).VCodec = "h264" ∧
      (w2.sessions 1).Pusher = some 0 := by
  refine ⟨by decide, by decide, ?_⟩
  obtain ⟨resB, w2, h, h200, hb, h1, h2, h3, h4, h5, _⟩ :=
    SDP_round_trip exSdpEnv exFreshWorld 0 1 0 exAnnounce exDescribe
      "/live/x" { Scheme := "rtsp", Host := "h", Path := "/live/x" }
      { StatusCode := 200, Status := "OK",
        Header := (GoMap.empty.set "CSeq" "2").set "Session" "A", Body := "" }
      (Session.handleRequest exSdpEnv exFreshWorld 0 exAnnounce).world
      (by decide) (by decide)
      (Res.result_eq_some _ _ (by decide)) (by decide) (by decide) (by decide) (by decide)
      rfl (by decide) (by decide) (by decide) (by decide)
  have e1 : Pusher.AControl (Session.handleRequest exSdpEnv exFreshWorld 0 exAnnounce).world 0
      = some "streamid=0" := by decide
  have e2 : Pusher.VControl (Session.handleRequest exSdpEnv exFreshWorld 0 exAnnounce).world 0
      = some "streamid=1" := by decide
  have e3 : Pusher.ACodec (Session.handleRequest exSdpEnv exFreshWorld 0 exAnnounce).world 0
      = some "aac" := by decide
  have e4 : Pusher.VCodec (Session.handleRequest exSdpEnv exFreshWorld 0 exAnnounce).world 0
      = some "h264" := by decide
  rw [e1] at h1; rw [e2] at h2; rw [e3] at h3; rw [e4] at h4
  exact ⟨resB, w2, h, h200, hb, Option.some.inj h1, Option.some.inj h2, Option.some.inj h3,
    Option.some.inj h4, h5⟩

/-! ### C19: STAP-A priming -/

/-- One iteration of the STAP-A loop that reads a size and a NAL unit. -/
theorem Pusher.stapLoop_step (Payload backing : List Nat) (fuel off acc b0 b1 realNALU : Nat)
    (h0 : Payload[off]? = some b0) (h1 : Payload[off + 1]? = some b1)
    (hsz : 1 ≤ Uint16 b0 b1)
    (hcap : off + 2 + Uint16 b0 b1 ≤ backing.length)
    (hn : backing[off + 2]? = some realNALU) :
    Pusher.stapLoop Payload backing (fuel + 1) off acc =
      if off + 2 + Uint16 b0 b1 ≥ Payload.length then
        StapWalk.done (acc + (realNALU &&& 0x1F)) realNALU
      else
        Pusher.stapLoop Payload backing fuel (off + 2 + Uint16 b0 b1)
          (acc + (realNALU &&& 0x1F)) := by
  have hsz' : ¬ Uint16 b0 b1 < 1 := by omega
  have hcap' : ¬ off + 2 + Uint16 b0 b1 > backing.length := by omega
  unfold Uint16 at hsz' hcap' ⊢
  rw [Pusher.stapLoop]
  simp only [h0, h1, hsz', hcap', hn, if_false]

/-- The walk of the STAP-A loop over an aggregate of two NAL units. -/
theorem Pusher.stapLoop_two (hdr b7 b8 : Nat) (sps pps spare : List Nat)
    (hs : (b7 :: sps).length < 65536) (hp : (b8 :: pps).length < 65536) :
    Pusher.stapLoop (stapA hdr [b7 :: sps, b8 :: pps])
        (stapA hdr [b7 :: sps, b8 :: pps] ++ spare)
        (stapA hdr [b7 :: sps, b8 :: pps]).length 1 0 =
      StapWalk.done ((b7 &&& 0x1F) + (b8 &&& 0x1F)) b8 := by
  have hP : stapA hdr [b7 :: sps, b8 :: pps] =
      [hdr, ((b7 :: sps).length >>> 8) % 256, (b7 :: sps).length % 256, b7] ++ sps ++
        [((b8 :: pps).length >>> 8) % 256, (b8 :: pps).length % 256, b8] ++ pps := by
    simp [stapA, PutUint16]
  have hlen : (stapA hdr [b7 :: sps, b8 :: pps]).length = sps.length + pps.length + 7 := by
    rw [hP]; simp; omega
  have hu1 := Uint16_PutUint16 (b7 :: sps).length hs
  have hu2 := Uint16_PutUint16 (b8 :: pps).length hp
  have hl1 : (b7 :: sps).length = sps.length + 1 := rfl
  have hl2 : (b8 :: pps).length = pps.length + 1 := rfl
  have e1 : (stapA hdr [b7 :: sps, b8 :: pps])[1]? = some (((b7 :: sps).length >>> 8) % 256) := by
    rw [hP]; rfl
  have e2 : (stapA hdr [b7 :: sps, b8 :: pps])[1 + 1]? = some ((b7 :: sps).length % 256) := by
    rw [hP]; rfl
  have e3 : (stapA hdr [b7 :: sps, b8 :: pps] ++ spare)[1 + 2]? = some b7 := by
    rw [hP]; simp
  have hidx : ∀ k, k < 3 →
      ([hdr, ((b7 :: sps).length >>> 8) % 256, (b7 :: sps).length % 256, b7] ++ sps ++
        [((b8 :: pps).length >>> 8) % 256, (b8 :: pps).length % 256, b8] ++ pps)[sps.length + 4 + k]?
      = [((b8 :: pps).length >>> 8) % 256, (b8 :: pps).length % 256, b8][k]? := by
    intro k hk
    rw [List.append_assoc, List.getElem?_append_right (by simp)]
    simp only [List.length_append, List.length_cons, List.length_nil]
    rw [show sps.length + 4 + k - (0 + 1 + 1 + 1 + 1 + sps.length) = k by omega]
    rw [List.getElem?_append_left (by simp; omega)]
  have e4 : (stapA hdr [b7 :: sps, b8 :: pps])[1 + 2 + (b7 :: sps).length]?
      = some (((b8 :: pps).length >>> 8) % 256) := by
    rw [hP, show 1 + 2 + (b7 :: sps).length = sps.length + 4 + 0 by rw [hl1]; omega, hidx 0 (by omega)]
    rfl
  have e5 : (stapA hdr [b7 :: sps, b8 :: pps])[1 + 2 + (b7 :: sps).length + 1]?
      = some ((b8 :: pps).length % 256) := by
    rw [hP, show 1 + 2 + (b7 :: sps).length + 1 = sps.length + 4 + 1 by rw [hl1]; omega,
      hidx 1 (by omega)]
    rfl
  have e6 : (stapA hdr [b7 :: sps, b8 :: pps] ++ spare)[1 + 2 + (b7 :: sps).length + 2]?
      = some b8 := by
    rw [List.getElem?_append_left (by rw [hlen, hl1]; omega), hP,
      show 1 + 2 + (b7 :: sps).length + 2 = sps.length + 4 + 2 by rw [hl1]; omega,
      hidx 2 (by omega)]
    rfl
  rw [hlen, show sps.length + pps.length + 7 = (sps.length + pps.length + 5) + 1 + 1 by omega]
  rw [Pusher.stapLoop_step _ _ _ 1 0 _ _ b7 e1 e2 (by rw [hu1, hl1]; omega)
    (by rw [hu1, List.length_append, hlen, hl1]; omega) e3]
  rw [hu1, if_neg (by rw [hlen, hl1]; omega)]
  rw [Pusher.stapLoop_step _ _ _ _ _ _ _ b8 e4 e5 (by rw [hu2, hl2]; omega)
    (by rw [hu2, List.length_append, hlen, hl1, hl2]; omega) e6]
  rw [hu2, if_pos (by rw [hlen, hl1, hl2]; omega)]
  simp

/-- C19 as amended. STAP-A priming: for an H.264 pusher, inspecting a well-formed
STAP-A packet (payload type 24) that aggregates exactly an SPS (type 7) and a PPS
(type 8) reports a sequence start and sets the `spsppsInSTAPaPack` flag, and a
standalone IDR packet (single NAL unit of type 5) inspected next is reported as
not a sequence start. -/
theorem stapA_priming (w : World) (p : PusherRef) (vcodec : String)
    (hdr b7 b8 bi : Nat) (sps pps spare : List Nat) (idr : RTPInfo)
    (hcodec : Pusher.VCodec w p = some vcodec) (h264 : EqualFold vcodec "h264" = true)
    (hhdr : hdr &&& 0x1F = 24) (h7 : b7 &&& 0x1F = 7) (h8 : b8 &&& 0x1F = 8)
    (hs : (b7 :: sps).length < 65536) (hp : (b8 :: pps).length < 65536)
    (hidr0 : idr.Payload[0]? = some bi) (hidr : bi &&& 0x1F = 5) :
    Pusher.shouldSequenceStart w p
        { Payload := stapA hdr [b7 :: sps, b8 :: pps], PayloadSpare := spare } =
      Res.ok true (w.setPusher p { w.pushers p with spsppsInSTAPaPack := true }) ∧
    ((w.setPusher p { w.pushers p with spsppsInSTAPaPack := true }).pushers p).spsppsInSTAPaPack
      = true ∧
    Pusher.shouldSequenceStart (w.setPusher p { w.pushers p with spsppsInSTAPaPack := true }) p idr =
      Res.ok false (w.setPusher p { w.pushers p with spsppsInSTAPaPack := true }) := by
  have hcodec1 : Pusher.VCodec (w.setPusher p { w.pushers p with spsppsInSTAPaPack := true }) p
      = some vcodec := by
    rw [← hcodec]
    simp [Pusher.VCodec, World.setPusher]
  have hflag : ((w.setPusher p { w.pushers p with spsppsInSTAPaPack := true }).pushers
      p).spsppsInSTAPaPack = true := by simp [World.setPusher]
  refine ⟨?_, hflag, ?_⟩
  · unfold Pusher.shouldSequenceStart
    rw [hcodec]
    simp only [h264, if_true]
    unfold Pusher.shouldSequenceStart_h264
    have h0 : (stapA hdr [b7 :: sps, b8 :: pps])[0]? = some hdr := rfl
    simp only [h0, hhdr]
    rw [if_neg (by decide), if_neg (by decide), if_pos trivial, Pusher.stapLoop_two hdr b7 b8 sps pps
      spare hs hp]
    simp only [h7, h8]
    rw [if_pos (by decide)]
  · unfold Pusher.shouldSequenceStart
    rw [hcodec1]
    simp only [h264, if_true]
    unfold Pusher.shouldSequenceStart_h264
    simp only [hidr0, hidr]
    rw [if_pos (by decide)]
    unfold Pusher.h264Tail
    rw [if_pos hidr, hflag]
    rfl

/-- Witness for the amended C19: the H.264 pusher `0` of `exPumpWorld` inspects the
STAP-A of `exSPS` and `exPPS` and then the IDR slice `exIDR`. -/
theorem stapA_priming_witness :
    (exPumpWorld.pushers 0).spsppsInSTAPaPack = false ∧
    stapA 0x18 [exSPS, exPPS] = [0x18, 0, 3, 0x67, 0x42, 0x00, 0, 2, 0x68, 0xce] ∧
    (Pusher.shouldSequenceStart exPumpWorld 0 { Payload := stapA 0x18 [exSPS, exPPS] }).result
      = some true ∧
    ((Pusher.shouldSequenceStart exPumpWorld 0
      { Payload := stapA 0x18 [exSPS, exPPS] }).world.pushers 0).spsppsInSTAPaPack = true ∧
    (Pusher.shouldSequenceStart
      (Pusher.shouldSequenceStart exPumpWorld 0 { Payload := stapA 0x18 [exSPS, exPPS] }).world 0
      { Payload := exIDR }).result = some false := by
  obtain ⟨h1, h2, h3⟩ := stapA_priming exPumpWorld 0 "H264" 0x18 0x67 0x68 0x65 [0x42, 0x00]
    [0xce] [] { Payload := exIDR } (by decide) (by decide) (by decide) (by decide) (by decide)
    (by decide) (by decide) (by decide) (by decide)
  have hst : stapA 0x18 [exSPS, exPPS] = stapA 0x18 [[0x67, 0x42, 0x00], [0x68, 0xce]] := rfl
  refine ⟨by decide, by decide, ?_, ?_, ?_⟩
  · rw [hst, h1]; rfl
  · rw [hst, h1]; exact h2
  · rw [hst, h1]
    simp only [Res.world]
    rw [h3]; rfl

/-- C19 as stated fails: the H.264 pusher `0` of `exPumpWorld` inspects the
well-formed STAP-A that aggregates `exSPS`, `exPPS` and `exIDR`; the sum of the NAL
unit types is 20, not 15, the flag stays false, and the standalone IDR inspected
next is reported as a sequence start. -/
theorem stapA_priming_counterexample :
    stapA 0x18 [exSPS, exPPS, exIDR]
      = [0x18, 0, 3, 0x67, 0x42, 0x00, 0, 2, 0x68, 0xce, 0, 4, 0x65, 0x88, 0x84, 0x00] ∧
    Pusher.VCodec exPumpWorld 0 = some "H264" ∧
    (Pusher.shouldSequenceStart exPumpWorld 0
      { Payload := stapA 0x18 [exSPS, exPPS, exIDR] }).result = some true ∧
    ((Pusher.shouldSequenceStart exPumpWorld 0
      { Payload := stapA 0x18 [exSPS, exPPS, exIDR] }).world.pushers 0).spsppsInSTAPaPack
      = false ∧
    (Pusher.shouldSequenceStart
      (Pusher.shouldSequenceStart exPumpWorld 0
        { Payload := stapA 0x18 [exSPS, exPPS, exIDR] }).world 0
      { Payload := exIDR }).result = some true ∧
    ¬ StapPriming exPumpWorld 0 (stapA 0x18 [exSPS, exPPS, exIDR]) exIDR := by
  refine ⟨by decide, by decide, by decide, by decide, by decide, ?_⟩
  rintro ⟨r, w1, h, hf, _⟩
  have h2 : ((Pusher.shouldSequenceStart exPumpWorld 0
      { Payload := stapA 0x18 [exSPS, exPPS, exIDR] }).world.pushers 0).spsppsInSTAPaPack
      = false := by decide
  rw [h] at h2
  simp only [Res.world] at h2
  rw [hf] at h2
  exact absurd h2 (by decide)

/-! ### C20: H.265 single NAL unit packets -/

/-- The masked first byte `b & 0x7e` is the NAL unit type `(b >> 1) & 0x3f` shifted
left by one bit. -/
theorem firstByte_mask (b : Nat) : b &&& 0x7e = 2 * ((b >>> 1) &&& 0x3f) := by
  have h1 : b &&& 0x7e = (b % 128) &&& 0x7e := by
    have h := Nat.and_pow_two_sub_one_eq_mod b 7
    have h2 : b &&& 0x7e = (b &&& (2 ^ 7 - 1)) &&& 0x7e := by
      rw [Nat.and_assoc]; rfl
    rw [h2, h]
  have h3 : (b >>> 1) &&& 0x3f = (b % 128) / 2 := by
    have h := Nat.and_pow_two_sub_one_eq_mod (b >>> 1) 6
    have h4 : (b >>> 1) &&& 0x3f = (b >>> 1) &&& (2 ^ 6 - 1) := rfl
    rw [h4, h, Nat.shiftRight_eq_div_pow]
    omega
  rw [h1, h3]
  have hr : b % 128 < 128 := Nat.mod_lt _ (by decide)
  have hall : ∀ r, r < 128 → r &&& 0x7e = 2 * (r / 2) := by decide
  exact hall _ hr

/-- C20 (what the code does). For an H.265 pusher and a payload of at least 3
bytes that is a single NAL unit packet whose NAL unit type
`(payload[0] >> 1) & 0x3f` is in 16..21, `shouldSequenceStart` compares
`payload[0] & 0x7e`, twice the type, with the IRAP range: it returns true only
for the type 16 with a payload of at least 200 bytes, and false for the types
17..21 and for a shorter payload of type 16. -/
theorem h265_single_nal (w : World) (p : PusherRef) (vcodec : String) (rtp : RTPInfo) (b : Nat)
    (hcodec : Pusher.VCodec w p = some vcodec)
    (hnot264 : EqualFold vcodec "h264" = false) (h265 : EqualFold vcodec "h265" = true)
    (hlen : rtp.Payload.length ≥ 3) (h0 : rtp.Payload[0]? = some b)
    (ht : 16 ≤ (b >>> 1) &&& 0x3f ∧ (b >>> 1) &&& 0x3f ≤ 21) :
    Pusher.shouldSequenceStart w p rtp =
      Res.ok (decide ((b >>> 1) &&& 0x3f = 16 ∧ rtp.Payload.length ≥ 200)) w := by
  unfold Pusher.shouldSequenceStart
  rw [hcodec]
  simp only [hnot264, h265, Bool.false_eq_true, if_false, if_true]
  unfold Pusher.shouldSequenceStart_h265
  rw [if_pos hlen]
  simp only [h0]
  rw [if_neg (by omega), if_neg (by omega), if_neg (by omega)]
  unfold Pusher.h265Tail
  rw [firstByte_mask b]
  rw [if_neg (by omega)]
  by_cases h16 : (b >>> 1) &&& 0x3f = 16
  · rw [if_pos (by omega)]
    by_cases h200 : rtp.Payload.length < 200
    · rw [if_pos h200]
      simp only [h16, true_and]
      rw [decide_eq_false (by omega)]
    · rw [if_neg h200]
      simp only [h16, true_and]
      rw [decide_eq_true (by omega)]
  · rw [if_neg (by omega)]
    rw [decide_eq_false (fun h => h16 h.1)]

/-- Witness for C20: the H.265 pusher `0` of `exHevcWorld` inspects the single NAL
unit packet `exHevcIDR`, an IDR slice of type 19: no sequence start is reported. -/
theorem h265_single_nal_witness :
    Pusher.VCodec exHevcWorld 0 = some "H265" ∧
    (exHevcIDR[0]?.map fun b => (b >>> 1) &&& 0x3f) = some 19 ∧
    Pusher.shouldSequenceStart exHevcWorld 0 { Payload := exHevcIDR }
      = Res.ok false exHevcWorld :=
  ⟨by decide, by decide,
    h265_single_nal exHevcWorld 0 "H265" { Payload := exHevcIDR } 0x26 (by decide) (by decide)
      (by decide) (by decide) (by decide) (by decide)⟩

/-! ### C21: the track of a `SETUP` -/

theorem goLen_cons (c : Char) (l : List Char) : goLen (c :: l) = c.utf8Size + goLen l := by
  simp [goLen]

theorem goLen_append (a b : List Char) : goLen (a ++ b) = goLen a + goLen b := by
  simp [goLen]

/-- A string of no bytes has no characters. -/
theorem goLen_eq_zero (l : List Char) (h : goLen l = 0) : l = [] := by
  cases l with
  | nil => rfl
  | cons c rest =>
    rw [goLen_cons] at h
    have := Char.utf8Size_pos c
    omega

/-- A prefix is not longer in bytes, and is the whole when it is as long. -/
theorem goLen_prefix (sub l : List Char) (h : sub <+: l) :
    goLen sub ≤ goLen l ∧ (goLen sub = goLen l → sub = l) := by
  obtain ⟨t, rfl⟩ := h
  rw [goLen_append]
  refine ⟨by omega, fun h => ?_⟩
  have ht : t = [] := goLen_eq_zero t (by omega)
  rw [ht, List.append_nil]

/-- The scan of `strings.LastIndex` ends at the offset at which a string of the
length of `sub` would end the string exactly when `sub` is a suffix, or when no
occurrence is found and the initial value is that offset. -/
theorem LastIndex_scan_eq_iff (sub : List Char) :
    ∀ (l : List Char) (off : Nat) (last : Int), last < off →
      (LastIndex_scan sub l off last = (off : Int) + goLen l - goLen sub ↔
        sub <:+ l ∨ last = (off : Int) + goLen l - goLen sub) := by
  intro l
  induction l with
  | nil =>
    intro off last hlast
    unfold LastIndex_scan
    by_cases hp : sub.isPrefixOf [] = true
    · rw [if_pos hp]
      have hs : sub = [] := by
        have := List.isPrefixOf_iff_prefix.mp hp
        exact List.prefix_nil.mp this
      subst hs
      simp [goLen]
    · rw [if_neg hp]
      have hs : ¬ sub <:+ [] := by
        intro h
        have : sub = [] := List.suffix_nil.mp h
        subst this
        exact hp rfl
      simp [hs]
  | cons c rest ih =>
    intro off last hlast
    unfold LastIndex_scan
    have hsz := Char.utf8Size_pos c
    have hN : ((off + c.utf8Size : Nat) : Int) + goLen rest - goLen sub
        = (off : Int) + goLen (c :: rest) - goLen sub := by
      rw [goLen_cons]; push_cast; ring
    by_cases hp : sub.isPrefixOf (c :: rest) = true
    · rw [if_pos hp]
      have hpre := List.isPrefixOf_iff_prefix.mp hp
      obtain ⟨hle, heq⟩ := goLen_prefix sub (c :: rest) hpre
      rw [← hN, ih (off + c.utf8Size) off (by push_cast; omega), hN, List.suffix_cons_iff]
      constructor
      · rintro (h | h)
        · exact Or.inl (Or.inr h)
        · exact Or.inl (Or.inl (heq (by omega)))
      · rintro ((h | h) | h)
        · right; rw [h]; omega
        · exact Or.inl h
        · omega
    · rw [if_neg hp]
      have hne : sub ≠ c :: rest := by
        intro h
        apply hp
        rw [h]
        exact List.isPrefixOf_iff_prefix.mpr (List.prefix_refl _)
      rw [← hN, ih (off + c.utf8Size) last (by push_cast; omega), hN, List.suffix_cons_iff]
      constructor
      · rintro (h | h)
        · exact Or.inl (Or.inr h)
        · exact Or.inr h
      · rintro ((h | h) | h)
        · exact absurd h hne
        · exact Or.inl h
        · exact Or.inr h

/-- The test of `SETUP` for a track: the URL is the control, or the control is not
empty and either ends the URL or is one byte longer than the URL, in which case
`strings.LastIndex` returns -1, the difference of the lengths. -/
theorem matchesControl_iff (setupPath path : String) :
    matchesControl setupPath path = true ↔
      setupPath = path ∨
        (path ≠ "" ∧
          (path.data <:+ setupPath.data ∨ goLen path.data = goLen setupPath.data + 1)) := by
  unfold matchesControl LastIndex
  rw [decide_eq_true_iff]
  have h := LastIndex_scan_eq_iff path.data setupPath.data 0 (-1) (by decide)
  have h2 : ((0 : Nat) : Int) + goLen setupPath.data - goLen path.data
      = (goLen setupPath.data : Int) - goLen path.data := by simp
  rw [h2] at h
  rw [h]
  constructor
  · rintro (h | ⟨hne, h | h⟩)
    · exact Or.inl h
    · exact Or.inr ⟨hne, Or.inl h⟩
    · exact Or.inr ⟨hne, Or.inr (by omega)⟩
  · rintro (h | ⟨hne, h | h⟩)
    · exact Or.inl h
    · exact Or.inr ⟨hne, Or.inl h⟩
    · exact Or.inr ⟨hne, Or.inr (by omega)⟩
/-- The channels of the session after `handleRequest` on a `SETUP` are those that
its body left, also when the session is stopped or a stop closure panics. -/
theorem Session.handleRequest_channels_body (env : Env) (w : World) (s : SessRef)
    (req : Request) (hm : req.Method = "SETUP") :
    ((Session.handleRequest env w s req).world.sessions s).channels =
      ((Session.handleRequest_body env w s req
        (NewResponse 200 "OK" (req.Header.index "CSeq") (w.sessions s).ID "")).world.sessions
          s).channels := by
  rw [Session.handleRequest_eq_epilogue, Session.handleRequest_epilogue_plain _ _ _ _ _
    (by rw [hm]; decide) (by rw [hm]; decide) (by rw [hm]; decide),
    ← Session.handleRequest_outcome_world]
  have hwr : ((Session.handleRequest_write env (Session.handleRequest_outcome env w s req).2 s
      (Session.handleRequest_outcome env w s req).1).sessions s).channels =
      ((Session.handleRequest_outcome env w s req).2.sessions s).channels := by
    simp [Session.handleRequest_write, World.setSession, Session.channels]
  split
  · obtain ⟨st, c, u, h⟩ := Session.Stop_session
      (Session.handleRequest_write env (Session.handleRequest_outcome env w s req).2 s
        (Session.handleRequest_outcome env w s req).1) s s
    cases hS : Session.Stop
      (Session.handleRequest_write env (Session.handleRequest_outcome env w s req).2 s
        (Session.handleRequest_outcome env w s req).1) s with
    | ok v w3 =>
      rw [hS] at h
      simp only [Res.world] at h
      simp only [Res.bind, Res.world]
      rw [h, ← hwr]; rfl
    | panic w3 =>
      rw [hS] at h
      simp only [Res.world] at h
      simp only [Res.bind, Res.world]
      rw [h, ← hwr]; rfl
  · exact hwr

/-- The channels that the TCP branch of `SETUP` leaves. -/
theorem Session.handleRequest_SETUP_tcp_channels (w : World) (s : SessRef) (res : Response)
    (setupPath aPath vPath : String) (tcpMatchs : List String) :
    (((Session.handleRequest_SETUP_tcp w s res setupPath aPath vPath tcpMatchs).2.sessions
        s).channels =
      if matchesControl setupPath aPath = true then
        (Atoi (tcpMatchs.getD 1 ""), Atoi (tcpMatchs.getD 3 ""),
          (w.sessions s).vRTPChannel, (w.sessions s).vRTPControlChannel)
      else if matchesControl setupPath vPath = true then
        ((w.sessions s).aRTPChannel, (w.sessions s).aRTPControlChannel,
          Atoi (tcpMatchs.getD 1 ""), Atoi (tcpMatchs.getD 3 ""))
      else (w.sessions s).channels) ∧
    (Session.handleRequest_SETUP_tcp w s res setupPath aPath vPath tcpMatchs).1.StatusCode =
      if matchesControl setupPath aPath = true ∨ matchesControl setupPath vPath = true then
        res.StatusCode
      else 500 := by
  unfold Session.handleRequest_SETUP_tcp
  simp only []
  by_cases hma : matchesControl setupPath aPath = true
  · rw [if_pos hma, if_pos hma, if_pos (Or.inl hma)]
    exact ⟨by simp [Session.channels, World.setSession], rfl⟩
  · rw [if_neg hma, if_neg hma]
    by_cases hmv : matchesControl setupPath vPath = true
    · rw [if_pos hmv, if_pos hmv, if_pos (Or.inr hmv)]
      exact ⟨by simp [Session.channels, World.setSession], rfl⟩
    · rw [if_neg hmv, if_neg hmv, if_neg (by simp [hma, hmv])]
      exact ⟨by simp [Session.channels, World.setSession], rfl⟩

/-- C21 as amended. SETUP track matching: for every `SETUP` with an `interleaved`
transport that passes the authorization check, on a session that has a pusher, with
a URL and controls that parse, where neither control, normalized as the URL is
when it is an `rtsp://` URL, is exactly one byte longer than the normalized URL:
when the normalized URL equals the normalized audio control, or that control is
not empty and ends the URL (no `/` is asked for before it), the request is answered
200 and the audio channels get its two numbers, the video channels staying as they
were; otherwise, when the same holds of the video control, the request is answered
200 and the video channels get the numbers, the audio channels staying as they
were; otherwise no channel changes. -/
theorem SETUP_track_matching (env : Env) (w : World) (s : SessRef) (P : PusherRef)
    (req : Request) (setupUrl : rtsp.URL) (setupPath aPath vPath : String)
    (tcpMatchs : List String)
    (hmethod : req.Method = "SETUP")
    (hauth : Session.handleRequest_auth env w s req
      (NewResponse 200 "OK" (req.Header.index "CSeq") (w.sessions s).ID "") = none)
    (hurl : env.url_Parse req.URL = some setupUrl)
    (hsp : env.url_String
      (if env.url_Port setupUrl = "" then { setupUrl with Host := setupUrl.Host ++ ":554" }
        else setupUrl) = setupPath)
    (hP : (w.sessions s).Pusher = some P)
    (hv : controlPath env (w.sessions s).VControl = some vPath)
    (ha : controlPath env (w.sessions s).AControl = some aPath)
    (htcp : FindStringSubmatch "interleaved=".data (req.Header.index "Transport").data
      = some tcpMatchs)
    (hla : goLen aPath.data ≠ goLen setupPath.data + 1)
    (hlv : goLen vPath.data ≠ goLen setupPath.data + 1) :
    ((setupPath = aPath ∨ (aPath ≠ "" ∧ aPath.data <:+ setupPath.data)) →
      ∃ res w', Session.handleRequest env w s req = Res.ok res w' ∧ res.StatusCode = 200 ∧
        (w'.sessions s).channels =
          (Atoi (tcpMatchs.getD 1 ""), Atoi (tcpMatchs.getD 3 ""),
            (w.sessions s).vRTPChannel, (w.sessions s).vRTPControlChannel)) ∧
    (¬ (setupPath = aPath ∨ (aPath ≠ "" ∧ aPath.data <:+ setupPath.data)) →
      (setupPath = vPath ∨ (vPath ≠ "" ∧ vPath.data <:+ setupPath.data)) →
      ∃ res w', Session.handleRequest env w s req = Res.ok res w' ∧ res.StatusCode = 200 ∧
        (w'.sessions s).channels =
          ((w.sessions s).aRTPChannel, (w.sessions s).aRTPControlChannel,
            Atoi (tcpMatchs.getD 1 ""), Atoi (tcpMatchs.getD 3 ""))) ∧
    (¬ (setupPath = aPath ∨ (aPath ≠ "" ∧ aPath.data <:+ setupPath.data)) →
      ¬ (setupPath = vPath ∨ (vPath ≠ "" ∧ vPath.data <:+ setupPath.data)) →
      ((Session.handleRequest env w s req).world.sessions s).channels
        = (w.sessions s).channels) := by
  have hA : matchesControl setupPath aPath = true ↔
      (setupPath = aPath ∨ (aPath ≠ "" ∧ aPath.data <:+ setupPath.data)) := by
    rw [matchesControl_iff]
    constructor
    · rintro (h | ⟨hne, h | h⟩)
      · exact Or.inl h
      · exact Or.inr ⟨hne, h⟩
      · exact absurd h hla
    · rintro (h | ⟨hne, h⟩)
      · exact Or.inl h
      · exact Or.inr ⟨hne, Or.inl h⟩
  have hV : matchesControl setupPath vPath = true ↔
      (setupPath = vPath ∨ (vPath ≠ "" ∧ vPath.data <:+ setupPath.data)) := by
    rw [matchesControl_iff]
    constructor
    · rintro (h | ⟨hne, h | h⟩)
      · exact Or.inl h
      · exact Or.inr ⟨hne, h⟩
      · exact absurd h hlv
    · rintro (h | ⟨hne, h⟩)
      · exact Or.inl h
      · exact Or.inr ⟨hne, Or.inl h⟩
  have hbody : Session.handleRequest_body env w s req
      (NewResponse 200 "OK" (req.Header.index "CSeq") (w.sessions s).ID "") =
      Handled.done
        { (Session.handleRequest_SETUP_tcp w s
            (NewResponse 200 "OK" (req.Header.index "CSeq") (w.sessions s).ID "")
            setupPath aPath vPath tcpMatchs).1 with
          Header := (Session.handleRequest_SETUP_tcp w s
            (NewResponse 200 "OK" (req.Header.index "CSeq") (w.sessions s).ID "")
            setupPath aPath vPath tcpMatchs).1.Header.set "Transport"
              (req.Header.index "Transport") }
        (Session.handleRequest_SETUP_tcp w s
          (NewResponse 200 "OK" (req.Header.index "CSeq") (w.sessions s).ID "")
          setupPath aPath vPath tcpMatchs).2 := by
    rw [Session.handleRequest_body_SETUP env w s req _ hmethod hauth]
    unfold Session.handleRequest_SETUP
    simp only [hurl, hP, hv, ha, htcp, hsp]
  obtain ⟨hch, hst⟩ := Session.handleRequest_SETUP_tcp_channels w s
    (NewResponse 200 "OK" (req.Header.index "CSeq") (w.sessions s).ID "")
    setupPath aPath vPath tcpMatchs
  have hok : (matchesControl setupPath aPath = true ∨ matchesControl setupPath vPath = true) →
      ∃ res, Session.handleRequest env w s req = Res.ok res
          (Session.handleRequest_write env
            (Session.handleRequest_SETUP_tcp w s
              (NewResponse 200 "OK" (req.Header.index "CSeq") (w.sessions s).ID "")
              setupPath aPath vPath tcpMatchs).2 s res) ∧ res.StatusCode = 200 := by
    intro hm
    rw [if_pos hm] at hst
    unfold Session.handleRequest
    simp only []
    rw [hbody]
    simp only []
    rw [Session.handleRequest_epilogue_plain env _ s req _ (by rw [hmethod]; decide)
      (by rw [hmethod]; decide) (by rw [hmethod]; decide)]
    have h200 : (Session.handleRequest_SETUP_tcp w s
        (NewResponse 200 "OK" (req.Header.index "CSeq") (w.sessions s).ID "")
        setupPath aPath vPath tcpMatchs).1.StatusCode = 200 := by
      rw [hst]; rfl
    refine ⟨_, if_neg ?_, h200⟩
    simp only [h200]
    simp
  have hwr : ∀ (w1 : World) (res : Response),
      ((Session.handleRequest_write env w1 s res).sessions s).channels
        = (w1.sessions s).channels := by
    intro w1 res
    simp [Session.handleRequest_write, World.setSession, Session.channels]
  refine ⟨?_, ?_, ?_⟩
  · intro h
    have hm := hA.mpr h
    obtain ⟨res, hr, h200⟩ := hok (Or.inl hm)
    refine ⟨_, _, hr, h200, ?_⟩
    rw [hwr, hch, if_pos hm]
  · intro hna h
    have hma : ¬ matchesControl setupPath aPath = true := fun hh => hna (hA.mp hh)
    have hm := hV.mpr h
    obtain ⟨res, hr, h200⟩ := hok (Or.inr hm)
    refine ⟨_, _, hr, h200, ?_⟩
    rw [hwr, hch, if_neg hma, if_pos hm]
  · intro hna hnv
    have hma : ¬ matchesControl setupPath aPath = true := fun hh => hna (hA.mp hh)
    have hmv : ¬ matchesControl setupPath vPath = true := fun hh => hnv (hV.mp hh)
    rw [Session.handleRequest_channels_body env w s req hmethod, hbody]
    simp only [Handled.world]
    rw [hch, if_neg hma, if_neg hmv]
/-- Witness for the amended C21: publisher session `0` of `exSetupWorld`, whose
audio control is `streamid=0`, sends `SETUP rtsp://h/live/x/streamid=0` with
`interleaved=0-1`. -/
theorem SETUP_track_matching_witness :
    (exSetupWorld.sessions 0).Pusher = some 0 ∧
    (exSetupWorld.sessions 0).channels = (-1, -1, -1, -1) ∧
    "streamid=0".data <:+ "rtsp://h:554/live/x/streamid=0".data ∧
    ∃ res w', Session.handleRequest exSetupEnv exSetupWorld 0 exSetupNoAuth = Res.ok res w' ∧
      res.StatusCode = 200 ∧
      (w'.sessions 0).channels =
        (Atoi (["interleaved=0-1", "0", "-1", "1"].getD 1 ""),
          Atoi (["interleaved=0-1", "0", "-1", "1"].getD 3 ""),
          (exSetupWorld.sessions 0).vRTPChannel, (exSetupWorld.sessions 0).vRTPControlChannel) :=
  ⟨by decide, by decide, by decide,
    (SETUP_track_matching exSetupEnv exSetupWorld 0 0 exSetupNoAuth
      { Scheme := "rtsp", Host := "h", Path := "/live/x/streamid=0" }
      "rtsp://h:554/live/x/streamid=0" "streamid=0" "streamid=1"
      ["interleaved=0-1", "0", "-1", "1"]
      (by decide) rfl (by decide) (by decide) (by decide) (by decide) (by decide) (by decide)
      (by decide) (by decide)).1 (Or.inr ⟨by decide, by decide⟩)⟩

/-- C21 as stated fails: publisher session `0` of `exQueryWorld`, whose audio
control is `?ctype=audio`, sends `SETUP rtsp://h/live/x?ctype=audio` with
`interleaved=0-1`.  The normalized URL `rtsp://h:554/live/x?ctype=audio` is not the
control and does not end with `/?ctype=audio`, but it ends with the control: the
request is answered 200 and the audio channels are 0 and 1. -/
theorem SETUP_track_matching_counterexample :
    exSetupQuery.Method = "SETUP" ∧
    (exQueryWorld.sessions 0).Pusher = some 0 ∧
    (exQueryWorld.sessions 0).AControl = "?ctype=audio" ∧
    (exQueryEnv.url_Parse exSetupQuery.URL).map (fun u => exQueryEnv.url_String
      (if exQueryEnv.url_Port u = "" then { u with Host := u.Host ++ ":554" } else u))
      = some "rtsp://h:554/live/x?ctype=audio" ∧
    specMatchesControl "rtsp://h:554/live/x?ctype=audio" "?ctype=audio" = false ∧
    matchesControl "rtsp://h:554/live/x?ctype=audio" "?ctype=audio" = true ∧
    (exQueryWorld.sessions 0).channels = (-1, -1, -1, -1) ∧
    (Session.handleRequest exQueryEnv exQueryWorld 0 exSetupQuery).result.map
      (fun r => r.StatusCode) = some 200 ∧
    ((Session.handleRequest exQueryEnv exQueryWorld 0 exSetupQuery).world.sessions 0).channels
      = (0, 1, -1, -1) ∧
    ¬ TrackMatching exQueryEnv exQueryWorld 0 exSetupQuery := by
  refine ⟨by decide, by decide, by decide, by decide, by decide, by decide, by decide,
    by decide, by decide, ?_⟩
  intro h
  have h1 := (h { Scheme := "rtsp", Host := "h", Path := "/live/x", RawQuery := "ctype=audio" }
    ["interleaved=0-1", "0", "-1", "1"] (by decide) (by decide)).1
  have h2 := h1.mp ⟨by decide, by decide⟩
  exact absurd h2 (by decide)

/-- The test of `SETUP` on a control that is one byte longer than the normalized
URL: publisher session `0` of `exLongControlWorld`, whose audio control is
`audio/streamid=0`, sends `SETUP rtsp://h/ab` with `interleaved=0-1`.  The control
does not occur in `rtsp://h:554/ab`, `strings.LastIndex` returns -1, which is the
difference of the lengths 15 and 16: the request is answered 200 and the audio
channels are 0 and 1. -/
theorem Session.handleRequest_SETUP_longer_control :
    goLen "rtsp://h:554/ab".data = 15 ∧ goLen "audio/streamid=0".data = 16 ∧
    LastIndex "rtsp://h:554/ab" "audio/streamid=0" = -1 ∧
    ¬ "audio/streamid=0".data <:+ "rtsp://h:554/ab".data ∧
    matchesControl "rtsp://h:554/ab" "audio/streamid=0" = true ∧
    (exLongControlWorld.sessions 0).AControl = "audio/streamid=0" ∧
    (exSetupEnv.url_Parse exSetupShort.URL).map (fun u => exSetupEnv.url_String
      (if exSetupEnv.url_Port u = "" then { u with Host := u.Host ++ ":554" } else u))
      = some "rtsp://h:554/ab" ∧
    (Session.handleRequest exSetupEnv exLongControlWorld 0 exSetupShort).result.map
      (fun r => r.StatusCode) = some 200 ∧
    ((Session.handleRequest exSetupEnv exLongControlWorld 0 exSetupShort).world.sessions
      0).channels = (0, 1, -1, -1) := by
  refine ⟨by decide, by decide, by decide, by decide, by decide, by decide, by decide,
    by decide, by decide⟩

/-! ### C17: the pairs that `SETUP` binds -/

/-- A `SETUP` whose handling panicked has stopped the session. -/
theorem Session.handleRequest_SETUP_panic_stoped (env : Env) (w : World) (s : SessRef)
    (req : Request) (hm : req.Method = "SETUP") (w1 : World)
    (h : Session.handleRequest env w s req = Res.panic w1) : (w1.sessions s).Stoped = true := by
  rw [Session.handleRequest_eq_epilogue, Session.handleRequest_epilogue_plain _ _ _ _ _
    (by rw [hm]; decide) (by rw [hm]; decide) (by rw [hm]; decide)] at h
  split at h
  · have hst := Session.Stop_stoped
      (Session.handleRequest_write env (Session.handleRequest_outcome env w s req).2 s
        (Session.handleRequest_outcome env w s req).1) s
    cases hS : Session.Stop
      (Session.handleRequest_write env (Session.handleRequest_outcome env w s req).2 s
        (Session.handleRequest_outcome env w s req).1) s with
    | ok v w3 =>
      rw [hS] at h
      simp [Res.bind] at h
    | panic w3 =>
      rw [hS] at h hst
      simp only [Res.bind, Res.panic.injEq] at h
      subst h
      exact hst
  · cases h

/-- The world after one more `SETUP`: the request is handled in the world that the
requests before it left, unless the session is stopped there. -/
theorem Session.handleRequests_snoc (env : Env) (s : SessRef) (pre : List Request)
    (r : Request) :
    ∀ (w : World), (∀ q, q ∈ pre → q.Method = "SETUP") →
      Session.handleRequests env w s (pre ++ [r]) =
        if ((Session.handleRequests env w s pre).sessions s).Stoped = true then
          Session.handleRequests env w s pre
        else (Session.handleRequest env (Session.handleRequests env w s pre) s r).world := by
  induction pre with
  | nil =>
    intro w _
    simp only [List.nil_append, Session.handleRequests]
    split
    · rfl
    · split <;> rename_i h <;> rw [h] <;> rfl
  | cons q pre ih =>
    intro w hm
    simp only [List.cons_append, Session.handleRequests]
    by_cases hst : (w.sessions s).Stoped = true
    · rw [if_pos hst, if_pos hst, if_pos hst]
    · rw [if_neg hst, if_neg hst]
      cases hq : Session.handleRequest env w s q with
      | ok res w1 =>
        simp only []
        exact ih w1 (fun q' hq' => hm q' (List.mem_cons_of_mem _ hq'))
      | panic w1 =>
        simp only []
        rw [if_pos (Session.handleRequest_SETUP_panic_stoped env w s q
          (hm q (List.mem_cons_self _ _)) w1 hq)]

/-- The channels that a `SETUP` over TCP leaves which passes the authorization
check, on a session that has a pusher, with a URL and controls that parse. -/
theorem Session.handleRequest_channels_tcp (env : Env) (w : World) (s : SessRef)
    (req : Request) (setupUrl : rtsp.URL) (P : PusherRef) (vPath aPath : String)
    (tcpMatchs : List String) (hm : req.Method = "SETUP")
    (hauth : Session.handleRequest_auth env w s req
      (NewResponse 200 "OK" (req.Header.index "CSeq") (w.sessions s).ID "") = none)
    (hurl : env.url_Parse req.URL = some setupUrl)
    (hP : (w.sessions s).Pusher = some P)
    (hv : controlPath env (w.sessions s).VControl = some vPath)
    (ha : controlPath env (w.sessions s).AControl = some aPath)
    (htcp : FindStringSubmatch "interleaved=".data (req.Header.index "Transport").data
      = some tcpMatchs) :
    ((Session.handleRequest env w s req).world.sessions s).channels =
      if matchesControl (env.url_String
          (if env.url_Port setupUrl = "" then { setupUrl with Host := setupUrl.Host ++ ":554" }
            else setupUrl)) aPath = true then
        (Atoi (tcpMatchs.getD 1 ""), Atoi (tcpMatchs.getD 3 ""),
          (w.sessions s).vRTPChannel, (w.sessions s).vRTPControlChannel)
      else if matchesControl (env.url_String
          (if env.url_Port setupUrl = "" then { setupUrl with Host := setupUrl.Host ++ ":554" }
            else setupUrl)) vPath = true then
        ((w.sessions s).aRTPChannel, (w.sessions s).aRTPControlChannel,
          Atoi (tcpMatchs.getD 1 ""), Atoi (tcpMatchs.getD 3 ""))
      else (w.sessions s).channels := by
  rw [Session.handleRequest_channels_body env w s req hm,
    Session.handleRequest_body_SETUP env w s req _ hm hauth]
  unfold Session.handleRequest_SETUP
  simp only [hurl, hP, hv, ha, htcp, Handled.world]
  exact (Session.handleRequest_SETUP_tcp_channels w s _ _ aPath vPath tcpMatchs).1

/-- A `SETUP` that is not one over TCP which passes the authorization check, on a
session that has a pusher, with a URL and controls that parse, leaves the channels
as they were. -/
theorem Session.handleRequest_channels_other (env : Env) (w : World) (s : SessRef)
    (req : Request) (hm : req.Method = "SETUP")
    (hno : ¬ ∃ (setupUrl : rtsp.URL) (P : PusherRef) (vPath aPath : String)
      (tcpMatchs : List String),
      Session.handleRequest_auth env w s req
        (NewResponse 200 "OK" (req.Header.index "CSeq") (w.sessions s).ID "") = none ∧
      env.url_Parse req.URL = some setupUrl ∧
      (w.sessions s).Pusher = some P ∧
      controlPath env (w.sessions s).VControl = some vPath ∧
      controlPath env (w.sessions s).AControl = some aPath ∧
      FindStringSubmatch "interleaved=".data (req.Header.index "Transport").data
        = some tcpMatchs) :
    ((Session.handleRequest env w s req).world.sessions s).channels = (w.sessions s).channels := by
  rw [Session.handleRequest_channels_body env w s req hm]
  cases hauth : Session.handleRequest_auth env w s req
      (NewResponse 200 "OK" (req.Header.index "CSeq") (w.sessions s).ID "") with
  | some h =>
    unfold Session.handleRequest_body
    rw [hauth]
    simp only []
    unfold Session.handleRequest_auth at hauth
    split at hauth
    · split at hauth
      · split at hauth
        · cases hauth; rfl
        · simp only [] at hauth
          split at hauth
          · cases hauth; rfl
          · cases hauth
            simp [Handled.world, World.setSession, Session.channels]
        · cases hauth
      · cases hauth
    · cases hauth
  | none =>
    rw [Session.handleRequest_body_SETUP env w s req _ hm hauth]
    rcases Session.handleRequest_SETUP_channels env w s req
      (NewResponse 200 "OK" (req.Header.index "CSeq") (w.sessions s).ID "") with h | ⟨m, hf, _⟩
    · exact h
    · unfold Session.handleRequest_SETUP
      simp only []
      cases hurl : env.url_Parse req.URL with
      | none => rfl
      | some setupUrl =>
        cases hP : (w.sessions s).Pusher with
        | none => rfl
        | some pusher =>
          cases hv : controlPath env (w.sessions s).VControl with
          | none => rfl
          | some vPath =>
            cases ha : controlPath env (w.sessions s).AControl with
            | none => rfl
            | some aPath =>
              exact absurd ⟨setupUrl, pusher, vPath, aPath, m, hauth, hurl, hP, hv, ha, hf⟩ hno

/-- One `SETUP` on a session whose bound channels are pairwise distinct keeps them
so exactly when the pair that it binds, if it binds one, is distinct in itself and
from the bound channels of the other track. -/
theorem Session.handleRequest_channelsDistinct_iff (env : Env) (w : World) (s : SessRef)
    (req : Request) (hm : req.Method = "SETUP") (hd : (w.sessions s).channelsDistinct) :
    ((Session.handleRequest env w s req).world.sessions s).channelsDistinct ↔
      ∀ (setupUrl : rtsp.URL) (P : PusherRef) (vPath aPath : String) (tcpMatchs : List String),
        Session.handleRequest_auth env w s req
          (NewResponse 200 "OK" (req.Header.index "CSeq") (w.sessions s).ID "") = none →
        env.url_Parse req.URL = some setupUrl →
        (w.sessions s).Pusher = some P →
        controlPath env (w.sessions s).VControl = some vPath →
        controlPath env (w.sessions s).AControl = some aPath →
        FindStringSubmatch "interleaved=".data (req.Header.index "Transport").data
          = some tcpMatchs →
        (matchesControl (env.url_String
            (if env.url_Port setupUrl = "" then { setupUrl with Host := setupUrl.Host ++ ":554" }
              else setupUrl)) aPath = true →
          ChannelsDistinct (Atoi (tcpMatchs.getD 1 "")) (Atoi (tcpMatchs.getD 3 ""))
            (w.sessions s).vRTPChannel (w.sessions s).vRTPControlChannel) ∧
        (matchesControl (env.url_String
            (if env.url_Port setupUrl = "" then { setupUrl with Host := setupUrl.Host ++ ":554" }
              else setupUrl)) aPath = false →
          matchesControl (env.url_String
            (if env.url_Port setupUrl = "" then { setupUrl with Host := setupUrl.Host ++ ":554" }
              else setupUrl)) vPath = true →
          ChannelsDistinct (w.sessions s).aRTPChannel (w.sessions s).aRTPControlChannel
            (Atoi (tcpMatchs.getD 1 "")) (Atoi (tcpMatchs.getD 3 ""))) := by
  by_cases hex : ∃ (setupUrl : rtsp.URL) (P : PusherRef) (vPath aPath : String)
      (tcpMatchs : List String),
      Session.handleRequest_auth env w s req
        (NewResponse 200 "OK" (req.Header.index "CSeq") (w.sessions s).ID "") = none ∧
      env.url_Parse req.URL = some setupUrl ∧
      (w.sessions s).Pusher = some P ∧
      controlPath env (w.sessions s).VControl = some vPath ∧
      controlPath env (w.sessions s).AControl = some aPath ∧
      FindStringSubmatch "interleaved=".data (req.Header.index "Transport").data
        = some tcpMatchs
  · obtain ⟨U, P, vP, aP, m, hauth, hurl, hP, hv, ha, htcp⟩ := hex
    have hch := Session.handleRequest_channels_tcp env w s req U P vP aP m hm hauth hurl hP hv
      ha htcp
    constructor
    · intro hafter U' P' vP' aP' m' _ hurl' _ hv' ha' htcp'
      rw [hurl] at hurl'; rw [hv] at hv'; rw [ha] at ha'; rw [htcp] at htcp'
      cases hurl'; cases hv'; cases ha'; cases htcp'
      generalize env.url_String
        (if env.url_Port U = "" then { U with Host := U.Host ++ ":554" } else U) = sp at hch ⊢
      constructor
      · intro hma
        rw [if_pos hma] at hch
        exact (Session.channelsDistinct_iff _ _ _ _ _ hch).mp hafter
      · intro hma hmv
        rw [if_neg (by rw [hma]; decide), if_pos hmv] at hch
        exact (Session.channelsDistinct_iff _ _ _ _ _ hch).mp hafter
    · intro hc
      obtain ⟨h1, h2⟩ := hc U P vP aP m hauth hurl hP hv ha htcp
      generalize env.url_String
        (if env.url_Port U = "" then { U with Host := U.Host ++ ":554" } else U) = sp
        at hch h1 h2
      by_cases hma : matchesControl sp aP = true
      · rw [if_pos hma] at hch
        exact (Session.channelsDistinct_iff _ _ _ _ _ hch).mpr (h1 hma)
      · rw [if_neg hma] at hch
        have hma' : matchesControl sp aP = false := by simpa using hma
        by_cases hmv : matchesControl sp vP = true
        · rw [if_pos hmv] at hch
          exact (Session.channelsDistinct_iff _ _ _ _ _ hch).mpr (h2 hma' hmv)
        · rw [if_neg hmv] at hch
          exact (Session.channelsDistinct_iff _ _ _ _ _ hch).mpr hd
  · have hch := Session.handleRequest_channels_other env w s req hm hex
    constructor
    · intro _ U P vP aP m hauth hurl hP hv ha htcp
      exact absurd ⟨U, P, vP, aP, m, hauth, hurl, hP, hv, ha, htcp⟩ hex
    · intro _
      exact (Session.channelsDistinct_iff _ _ _ _ _ hch).mpr hd

/-- C17 as amended. The channel numbers are the client's: over every sequence of
`SETUP` requests handled by a session whose bound channels are pairwise distinct at
the start, the bound channels are pairwise distinct after every one of the requests
if and only if every request that binds a track does so with a pair that is
distinct in itself and from the bound channels of the other track.  A request
binds a track when the session is not stopped at its arrival, it passes the
authorization check, the session has a pusher, the URL and the controls parse, the
transport has an `interleaved` parameter and the URL matches the audio control
(the pair is then the audio pair and the other track is the video track) or else
the video control.  The pair of the track that the request binds anew is not
compared with, so a `SETUP` may be repeated for a track. -/
theorem channels_distinct_kept (env : Env) (s : SessRef) (reqs : List Request) (w : World)
    (hm : ∀ r, r ∈ reqs → r.Method = "SETUP")
    (hd : (w.sessions s).channelsDistinct) :
    (∀ (pre post : List Request), reqs = pre ++ post →
      ((Session.handleRequests env w s pre).sessions s).channelsDistinct) ↔
    (∀ (pre : List Request) (r : Request) (post : List Request), reqs = pre ++ r :: post →
      ((Session.handleRequests env w s pre).sessions s).Stoped = false →
      ∀ (setupUrl : rtsp.URL) (P : PusherRef) (vPath aPath : String) (tcpMatchs : List String),
        Session.handleRequest_auth env (Session.handleRequests env w s pre) s r
          (NewResponse 200 "OK" (r.Header.index "CSeq")
            ((Session.handleRequests env w s pre).sessions s).ID "") = none →
        env.url_Parse r.URL = some setupUrl →
        ((Session.handleRequests env w s pre).sessions s).Pusher = some P →
        controlPath env ((Session.handleRequests env w s pre).sessions s).VControl
          = some vPath →
        controlPath env ((Session.handleRequests env w s pre).sessions s).AControl
          = some aPath →
        FindStringSubmatch "interleaved=".data (r.Header.index "Transport").data
          = some tcpMatchs →
        (matchesControl (env.url_String
            (if env.url_Port setupUrl = "" then { setupUrl with Host := setupUrl.Host ++ ":554" }
              else setupUrl)) aPath = true →
          ChannelsDistinct (Atoi (tcpMatchs.getD 1 "")) (Atoi (tcpMatchs.getD 3 ""))
            ((Session.handleRequests env w s pre).sessions s).vRTPChannel
            ((Session.handleRequests env w s pre).sessions s).vRTPControlChannel) ∧
        (matchesControl (env.url_String
            (if env.url_Port setupUrl = "" then { setupUrl with Host := setupUrl.Host ++ ":554" }
              else setupUrl)) aPath = false →
          matchesControl (env.url_String
            (if env.url_Port setupUrl = "" then { setupUrl with Host := setupUrl.Host ++ ":554" }
              else setupUrl)) vPath = true →
          ChannelsDistinct ((Session.handleRequests env w s pre).sessions s).aRTPChannel
            ((Session.handleRequests env w s pre).sessions s).aRTPControlChannel
            (Atoi (tcpMatchs.getD 1 "")) (Atoi (tcpMatchs.getD 3 "")))) := by
  have hpre : ∀ (pre : List Request) (r : Request) (post : List Request),
      reqs = pre ++ r :: post → (∀ q, q ∈ pre → q.Method = "SETUP") ∧ r.Method = "SETUP" := by
    intro pre r post h
    subst h
    exact ⟨fun q hq => hm q (List.mem_append_left _ hq),
      hm r (List.mem_append_right _ (List.mem_cons_self _ _))⟩
  constructor
  · intro hall pre r post h hst
    obtain ⟨hmp, hmr⟩ := hpre pre r post h
    have h0 := hall pre (r :: post) h
    have h1 := hall (pre ++ [r]) post (by rw [h]; simp)
    rw [Session.handleRequests_snoc env s pre r w hmp, if_neg (by rw [hst]; decide)] at h1
    exact (Session.handleRequest_channelsDistinct_iff env _ s r hmr h0).mp h1
  · intro hc pre
    induction pre using List.reverseRecOn with
    | nil => intro _ _; exact hd
    | append_singleton pre r ih =>
      intro post h
      have h' : reqs = pre ++ r :: post := by rw [h]; simp
      obtain ⟨hmp, hmr⟩ := hpre pre r post h'
      have h0 := ih (r :: post) h'
      rw [Session.handleRequests_snoc env s pre r w hmp]
      by_cases hst : ((Session.handleRequests env w s pre).sessions s).Stoped = true
      · rw [if_pos hst]; exact h0
      · rw [if_neg hst]
        exact (Session.handleRequest_channelsDistinct_iff env _ s r hmr h0).mpr
          (hc pre r post h' (by simpa using hst))

/-- Witness for the amended C17: publisher session `0` of `exSetupWorld` sets up
its audio track on the channels 0-1, then again on the same channels, and then its
video track on the channels 2-3. -/
theorem channels_distinct_kept_witness :
    (exSetupWorld.sessions 0).channelsDistinct ∧
    ((Session.handleRequests exSetupEnv exSetupWorld 0 [exSetupNoAuth]).sessions 0).channels
      = (0, 1, -1, -1) ∧
    ((Session.handleRequests exSetupEnv exSetupWorld 0
      [exSetupNoAuth, exSetupNoAuth]).sessions 0).channels = (0, 1, -1, -1) ∧
    ((Session.handleRequests exSetupEnv exSetupWorld 0
      [exSetupNoAuth, exSetupNoAuth, exSetupVideo23]).sessions 0).channels = (0, 1, 2, 3) ∧
    ∀ (pre post : List Request), [exSetupNoAuth, exSetupNoAuth, exSetupVideo23] = pre ++ post →
      ((Session.handleRequests exSetupEnv exSetupWorld 0 pre).sessions 0).channelsDistinct :=
  ⟨by decide, by decide, by decide, by decide,
    (channels_distinct_kept exSetupEnv 0 [exSetupNoAuth, exSetupNoAuth, exSetupVideo23]
      exSetupWorld
      (fun r hr => by
        simp only [List.mem_cons, List.mem_singleton, List.not_mem_nil, or_false] at hr
        rcases hr with h | h | h <;> (subst h; decide))
      (by decide)).mpr
      (fun pre r post h _ U P vP aP m _ hurl _ hv ha htcp => by
        match pre, h with
        | [], h =>
          simp only [List.nil_append, List.cons.injEq] at h
          obtain ⟨h1, _⟩ := h
          subst h1
          cases hurl; cases hv; cases ha; cases htcp
          decide
        | [x], h =>
          simp only [List.cons_append, List.nil_append, List.cons.injEq] at h
          obtain ⟨h1, h2, _⟩ := h
          subst h1 h2
          cases hurl; cases hv; cases ha; cases htcp
          decide
        | [x, y], h =>
          simp only [List.cons_append, List.nil_append, List.cons.injEq] at h
          obtain ⟨h1, h2, h3, _⟩ := h
          subst h1 h2 h3
          cases hurl; cases hv; cases ha; cases htcp
          decide
        | x :: y :: z :: rest, h =>
          simp at h)⟩

/-! ### C22: H.264 standalone IDR packets -/

/-- C22. For an H.264 pusher and every packet whose payload is a single NAL unit
of type 5 (`payload[0] & 0x1F = 5`), `shouldSequenceStart` returns, its result is
true exactly when the `spsppsInSTAPaPack` flag is false, and the world, the flag
with it, is what it was. -/
theorem h264_standalone_IDR (w : World) (p : PusherRef) (vcodec : String) (rtp : RTPInfo)
    (b : Nat)
    (hcodec : Pusher.VCodec w p = some vcodec) (h264 : EqualFold vcodec "h264" = true)
    (h0 : rtp.Payload[0]? = some b) (h5 : b &&& 0x1F = 5) :
    ∃ r, Pusher.shouldSequenceStart w p rtp = Res.ok r w ∧
      (r = true ↔ (w.pushers p).spsppsInSTAPaPack = false) := by
  unfold Pusher.shouldSequenceStart
  rw [hcodec]
  simp only [h264, if_true]
  unfold Pusher.shouldSequenceStart_h264
  simp only [h0, h5]
  rw [if_pos (by decide)]
  unfold Pusher.h264Tail
  rw [if_pos h5]
  cases hf : (w.pushers p).spsppsInSTAPaPack with
  | true => exact ⟨false, by simp, by simp⟩
  | false => exact ⟨true, by simp, by simp⟩

/-- Witness for C22: the H.264 pusher `0` of `exPumpWorld`, whose flag is false,
inspects the IDR slice `exIDR`. -/
theorem h264_standalone_IDR_witness :
    Pusher.VCodec exPumpWorld 0 = some "H264" ∧
    (exIDR[0]?.map fun b => b &&& 0x1F) = some 5 ∧
    (exPumpWorld.pushers 0).spsppsInSTAPaPack = false ∧
    ∃ r, Pusher.shouldSequenceStart exPumpWorld 0 { Payload := exIDR } = Res.ok r exPumpWorld ∧
      (r = true ↔ (exPumpWorld.pushers 0).spsppsInSTAPaPack = false) :=
  ⟨by decide, by decide, by decide,
    h264_standalone_IDR exPumpWorld 0 "H264" { Payload := exIDR } 0x65 (by decide) (by decide)
      (by decide) (by decide)⟩

/-! ### C23: the `Transport` header of a UDP publisher -/

/-- The loop over the fields leaves its index when no field is the value. -/
theorem lastFieldIndex_not_mem (val : String) :
    ∀ (l : List String) (i : Nat) (idx : Int), val ∉ l → lastFieldIndex val l i idx = idx := by
  intro l
  induction l with
  | nil => intro i idx _; rfl
  | cons f rest ih =>
    intro i idx h
    simp only [List.mem_cons, not_or] at h
    unfold lastFieldIndex
    rw [if_neg (fun hh => h.1 hh.symm)]
    exact ih _ _ h.2

/-- The loop over the fields ends with the index of the last field that is the
value. -/
theorem lastFieldIndex_mem (val : String) :
    ∀ (l : List String) (i : Nat) (idx : Int), val ∈ l →
      ∃ pre post, l = pre ++ val :: post ∧ val ∉ post ∧
        lastFieldIndex val l i idx = ((i + pre.length : Nat) : Int) := by
  intro l
  induction l with
  | nil => intro i idx h; exact absurd h (List.not_mem_nil _)
  | cons f rest ih =>
    intro i idx h
    unfold lastFieldIndex
    by_cases hr : val ∈ rest
    · obtain ⟨pre, post, h1, h2, h3⟩ := ih (i + 1) (if f = val then (i : Int) else idx) hr
      refine ⟨f :: pre, post, by rw [h1]; rfl, h2, ?_⟩
      rw [h3]
      simp only [List.length_cons]
      congr 1
      omega
    · have hf : f = val := by
        rcases List.mem_cons.mp h with h | h
        · exact h.symm
        · exact absurd h hr
      refine ⟨[], rest, by rw [hf]; rfl, hr, ?_⟩
      rw [lastFieldIndex_not_mem val rest _ _ hr, if_pos hf]
      simp

/-- The rewriting of the `Transport` header in terms of its fields: the new field
comes right after the last field that is the matched text. -/
theorem rewriteTransport_fields (ts matched : String) (rtp rtcp : Int)
    (h : matched ∈ Split ts) :
    ∃ pre post, Split ts = pre ++ matched :: post ∧ matched ∉ post ∧
      rewriteTransport ts matched rtp rtcp =
        Join (pre ++ matched :: ("server_port=" ++ formatInt rtp ++ "-" ++ formatInt rtcp)
          :: post) := by
  obtain ⟨pre, post, h1, h2, h3⟩ := lastFieldIndex_mem matched (Split ts) 0 (-1) h
  refine ⟨pre, post, h1, h2, ?_⟩
  unfold rewriteTransport
  simp only []
  rw [h3, h1]
  have e1 : (((0 + pre.length : Nat) : Int) + 1).toNat = pre.length + 1 := by omega
  rw [e1]
  have e2 : (pre ++ matched :: post).take (pre.length + 1) = pre ++ [matched] := by
    rw [List.take_append_eq_append_take]
    simp
  have e3 : (pre ++ matched :: post).drop (pre.length + 1) = post := by
    rw [List.drop_append_eq_append_drop]
    simp
  rw [e2, e3]
  simp

/-- `strings.Split` returns at least one field. -/
theorem splitSemicolon_ne_nil (cs : List Char) : splitSemicolon cs ≠ [] := by
  cases cs with
  | nil => simp [splitSemicolon]
  | cons c rest =>
    unfold splitSemicolon
    split
    · simp
    · split <;> simp

/-- No field of `strings.Split(s, ";")` holds a semicolon. -/
theorem splitSemicolon_fields (cs : List Char) :
    ∀ f, f ∈ splitSemicolon cs → ';' ∉ f := by
  induction cs with
  | nil => intro f hf; simp [splitSemicolon] at hf; subst hf; simp
  | cons c rest ih =>
    intro f hf
    unfold splitSemicolon at hf
    by_cases hc : c = ';'
    · rw [if_pos hc] at hf
      rcases List.mem_cons.mp hf with h | h
      · subst h; simp
      · exact ih f h
    · rw [if_neg hc] at hf
      cases hs : splitSemicolon rest with
      | nil => exact absurd hs (splitSemicolon_ne_nil rest)
      | cons g gs =>
        rw [hs] at hf ih
        simp only [List.mem_cons] at hf
        rcases hf with h | h
        · subst h
          intro hmem
          rcases List.mem_cons.mp hmem with h | h
          · exact hc h.symm
          · exact ih g (List.mem_cons_self _ _) h
        · exact ih f (List.mem_cons_of_mem _ h)

theorem joinChars_splitSemicolon (cs : List Char) : joinChars (splitSemicolon cs) = cs := by
  induction cs with
  | nil => rfl
  | cons c rest ih =>
    unfold splitSemicolon
    by_cases hc : c = ';'
    · rw [if_pos hc]
      cases hs : splitSemicolon rest with
      | nil => exact absurd hs (splitSemicolon_ne_nil rest)
      | cons g gs =>
        rw [hs] at ih
        simp only [joinChars, List.nil_append]
        rw [ih, hc]
    · rw [if_neg hc]
      cases hs : splitSemicolon rest with
      | nil => exact absurd hs (splitSemicolon_ne_nil rest)
      | cons g gs =>
        rw [hs] at ih
        simp only []
        cases gs with
        | nil =>
          simp only [joinChars] at ih ⊢
          rw [ih]
        | cons g2 gs2 =>
          simp only [joinChars] at ih ⊢
          rw [List.cons_append, ih]

/-- A text without a semicolon before the rest is the head of the first field. -/
theorem splitSemicolon_append (a : List Char) (h : ';' ∉ a) (tail : List Char) :
    splitSemicolon (a ++ tail) =
      (a ++ (splitSemicolon tail).headD []) :: (splitSemicolon tail).tail := by
  induction a with
  | nil =>
    cases hs : splitSemicolon tail with
    | nil => exact absurd hs (splitSemicolon_ne_nil tail)
    | cons g gs => simp [hs]
  | cons c a ih =>
    simp only [List.mem_cons, not_or] at h
    rw [List.cons_append, splitSemicolon, if_neg (fun hh => h.1 hh.symm), ih h.2]
    rfl

theorem splitSemicolon_joinChars :
    ∀ (l : List (List Char)), l ≠ [] → (∀ f, f ∈ l → ';' ∉ f) →
      splitSemicolon (joinChars l) = l := by
  intro l
  induction l with
  | nil => intro h; exact absurd rfl h
  | cons a rest ih =>
    intro _ hf
    cases rest with
    | nil =>
      simp only [joinChars]
      have := splitSemicolon_append a (hf a (List.mem_cons_self _ _)) []
      rw [List.append_nil] at this
      rw [this]
      simp [splitSemicolon]
    | cons b rest2 =>
      simp only [joinChars]
      rw [splitSemicolon_append a (hf a (List.mem_cons_self _ _))]
      have h2 : splitSemicolon (';' :: joinChars (b :: rest2))
          = [] :: splitSemicolon (joinChars (b :: rest2)) := by
        rw [splitSemicolon]; simp
      rw [h2, ih (by simp) (fun f hf2 => hf f (List.mem_cons_of_mem _ hf2))]
      simp
theorem joinChars_cons (a : List Char) (l : List (List Char)) :
    joinChars (a :: l) = a ++ (l.map fun b => ';' :: b).flatten := by
  induction l generalizing a with
  | nil => simp [joinChars]
  | cons b rest ih =>
    simp only [joinChars, List.map_cons, List.flatten_cons]
    rw [ih b]
    simp

theorem intercalate_go_data (l : List String) :
    ∀ acc : String, (String.intercalate.go acc ";" l).data =
      acc.data ++ (l.map fun b => ';' :: b.data).flatten := by
  induction l with
  | nil => intro acc; simp [String.intercalate.go]
  | cons b rest ih =>
    intro acc
    rw [String.intercalate.go, ih]
    simp [String.data_append]

/-- The characters of `strings.Join(fields, ";")`. -/
theorem Join_data (l : List String) : (Join l).data = joinChars (l.map String.data) := by
  cases l with
  | nil => rfl
  | cons a rest =>
    unfold Join
    rw [String.intercalate, intercalate_go_data, List.map_cons, joinChars_cons, List.map_map]
    rfl

/-- Joining the fields of a string gives the string back. -/
theorem Join_Split (ts : String) : Join (Split ts) = ts := by
  apply String.ext
  rw [Join_data]
  unfold Split
  rw [List.map_map]
  have h : (String.data ∘ String.mk) = id := by funext x; rfl
  rw [h, List.map_id, joinChars_splitSemicolon]

/-- The fields of the joined fields are the fields, when there is one at least and
none holds a semicolon. -/
theorem Split_Join (l : List String) (hne : l ≠ []) (h : ∀ f, f ∈ l → ';' ∉ f.data) :
    Split (Join l) = l := by
  unfold Split
  rw [Join_data, splitSemicolon_joinChars, List.map_map]
  · have h2 : (String.mk ∘ String.data) = id := by funext x; rfl
    rw [h2, List.map_id]
  · simpa using hne
  · intro f hf
    obtain ⟨g, hg, rfl⟩ := List.mem_map.mp hf
    exact h g hg

/-- No field of `strings.Split(ts, ";")` holds a semicolon. -/
theorem Split_fields (ts : String) : ∀ f, f ∈ Split ts → ';' ∉ f.data := by
  intro f hf
  unfold Split at hf
  obtain ⟨g, hg, rfl⟩ := List.mem_map.mp hf
  exact splitSemicolon_fields ts.data g hg

theorem natDigits_chars : ∀ (fuel n : Nat) (c : Char), c ∈ natDigits fuel n → c ≠ ';' := by
  have hd : ∀ k, k < 10 → Char.ofNat (k + '0'.toNat) ≠ ';' := by decide
  intro fuel
  induction fuel with
  | zero => intro n c h; simp [natDigits] at h
  | succ fuel ih =>
    intro n c h
    unfold natDigits at h
    split at h
    · rename_i hlt
      simp only [List.mem_singleton] at h
      rw [h]; exact hd n hlt
    · rcases List.mem_append.mp h with h | h
      · exact ih _ c h
      · simp only [List.mem_singleton] at h
        rw [h]; exact hd _ (Nat.mod_lt _ (by decide))

theorem formatInt_chars (n : Int) : ';' ∉ (formatInt n).data := by
  unfold formatInt
  intro h
  split at h
  · rcases List.mem_cons.mp h with h | h
    · exact absurd h (by decide)
    · exact natDigits_chars _ _ _ h rfl
  · exact natDigits_chars _ _ _ h rfl

/-- The field `server_port=<rtp>-<rtcp>` holds no semicolon. -/
theorem serverPort_chars (rtp rtcp : Int) :
    ';' ∉ ("server_port=" ++ formatInt rtp ++ "-" ++ formatInt rtcp).data := by
  simp only [String.data_append, List.mem_append, not_or]
  exact ⟨⟨⟨by decide, formatInt_chars rtp⟩, by decide⟩, formatInt_chars rtcp⟩
/-- The head of the UDP branch of `SETUP` for a publisher session: the session
keeps its role and the pusher has a UDP server, the one it had or a new one. -/
theorem Session.handleRequest_SETUP_udpInit_pusher (w : World) (s : SessRef) (P : PusherRef)
    (htype : (w.sessions s).Type_ = SESSION_TYPE_PUSHER) :
    ((Session.handleRequest_SETUP_udpInit w s P).sessions s).Type_ = SESSION_TYPE_PUSHER ∧
    ((Session.handleRequest_SETUP_udpInit w s P).pushers P).UDPServer
      = some ((w.pushers P).UDPServer.getD {}) := by
  unfold Session.handleRequest_SETUP_udpInit
  simp only []
  have h1 : ((w.setSession s { w.sessions s with TransType := TRANS_TYPE_UDP, Conn := some 0 }).sessions
      s).Type_ = SESSION_TYPE_PUSHER := by
    simp [World.setSession, htype]
  split
  · rename_i h
    exact absurd (h1.symm.trans h.1) (by decide)
  · cases hu : (w.pushers P).UDPServer with
    | none =>
      rw [if_pos ⟨h1, by simp [World.setSession, hu]⟩]
      simp [World.setPusher, World.setSession, htype]
    | some u =>
      rw [if_neg (by simp [World.setSession, hu])]
      simp [World.setSession, htype, hu]

/-- One track of the UDP branch of `SETUP` for a publisher session whose UDP server
is set up: the `Transport` value is rewritten. -/
theorem Session.handleRequest_SETUP_udpTrack_pusher (env : Env) (w : World) (s : SessRef)
    (P : PusherRef) (res : Response) (ts : String) (udpMatchs : List String) (audio : Bool)
    (u u1 : rtsp.UDPServer)
    (htype : (w.sessions s).Type_ = SESSION_TYPE_PUSHER)
    (hu : (w.pushers P).UDPServer = some u)
    (hsetup : (if audio = true then env.UDPServer_SetupAudio u else env.UDPServer_SetupVideo u)
      = Except.ok u1) :
    Session.handleRequest_SETUP_udpTrack env w s P res ts udpMatchs audio =
      Sum.inr (rewriteTransport ts (udpMatchs.getD 0 "")
          (if audio = true then u1.APort else u1.VPort)
          (if audio = true then u1.AControlPort else u1.VControlPort),
        w.setPusher P { w.pushers P with UDPServer := some u1 }) := by
  have hpl : Session.handleRequest_SETUP_udpPlayer env w s res udpMatchs audio = Sum.inr w := by
    unfold Session.handleRequest_SETUP_udpPlayer
    rw [if_neg (by rw [htype]; decide)]
  unfold Session.handleRequest_SETUP_udpTrack
  rw [hpl]
  simp only [htype, if_true, hu, hsetup]
/-- The Go expression `m[k]` after `m[k] = v`. -/
theorem GoMap.index_set_self (m : GoMap String) (k v : String) : (m.set k v).index k = v := by
  simp [GoMap.index]

/-- C23. Transport rewriting: for every `SETUP` with a `client_port` transport by a
publisher session that passes the authorization check, whose URL matches the audio
or the video control and whose UDP server is set up for that track, when the
matched text `client_port=...` is one of the fields of the `Transport` header split
at `;`: the request is answered 200, and the fields of the response's `Transport`
header are those of the request's in the same order with the one field
`server_port=<rtp>-<rtcp>`, the ports of the track, right after the last field that
is the matched text; without that field, the fields joined with `;` are the
request's header. -/
theorem transport_rewrite (env : Env) (w : World) (s : SessRef) (P : PusherRef)
    (req : Request) (setupUrl : rtsp.URL) (setupPath aPath vPath : String)
    (udpMatchs : List String) (audio : Bool) (u1 : rtsp.UDPServer)
    (hmethod : req.Method = "SETUP")
    (hauth : Session.handleRequest_auth env w s req
      (NewResponse 200 "OK" (req.Header.index "CSeq") (w.sessions s).ID "") = none)
    (hurl : env.url_Parse req.URL = some setupUrl)
    (hsp : env.url_String
      (if env.url_Port setupUrl = "" then { setupUrl with Host := setupUrl.Host ++ ":554" }
        else setupUrl) = setupPath)
    (hP : (w.sessions s).Pusher = some P)
    (hv : controlPath env (w.sessions s).VControl = some vPath)
    (ha : controlPath env (w.sessions s).AControl = some aPath)
    (htcp : FindStringSubmatch "interleaved=".data (req.Header.index "Transport").data = none)
    (hudp : FindStringSubmatch "client_port=".data (req.Header.index "Transport").data
      = some udpMatchs)
    (hconn : (w.sessions s).Conn ≠ none)
    (htype : (w.sessions s).Type_ = SESSION_TYPE_PUSHER)
    (htrack : (audio = true ∧ matchesControl setupPath aPath = true) ∨
      (audio = false ∧ matchesControl setupPath aPath = false ∧
        matchesControl setupPath vPath = true))
    (hsetup : (if audio = true then env.UDPServer_SetupAudio ((w.pushers P).UDPServer.getD {})
      else env.UDPServer_SetupVideo ((w.pushers P).UDPServer.getD {})) = Except.ok u1)
    (hfield : udpMatchs.getD 0 "" ∈ Split (req.Header.index "Transport")) :
    ∃ res w' pre post,
      Session.handleRequest env w s req = Res.ok res w' ∧ res.StatusCode = 200 ∧
      Split (req.Header.index "Transport") = pre ++ udpMatchs.getD 0 "" :: post ∧
      udpMatchs.getD 0 "" ∉ post ∧
      Split (res.Header.index "Transport") =
        pre ++ udpMatchs.getD 0 "" ::
          ("server_port=" ++ formatInt (if audio = true then u1.APort else u1.VPort) ++ "-" ++
            formatInt (if audio = true then u1.AControlPort else u1.VControlPort)) :: post ∧
      Join ((Split (res.Header.index "Transport")).eraseIdx (pre.length + 1))
        = req.Header.index "Transport" := by
  obtain ⟨pre, post, hsplit, hlast, hrw⟩ := rewriteTransport_fields
    (req.Header.index "Transport") (udpMatchs.getD 0 "")
    (if audio = true then u1.APort else u1.VPort)
    (if audio = true then u1.AControlPort else u1.VControlPort) hfield
  obtain ⟨hty3, hu3⟩ := Session.handleRequest_SETUP_udpInit_pusher w s P htype
  have htr := Session.handleRequest_SETUP_udpTrack_pusher env
    (Session.handleRequest_SETUP_udpInit w s P) s P
    (NewResponse 200 "OK" (req.Header.index "CSeq") (w.sessions s).ID "")
    (req.Header.index "Transport") udpMatchs audio _ u1 hty3 hu3 hsetup
  have hudpb : Session.handleRequest_SETUP_udp env w s P
      (NewResponse 200 "OK" (req.Header.index "CSeq") (w.sessions s).ID "")
      (req.Header.index "Transport") setupPath aPath vPath udpMatchs =
      Session.handleRequest_SETUP_udpTrack env (Session.handleRequest_SETUP_udpInit w s P) s P
        (NewResponse 200 "OK" (req.Header.index "CSeq") (w.sessions s).ID "")
        (req.Header.index "Transport") udpMatchs audio := by
    cases hc : (w.sessions s).Conn with
    | none => exact absurd hc hconn
    | some c =>
      unfold Session.handleRequest_SETUP_udp
      simp only [hc]
      rcases htrack with ⟨h1, h2⟩ | ⟨h1, h2, h3⟩
      · rw [if_pos h2, h1]
      · rw [if_neg (by rw [h2]; decide), if_pos h3, h1]
  have hbody : Session.handleRequest_body env w s req
      (NewResponse 200 "OK" (req.Header.index "CSeq") (w.sessions s).ID "") =
      Handled.done
        { NewResponse 200 "OK" (req.Header.index "CSeq") (w.sessions s).ID "" with
          Header := (NewResponse 200 "OK" (req.Header.index "CSeq") (w.sessions s).ID "").Header.set
            "Transport"
            (rewriteTransport (req.Header.index "Transport") (udpMatchs.getD 0 "")
              (if audio = true then u1.APort else u1.VPort)
              (if audio = true then u1.AControlPort else u1.VControlPort)) }
        ((Session.handleRequest_SETUP_udpInit w s P).setPusher P
          { (Session.handleRequest_SETUP_udpInit w s P).pushers P with UDPServer := some u1 }) := by
    rw [Session.handleRequest_body_SETUP env w s req _ hmethod hauth]
    unfold Session.handleRequest_SETUP
    simp only [hurl, hP, hv, ha, htcp, hudp, hsp, hudpb, htr]
  have hfields : ∀ f, f ∈ pre ++ udpMatchs.getD 0 "" ::
      ("server_port=" ++ formatInt (if audio = true then u1.APort else u1.VPort) ++ "-" ++
        formatInt (if audio = true then u1.AControlPort else u1.VControlPort)) :: post →
      ';' ∉ f.data := by
    intro f hf
    have hall := Split_fields (req.Header.index "Transport")
    rw [hsplit] at hall
    simp only [List.mem_append, List.mem_cons] at hf hall
    rcases hf with hf | hf | hf | hf
    · exact hall f (Or.inl hf)
    · exact hall f (Or.inr (Or.inl hf))
    · rw [hf]; exact serverPort_chars _ _
    · exact hall f (Or.inr (Or.inr hf))
  have hres : Split (rewriteTransport (req.Header.index "Transport") (udpMatchs.getD 0 "")
      (if audio = true then u1.APort else u1.VPort)
      (if audio = true then u1.AControlPort else u1.VControlPort)) =
      pre ++ udpMatchs.getD 0 "" ::
        ("server_port=" ++ formatInt (if audio = true then u1.APort else u1.VPort) ++ "-" ++
          formatInt (if audio = true then u1.AControlPort else u1.VControlPort)) :: post := by
    rw [hrw, Split_Join _ (by simp) hfields]
  have herase : (pre ++ udpMatchs.getD 0 "" ::
      ("server_port=" ++ formatInt (if audio = true then u1.APort else u1.VPort) ++ "-" ++
        formatInt (if audio = true then u1.AControlPort else u1.VControlPort)) :: post).eraseIdx
        (pre.length + 1) = pre ++ udpMatchs.getD 0 "" :: post := by
    rw [List.eraseIdx_append_of_length_le (by omega)]
    simp
  unfold Session.handleRequest
  simp only []
  rw [hbody]
  simp only []
  rw [Session.handleRequest_epilogue_plain env _ s req _ (by rw [hmethod]; decide)
    (by rw [hmethod]; decide) (by rw [hmethod]; decide)]
  refine ⟨_, _, pre, post, if_neg (by simp [NewResponse]), rfl, hsplit, hlast, ?_, ?_⟩
  · rw [GoMap.index_set_self]
    exact hres
  · rw [GoMap.index_set_self, hres, herase, ← hsplit, Join_Split]
/-- Witness for C23: publisher session `0` of `exSetupWorld` sends
`SETUP rtsp://h/live/x/streamid=0` with the transport
`RTP/AVP/UDP;unicast;client_port=5000-5001;mode=record`; the UDP server gets the
ports 6000-6001. -/
theorem transport_rewrite_witness :
    Split (exSetupUdp.Header.index "Transport")
      = ["RTP/AVP/UDP", "unicast", "client_port=5000-5001", "mode=record"] ∧
    (Session.handleRequest exUdpEnv exSetupWorld 0 exSetupUdp).result.map
      (fun r => r.Header.index "Transport")
      = some "RTP/AVP/UDP;unicast;client_port=5000-5001;server_port=6000-6001;mode=record" ∧
    ∃ res w' pre post,
      Session.handleRequest exUdpEnv exSetupWorld 0 exSetupUdp = Res.ok res w' ∧
      res.StatusCode = 200 ∧
      Split (exSetupUdp.Header.index "Transport") = pre ++ "client_port=5000-5001" :: post ∧
      "client_port=5000-5001" ∉ post ∧
      Split (res.Header.index "Transport") =
        pre ++ "client_port=5000-5001" :: "server_port=6000-6001" :: post ∧
      Join ((Split (res.Header.index "Transport")).eraseIdx (pre.length + 1))
        = exSetupUdp.Header.index "Transport" :=
  ⟨by decide, by decide,
    transport_rewrite exUdpEnv exSetupWorld 0 0 exSetupUdp
      { Scheme := "rtsp", Host := "h", Path := "/live/x/streamid=0" }
      "rtsp://h:554/live/x/streamid=0" "streamid=0" "streamid=1"
      ["client_port=5000-5001", "5000", "-5001", "5001"] true
      { APort := 6000, AControlPort := 6001 }
      (by decide) rfl (by decide) (by decide) (by decide) (by decide) (by decide) (by decide)
      (by decide) (by decide) (by decide) (Or.inl ⟨rfl, by decide⟩) rfl (by decide)⟩

/-- The UDP `SETUP` of a publisher session whose UDP server cannot be set up for
the track: publisher session `0` of `exSetupWorld` sends `exSetupUdp` in an
environment in which `SetupAudio` returns an error.  The request is answered 500
before the `Transport` header of the response is set, and the session is stopped. -/
theorem Session.handleRequest_SETUP_udp_setup_error :
    (Session.handleRequest exUdpFailEnv exSetupWorld 0 exSetupUdp).result.map
      (fun r => (r.StatusCode, r.Status, r.Header.get "Transport"))
      = some (500,
          "udp server setup audio error, listen udp :0: bind: address already in use", none) ∧
    ((Session.handleRequest exUdpFailEnv exSetupWorld 0 exSetupUdp).world.sessions 0).Stoped
      = true := by
  refine ⟨by decide, by decide⟩

/-! ### C24: the STAP-A walk -/

end rtsp
